import Mathlib

/-!
# RobustMQ operator: reconciliation engine

A shallow embedding of the Go operator under `operator/` (custom resource types in
`api/v1alpha1/robustmq_types.go`, controllers in `controllers/*.go`) together with
theorems about status derivation, desired-state compilation and convergence.

Conventions of the embedding:
* Go `int32` / `int64` values are `Int`; arithmetic that can overflow is reduced with
  `wrapInt32`.
* Go `string` is `String`, slices are `List`, pointers are `Option`.
* A Go `map[string]V` is an association list `GoMap V`; iteration visits the entries in
  list order (Go leaves the order unspecified, so theorems quantify over every list).
* `metav1.Now()` is an explicit `Time` argument of the pure status functions, one per call
  site, and a reading of the environment clock in procedures.
* Procedures that talk to the cluster API are functions `World → Outcome α × World`; the
  cluster, the trace of requests and the clock position are explicit state, and request
  failures, `resource.MustParse` and the scheme come from an environment `Env`.
-/

namespace RobustMQOperator

set_option linter.dupNamespace false

/-! ## Primitive conventions -/

/-- Result of an `int32` operation in Go: the mathematical result reduced to 32-bit two's
complement. -/
def wrapInt32 (x : Int) : Int := (x + 2147483648) % 4294967296 - 2147483648

/-- Range of a Go `int32`. -/
def isInt32 (x : Int) : Prop := -2147483648 ≤ x ∧ x < 2147483648

instance (x : Int) : Decidable (isInt32 x) := by unfold isInt32; exact inferInstance

/-- Value of `metav1.Time`, an abstract instant. -/
abbrev Time := Nat

/-- Go `map[string]V` as an association list, each key bound at most once. -/
abbrev GoMap (V : Type) := List (String × V)

/-- Map read `m[k]` in its two-result form `v, exists := m[k]`. -/
def GoMap.get? {V : Type} (m : GoMap V) (k : String) : Option V :=
  (m.find? (fun kv => kv.1 == k)).map Prod.snd

/-- Map write `m[k] = v`: replaces the binding of `k` or adds a binding. -/
def GoMap.set {V : Type} : GoMap V → String → V → GoMap V
  | [], k, v => [(k, v)]
  | (k0, v0) :: rest, k, v =>
    if k0 = k then (k, v) :: rest else (k0, v0) :: GoMap.set rest k v

/-! ## Kubernetes core types referenced by the operator (carried verbatim) -/

structure LocalObjectReference where
  Name : String
deriving DecidableEq, Repr

structure ResourceRequirements where
  Limits : GoMap String
  Requests : GoMap String
deriving DecidableEq, Repr

/-- Stand-in for `corev1.Affinity`: the operator only copies the value. -/
structure Affinity where
  raw : String
deriving DecidableEq, Repr

structure Toleration where
  Key : String
  Operator : String
  Value : String
  Effect : String
  TolerationSeconds : Option Int
deriving DecidableEq, Repr

structure LoadBalancerIngress where
  IP : String
  Hostname : String
deriving DecidableEq, Repr

/-- Value of `metav1.Condition`. -/
structure Condition where
  Type_ : String
  Status : String
  ObservedGeneration : Int
  LastTransitionTime : Time
  Reason : String
  Message : String
deriving DecidableEq, Repr

def ConditionTrue : String := "True"
def ConditionFalse : String := "False"

/-! ## api/v1alpha1/robustmq_types.go -/

def AllInOneMode : String := "AllInOne"
def MicroservicesMode : String := "Microservices"

def MetaRole : String := "meta"
def BrokerRole : String := "broker"
def JournalRole : String := "journal"

structure ImageSpec where
  Repository : String
  Tag : String
  PullPolicy : String
  PullSecrets : List LocalObjectReference
deriving DecidableEq, Repr

structure AllInOneSpec where
  Replicas : Int
  Resources : ResourceRequirements
  NodeSelector : GoMap String
  Affinity : Option Affinity
  Tolerations : List Toleration
deriving DecidableEq, Repr

structure StorageSpec where
  StorageClass : Option String
  Size : String
  AccessModes : List String
deriving DecidableEq, Repr

structure ServiceStorageSpec where
  toStorageSpec : StorageSpec
  AdditionalPaths : List String
deriving DecidableEq, Repr

structure ServiceSpec where
  Replicas : Int
  Resources : ResourceRequirements
  NodeSelector : GoMap String
  Affinity : Option Affinity
  Tolerations : List Toleration
  Storage : Option ServiceStorageSpec
deriving DecidableEq, Repr

structure MicroservicesSpec where
  MetaService : ServiceSpec
  BrokerService : ServiceSpec
  JournalService : ServiceSpec
deriving DecidableEq, Repr

structure MQTTNetworkSpec where
  TCPPort : Int
  TLSPort : Int
  WebSocketPort : Int
  WebSocketTLSPort : Int
  ServiceType : String
deriving DecidableEq, Repr

structure KafkaNetworkSpec where
  Port : Int
  ServiceType : String
deriving DecidableEq, Repr

structure GRPCNetworkSpec where
  Port : Int
  ServiceType : String
deriving DecidableEq, Repr

structure AMQPNetworkSpec where
  Port : Int
  ServiceType : String
deriving DecidableEq, Repr

structure NetworkSpec where
  MQTT : MQTTNetworkSpec
  Kafka : KafkaNetworkSpec
  GRPC : GRPCNetworkSpec
  AMQP : AMQPNetworkSpec
deriving DecidableEq, Repr

structure PrometheusSpec where
  Enable : Bool
  Port : Int
  Model : String
deriving DecidableEq, Repr

structure ServiceMonitorSpec where
  Enabled : Bool
  Labels : GoMap String
  Interval : String
deriving DecidableEq, Repr

structure MonitoringSpec where
  Enabled : Bool
  Prometheus : PrometheusSpec
  ServiceMonitor : ServiceMonitorSpec
deriving DecidableEq, Repr

structure CASpec where
  SecretName : String
  AutoGenerate : Bool
deriving DecidableEq, Repr

structure TLSSpec where
  Enabled : Bool
  SecretName : String
  CA : CASpec
deriving DecidableEq, Repr

structure AuthSpec where
  DefaultUser : String
  PasswordSecret : String
  StorageType : String
deriving DecidableEq, Repr

structure SecuritySpec where
  TLS : TLSSpec
  Auth : AuthSpec
deriving DecidableEq, Repr

structure ConfigSpec where
  Additional : GoMap String
  ConfigMapName : String
deriving DecidableEq, Repr

structure RobustMQSpec where
  DeploymentMode : String
  Image : ImageSpec
  AllInOne : Option AllInOneSpec
  Microservices : Option MicroservicesSpec
  Storage : StorageSpec
  Network : NetworkSpec
  Monitoring : MonitoringSpec
  Security : SecuritySpec
  Config : ConfigSpec
deriving DecidableEq, Repr

structure DeploymentStatus where
  Replicas : Int
  ReadyReplicas : Int
  AvailableReplicas : Int
deriving DecidableEq, Repr

structure ServiceStatus where
  ClusterIP : String
  ExternalIPs : List String
  LoadBalancerIngress : List LoadBalancerIngress
deriving DecidableEq, Repr

structure NodeInfo where
  ID : String
  Roles : List String
  Address : String
  Status : String
deriving DecidableEq, Repr

structure ClusterInfo where
  ClusterName : String
  Nodes : List NodeInfo
  MetaLeader : String
deriving DecidableEq, Repr

structure RobustMQStatus where
  Phase : String
  Conditions : List Condition
  DeploymentStatuses : GoMap DeploymentStatus
  ServiceStatuses : GoMap ServiceStatus
  ClusterInfo : ClusterInfo
deriving DecidableEq, Repr

/-- The custom resource: the `metav1.ObjectMeta` fields the controllers read, `Spec` and
`Status`. -/
structure RobustMQ where
  Name : String
  Namespace : String
  UID : String
  Generation : Int
  Spec : RobustMQSpec
  Status : RobustMQStatus
deriving DecidableEq, Repr

/-! ## controllers/robustmq_controller.go: constants -/

def PhaseInitializing : String := "Initializing"
def PhaseRunning : String := "Running"
def PhaseFailed : String := "Failed"
def PhaseUpdating : String := "Updating"

def ConditionTypeReady : String := "Ready"
def ConditionTypeConfigMapReady : String := "ConfigMapReady"
def ConditionTypeServiceReady : String := "ServiceReady"
def ConditionTypeDeploymentReady : String := "DeploymentReady"
def ConditionTypeStatefulSetReady : String := "StatefulSetReady"

/-! ## controllers/status.go: phase and conditions -/

/-- Loop of `updateOverallPhase` (status.go 342-345): the pair
`(totalReplicas, readyReplicas)` after visiting the given entries, in `int32` arithmetic. -/
def countReplicas (statuses : GoMap DeploymentStatus) : Int × Int :=
  statuses.foldl
    (fun acc kv => (wrapInt32 (acc.1 + kv.2.Replicas), wrapInt32 (acc.2 + kv.2.ReadyReplicas)))
    (0, 0)

/-- Go `updateOverallPhase` (status.go 337-356). -/
def updateOverallPhase (robustmq : RobustMQ) : RobustMQ :=
  let counts := countReplicas robustmq.Status.DeploymentStatuses
  let totalReplicas := counts.1
  let readyReplicas := counts.2
  if totalReplicas = 0 then
    { robustmq with Status := { robustmq.Status with Phase := PhaseInitializing } }
  else if readyReplicas = 0 then
    { robustmq with Status := { robustmq.Status with Phase := PhaseFailed } }
  else if readyReplicas < totalReplicas then
    { robustmq with Status := { robustmq.Status with Phase := PhaseUpdating } }
  else
    { robustmq with Status := { robustmq.Status with Phase := PhaseRunning } }

/-- Search loop of `setCondition` (status.go 412-423): `some` of the updated slice when an
existing condition of the same type is found (the first one, then `return`), `none` when the
loop falls through. `now` is the value of `metav1.Now()` at line 416. -/
def setConditionLoop (now : Time) (condition : Condition) :
    List Condition → Option (List Condition)
  | [] => none
  | existingCondition :: rest =>
    if existingCondition.Type_ = condition.Type_ then
      if existingCondition.Status ≠ condition.Status then
        some ({ condition with LastTransitionTime := now } :: rest)
      else
        some ({ condition with LastTransitionTime := existingCondition.LastTransitionTime }
          :: rest)
    else
      (setConditionLoop now condition rest).map (fun cs => existingCondition :: cs)

/-- Go `setCondition` (status.go 406-427) on the conditions slice. -/
def setConditionList (now : Time) (conditions : List Condition) (condition : Condition) :
    List Condition :=
  match setConditionLoop now condition conditions with
  | some updated => updated
  | none => conditions ++ [condition]

/-- Go `setCondition` (status.go 406-427). -/
def setCondition (now : Time) (robustmq : RobustMQ) (condition : Condition) : RobustMQ :=
  { robustmq with Status := { robustmq.Status with
      Conditions := setConditionList now robustmq.Status.Conditions condition } }

/-- The `readyCondition` value built by `updateConditions` (status.go 363-377). -/
def readyCondition (now : Time) (robustmq : RobustMQ) : Condition :=
  if robustmq.Status.Phase = PhaseRunning then
    { Type_ := ConditionTypeReady
      Status := ConditionTrue
      ObservedGeneration := robustmq.Generation
      LastTransitionTime := now
      Reason := "AllComponentsReady"
      Message := "All RobustMQ components are ready" }
  else
    { Type_ := ConditionTypeReady
      Status := ConditionFalse
      ObservedGeneration := robustmq.Generation
      LastTransitionTime := now
      Reason := "ComponentsNotReady"
      Message := "RobustMQ is in " ++ robustmq.Status.Phase ++ " phase" }

/-- The `configMapCondition` value built by `updateConditions` (status.go 383-390). -/
def configMapCondition (now : Time) (robustmq : RobustMQ) : Condition :=
  { Type_ := ConditionTypeConfigMapReady
    Status := ConditionTrue
    ObservedGeneration := robustmq.Generation
    LastTransitionTime := now
    Reason := "ConfigMapCreated"
    Message := "ConfigMap has been created successfully" }

/-- The `serviceCondition` value built by `updateConditions` (status.go 394-401). -/
def serviceCondition (now : Time) (robustmq : RobustMQ) : Condition :=
  { Type_ := ConditionTypeServiceReady
    Status := ConditionTrue
    ObservedGeneration := robustmq.Generation
    LastTransitionTime := now
    Reason := "ServicesCreated"
    Message := "All services have been created successfully" }

/-- Go `updateConditions` (status.go 359-403). `now` is `metav1.Now()` at line 360; `t1`, `t2`,
`t3` are the instants `metav1.Now()` would return inside the three `setCondition` calls. -/
def updateConditions (now t1 t2 t3 : Time) (robustmq : RobustMQ) : RobustMQ :=
  let r1 := setCondition t1 robustmq (readyCondition now robustmq)
  let r2 := setCondition t2 r1 (configMapCondition now r1)
  setCondition t3 r2 (serviceCondition now r2)

/-- The condition of the given type held in a conditions slice (the first, as found by the
search loop of `setCondition`). -/
def findCondition (conditions : List Condition) (type_ : String) : Option Condition :=
  conditions.find? (fun c => c.Type_ == type_)


/-- Zero value `corev1.ResourceRequirements{}`. -/
def emptyResources : ResourceRequirements := { Limits := [], Requests := [] }

/-! ## Kubernetes objects managed by the operator -/

/-- Value of `resource.Quantity`: the parsed form of a quantity text. -/
structure Quantity where
  text : String
deriving DecidableEq, Repr

structure OwnerReference where
  APIVersion : String
  Kind : String
  Name : String
  UID : String
  Controller : Bool
  BlockOwnerDeletion : Bool
deriving DecidableEq, Repr

structure ObjectMeta where
  Name : String
  Namespace : String
  Labels : GoMap String
  Annotations : GoMap String
  OwnerReferences : List OwnerReference
deriving DecidableEq, Repr

structure ContainerPort where
  Name : String
  ContainerPort : Int
  Protocol : String
deriving DecidableEq, Repr

structure VolumeMount where
  Name : String
  MountPath : String
  ReadOnly : Bool
deriving DecidableEq, Repr

/-- Value of `corev1.EnvVar`; `FieldPath` is `ValueFrom.FieldRef.FieldPath` when set. -/
structure EnvVar where
  Name : String
  Value : String
  FieldPath : Option String
deriving DecidableEq, Repr

/-- Value of `corev1.Probe` with an `HTTPGet` handler. -/
structure Probe where
  Path : String
  Port : Int
  InitialDelaySeconds : Int
  PeriodSeconds : Int
deriving DecidableEq, Repr

structure Container where
  Name : String
  Image : String
  ImagePullPolicy : String
  Args : List String
  Ports : List ContainerPort
  VolumeMounts : List VolumeMount
  Env : List EnvVar
  LivenessProbe : Option Probe
  ReadinessProbe : Option Probe
  Resources : ResourceRequirements
deriving DecidableEq, Repr

/-- Value of `corev1.Volume` backed by a ConfigMap of the given name. -/
structure Volume where
  Name : String
  ConfigMapName : String
deriving DecidableEq, Repr

structure PodSpec where
  Containers : List Container
  Volumes : List Volume
  ImagePullSecrets : List LocalObjectReference
  NodeSelector : GoMap String
  Affinity : Option Affinity
  Tolerations : List Toleration
deriving DecidableEq, Repr

structure PodTemplateSpec where
  Labels : GoMap String
  Spec : PodSpec
deriving DecidableEq, Repr

structure PersistentVolumeClaim where
  Name : String
  AccessModes : List String
  StorageRequest : Quantity
  StorageClassName : Option String
deriving DecidableEq, Repr

structure StatefulSetSpec where
  Replicas : Option Int
  ServiceName : String
  Selector : GoMap String
  Template : PodTemplateSpec
  VolumeClaimTemplates : List PersistentVolumeClaim
deriving DecidableEq, Repr

structure StatefulSetStatus where
  Replicas : Int
  ReadyReplicas : Int
deriving DecidableEq, Repr

structure StatefulSet where
  ObjectMeta : ObjectMeta
  Spec : StatefulSetSpec
  Status : StatefulSetStatus
deriving DecidableEq, Repr

structure DeploymentSpec where
  Replicas : Option Int
  Selector : GoMap String
  Template : PodTemplateSpec
deriving DecidableEq, Repr

structure DeploymentObjectStatus where
  Replicas : Int
  ReadyReplicas : Int
  AvailableReplicas : Int
deriving DecidableEq, Repr

structure Deployment where
  ObjectMeta : ObjectMeta
  Spec : DeploymentSpec
  Status : DeploymentObjectStatus
deriving DecidableEq, Repr

structure ServicePort where
  Name : String
  Port : Int
  TargetPort : Int
  Protocol : String
deriving DecidableEq, Repr

structure KubeServiceSpec where
  Type_ : String
  ClusterIP : String
  Selector : GoMap String
  Ports : List ServicePort
  ExternalIPs : List String
deriving DecidableEq, Repr

/-- Value of `corev1.Service`; `Ingress` is `Status.LoadBalancer.Ingress`. -/
structure Service where
  ObjectMeta : ObjectMeta
  Spec : KubeServiceSpec
  Ingress : List LoadBalancerIngress
deriving DecidableEq, Repr

structure ConfigMap where
  ObjectMeta : ObjectMeta
  Data : GoMap String
deriving DecidableEq, Repr

def ProtocolTCP : String := "TCP"
def ServiceTypeClusterIP : String := "ClusterIP"
def ServiceTypeLoadBalancer : String := "LoadBalancer"
def ReadWriteOnce : String := "ReadWriteOnce"

/-- The `metav1.ObjectMeta` literals of the controllers: name, namespace and labels. -/
def objectMeta (name ns : String) (labels : GoMap String) : ObjectMeta :=
  { Name := name, Namespace := ns, Labels := labels, Annotations := [], OwnerReferences := [] }

/-! ## controllers/deployments.go: pod specifications -/

/-- Go `buildContainerPorts` (deployments.go 536-594). -/
def buildContainerPorts (robustmq : RobustMQ) (includeAll : Bool) : List ContainerPort :=
  let ports : List ContainerPort :=
    [ { Name := "mqtt-tcp", ContainerPort := robustmq.Spec.Network.MQTT.TCPPort,
        Protocol := ProtocolTCP },
      { Name := "mqtt-tls", ContainerPort := robustmq.Spec.Network.MQTT.TLSPort,
        Protocol := ProtocolTCP },
      { Name := "mqtt-ws", ContainerPort := robustmq.Spec.Network.MQTT.WebSocketPort,
        Protocol := ProtocolTCP },
      { Name := "mqtt-wss", ContainerPort := robustmq.Spec.Network.MQTT.WebSocketTLSPort,
        Protocol := ProtocolTCP } ]
  if includeAll then
    let ports := ports ++
      [ { Name := "kafka", ContainerPort := robustmq.Spec.Network.Kafka.Port,
          Protocol := ProtocolTCP },
        { Name := "grpc", ContainerPort := robustmq.Spec.Network.GRPC.Port,
          Protocol := ProtocolTCP },
        { Name := "amqp", ContainerPort := robustmq.Spec.Network.AMQP.Port,
          Protocol := ProtocolTCP } ]
    if robustmq.Spec.Monitoring.Enabled then
      ports ++ [ { Name := "prometheus",
                   ContainerPort := robustmq.Spec.Monitoring.Prometheus.Port,
                   Protocol := ProtocolTCP } ]
    else ports
  else ports

/-- The config volume every pod mounts (for instance deployments.go 322-333). -/
def configVolume (robustmq : RobustMQ) : Volume :=
  { Name := "config", ConfigMapName := robustmq.Name ++ "-config" }

/-- The assignments `podSpec.Containers[0].Resources = ...`, `podSpec.NodeSelector = ...`,
`podSpec.Affinity = ...`, `podSpec.Tolerations = ...` that close every pod-spec builder. -/
def withScheduling (podSpec : PodSpec) (resources : ResourceRequirements)
    (nodeSelector : GoMap String) (affinity : Option Affinity)
    (tolerations : List Toleration) : PodSpec :=
  { podSpec with
    Containers := match podSpec.Containers with
      | [] => []
      | c :: cs => { c with Resources := resources } :: cs
    NodeSelector := nodeSelector
    Affinity := affinity
    Tolerations := tolerations }

/-- Go `buildAllInOnePodSpec` (deployments.go 264-346). -/
def buildAllInOnePodSpec (robustmq : RobustMQ) : PodSpec :=
  let image := robustmq.Spec.Image.Repository ++ ":" ++ robustmq.Spec.Image.Tag
  let podSpec : PodSpec :=
    { Containers :=
        [ { Name := "robustmq"
            Image := image
            ImagePullPolicy := robustmq.Spec.Image.PullPolicy
            Args := ["--conf=/robustmq/config/server.toml"]
            Ports := buildContainerPorts robustmq true
            VolumeMounts :=
              [ { Name := "config", MountPath := "/robustmq/config", ReadOnly := true },
                { Name := "data", MountPath := "/robustmq/data", ReadOnly := false },
                { Name := "logs", MountPath := "/robustmq/logs", ReadOnly := false } ]
            Env :=
              [ { Name := "ROBUSTMQ_ROLES", Value := "meta,broker,journal", FieldPath := none },
                { Name := "RUST_LOG", Value := "info", FieldPath := none } ]
            LivenessProbe := some
              { Path := "/health", Port := robustmq.Spec.Network.MQTT.WebSocketPort,
                InitialDelaySeconds := 30, PeriodSeconds := 30 }
            ReadinessProbe := some
              { Path := "/health", Port := robustmq.Spec.Network.MQTT.WebSocketPort,
                InitialDelaySeconds := 10, PeriodSeconds := 10 }
            Resources := emptyResources } ]
      Volumes := [configVolume robustmq]
      ImagePullSecrets := robustmq.Spec.Image.PullSecrets
      NodeSelector := []
      Affinity := none
      Tolerations := [] }
  match robustmq.Spec.AllInOne with
  | some allInOne =>
    withScheduling podSpec allInOne.Resources allInOne.NodeSelector allInOne.Affinity
      allInOne.Tolerations
  | none => podSpec

/-- Go `buildMetaServicePodSpec` (deployments.go 349-417). -/
def buildMetaServicePodSpec (robustmq : RobustMQ) : PodSpec :=
  let image := robustmq.Spec.Image.Repository ++ ":" ++ robustmq.Spec.Image.Tag
  let podSpec : PodSpec :=
    { Containers :=
        [ { Name := "robustmq-meta"
            Image := image
            ImagePullPolicy := robustmq.Spec.Image.PullPolicy
            Args := ["--conf=/robustmq/config/server.toml"]
            Ports := [ { Name := "grpc", ContainerPort := robustmq.Spec.Network.GRPC.Port,
                         Protocol := ProtocolTCP } ]
            VolumeMounts :=
              [ { Name := "config", MountPath := "/robustmq/config", ReadOnly := true },
                { Name := "data", MountPath := "/robustmq/data", ReadOnly := false } ]
            Env :=
              [ { Name := "ROBUSTMQ_ROLES", Value := "meta", FieldPath := none },
                { Name := "POD_NAME", Value := "", FieldPath := some "metadata.name" } ]
            LivenessProbe := none
            ReadinessProbe := none
            Resources := emptyResources } ]
      Volumes := [configVolume robustmq]
      ImagePullSecrets := robustmq.Spec.Image.PullSecrets
      NodeSelector := []
      Affinity := none
      Tolerations := [] }
  match robustmq.Spec.Microservices with
  | some microservices =>
    withScheduling podSpec microservices.MetaService.Resources
      microservices.MetaService.NodeSelector microservices.MetaService.Affinity
      microservices.MetaService.Tolerations
  | none => podSpec

/-- Go `buildMQTTBrokerPodSpec` (deployments.go 420-470). -/
def buildMQTTBrokerPodSpec (robustmq : RobustMQ) : PodSpec :=
  let image := robustmq.Spec.Image.Repository ++ ":" ++ robustmq.Spec.Image.Tag
  let podSpec : PodSpec :=
    { Containers :=
        [ { Name := "robustmq-mqtt-broker"
            Image := image
            ImagePullPolicy := robustmq.Spec.Image.PullPolicy
            Args := ["--conf=/robustmq/config/server.toml"]
            Ports := buildContainerPorts robustmq false
            VolumeMounts :=
              [ { Name := "config", MountPath := "/robustmq/config", ReadOnly := true } ]
            Env := [ { Name := "ROBUSTMQ_ROLES", Value := "broker", FieldPath := none } ]
            LivenessProbe := none
            ReadinessProbe := none
            Resources := emptyResources } ]
      Volumes := [configVolume robustmq]
      ImagePullSecrets := robustmq.Spec.Image.PullSecrets
      NodeSelector := []
      Affinity := none
      Tolerations := [] }
  match robustmq.Spec.Microservices with
  | some microservices =>
    withScheduling podSpec microservices.BrokerService.Resources
      microservices.BrokerService.NodeSelector microservices.BrokerService.Affinity
      microservices.BrokerService.Tolerations
  | none => podSpec

/-- Go `buildJournalServicePodSpec` (deployments.go 473-533). -/
def buildJournalServicePodSpec (robustmq : RobustMQ) : PodSpec :=
  let image := robustmq.Spec.Image.Repository ++ ":" ++ robustmq.Spec.Image.Tag
  let podSpec : PodSpec :=
    { Containers :=
        [ { Name := "robustmq-journal"
            Image := image
            ImagePullPolicy := robustmq.Spec.Image.PullPolicy
            Args := ["--conf=/robustmq/config/server.toml"]
            Ports := [ { Name := "journal", ContainerPort := 1771, Protocol := ProtocolTCP } ]
            VolumeMounts :=
              [ { Name := "config", MountPath := "/robustmq/config", ReadOnly := true },
                { Name := "data", MountPath := "/robustmq/data", ReadOnly := false } ]
            Env := [ { Name := "ROBUSTMQ_ROLES", Value := "journal", FieldPath := none } ]
            LivenessProbe := none
            ReadinessProbe := none
            Resources := emptyResources } ]
      Volumes := [configVolume robustmq]
      ImagePullSecrets := robustmq.Spec.Image.PullSecrets
      NodeSelector := []
      Affinity := none
      Tolerations := [] }
  match robustmq.Spec.Microservices with
  | some microservices =>
    withScheduling podSpec microservices.JournalService.Resources
      microservices.JournalService.NodeSelector microservices.JournalService.Affinity
      microservices.JournalService.Tolerations
  | none => podSpec

/-- Go `buildVolumeClaimTemplates` (deployments.go 597-633). `MustParse` is
`resource.MustParse` of the Kubernetes API machinery, `none` standing for its panic on a
malformed quantity; the data volume is parsed before the logs volume. -/
def buildVolumeClaimTemplates (MustParse : String → Option Quantity) (robustmq : RobustMQ) :
    Option (List PersistentVolumeClaim) :=
  match MustParse robustmq.Spec.Storage.Size with
  | none => none
  | some dataSize =>
    match MustParse "5Gi" with
    | none => none
    | some logsSize =>
      some
        [ { Name := "data"
            AccessModes := robustmq.Spec.Storage.AccessModes
            StorageRequest := dataSize
            StorageClassName := robustmq.Spec.Storage.StorageClass },
          { Name := "logs"
            AccessModes := [ReadWriteOnce]
            StorageRequest := logsSize
            StorageClassName := robustmq.Spec.Storage.StorageClass } ]

/-! ## controllers/deployments.go: desired workloads -/

/-- The `replicas` local of `reconcileAllInOne` (deployments.go 41-44). -/
def allInOneReplicas (robustmq : RobustMQ) : Int :=
  match robustmq.Spec.AllInOne with
  | some allInOne => if allInOne.Replicas > 0 then allInOne.Replicas else 1
  | none => 1

/-- The `replicas` local of `reconcileMetaServiceDeployment` (deployments.go 131-134). -/
def metaServiceReplicas (robustmq : RobustMQ) : Int :=
  match robustmq.Spec.Microservices with
  | some microservices =>
    if microservices.MetaService.Replicas > 0 then microservices.MetaService.Replicas else 3
  | none => 3

/-- The `replicas` local of `reconcileMQTTBrokerDeployment` (deployments.go 177-180). -/
def mqttBrokerReplicas (robustmq : RobustMQ) : Int :=
  match robustmq.Spec.Microservices with
  | some microservices =>
    if microservices.BrokerService.Replicas > 0 then microservices.BrokerService.Replicas
    else 2
  | none => 2

/-- The `replicas` local of `reconcileJournalServiceDeployment` (deployments.go 221-224). -/
def journalServiceReplicas (robustmq : RobustMQ) : Int :=
  match robustmq.Spec.Microservices with
  | some microservices =>
    if microservices.JournalService.Replicas > 0 then microservices.JournalService.Replicas
    else 3
  | none => 3

/-- The `statefulSet` literal of `reconcileAllInOne` (deployments.go 46-77), given the
evaluated volume claim templates. -/
def allInOneStatefulSet (robustmq : RobustMQ)
    (volumeClaimTemplates : List PersistentVolumeClaim) : StatefulSet :=
  { ObjectMeta := objectMeta robustmq.Name robustmq.Namespace
      [("app", "robustmq"), ("component", "all-in-one"), ("instance", robustmq.Name)]
    Spec :=
      { Replicas := some (allInOneReplicas robustmq)
        ServiceName := robustmq.Name ++ "-meta-service"
        Selector := [("app", "robustmq"), ("instance", robustmq.Name)]
        Template :=
          { Labels :=
              [("app", "robustmq"), ("component", "all-in-one"), ("instance", robustmq.Name)]
            Spec := buildAllInOnePodSpec robustmq }
        VolumeClaimTemplates := volumeClaimTemplates }
    Status := { Replicas := 0, ReadyReplicas := 0 } }

/-- The `statefulSet` literal of `reconcileMetaServiceDeployment` (deployments.go 136-168). -/
def metaServiceStatefulSet (robustmq : RobustMQ)
    (volumeClaimTemplates : List PersistentVolumeClaim) : StatefulSet :=
  { ObjectMeta := objectMeta (robustmq.Name ++ "-meta") robustmq.Namespace
      [("app", "robustmq"), ("component", "meta"), ("instance", robustmq.Name)]
    Spec :=
      { Replicas := some (metaServiceReplicas robustmq)
        ServiceName := robustmq.Name ++ "-meta-service"
        Selector := [("app", "robustmq"), ("component", "meta"), ("instance", robustmq.Name)]
        Template :=
          { Labels := [("app", "robustmq"), ("component", "meta"), ("instance", robustmq.Name)]
            Spec := buildMetaServicePodSpec robustmq }
        VolumeClaimTemplates := volumeClaimTemplates }
    Status := { Replicas := 0, ReadyReplicas := 0 } }

/-- The `deployment` literal of `reconcileMQTTBrokerDeployment` (deployments.go 182-212). -/
def mqttBrokerDeployment (robustmq : RobustMQ) : Deployment :=
  { ObjectMeta := objectMeta (robustmq.Name ++ "-mqtt-broker") robustmq.Namespace
      [("app", "robustmq"), ("component", "mqtt-broker"), ("instance", robustmq.Name)]
    Spec :=
      { Replicas := some (mqttBrokerReplicas robustmq)
        Selector :=
          [("app", "robustmq"), ("component", "mqtt-broker"), ("instance", robustmq.Name)]
        Template :=
          { Labels :=
              [("app", "robustmq"), ("component", "mqtt-broker"), ("instance", robustmq.Name)]
            Spec := buildMQTTBrokerPodSpec robustmq } }
    Status := { Replicas := 0, ReadyReplicas := 0, AvailableReplicas := 0 } }

/-- The `statefulSet` literal of `reconcileJournalServiceDeployment`
(deployments.go 226-258). -/
def journalServiceStatefulSet (robustmq : RobustMQ)
    (volumeClaimTemplates : List PersistentVolumeClaim) : StatefulSet :=
  { ObjectMeta := objectMeta (robustmq.Name ++ "-journal") robustmq.Namespace
      [("app", "robustmq"), ("component", "journal"), ("instance", robustmq.Name)]
    Spec :=
      { Replicas := some (journalServiceReplicas robustmq)
        ServiceName := robustmq.Name ++ "-journal-service"
        Selector := [("app", "robustmq"), ("component", "journal"), ("instance", robustmq.Name)]
        Template :=
          { Labels :=
              [("app", "robustmq"), ("component", "journal"), ("instance", robustmq.Name)]
            Spec := buildJournalServicePodSpec robustmq }
        VolumeClaimTemplates := volumeClaimTemplates }
    Status := { Replicas := 0, ReadyReplicas := 0 } }

/-! ## controllers/services.go: desired services -/

/-- The `corev1.Service` literals of services.go: every service selects
`app=robustmq, instance=<name>` and carries a `component` label. -/
def serviceLiteral (robustmq : RobustMQ) (serviceName component type_ clusterIP : String)
    (ports : List ServicePort) : Service :=
  { ObjectMeta := objectMeta serviceName robustmq.Namespace
      [("app", "robustmq"), ("component", component), ("instance", robustmq.Name)]
    Spec :=
      { Type_ := type_
        ClusterIP := clusterIP
        Selector := [("app", "robustmq"), ("instance", robustmq.Name)]
        Ports := ports
        ExternalIPs := [] }
    Ingress := [] }

/-- A `corev1.ServicePort` whose target port is `intstr.FromInt(int(port))`. -/
def servicePort (name : String) (port : Int) : ServicePort :=
  { Name := name, Port := port, TargetPort := port, Protocol := ProtocolTCP }

/-- The `service` literal of `reconcileMQTTService` (services.go 123-166). -/
def mqttService (robustmq : RobustMQ) (serviceName : String) : Service :=
  serviceLiteral robustmq serviceName "mqtt" robustmq.Spec.Network.MQTT.ServiceType ""
    [ servicePort "mqtt-tcp" robustmq.Spec.Network.MQTT.TCPPort,
      servicePort "mqtt-tls" robustmq.Spec.Network.MQTT.TLSPort,
      servicePort "mqtt-ws" robustmq.Spec.Network.MQTT.WebSocketPort,
      servicePort "mqtt-wss" robustmq.Spec.Network.MQTT.WebSocketTLSPort ]

/-- The `service` literal of `reconcileKafkaService` (services.go 175-200). -/
def kafkaService (robustmq : RobustMQ) (serviceName : String) : Service :=
  serviceLiteral robustmq serviceName "kafka" robustmq.Spec.Network.Kafka.ServiceType ""
    [ servicePort "kafka" robustmq.Spec.Network.Kafka.Port ]

/-- The `service` literal of `reconcileGRPCService` (services.go 209-234). -/
def grpcService (robustmq : RobustMQ) (serviceName : String) : Service :=
  serviceLiteral robustmq serviceName "grpc" robustmq.Spec.Network.GRPC.ServiceType ""
    [ servicePort "grpc" robustmq.Spec.Network.GRPC.Port ]

/-- The `service` literal of `reconcileAMQPService` (services.go 243-268). -/
def amqpService (robustmq : RobustMQ) (serviceName : String) : Service :=
  serviceLiteral robustmq serviceName "amqp" robustmq.Spec.Network.AMQP.ServiceType ""
    [ servicePort "amqp" robustmq.Spec.Network.AMQP.Port ]

/-- The `service` literal of `reconcileMetaService` (services.go 277-303): headless. -/
def metaService (robustmq : RobustMQ) (serviceName : String) : Service :=
  serviceLiteral robustmq serviceName "meta" ServiceTypeClusterIP "None"
    [ servicePort "grpc" robustmq.Spec.Network.GRPC.Port ]

/-- The `service` literal of `reconcileJournalService` (services.go 312-337). -/
def journalService (robustmq : RobustMQ) (serviceName : String) : Service :=
  serviceLiteral robustmq serviceName "journal" ServiceTypeClusterIP ""
    [ servicePort "journal" 1771 ]

/-- The `service` literal of `reconcilePrometheusService` (services.go 346-371). -/
def prometheusService (robustmq : RobustMQ) (serviceName : String) : Service :=
  serviceLiteral robustmq serviceName "prometheus" ServiceTypeClusterIP ""
    [ servicePort "prometheus" robustmq.Spec.Monitoring.Prometheus.Port ]

/-! ## controllers/robustmq_controller.go: configuration rendering -/

/-- Go `%d` applied to an integer. -/
def formatInt (i : Int) : String := toString i

/-- Go `%t` applied to a boolean. -/
def formatBool (b : Bool) : String := if b then "true" else "false"

/-- Go `generateServerConfig` (robustmq_controller.go 198-291). -/
def generateServerConfig (robustmq : RobustMQ) : String :=
  let clusterName :=
    if robustmq.Status.ClusterInfo.ClusterName ≠ "" then
      robustmq.Status.ClusterInfo.ClusterName
    else robustmq.Name
  let config :=
    "# RobustMQ Configuration\ncluster_name = \"" ++ clusterName ++ "\"\nbroker_id = 1\n"
      ++ "grpc_port = " ++ formatInt robustmq.Spec.Network.GRPC.Port ++ "\n\n"
  let config :=
    if robustmq.Spec.DeploymentMode = AllInOneMode then
      config ++ "roles = [\"meta\", \"broker\", \"journal\"]\n"
    else if robustmq.Spec.DeploymentMode = MicroservicesMode then
      config ++ "roles = [\"meta\"]\n"
    else config
  let config :=
    config ++ "meta_service = \x7b 1 = \"" ++ robustmq.Name ++ "-meta-service:"
      ++ formatInt robustmq.Spec.Network.GRPC.Port ++ "\" \x7d\n\n"
  let config :=
    if robustmq.Spec.Monitoring.Enabled then
      config ++ "[prometheus]\nenable = "
        ++ formatBool robustmq.Spec.Monitoring.Prometheus.Enable
        ++ "\nmodel = \"" ++ robustmq.Spec.Monitoring.Prometheus.Model
        ++ "\"\nport = " ++ formatInt robustmq.Spec.Monitoring.Prometheus.Port
        ++ "\ninterval = 10\n\n"
    else config
  let config :=
    config ++ "[log]\nlog_config = \"/robustmq/config/logger.toml\"\n"
      ++ "log_path = \"/robustmq/logs\"\n\n"
  let config :=
    config ++ "[rocksdb]\ndata_path = \"/robustmq/data\"\nmax_open_files = 10000\n\n"
  let config :=
    config ++ "[mqtt.server]\ntcp_port = " ++ formatInt robustmq.Spec.Network.MQTT.TCPPort
      ++ "\ntls_port = " ++ formatInt robustmq.Spec.Network.MQTT.TLSPort
      ++ "\nwebsocket_port = " ++ formatInt robustmq.Spec.Network.MQTT.WebSocketPort
      ++ "\nwebsockets_port = " ++ formatInt robustmq.Spec.Network.MQTT.WebSocketTLSPort
      ++ "\n\n[mqtt.auth.storage]\nstorage_type = \""
      ++ robustmq.Spec.Security.Auth.StorageType
      ++ "\"\n\n[mqtt.message.storage]\nstorage_type = \"memory\"\n\n"
      ++ "[mqtt.runtime]\nheartbeat_timeout = \"10s\"\ndefault_user = \""
      ++ robustmq.Spec.Security.Auth.DefaultUser
      ++ "\"\ndefault_password = \"pwd123\"\nmax_connection_num = 5000000\n\n"
  config ++ "[journal.server]\ntcp_port = 1771\n\n[journal.storage]\n"
    ++ "data_paths = [\"/robustmq/journal-data\"]\nrocksdb_max_open_files = 10000\n\n"
    ++ "[journal.runtime]\nenable_auto_create_shard = false\nshard_replica_num = 1\n"
    ++ "max_segment_size = 1048576\n"

/-- One rolling-file sink of the tracing configuration. -/
def tracingSink (name target filePrefix : String) : String :=
  "[" ++ name ++ "]\nkind = \"rolling_file\"\ntargets = [\x7b path = \"" ++ target
    ++ "\", level = \"info\" \x7d]\nrotation = \"daily\"\ndirectory = \"/robustmq/logs\"\n"
    ++ "prefix = \"" ++ filePrefix ++ "\"\nsuffix = \"log\"\nmax_log_files = 50\n"

/-- Go `generateTracingConfig` (robustmq_controller.go 294-336): a constant text. -/
def generateTracingConfig (_robustmq : RobustMQ) : String :=
  "# RobustMQ Tracing Configuration\n[stdout]\nkind = \"console\"\nlevel = \"info\"\n\n"
    ++ "[server]\nkind = \"rolling_file\"\nlevel = \"info\"\nrotation = \"daily\"\n"
    ++ "directory = \"/robustmq/logs\"\nprefix = \"server\"\nsuffix = \"log\"\n"
    ++ "max_log_files = 50\n\n"
    ++ tracingSink "raft" "openraft" "raft" ++ "\n"
    ++ tracingSink "journal" "journal_server" "journal" ++ "\n"
    ++ tracingSink "place" "meta_service" "place"

/-- Go `generateConfigData` (robustmq_controller.go 181-195). -/
def generateConfigData (robustmq : RobustMQ) : GoMap String :=
  let config : GoMap String := [("server.toml", generateServerConfig robustmq)]
  let config := config.set "server-tracing.toml" (generateTracingConfig robustmq)
  robustmq.Spec.Config.Additional.foldl (fun config kv => config.set kv.1 kv.2) config

/-- The `configMap` value built by `reconcileConfigMap` (robustmq_controller.go 143-156),
before the owner reference is stamped. -/
def desiredConfigMap (robustmq : RobustMQ) : ConfigMap :=
  { ObjectMeta := objectMeta (robustmq.Name ++ "-config") robustmq.Namespace []
    Data := generateConfigData robustmq }

/-! ## The cluster API (controller-runtime client) as explicit state -/

/-- Go `error` values the controllers distinguish: `errors.IsNotFound` or anything else. -/
inductive Err where
  | notFound
  | other (msg : String)
deriving DecidableEq, Repr

/-- How a Go call ends: normal return with a value, return of a non-nil `error`, or a
run-time panic. -/
inductive Outcome (α : Type) where
  | ok (a : α)
  | err (e : Err)
  | panic
deriving DecidableEq, Repr

inductive Verb where
  | get
  | create
  | update
  | statusUpdate
deriving DecidableEq, Repr

/-- One request sent to the cluster API. -/
structure ApiCall where
  verb : Verb
  kind : String
  Namespace : String
  Name : String
deriving DecidableEq, Repr

/-- The object store of the orchestration platform, one list per resource kind. -/
structure Cluster where
  RobustMQs : List RobustMQ
  ConfigMaps : List ConfigMap
  Services : List Service
  StatefulSets : List StatefulSet
  Deployments : List Deployment
deriving DecidableEq, Repr

/-- What the reconciler cannot control: the kinds registered in `r.Scheme`,
`resource.MustParse` (`none` for a panic), the failure injected into the n-th API request
(`none` for success) and the sequence of clock readings. -/
structure Env where
  Scheme : List String
  MustParse : String → Option Quantity
  faults : Nat → Option String
  clock : Nat → Time

/-- State threaded through a run: the cluster, the requests issued so far (oldest first) and
the number of clock readings taken. -/
structure World where
  cluster : Cluster
  calls : List ApiCall
  ticks : Nat
deriving DecidableEq, Repr

/-- A Go procedure with access to the cluster API. -/
def M (α : Type) : Type := World → Outcome α × World

/-- Normal return. -/
def M.pure {α : Type} (a : α) : M α := fun w => (Outcome.ok a, w)

/-- Sequencing: an error return or a panic of the first step ends the procedure. -/
def M.bind {α β : Type} (m : M α) (f : α → M β) : M β := fun w =>
  match m w with
  | (Outcome.ok a, w1) => f a w1
  | (Outcome.err e, w1) => (Outcome.err e, w1)
  | (Outcome.panic, w1) => (Outcome.panic, w1)

instance : Monad M where
  pure := M.pure
  bind := M.bind

/-- Go `return err`. -/
def fail {α : Type} (e : Err) : M α := fun w => (Outcome.err e, w)

/-- A run-time panic. -/
def panicNow {α : Type} : M α := fun w => (Outcome.panic, w)

/-- Go `err := call(...)`: the error of the call becomes a value the caller inspects. -/
def attempt {α : Type} (m : M α) : M (Except Err α) := fun w =>
  match m w with
  | (Outcome.ok a, w1) => (Outcome.ok (Except.ok a), w1)
  | (Outcome.err e, w1) => (Outcome.ok (Except.error e), w1)
  | (Outcome.panic, w1) => (Outcome.panic, w1)

/-- Go `metav1.Now()`. -/
def now (env : Env) : M Time := fun w =>
  (Outcome.ok (env.clock w.ticks), { w with ticks := w.ticks + 1 })

/-- How one resource kind is stored in the cluster and keyed. -/
structure Resource (α : Type) where
  kind : String
  name : α → String
  ns : α → String
  list : Cluster → List α
  put : Cluster → List α → Cluster

def robustMQs : Resource RobustMQ :=
  { kind := "RobustMQ", name := fun o => o.Name, ns := fun o => o.Namespace
    list := fun c => c.RobustMQs, put := fun c l => { c with RobustMQs := l } }

def configMaps : Resource ConfigMap :=
  { kind := "ConfigMap", name := fun o => o.ObjectMeta.Name
    ns := fun o => o.ObjectMeta.Namespace
    list := fun c => c.ConfigMaps, put := fun c l => { c with ConfigMaps := l } }

def services : Resource Service :=
  { kind := "Service", name := fun o => o.ObjectMeta.Name
    ns := fun o => o.ObjectMeta.Namespace
    list := fun c => c.Services, put := fun c l => { c with Services := l } }

def statefulSets : Resource StatefulSet :=
  { kind := "StatefulSet", name := fun o => o.ObjectMeta.Name
    ns := fun o => o.ObjectMeta.Namespace
    list := fun c => c.StatefulSets, put := fun c l => { c with StatefulSets := l } }

def deployments : Resource Deployment :=
  { kind := "Deployment", name := fun o => o.ObjectMeta.Name
    ns := fun o => o.ObjectMeta.Namespace
    list := fun c => c.Deployments, put := fun c l => { c with Deployments := l } }

/-- The stored object of a kind under a namespaced name. -/
def lookup {α : Type} (R : Resource α) (c : Cluster) (ns name : String) : Option α :=
  (R.list c).find? (fun o => R.ns o == ns && R.name o == name)

/-- Replace the stored object that has the key of `obj`. -/
def replaceObject {α : Type} (R : Resource α) (obj : α) : List α → List α
  | [] => []
  | o :: rest =>
    if R.ns o = R.ns obj ∧ R.name o = R.name obj then obj :: rest
    else o :: replaceObject R obj rest

/-- One request: it is recorded, fails when the environment injects a failure, and otherwise
acts on the cluster. -/
def request {α β : Type} (env : Env) (verb : Verb) (R : Resource α) (ns name : String)
    (action : Cluster → Outcome β × Cluster) : M β := fun w =>
  let w1 : World :=
    { w with calls := w.calls ++ [{ verb := verb, kind := R.kind, Namespace := ns, Name := name }] }
  match env.faults w.calls.length with
  | some msg => (Outcome.err (Err.other msg), w1)
  | none =>
    match action w.cluster with
    | (o, c) => (o, { w1 with cluster := c })

/-- Client `Get`: the stored object, or a not-found error. -/
def apiGet {α : Type} (env : Env) (R : Resource α) (ns name : String) : M α :=
  request env Verb.get R ns name fun c =>
    match lookup R c ns name with
    | some o => (Outcome.ok o, c)
    | none => (Outcome.err Err.notFound, c)

/-- Client `Create`: stores a new object; refused when the key is taken. -/
def apiCreate {α : Type} (env : Env) (R : Resource α) (obj : α) : M Unit :=
  request env Verb.create R (R.ns obj) (R.name obj) fun c =>
    match lookup R c (R.ns obj) (R.name obj) with
    | some _ => (Outcome.err (Err.other "AlreadyExists"), c)
    | none => (Outcome.ok (), R.put c (R.list c ++ [obj]))

/-- Client `Update`: overwrites the stored object of the same key. -/
def apiUpdate {α : Type} (env : Env) (R : Resource α) (obj : α) : M Unit :=
  request env Verb.update R (R.ns obj) (R.name obj) fun c =>
    match lookup R c (R.ns obj) (R.name obj) with
    | some _ => (Outcome.ok (), R.put c (replaceObject R obj (R.list c)))
    | none => (Outcome.err Err.notFound, c)

/-- Client `Status().Update` for the custom resource: overwrites the stored status only. -/
def apiStatusUpdate (env : Env) (robustmq : RobustMQ) : M Unit :=
  request env Verb.statusUpdate robustMQs robustmq.Namespace robustmq.Name fun c =>
    match lookup robustMQs c robustmq.Namespace robustmq.Name with
    | some stored =>
      (Outcome.ok (),
        robustMQs.put c
          (replaceObject robustMQs { stored with Status := robustmq.Status } c.RobustMQs))
    | none => (Outcome.err Err.notFound, c)

/-- The owner reference `controllerutil.SetControllerReference` writes for the instance. -/
def controllerReference (owner : RobustMQ) : OwnerReference :=
  { APIVersion := "robustmq.io/v1alpha1", Kind := "RobustMQ", Name := owner.Name
    UID := owner.UID, Controller := true, BlockOwnerDeletion := true }

/-- Library `controllerutil.SetControllerReference` on the metadata of a child object: fails
when the owner kind is not registered in the scheme or the object already has another
controller, and otherwise upserts the controller reference. -/
def SetControllerReference (scheme : List String) (owner : RobustMQ) (m : ObjectMeta) :
    Except Err ObjectMeta :=
  if "RobustMQ" ∉ scheme then
    Except.error (Err.other "no kind is registered for the type v1alpha1.RobustMQ")
  else if m.OwnerReferences.any (fun ref => ref.Controller && ref.UID != owner.UID) then
    Except.error (Err.other "Object is already owned by another controller")
  else if m.OwnerReferences.any (fun ref => ref.Kind == "RobustMQ" && ref.Name == owner.Name)
  then
    Except.ok { m with OwnerReferences := m.OwnerReferences.map (fun ref =>
      if ref.Kind = "RobustMQ" ∧ ref.Name = owner.Name then controllerReference owner
      else ref) }
  else
    Except.ok { m with OwnerReferences := m.OwnerReferences ++ [controllerReference owner] }

/-- Go `if err := f(...); err != nil { return err }` for a pure fallible step. -/
def liftExcept {α : Type} (r : Except Err α) : M α :=
  match r with
  | Except.ok a => M.pure a
  | Except.error e => fail e

/-! ## Create-or-update helpers and reconcilers -/

/-- Go `createOrUpdateService` (services.go 377-404). -/
def createOrUpdateService (env : Env) (robustmq : RobustMQ) (service : Service) : M Unit := do
  let m ← liftExcept (SetControllerReference env.Scheme robustmq service.ObjectMeta)
  let service := { service with ObjectMeta := m }
  let got ← attempt (apiGet env services service.ObjectMeta.Namespace service.ObjectMeta.Name)
  match got with
  | Except.error Err.notFound => apiCreate env services service
  | Except.error e => fail e
  | Except.ok found =>
    apiUpdate env services
      { found with Spec := { found.Spec with Ports := service.Spec.Ports,
                                             Type_ := service.Spec.Type_ } }

/-- Go `createOrUpdateStatefulSet` (deployments.go 637-664). -/
def createOrUpdateStatefulSet (env : Env) (robustmq : RobustMQ) (statefulSet : StatefulSet) :
    M Unit := do
  let m ← liftExcept (SetControllerReference env.Scheme robustmq statefulSet.ObjectMeta)
  let statefulSet := { statefulSet with ObjectMeta := m }
  let got ← attempt
    (apiGet env statefulSets statefulSet.ObjectMeta.Namespace statefulSet.ObjectMeta.Name)
  match got with
  | Except.error Err.notFound => apiCreate env statefulSets statefulSet
  | Except.error e => fail e
  | Except.ok found =>
    apiUpdate env statefulSets
      { found with Spec := { found.Spec with Replicas := statefulSet.Spec.Replicas,
                                             Template := statefulSet.Spec.Template } }

/-- Go `createOrUpdateDeployment` (deployments.go 666-693). -/
def createOrUpdateDeployment (env : Env) (robustmq : RobustMQ) (deployment : Deployment) :
    M Unit := do
  let m ← liftExcept (SetControllerReference env.Scheme robustmq deployment.ObjectMeta)
  let deployment := { deployment with ObjectMeta := m }
  let got ← attempt
    (apiGet env deployments deployment.ObjectMeta.Namespace deployment.ObjectMeta.Name)
  match got with
  | Except.error Err.notFound => apiCreate env deployments deployment
  | Except.error e => fail e
  | Except.ok found =>
    apiUpdate env deployments
      { found with Spec := { found.Spec with Replicas := deployment.Spec.Replicas,
                                             Template := deployment.Spec.Template } }

/-- Go `reconcileConfigMap` (robustmq_controller.go 140-178). -/
def reconcileConfigMap (env : Env) (robustmq : RobustMQ) : M Unit := do
  let configMap := desiredConfigMap robustmq
  let m ← liftExcept (SetControllerReference env.Scheme robustmq configMap.ObjectMeta)
  let configMap := { configMap with ObjectMeta := m }
  let got ← attempt
    (apiGet env configMaps configMap.ObjectMeta.Namespace configMap.ObjectMeta.Name)
  match got with
  | Except.error Err.notFound => apiCreate env configMaps configMap
  | Except.error e => fail e
  | Except.ok found => apiUpdate env configMaps { found with Data := configMap.Data }

/-- Go `reconcileAllInOneServices` (services.go 46-80). -/
def reconcileAllInOneServices (env : Env) (robustmq : RobustMQ) : M Unit := do
  createOrUpdateService env robustmq (mqttService robustmq (robustmq.Name ++ "-mqtt"))
  createOrUpdateService env robustmq (kafkaService robustmq (robustmq.Name ++ "-kafka"))
  createOrUpdateService env robustmq (grpcService robustmq (robustmq.Name ++ "-grpc"))
  createOrUpdateService env robustmq (amqpService robustmq (robustmq.Name ++ "-amqp"))
  createOrUpdateService env robustmq (metaService robustmq (robustmq.Name ++ "-meta-service"))
  if robustmq.Spec.Monitoring.Enabled then
    createOrUpdateService env robustmq
      (prometheusService robustmq (robustmq.Name ++ "-prometheus"))
  else
    pure ()

/-- Go `reconcileMicroservicesServices` (services.go 83-117). -/
def reconcileMicroservicesServices (env : Env) (robustmq : RobustMQ) : M Unit := do
  createOrUpdateService env robustmq (metaService robustmq (robustmq.Name ++ "-meta-service"))
  createOrUpdateService env robustmq (mqttService robustmq (robustmq.Name ++ "-mqtt-broker"))
  createOrUpdateService env robustmq (kafkaService robustmq (robustmq.Name ++ "-kafka"))
  createOrUpdateService env robustmq (amqpService robustmq (robustmq.Name ++ "-amqp"))
  createOrUpdateService env robustmq
    (journalService robustmq (robustmq.Name ++ "-journal-service"))
  if robustmq.Spec.Monitoring.Enabled then
    createOrUpdateService env robustmq
      (prometheusService robustmq (robustmq.Name ++ "-prometheus"))
  else
    pure ()

/-- Go `reconcileServices` (services.go 34-43). -/
def reconcileServices (env : Env) (robustmq : RobustMQ) : M Unit :=
  if robustmq.Spec.DeploymentMode = AllInOneMode then
    reconcileAllInOneServices env robustmq
  else if robustmq.Spec.DeploymentMode = MicroservicesMode then
    reconcileMicroservicesServices env robustmq
  else
    reconcileAllInOneServices env robustmq

/-- Go `reconcileAllInOne` (deployments.go 37-105): the StatefulSet literal is evaluated
first (a panic of `resource.MustParse` ends the call), then the create-or-update steps of
lines 79-102, which are those of `createOrUpdateStatefulSet`. -/
def reconcileAllInOne (env : Env) (robustmq : RobustMQ) : M Unit :=
  match buildVolumeClaimTemplates env.MustParse robustmq with
  | none => panicNow
  | some templates =>
    createOrUpdateStatefulSet env robustmq (allInOneStatefulSet robustmq templates)

/-- Go `reconcileMetaServiceDeployment` (deployments.go 128-171). -/
def reconcileMetaServiceDeployment (env : Env) (robustmq : RobustMQ) : M Unit :=
  match buildVolumeClaimTemplates env.MustParse robustmq with
  | none => panicNow
  | some templates =>
    createOrUpdateStatefulSet env robustmq (metaServiceStatefulSet robustmq templates)

/-- Go `reconcileMQTTBrokerDeployment` (deployments.go 174-215). -/
def reconcileMQTTBrokerDeployment (env : Env) (robustmq : RobustMQ) : M Unit :=
  createOrUpdateDeployment env robustmq (mqttBrokerDeployment robustmq)

/-- Go `reconcileJournalServiceDeployment` (deployments.go 218-261). -/
def reconcileJournalServiceDeployment (env : Env) (robustmq : RobustMQ) : M Unit :=
  match buildVolumeClaimTemplates env.MustParse robustmq with
  | none => panicNow
  | some templates =>
    createOrUpdateStatefulSet env robustmq (journalServiceStatefulSet robustmq templates)

/-- Go `reconcileMicroservices` (deployments.go 108-125). -/
def reconcileMicroservices (env : Env) (robustmq : RobustMQ) : M Unit := do
  reconcileMetaServiceDeployment env robustmq
  reconcileMQTTBrokerDeployment env robustmq
  reconcileJournalServiceDeployment env robustmq

/-! ## controllers/status.go: status aggregation -/

/-- The zero replica record written when a workload is not found. -/
def zeroDeploymentStatus : DeploymentStatus :=
  { Replicas := 0, ReadyReplicas := 0, AvailableReplicas := 0 }

/-- Assignment `robustmq.Status.DeploymentStatuses[component] = status`. -/
def setDeploymentStatus (robustmq : RobustMQ) (component : String)
    (status : DeploymentStatus) : RobustMQ :=
  { robustmq with Status := { robustmq.Status with
      DeploymentStatuses := robustmq.Status.DeploymentStatuses.set component status } }

/-- Go `updateStatefulSetStatus` (status.go 130-152). -/
def updateStatefulSetStatus (env : Env) (robustmq : RobustMQ) (name component : String) :
    M RobustMQ := do
  let got ← attempt (apiGet env statefulSets robustmq.Namespace name)
  match got with
  | Except.error Err.notFound => pure (setDeploymentStatus robustmq component zeroDeploymentStatus)
  | Except.error e => fail e
  | Except.ok statefulSet =>
    pure (setDeploymentStatus robustmq component
      { Replicas := statefulSet.Status.Replicas
        ReadyReplicas := statefulSet.Status.ReadyReplicas
        AvailableReplicas := statefulSet.Status.ReadyReplicas })

/-- Go `updateDeploymentStatus` (status.go 155-177). -/
def updateDeploymentStatus (env : Env) (robustmq : RobustMQ) (name component : String) :
    M RobustMQ := do
  let got ← attempt (apiGet env deployments robustmq.Namespace name)
  match got with
  | Except.error Err.notFound => pure (setDeploymentStatus robustmq component zeroDeploymentStatus)
  | Except.error e => fail e
  | Except.ok deployment =>
    pure (setDeploymentStatus robustmq component
      { Replicas := deployment.Status.Replicas
        ReadyReplicas := deployment.Status.ReadyReplicas
        AvailableReplicas := deployment.Status.AvailableReplicas })

/-- Go `updateAllInOneStatus` (status.go 82-107): the steps of `updateStatefulSetStatus` for
the StatefulSet named after the instance and the component key `all-in-one`. -/
def updateAllInOneStatus (env : Env) (robustmq : RobustMQ) : M RobustMQ :=
  updateStatefulSetStatus env robustmq robustmq.Name "all-in-one"

/-- Go `updateMicroservicesStatus` (status.go 110-127). -/
def updateMicroservicesStatus (env : Env) (robustmq : RobustMQ) : M RobustMQ := do
  let robustmq ← updateStatefulSetStatus env robustmq (robustmq.Name ++ "-meta") "meta-service"
  let robustmq ←
    updateDeploymentStatus env robustmq (robustmq.Name ++ "-mqtt-broker") "mqtt-broker"
  updateStatefulSetStatus env robustmq (robustmq.Name ++ "-journal") "journal-service"

/-- Go `updateSingleServiceStatus` (status.go 220-250). -/
def updateSingleServiceStatus (env : Env) (robustmq : RobustMQ) (serviceName : String) :
    M RobustMQ := do
  let got ← attempt (apiGet env services robustmq.Namespace serviceName)
  let record : ServiceStatus → RobustMQ := fun status =>
    { robustmq with Status := { robustmq.Status with
        ServiceStatuses := robustmq.Status.ServiceStatuses.set serviceName status } }
  match got with
  | Except.error Err.notFound =>
    pure (record { ClusterIP := "", ExternalIPs := [], LoadBalancerIngress := [] })
  | Except.error e => fail e
  | Except.ok service =>
    pure (record
      { ClusterIP := service.Spec.ClusterIP
        ExternalIPs := service.Spec.ExternalIPs
        LoadBalancerIngress :=
          if service.Spec.Type_ = ServiceTypeLoadBalancer then service.Ingress else [] })

/-- The `serviceNames` slice of `updateServiceStatuses` (status.go 181-207). -/
def statusServiceNames (robustmq : RobustMQ) : List String :=
  if robustmq.Spec.DeploymentMode = AllInOneMode then
    [ robustmq.Name ++ "-mqtt", robustmq.Name ++ "-kafka", robustmq.Name ++ "-grpc",
      robustmq.Name ++ "-amqp", robustmq.Name ++ "-meta-service" ]
      ++ (if robustmq.Spec.Monitoring.Enabled then [robustmq.Name ++ "-prometheus"] else [])
  else if robustmq.Spec.DeploymentMode = MicroservicesMode then
    [ robustmq.Name ++ "-meta-service", robustmq.Name ++ "-mqtt-broker",
      robustmq.Name ++ "-kafka", robustmq.Name ++ "-amqp",
      robustmq.Name ++ "-journal-service" ]
      ++ (if robustmq.Spec.Monitoring.Enabled then [robustmq.Name ++ "-prometheus"] else [])
  else []

/-- The loop of `updateServiceStatuses` (status.go 210-214). -/
def updateServiceStatusesLoop (env : Env) (robustmq : RobustMQ) : List String → M RobustMQ
  | [] => pure robustmq
  | serviceName :: rest => do
    let robustmq ← updateSingleServiceStatus env robustmq serviceName
    updateServiceStatusesLoop env robustmq rest

/-- Go `updateServiceStatuses` (status.go 180-217). -/
def updateServiceStatuses (env : Env) (robustmq : RobustMQ) : M RobustMQ :=
  updateServiceStatusesLoop env robustmq (statusServiceNames robustmq)

/-- The nodes appended by one `for i := int32(0); i < status.ReadyReplicas; i++` loop of
`updateClusterInfo`, when the component has a record in `DeploymentStatuses`. -/
def componentNodes (robustmq : RobustMQ) (component : String)
    (node : Int → NodeInfo) : List NodeInfo :=
  match robustmq.Status.DeploymentStatuses.get? component with
  | some status => (List.range status.ReadyReplicas.toNat).map (fun i => node i)
  | none => []

/-- The nodes computed by `updateClusterInfo` (status.go 265-316). -/
def clusterNodes (robustmq : RobustMQ) : List NodeInfo :=
  if robustmq.Spec.DeploymentMode = AllInOneMode then
    componentNodes robustmq "all-in-one" fun i =>
      { ID := robustmq.Name ++ "-" ++ formatInt i
        Roles := [MetaRole, BrokerRole, JournalRole]
        Address := robustmq.Name ++ "-" ++ formatInt i ++ "." ++ robustmq.Name
          ++ "-meta-service." ++ robustmq.Namespace ++ ".svc.cluster.local:"
          ++ formatInt robustmq.Spec.Network.GRPC.Port
        Status := "Running" }
  else if robustmq.Spec.DeploymentMode = MicroservicesMode then
    (componentNodes robustmq "meta-service" fun i =>
      { ID := robustmq.Name ++ "-meta-" ++ formatInt i
        Roles := [MetaRole]
        Address := robustmq.Name ++ "-meta-" ++ formatInt i ++ "." ++ robustmq.Name
          ++ "-meta-service." ++ robustmq.Namespace ++ ".svc.cluster.local:"
          ++ formatInt robustmq.Spec.Network.GRPC.Port
        Status := "Running" })
    ++ (componentNodes robustmq "mqtt-broker" fun i =>
      { ID := robustmq.Name ++ "-broker-" ++ formatInt i
        Roles := [BrokerRole]
        Address := robustmq.Name ++ "-mqtt-broker-" ++ formatInt i
        Status := "Running" })
    ++ (componentNodes robustmq "journal-service" fun i =>
      { ID := robustmq.Name ++ "-journal-" ++ formatInt i
        Roles := [JournalRole]
        Address := robustmq.Name ++ "-journal-" ++ formatInt i ++ "." ++ robustmq.Name
          ++ "-journal-service." ++ robustmq.Namespace ++ ".svc.cluster.local:1771"
        Status := "Running" })
  else []

/-- The leader loop of `updateClusterInfo` (status.go 322-332): `leader` is the current
`MetaLeader`; a node with the meta role overwrites it, and the scan stops at the first node
after which `MetaLeader` is non-empty. -/
def metaLeaderLoop (leader : String) : List NodeInfo → String
  | [] => leader
  | node :: rest =>
    let leader := if MetaRole ∈ node.Roles then node.ID else leader
    if leader ≠ "" then leader else metaLeaderLoop leader rest

/-- Go `updateClusterInfo` (status.go 253-334). -/
def updateClusterInfo (robustmq : RobustMQ) : RobustMQ :=
  let clusterName :=
    match robustmq.Spec.Config.Additional.get? "cluster_name" with
    | some name => name
    | none => robustmq.Name
  let nodes := clusterNodes robustmq
  { robustmq with Status := { robustmq.Status with
      ClusterInfo :=
        { ClusterName := clusterName
          Nodes := nodes
          MetaLeader := metaLeaderLoop robustmq.Status.ClusterInfo.MetaLeader nodes } } }

/-- Go `updateStatus` (status.go 32-79). The four clock readings are the `metav1.Now()` of
`updateConditions` and those of its three `setCondition` calls. -/
def updateStatus (env : Env) (robustmq : RobustMQ) : M RobustMQ := do
  let robustmq ←
    if robustmq.Spec.DeploymentMode = AllInOneMode then updateAllInOneStatus env robustmq
    else if robustmq.Spec.DeploymentMode = MicroservicesMode then
      updateMicroservicesStatus env robustmq
    else pure robustmq
  let robustmq ← updateServiceStatuses env robustmq
  let robustmq := updateClusterInfo robustmq
  let robustmq := updateOverallPhase robustmq
  let t0 ← now env
  let t1 ← now env
  let t2 ← now env
  let t3 ← now env
  let robustmq := updateConditions t0 t1 t2 t3 robustmq
  apiStatusUpdate env robustmq
  pure robustmq

/-! ## controllers/robustmq_controller.go: the reconcile loop -/

/-- The `switch robustmq.Spec.DeploymentMode` of `Reconcile` (robustmq_controller.go 110-128). -/
def reconcileWorkloads (env : Env) (robustmq : RobustMQ) : M Unit :=
  if robustmq.Spec.DeploymentMode = AllInOneMode then
    reconcileAllInOne env robustmq
  else if robustmq.Spec.DeploymentMode = MicroservicesMode then
    reconcileMicroservices env robustmq
  else
    reconcileAllInOne env robustmq

/-- Value of `ctrl.Result`: `RequeueAfter` in nanoseconds (`time.Duration`). -/
structure Result where
  RequeueAfter : Int
deriving DecidableEq, Repr

/-- Value of `reconcile.Request`. -/
structure Request where
  Namespace : String
  Name : String
deriving DecidableEq, Repr

/-- Go `time.Minute`. -/
def Minute : Int := 60000000000

/-- Go `Reconcile` (robustmq_controller.go 72-137). -/
def Reconcile (env : Env) (req : Request) : M Result := do
  let got ← attempt (apiGet env robustMQs req.Namespace req.Name)
  match got with
  | Except.error Err.notFound => pure { RequeueAfter := 0 }
  | Except.error e => fail e
  | Except.ok robustmq =>
    let robustmq ←
      if robustmq.Status.Phase = "" then do
        let initialized : RobustMQ :=
          { robustmq with Status := { robustmq.Status with Phase := PhaseInitializing } }
        apiStatusUpdate env initialized
        pure initialized
      else pure robustmq
    reconcileConfigMap env robustmq
    reconcileServices env robustmq
    reconcileWorkloads env robustmq
    let _ ← updateStatus env robustmq
    pure { RequeueAfter := Minute * 5 }

/-! ## Reference notions used in statements -/

/-- Exact (unbounded) sum of `Replicas` over all entries of `DeploymentStatuses`. -/
def sumReplicas (statuses : GoMap DeploymentStatus) : Int :=
  (statuses.map (fun kv => kv.2.Replicas)).sum

/-- Exact (unbounded) sum of `ReadyReplicas` over all entries of `DeploymentStatuses`. -/
def sumReadyReplicas (statuses : GoMap DeploymentStatus) : Int :=
  (statuses.map (fun kv => kv.2.ReadyReplicas)).sum

/-- The condition `setCondition` stores over an existing condition `prior` of the same type. -/
def storedCondition (now : Time) (prior condition : Condition) : Condition :=
  { condition with
    LastTransitionTime :=
      if prior.Status = condition.Status then prior.LastTransitionTime else now }

/-! ## The desired state compiled by one pass -/

/-- A workload resource: a StatefulSet or a Deployment. -/
inductive Workload where
  | statefulSet (s : StatefulSet)
  | deployment (d : Deployment)
deriving DecidableEq, Repr

def Workload.name : Workload → String
  | Workload.statefulSet s => s.ObjectMeta.Name
  | Workload.deployment d => d.ObjectMeta.Name

def Workload.podSpec : Workload → PodSpec
  | Workload.statefulSet s => s.Spec.Template.Spec
  | Workload.deployment d => d.Spec.Template.Spec

def Workload.replicas : Workload → Option Int
  | Workload.statefulSet s => s.Spec.Replicas
  | Workload.deployment d => d.Spec.Replicas

/-- The workloads built by the mode switch of `Reconcile` (robustmq_controller.go 111-128),
in the order in which they are handed to create-or-update; `none` when building them
panics. -/
def compiledWorkloads (MustParse : String → Option Quantity) (robustmq : RobustMQ) :
    Option (List Workload) :=
  if robustmq.Spec.DeploymentMode = AllInOneMode then
    (buildVolumeClaimTemplates MustParse robustmq).map fun templates =>
      [Workload.statefulSet (allInOneStatefulSet robustmq templates)]
  else if robustmq.Spec.DeploymentMode = MicroservicesMode then
    (buildVolumeClaimTemplates MustParse robustmq).map fun templates =>
      [ Workload.statefulSet (metaServiceStatefulSet robustmq templates),
        Workload.deployment (mqttBrokerDeployment robustmq),
        Workload.statefulSet (journalServiceStatefulSet robustmq templates) ]
  else
    (buildVolumeClaimTemplates MustParse robustmq).map fun templates =>
      [Workload.statefulSet (allInOneStatefulSet robustmq templates)]

/-- The services built by `reconcileAllInOneServices` (services.go 46-80), in call order. -/
def allInOneServices (robustmq : RobustMQ) : List Service :=
  [ mqttService robustmq (robustmq.Name ++ "-mqtt"),
    kafkaService robustmq (robustmq.Name ++ "-kafka"),
    grpcService robustmq (robustmq.Name ++ "-grpc"),
    amqpService robustmq (robustmq.Name ++ "-amqp"),
    metaService robustmq (robustmq.Name ++ "-meta-service") ]
  ++ (if robustmq.Spec.Monitoring.Enabled then
        [prometheusService robustmq (robustmq.Name ++ "-prometheus")]
      else [])

/-- The services built by `reconcileMicroservicesServices` (services.go 83-117), in call
order. -/
def microservicesServices (robustmq : RobustMQ) : List Service :=
  [ metaService robustmq (robustmq.Name ++ "-meta-service"),
    mqttService robustmq (robustmq.Name ++ "-mqtt-broker"),
    kafkaService robustmq (robustmq.Name ++ "-kafka"),
    amqpService robustmq (robustmq.Name ++ "-amqp"),
    journalService robustmq (robustmq.Name ++ "-journal-service") ]
  ++ (if robustmq.Spec.Monitoring.Enabled then
        [prometheusService robustmq (robustmq.Name ++ "-prometheus")]
      else [])

/-- The services built by `reconcileServices` (services.go 34-43), in call order. -/
def compiledServices (robustmq : RobustMQ) : List Service :=
  if robustmq.Spec.DeploymentMode = AllInOneMode then allInOneServices robustmq
  else if robustmq.Spec.DeploymentMode = MicroservicesMode then microservicesServices robustmq
  else allInOneServices robustmq

/-- Create-or-update of one workload: `createOrUpdateStatefulSet` or
`createOrUpdateDeployment`. -/
def createOrUpdateWorkload (env : Env) (robustmq : RobustMQ) : Workload → M Unit
  | Workload.statefulSet s => createOrUpdateStatefulSet env robustmq s
  | Workload.deployment d => createOrUpdateDeployment env robustmq d

/-- Run a step for every element of a list, in order, stopping at the first error return or
panic. -/
def forEach {α : Type} (f : α → M Unit) : List α → M Unit
  | [] => M.pure ()
  | x :: rest => M.bind (f x) (fun _ => forEach f rest)

/-- The instance with another deployment mode and everything else equal. -/
def withDeploymentMode (robustmq : RobustMQ) (mode : String) : RobustMQ :=
  { robustmq with Spec := { robustmq.Spec with DeploymentMode := mode } }

/-- A `resource.MustParse` that accepts every non-empty text, for concrete evaluation. -/
def parseNonEmpty (s : String) : Option Quantity :=
  if s = "" then none else some { text := s }

/-- An environment in which every request succeeds and the clock stands still. -/
def calmEnv : Env :=
  { Scheme := ["RobustMQ"], MustParse := parseNonEmpty, faults := fun _ => none
    clock := fun _ => 0 }

/-- A create or update request for the StatefulSet of the given namespaced name. -/
def isStatefulSetWrite (ns name : String) (c : ApiCall) : Bool :=
  (c.verb == Verb.create || c.verb == Verb.update) && c.kind == "StatefulSet"
    && c.Namespace == ns && c.Name == name

/-- Between worlds `w0` and `w` the StatefulSet of the given namespaced name was neither
created nor updated: the stored object (or its absence) is the same and none of the
requests issued since `w0` is a create or update of it. -/
def Untouched (ns name : String) (w0 w : World) : Prop :=
  lookup statefulSets w.cluster ns name = lookup statefulSets w0.cluster ns name ∧
  ∃ issued, w.calls = w0.calls ++ issued ∧
    ∀ c ∈ issued, isStatefulSetWrite ns name c = false

/-- A procedure that, from every world, neither creates nor updates the StatefulSet of the
given namespaced name. -/
def Keeps {α : Type} (ns name : String) (m : M α) : Prop :=
  ∀ w, Untouched ns name w (m w).2

/-! ## Fixtures (the resource of controllers/robustmq_controller_test.go) -/

def emptyStatus : RobustMQStatus :=
  { Phase := ""
    Conditions := []
    DeploymentStatuses := []
    ServiceStatuses := []
    ClusterInfo := { ClusterName := "", Nodes := [], MetaLeader := "" } }

def testSpec : RobustMQSpec :=
  { DeploymentMode := AllInOneMode
    Image := { Repository := "robustmq/robustmq", Tag := "latest", PullPolicy := "IfNotPresent",
               PullSecrets := [] }
    AllInOne := some { Replicas := 1, Resources := emptyResources, NodeSelector := [],
                       Affinity := none, Tolerations := [] }
    Microservices := none
    Storage := { StorageClass := none, Size := "10Gi", AccessModes := ["ReadWriteOnce"] }
    Network :=
      { MQTT := { TCPPort := 1883, TLSPort := 1885, WebSocketPort := 8083,
                  WebSocketTLSPort := 8084, ServiceType := "ClusterIP" }
        Kafka := { Port := 9092, ServiceType := "ClusterIP" }
        GRPC := { Port := 1228, ServiceType := "ClusterIP" }
        AMQP := { Port := 5672, ServiceType := "ClusterIP" } }
    Monitoring :=
      { Enabled := true
        Prometheus := { Enable := true, Port := 9091, Model := "pull" }
        ServiceMonitor := { Enabled := false, Labels := [], Interval := "" } }
    Security :=
      { TLS := { Enabled := false, SecretName := "",
                 CA := { SecretName := "", AutoGenerate := false } }
        Auth := { DefaultUser := "admin", PasswordSecret := "", StorageType := "placement" } }
    Config := { Additional := [], ConfigMapName := "" } }

def testResource : RobustMQ :=
  { Name := "test-resource", Namespace := "default", UID := "uid-1", Generation := 1
    Spec := testSpec, Status := emptyStatus }

/-- The test resource with the given replica records in its status. -/
def testResourceWith (phase : String) (statuses : GoMap DeploymentStatus)
    (conditions : List Condition) : RobustMQ :=
  { testResource with
    Status := { emptyStatus with
      Phase := phase, DeploymentStatuses := statuses, Conditions := conditions } }

/-- Three components whose replica counts are valid `int32` values and add up to `2^32`. -/
def overflowStatuses : GoMap DeploymentStatus :=
  [ ("all-in-one", { Replicas := 2147483647, ReadyReplicas := 0, AvailableReplicas := 0 }),
    ("meta-service", { Replicas := 2147483647, ReadyReplicas := 0, AvailableReplicas := 0 }),
    ("mqtt-broker", { Replicas := 2, ReadyReplicas := 0, AvailableReplicas := 0 }) ]

/-- A world whose cluster holds the test resource switched to Microservices mode and the
StatefulSet of its earlier AllInOne deployment. -/
def switchedWorld : World :=
  { cluster :=
      { RobustMQs := [withDeploymentMode testResource MicroservicesMode]
        ConfigMaps := []
        Services := []
        StatefulSets := [allInOneStatefulSet testResource []]
        Deployments := [] }
    calls := []
    ticks := 0 }


/-- The test resource with the additional configuration key `cluster_name = prod`. -/
def namedResource : RobustMQ :=
  { testResource with
    Spec := { testSpec with
      Config := { Additional := [("cluster_name", "prod")], ConfigMapName := "" } } }

/-- The test resource whose additional configuration binds the key `server.toml`. -/
def overridingResource : RobustMQ :=
  { testResource with
    Spec := { testSpec with
      Config := { Additional := [("server.toml", "custom")], ConfigMapName := "" } } }

/-- The test resource whose status already records the cluster name `other`. -/
def observedResource : RobustMQ :=
  { testResource with
    Status := { emptyStatus with
      ClusterInfo := { ClusterName := "other", Nodes := [], MetaLeader := "" } } }

/-- A world whose cluster holds the given instance and nothing else. -/
def freshWorld (robustmq : RobustMQ) : World :=
  { cluster :=
      { RobustMQs := [robustmq], ConfigMaps := [], Services := [], StatefulSets := []
        Deployments := [] }
    calls := []
    ticks := 0 }

/-- The request that names the test resource. -/
def testRequest : Request := { Namespace := "default", Name := "test-resource" }

/-- The test resource with an unrecognized (empty) `DeploymentMode`. -/
def unrecognizedResource : RobustMQ := withDeploymentMode testResource ""

/-- A StatefulSet named after the test resource that another actor created: it has its own
labels and annotations, no owner reference, two replicas and no pod template content. -/
def foreignStatefulSet : StatefulSet :=
  { ObjectMeta :=
      { Name := "test-resource", Namespace := "default", Labels := [("team", "payments")]
        Annotations := [("note", "manual")], OwnerReferences := [] }
    Spec :=
      { Replicas := some 2, ServiceName := "legacy", Selector := [("app", "legacy")]
        Template := { Labels := [], Spec := { Containers := [], Volumes := []
                                              ImagePullSecrets := [], NodeSelector := []
                                              Affinity := none, Tolerations := [] } }
        VolumeClaimTemplates := [] }
    Status := { Replicas := 2, ReadyReplicas := 2 } }

/-- A world whose cluster holds the test resource and the foreign StatefulSet. -/
def adoptedWorld : World :=
  { cluster :=
      { RobustMQs := [testResource], ConfigMaps := [], Services := []
        StatefulSets := [foreignStatefulSet], Deployments := [] }
    calls := []
    ticks := 0 }

/-- The world after one pass, with no failing request, over the cluster that holds only the
test resource with the additional key `cluster_name = prod`. -/
def afterOnePass : World := (Reconcile calmEnv testRequest (freshWorld namedResource)).2

/-- The world after a second pass over `afterOnePass`. -/
def afterTwoPasses : World := (Reconcile calmEnv testRequest afterOnePass).2

/-- The world after a third pass over `afterTwoPasses`. -/
def afterThreePasses : World := (Reconcile calmEnv testRequest afterTwoPasses).2

/-! ## Reference notions: creates, keys and the store as a map -/

/-- A `Create` request. -/
def isCreate (c : ApiCall) : Bool := c.verb == Verb.create

/-- The (kind, namespace, name) a request addresses. -/
def callKey (c : ApiCall) : String × String × String := (c.kind, c.Namespace, c.Name)

/-- The keys of the `Create` requests of a trace, in order. -/
def createdKeys (issued : List ApiCall) : List (String × String × String) :=
  (issued.filter isCreate).map callKey

/-- The (kind, namespace, name) keys of a list of stored objects of one kind. -/
def keysOf {α : Type} (R : Resource α) (l : List α) : List (String × String × String) :=
  l.map fun o => (R.kind, R.ns o, R.name o)

/-- The keys of all stored objects. The store is a map from (kind, namespace, name) to
object when this list has no duplicates. -/
def storedKeys (c : Cluster) : List (String × String × String) :=
  keysOf robustMQs c.RobustMQs ++ (keysOf configMaps c.ConfigMaps ++
    (keysOf services c.Services ++
      (keysOf statefulSets c.StatefulSets ++ keysOf deployments c.Deployments)))

/-- What the user declares of an instance: its namespaced name and its Spec. -/
def declared (robustmq : RobustMQ) : String × String × RobustMQSpec :=
  (robustmq.Namespace, robustmq.Name, robustmq.Spec)

/-- Between worlds `w` and `w1` nothing was created: the declared part of every instance and
the stored keys are the same, and none of the requests issued since `w` is a `Create`. -/
def Still (w w1 : World) : Prop :=
  w1.cluster.RobustMQs.map declared = w.cluster.RobustMQs.map declared ∧
  storedKeys w1.cluster = storedKeys w.cluster ∧
  ∃ issued, w1.calls = w.calls ++ issued ∧ ∀ c ∈ issued, isCreate c = false

/-- Between worlds `w` and `w1` the store only grew by what was created: the declared part
of every instance is the same, the stored keys of `w1` are those of `w` together with the
keys of the `Create` requests issued since `w`, and a store that was a map still is one. -/
def Grows (w w1 : World) : Prop :=
  w1.cluster.RobustMQs.map declared = w.cluster.RobustMQs.map declared ∧
  ((storedKeys w.cluster).Nodup → (storedKeys w1.cluster).Nodup) ∧
  ∃ issued, w1.calls = w.calls ++ issued ∧
    (storedKeys w1.cluster).Perm (storedKeys w.cluster ++ createdKeys issued)

/-- A procedure that creates nothing, from every world. -/
def Quiet {α : Type} (m : M α) : Prop :=
  ∀ w, Still w (m w).2

/-- A procedure that settles the given keys: from every world the store only grows by what
it creates; it creates nothing when the keys are already stored; and with a registered
scheme it returns normally with the keys stored. -/
def Settles (env : Env) (keys : List (String × String × String)) (m : M Unit) : Prop :=
  ∀ w,
    Grows w (m w).2 ∧
    ((∀ k ∈ keys, k ∈ storedKeys w.cluster) → Still w (m w).2) ∧
    ("RobustMQ" ∈ env.Scheme →
      (m w).1 = Outcome.ok () ∧ ∀ k ∈ keys, k ∈ storedKeys (m w).2.cluster)

/-- The key under which a workload is stored. -/
def Workload.key : Workload → String × String × String
  | Workload.statefulSet s => ("StatefulSet", s.ObjectMeta.Namespace, s.ObjectMeta.Name)
  | Workload.deployment d => ("Deployment", d.ObjectMeta.Namespace, d.ObjectMeta.Name)

/-- The keys of the resources one pass for the instance gets to: none when the scheme does
not know the owner kind (the first step fails before any request), and otherwise the
ConfigMap, the compiled services and, unless building them panics, the compiled workloads. -/
def managedKeys (env : Env) (robustmq : RobustMQ) : List (String × String × String) :=
  if "RobustMQ" ∈ env.Scheme then
    [("ConfigMap", robustmq.Namespace, robustmq.Name ++ "-config")]
      ++ (keysOf services (compiledServices robustmq)
      ++ (match compiledWorkloads env.MustParse robustmq with
          | some workloads => workloads.map Workload.key
          | none => []))
  else []

/-- The steps of `Reconcile` once the instance is loaded and initialised
(robustmq_controller.go 95-136). -/
def reconcileSteps (env : Env) (robustmq : RobustMQ) : M Result :=
  M.bind (reconcileConfigMap env robustmq) fun _ =>
    M.bind (reconcileServices env robustmq) fun _ =>
      M.bind (reconcileWorkloads env robustmq) fun _ =>
        M.bind (updateStatus env robustmq) fun _ =>
          M.pure ({ RequeueAfter := Minute * 5 } : Result)

/-- A procedure that converges on the given keys: from every world the store only grows by
what it creates; it creates nothing when the keys are already stored; and with a registered
scheme the keys are stored when it ends. -/
def Converges {α : Type} (env : Env) (keys : List (String × String × String)) (m : M α) :
    Prop :=
  ∀ w,
    Grows w (m w).2 ∧
    ((∀ k ∈ keys, k ∈ storedKeys w.cluster) → Still w (m w).2) ∧
    ("RobustMQ" ∈ env.Scheme → ∀ k ∈ keys, k ∈ storedKeys (m w).2.cluster)

/-! ## Reference notions: the synthesized nodes -/

/-- The number of ready replicas recorded for a component: its `ReadyReplicas` taken as
non-negative, and none when `DeploymentStatuses` has no record of the component. -/
def readyCount (robustmq : RobustMQ) (component : String) : Nat :=
  match robustmq.Status.DeploymentStatuses.get? component with
  | some status => status.ReadyReplicas.toNat
  | none => 0

/-- ID and roles of a node. -/
def NodeInfo.identity (node : NodeInfo) : String × List String := (node.ID, node.Roles)

/-- The test resource (AllInOne) with two ready replicas recorded. -/
def readyResource : RobustMQ :=
  testResourceWith "Running"
    [("all-in-one", { Replicas := 2, ReadyReplicas := 2, AvailableReplicas := 2 })] []

/-- The test resource in Microservices mode with one ready meta replica and two ready
brokers recorded, and a leader left from an earlier pass. -/
def readyMicroservices : RobustMQ :=
  { withDeploymentMode testResource MicroservicesMode with
    Status := { emptyStatus with
      Phase := "Running"
      DeploymentStatuses :=
        [ ("meta-service", { Replicas := 3, ReadyReplicas := 1, AvailableReplicas := 1 }),
          ("mqtt-broker", { Replicas := 2, ReadyReplicas := 2, AvailableReplicas := 2 }) ]
      ClusterInfo := { ClusterName := "test-resource", Nodes := [], MetaLeader := "old-0" } } }

/-- The test resource in Microservices mode whose three service sections differ in their
resource requests and node selectors. -/
def microservicesResource : RobustMQ :=
  { withDeploymentMode testResource MicroservicesMode with
    Spec := { (withDeploymentMode testResource MicroservicesMode).Spec with
      Microservices := some
        { MetaService :=
            { Replicas := 3
              Resources := { Limits := [], Requests := [("cpu", "1")] }
              NodeSelector := [("pool", "meta")], Affinity := none, Tolerations := []
              Storage := none }
          BrokerService :=
            { Replicas := 2
              Resources := { Limits := [], Requests := [("cpu", "2")] }
              NodeSelector := [("pool", "broker")], Affinity := none, Tolerations := []
              Storage := none }
          JournalService :=
            { Replicas := 3
              Resources := { Limits := [], Requests := [("cpu", "3")] }
              NodeSelector := [("pool", "journal")], Affinity := none, Tolerations := []
              Storage := none } } } }

/-- The test resource after a switch from AllInOne to Microservices: the Status still holds
the record of the all-in-one workload (one replica, none ready) and of the `grpc` endpoint,
which only the AllInOne topology has. -/
def staleResource : RobustMQ :=
  { withDeploymentMode testResource MicroservicesMode with
    Status := { emptyStatus with
      Phase := "Failed"
      DeploymentStatuses :=
        [("all-in-one", { Replicas := 1, ReadyReplicas := 0, AvailableReplicas := 0 })]
      ServiceStatuses :=
        [("test-resource-grpc",
          { ClusterIP := "10.0.0.7", ExternalIPs := [], LoadBalancerIngress := [] })] } }

/-- A world that holds `staleResource` and its three Microservices workloads, all of whose
replicas are ready. -/
def staleWorld : World :=
  { cluster :=
      { RobustMQs := [staleResource]
        ConfigMaps := []
        Services := []
        StatefulSets :=
          [ { metaServiceStatefulSet staleResource [] with
              Status := { Replicas := 3, ReadyReplicas := 3 } },
            { journalServiceStatefulSet staleResource [] with
              Status := { Replicas := 3, ReadyReplicas := 3 } } ]
        Deployments :=
          [ { mqttBrokerDeployment staleResource with
              Status := { Replicas := 2, ReadyReplicas := 2, AvailableReplicas := 2 } } ] }
    calls := []
    ticks := 0 }

/-- The instance stored under the test request in a world, if any. -/
def storedInstance (w : World) : Option RobustMQ :=
  lookup robustMQs w.cluster "default" "test-resource"

/-- Whether a call returned normally. -/
def Outcome.isOk {α : Type} : Outcome α → Bool
  | Outcome.ok _ => true
  | _ => false

/-! ## Reference notions: failing requests -/

/-- A procedure that ends at the first failing request: when the request at position `i` of
those it issues fails with `msg`, that request is the last one issued and the procedure
returns the error. -/
def FailFast {α : Type} (env : Env) (m : M α) : Prop :=
  ∀ w, ∃ issued, (m w).2.calls = w.calls ++ issued ∧
    ∀ i msg, i < issued.length → env.faults (w.calls.length + i) = some msg →
      i + 1 = issued.length ∧ (m w).1 = Outcome.err (Err.other msg)

/-- A procedure that never changes the cluster. -/
def ReadOnly {α : Type} (m : M α) : Prop :=
  ∀ w, (m w).2.cluster = w.cluster

/-- A procedure that changes the cluster only when it returns normally. -/
def WritesOnSuccess {α : Type} (m : M α) : Prop :=
  ∀ w, (m w).1.isOk = false → (m w).2.cluster = w.cluster

/-- A status reader that returns normally: it yields the instance with, at most, another
Status, records its requests and leaves cluster and clock as they are. -/
def Reads (robustmq : RobustMQ) (m : M RobustMQ) : Prop :=
  ∀ w, ∃ r issued, m w = (Outcome.ok r, { w with calls := w.calls ++ issued }) ∧
    r.Name = robustmq.Name ∧ r.Namespace = robustmq.Namespace ∧ r.Spec = robustmq.Spec

/-- An environment in which exactly the request of the given index fails. -/
def faultyEnv (n : Nat) : Env :=
  { calmEnv with faults := fun i => if i = n then some "connection refused" else none }

/-! ## Reference notions: the descriptors of a pass -/

/-- A descriptor handed to create-or-update during a pass: the config resource, a
network-endpoint or a workload. -/
inductive Descriptor where
  | config
  | endpoint (s : Service)
  | workload (x : Workload)
deriving DecidableEq, Repr

/-- Create-or-update of one descriptor. -/
def applyDescriptor (env : Env) (robustmq : RobustMQ) : Descriptor → M Unit
  | Descriptor.config => reconcileConfigMap env robustmq
  | Descriptor.endpoint s => createOrUpdateService env robustmq s
  | Descriptor.workload x => createOrUpdateWorkload env robustmq x

/-- The descriptors of a pass in the order in which `Reconcile` handles them
(robustmq_controller.go 98-128): the config resource, the compiled services, the compiled
workloads; `none` when building the workloads panics. -/
def compiledDescriptors (MustParse : String → Option Quantity) (robustmq : RobustMQ) :
    Option (List Descriptor) :=
  (compiledWorkloads MustParse robustmq).map fun workloads =>
    Descriptor.config ::
      ((compiledServices robustmq).map Descriptor.endpoint
        ++ workloads.map Descriptor.workload)

/-- The first steps of `Reconcile` (robustmq_controller.go 75-96): load the instance and
initialise its phase; `none` when the instance is not found. -/
def loadInstance (env : Env) (req : Request) : M (Option RobustMQ) := do
  let got ← attempt (apiGet env robustMQs req.Namespace req.Name)
  match got with
  | Except.error Err.notFound => pure none
  | Except.error e => fail e
  | Except.ok robustmq =>
    if robustmq.Status.Phase = "" then do
      let initialized : RobustMQ :=
        { robustmq with Status := { robustmq.Status with Phase := PhaseInitializing } }
      apiStatusUpdate env initialized
      pure (some initialized)
    else pure (some robustmq)

/-- The test resource once its phase is initialised. -/
def initializedResource : RobustMQ :=
  { testResource with Status := { testResource.Status with Phase := PhaseInitializing } }

/-- A world whose cluster is empty. -/
def emptyWorld : World :=
  { cluster := { RobustMQs := [], ConfigMaps := [], Services := [], StatefulSets := []
                 Deployments := [] }
    calls := []
    ticks := 0 }

/-! ## Reference notions: ports, labels and volumes of the compiled resources -/

/-- The port numbers the containers of a workload expose. -/
def Workload.containerPorts (x : Workload) : List Int :=
  x.podSpec.Containers.flatMap fun c => c.Ports.map fun p => p.ContainerPort

/-- The port numbers some container of the given workloads exposes. -/
def exposedPorts (workloads : List Workload) : List Int :=
  workloads.flatMap Workload.containerPorts

/-- The target ports of the given services, each with the name of its service. -/
def targetedPorts (endpoints : List Service) : List (String × Int) :=
  endpoints.flatMap fun s => s.Spec.Ports.map fun p => (s.ObjectMeta.Name, p.TargetPort)

/-- The target ports of the given services that no container of the given workloads
exposes. -/
def danglingPorts (endpoints : List Service) (workloads : List Workload) :
    List (String × Int) :=
  (targetedPorts endpoints).filter fun target => !(exposedPorts workloads).contains target.2

/-- The test resource (AllInOne) whose only replica is no longer ready, with the leader a
pass recorded while it was. -/
def leaderlessResource : RobustMQ :=
  { testResource with
    Status := { emptyStatus with
      Phase := "Failed"
      DeploymentStatuses :=
        [("all-in-one", { Replicas := 1, ReadyReplicas := 0, AvailableReplicas := 0 })]
      ClusterInfo :=
        { ClusterName := "test-resource"
          Nodes :=
            [ { ID := "test-resource-0", Roles := [MetaRole, BrokerRole, JournalRole]
                Address :=
                  "test-resource-0.test-resource-meta-service.default.svc.cluster.local:1228"
                Status := "Running" } ]
          MetaLeader := "test-resource-0" } } }

/-- Labels of the pod template of a workload (`Spec.Template.ObjectMeta.Labels`). -/
def Workload.templateLabels : Workload → GoMap String
  | Workload.statefulSet s => s.Spec.Template.Labels
  | Workload.deployment d => d.Spec.Template.Labels

/-- Equality-based label selection: every key of the selector is present in the labels with
the same value. -/
def selects (selector labels : GoMap String) : Bool :=
  selector.all fun kv => labels.get? kv.1 == some kv.2

/-- Names of the volumes mounted by the containers of a workload, in order. -/
def Workload.mountedNames (x : Workload) : List String :=
  x.podSpec.Containers.flatMap fun c => c.VolumeMounts.map fun m => m.Name

/-- Names of the volume claim templates of a workload; a Deployment has none. -/
def Workload.claimNames : Workload → List String
  | Workload.statefulSet s => s.Spec.VolumeClaimTemplates.map fun claim => claim.Name
  | Workload.deployment _ => []

/-- Names a mount can refer to: the pod's volumes, then the volume claim templates. -/
def Workload.providedNames (x : Workload) : List String :=
  (x.podSpec.Volumes.map fun v => v.Name) ++ x.claimNames

/-- Value of a decimal digit string read from the left (the inverse of Go `%d` on a
non-negative integer). -/
def decodeDigits (acc : Nat) (ds : List Char) : Nat :=
  ds.foldl (fun acc c => acc * 10 + (c.toNat - 48)) acc

/-- The test instance with an empty `Storage.Size`, as stored when the field is left out and
no default is applied. -/
def unsizedResource : RobustMQ :=
  { testResource with
    Spec := { testResource.Spec with
      Storage := { testResource.Spec.Storage with Size := "" } } }
/-! # Theorems -/

/-! ## Helper lemmas: `int32` sums -/

theorem wrapInt32_add_left (a b : Int) : wrapInt32 (wrapInt32 a + b) = wrapInt32 (a + b) := by
  unfold wrapInt32; omega

theorem wrapInt32_of_isInt32 (x : Int) (h : isInt32 x) : wrapInt32 x = x := by
  unfold isInt32 at h; unfold wrapInt32; omega

theorem countReplicas_foldl (statuses : GoMap DeploymentStatus) (a b : Int) :
    statuses.foldl
      (fun acc kv => (wrapInt32 (acc.1 + kv.2.Replicas), wrapInt32 (acc.2 + kv.2.ReadyReplicas)))
      (wrapInt32 a, wrapInt32 b)
    = (wrapInt32 (a + sumReplicas statuses), wrapInt32 (b + sumReadyReplicas statuses)) := by
  induction statuses generalizing a b with
  | nil => simp [sumReplicas, sumReadyReplicas]
  | cons kv rest ih =>
    simp only [List.foldl_cons, wrapInt32_add_left]
    rw [ih]
    simp [sumReplicas, sumReadyReplicas, add_assoc]

theorem countReplicas_eq (statuses : GoMap DeploymentStatus) :
    countReplicas statuses
      = (wrapInt32 (sumReplicas statuses), wrapInt32 (sumReadyReplicas statuses)) := by
  have h := countReplicas_foldl statuses 0 0
  have h0 : wrapInt32 0 = 0 := by decide
  simp only [h0, zero_add] at h
  exact h

theorem updateOverallPhase_phase_eq (robustmq : RobustMQ) :
    (updateOverallPhase robustmq).Status.Phase =
      if wrapInt32 (sumReplicas robustmq.Status.DeploymentStatuses) = 0 then PhaseInitializing
      else if wrapInt32 (sumReadyReplicas robustmq.Status.DeploymentStatuses) = 0 then PhaseFailed
      else if wrapInt32 (sumReadyReplicas robustmq.Status.DeploymentStatuses)
          < wrapInt32 (sumReplicas robustmq.Status.DeploymentStatuses) then PhaseUpdating
      else PhaseRunning := by
  unfold updateOverallPhase
  simp only [countReplicas_eq]
  split_ifs <;> rfl

/-! ## C1 -/

/-- C1 as stated fails: three components with valid `int32` replica counts
2147483647, 2147483647 and 2 have exact total 4294967296 > 0 and exact ready total 0, so the
claim requires `Failed`, but the `int32` total wraps to 0 and the phase is `Initializing`. -/
theorem updateOverallPhase_exact_sum_counterexample :
    (∀ kv ∈ overflowStatuses, isInt32 kv.2.Replicas ∧ isInt32 kv.2.ReadyReplicas) ∧
    0 < sumReplicas overflowStatuses ∧
    sumReadyReplicas overflowStatuses = 0 ∧
    (updateOverallPhase (testResourceWith "" overflowStatuses [])).Status.Phase
      = PhaseInitializing ∧
    (updateOverallPhase (testResourceWith "" overflowStatuses [])).Status.Phase
      ≠ PhaseFailed := by
  decide

/-- C1 (amended): with `total` and `ready` the sums of `Replicas` and `ReadyReplicas` over all
`DeploymentStatuses` entries taken in `int32` arithmetic (equal to the exact sums whenever
those fit in `int32`), `updateOverallPhase` sets `Initializing` when `total = 0`, `Failed` when
`total > 0` and `ready = 0`, `Updating` when `0 < ready < total`, `Running` when
`ready = total ≠ 0`; the phase is always one of the four constants and never empty. -/
theorem updateOverallPhase_derives_phase (robustmq : RobustMQ) (total ready : Int)
    (htotal : total = wrapInt32 (sumReplicas robustmq.Status.DeploymentStatuses))
    (hready : ready = wrapInt32 (sumReadyReplicas robustmq.Status.DeploymentStatuses)) :
    (total = 0 → (updateOverallPhase robustmq).Status.Phase = PhaseInitializing) ∧
    (0 < total → ready = 0 → (updateOverallPhase robustmq).Status.Phase = PhaseFailed) ∧
    (0 < ready → ready < total →
      (updateOverallPhase robustmq).Status.Phase = PhaseUpdating) ∧
    (ready = total → total ≠ 0 → (updateOverallPhase robustmq).Status.Phase = PhaseRunning) ∧
    (updateOverallPhase robustmq).Status.Phase
      ∈ [PhaseInitializing, PhaseRunning, PhaseFailed, PhaseUpdating] ∧
    (updateOverallPhase robustmq).Status.Phase ≠ "" ∧
    (isInt32 (sumReplicas robustmq.Status.DeploymentStatuses) →
      total = sumReplicas robustmq.Status.DeploymentStatuses) ∧
    (isInt32 (sumReadyReplicas robustmq.Status.DeploymentStatuses) →
      ready = sumReadyReplicas robustmq.Status.DeploymentStatuses) := by
  rw [updateOverallPhase_phase_eq, ← htotal, ← hready]
  refine ⟨?_, ?_, ?_, ?_, ?_, ?_, ?_, ?_⟩
  · intro h; simp [h]
  · intro h1 h2; simp [h2, ne_of_gt h1]
  · intro h1 h2
    have h3 : total ≠ 0 := by omega
    simp [h3, ne_of_gt h1, h2]
  · intro h1 h2
    subst h1
    simp [h2]
  · split_ifs <;> simp
  · split_ifs <;> decide
  · intro h; rw [htotal]; exact wrapInt32_of_isInt32 _ h
  · intro h; rw [hready]; exact wrapInt32_of_isInt32 _ h

/-- Witness for C1 (amended): the test resource with 3 replicas of which 2 are ready. -/
theorem updateOverallPhase_derives_phase_witness :
    (updateOverallPhase (testResourceWith ""
      [("all-in-one", { Replicas := 3, ReadyReplicas := 2, AvailableReplicas := 2 })]
      [])).Status.Phase = PhaseUpdating :=
  (updateOverallPhase_derives_phase (testResourceWith ""
      [("all-in-one", { Replicas := 3, ReadyReplicas := 2, AvailableReplicas := 2 })] [])
    3 2 (by decide) (by decide)).2.2.1 (by decide) (by decide)


/-! ## Helper lemmas: condition upsert -/

theorem storedCondition_type (now : Time) (prior condition : Condition) :
    (storedCondition now prior condition).Type_ = condition.Type_ := rfl

theorem setConditionLoop_cases (now : Time) (condition : Condition) (l : List Condition) :
    ((∀ x ∈ l, x.Type_ ≠ condition.Type_) ∧ setConditionLoop now condition l = none) ∨
    (∃ pre prior post, l = pre ++ prior :: post ∧ (∀ x ∈ pre, x.Type_ ≠ condition.Type_) ∧
      prior.Type_ = condition.Type_ ∧
      setConditionLoop now condition l
        = some (pre ++ storedCondition now prior condition :: post)) := by
  induction l with
  | nil => left; simp [setConditionLoop]
  | cons e rest ih =>
    by_cases hty : e.Type_ = condition.Type_
    · right
      refine ⟨[], e, rest, rfl, by simp, hty, ?_⟩
      by_cases hst : e.Status = condition.Status
      · simp [setConditionLoop, hty, hst, storedCondition]
      · simp [setConditionLoop, hty, hst, storedCondition]
    · rcases ih with ⟨hall, hnone⟩ | ⟨pre, prior, post, hl, hpre, hprior, hsome⟩
      · left
        refine ⟨?_, ?_⟩
        · intro x hx
          rcases List.mem_cons.mp hx with rfl | hx
          · exact hty
          · exact hall x hx
        · simp [setConditionLoop, hty, hnone]
      · right
        refine ⟨e :: pre, prior, post, by simp [hl], ?_, hprior, ?_⟩
        · intro x hx
          rcases List.mem_cons.mp hx with rfl | hx
          · exact hty
          · exact hpre x hx
        · simp [setConditionLoop, hty, hsome]

theorem setConditionList_cases (now : Time) (condition : Condition) (l : List Condition) :
    ((∀ x ∈ l, x.Type_ ≠ condition.Type_) ∧ setConditionList now l condition = l ++ [condition]) ∨
    (∃ pre prior post, l = pre ++ prior :: post ∧ (∀ x ∈ pre, x.Type_ ≠ condition.Type_) ∧
      prior.Type_ = condition.Type_ ∧
      setConditionList now l condition
        = pre ++ storedCondition now prior condition :: post) := by
  rcases setConditionLoop_cases now condition l with ⟨hall, hnone⟩ | ⟨pre, prior, post, hl, hpre, hprior, hsome⟩
  · left; exact ⟨hall, by simp [setConditionList, hnone]⟩
  · right; exact ⟨pre, prior, post, hl, hpre, hprior, by simp [setConditionList, hsome]⟩

theorem findCondition_none_iff (l : List Condition) (t : String) :
    findCondition l t = none ↔ ∀ x ∈ l, x.Type_ ≠ t := by
  simp [findCondition]

theorem findCondition_split (pre post : List Condition) (x : Condition) (t : String)
    (hpre : ∀ y ∈ pre, y.Type_ ≠ t) (hx : x.Type_ = t) :
    findCondition (pre ++ x :: post) t = some x := by
  unfold findCondition
  rw [List.find?_append]
  have h1 : List.find? (fun c => c.Type_ == t) pre = none := by
    simpa using hpre
  simp [h1, hx]

theorem findCondition_split_ne (pre post : List Condition) (x : Condition) (t : String)
    (hx : x.Type_ ≠ t) :
    findCondition (pre ++ x :: post) t = findCondition (pre ++ post) t := by
  unfold findCondition
  simp [List.find?_append, List.find?_cons, hx]

/-- Reading a type other than the one written is unaffected by `setCondition`. -/
theorem findCondition_setConditionList_ne (now : Time) (l : List Condition)
    (condition : Condition) (t : String) (ht : condition.Type_ ≠ t) :
    findCondition (setConditionList now l condition) t = findCondition l t := by
  rcases setConditionList_cases now condition l with ⟨_, hres⟩ | ⟨pre, prior, post, hl, _, hprior, hres⟩
  · rw [hres]
    unfold findCondition
    simp [List.find?_append, List.find?_cons, ht]
  · rw [hres, hl]
    rw [findCondition_split_ne pre post _ t (by rw [storedCondition_type]; exact ht)]
    rw [findCondition_split_ne pre post _ t (by rw [hprior]; exact ht)]

/-- Reading the type just written returns the stored condition. -/
theorem findCondition_setConditionList_eq (now : Time) (l : List Condition)
    (condition : Condition) :
    findCondition (setConditionList now l condition) condition.Type_ =
      match findCondition l condition.Type_ with
      | some prior => some (storedCondition now prior condition)
      | none => some condition := by
  rcases setConditionList_cases now condition l with ⟨hall, hres⟩ | ⟨pre, prior, post, hl, hpre, hprior, hres⟩
  · rw [hres, (findCondition_none_iff l _).mpr hall]
    exact findCondition_split l [] condition _ hall rfl
  · rw [hres]
    rw [findCondition_split pre post _ _ hpre (storedCondition_type _ _ _)]
    rw [hl, findCondition_split pre post prior _ hpre hprior]

theorem setConditionList_types (now : Time) (l : List Condition) (condition : Condition) :
    (setConditionList now l condition).map (fun c => c.Type_) =
      if condition.Type_ ∈ l.map (fun c => c.Type_) then l.map (fun c => c.Type_)
      else l.map (fun c => c.Type_) ++ [condition.Type_] := by
  rcases setConditionList_cases now condition l with ⟨hall, hres⟩ | ⟨pre, prior, post, hl, hpre, hprior, hres⟩
  · have hnot : condition.Type_ ∉ l.map (fun c => c.Type_) := by
      simp only [List.mem_map, not_exists, not_and]
      intro x hx; exact hall x hx
    rw [if_neg hnot, hres]; simp
  · have hin : condition.Type_ ∈ l.map (fun c => c.Type_) := by
      rw [hl]; simp [hprior]
    rw [if_pos hin, hres, hl]; simp [storedCondition_type, hprior]

theorem setConditionList_types_nodup (now : Time) (l : List Condition) (condition : Condition)
    (h : (l.map (fun c => c.Type_)).Nodup) :
    ((setConditionList now l condition).map (fun c => c.Type_)).Nodup := by
  rw [setConditionList_types]
  split_ifs with hin
  · exact h
  · exact List.Nodup.append h (by simp) (by simpa using hin)

theorem setConditionList_type_mem (now : Time) (l : List Condition) (condition : Condition) :
    condition.Type_ ∈ (setConditionList now l condition).map (fun c => c.Type_) := by
  rw [setConditionList_types]
  split_ifs with hin
  · exact hin
  · simp

theorem setConditionList_types_subset (now : Time) (l : List Condition) (condition : Condition)
    (t : String) (ht : t ∈ l.map (fun c => c.Type_)) :
    t ∈ (setConditionList now l condition).map (fun c => c.Type_) := by
  rw [setConditionList_types]
  split_ifs with hin
  · exact ht
  · exact List.mem_append_left _ ht


/-! ## Helper lemmas: `updateConditions` -/

theorem conditionType_ready_ne_configMap : ConditionTypeReady ≠ ConditionTypeConfigMapReady := by
  decide

theorem conditionType_ready_ne_service : ConditionTypeReady ≠ ConditionTypeServiceReady := by
  decide

theorem conditionType_configMap_ne_service :
    ConditionTypeConfigMapReady ≠ ConditionTypeServiceReady := by
  decide

theorem readyCondition_type (now : Time) (robustmq : RobustMQ) :
    (readyCondition now robustmq).Type_ = ConditionTypeReady := by
  unfold readyCondition; split_ifs <;> rfl

theorem updateConditions_conditions (now t1 t2 t3 : Time) (robustmq : RobustMQ) :
    (updateConditions now t1 t2 t3 robustmq).Status.Conditions =
      setConditionList t3
        (setConditionList t2
          (setConditionList t1 robustmq.Status.Conditions (readyCondition now robustmq))
          (configMapCondition now robustmq))
        (serviceCondition now robustmq) := rfl

theorem updateConditions_phase (now t1 t2 t3 : Time) (robustmq : RobustMQ) :
    (updateConditions now t1 t2 t3 robustmq).Status.Phase = robustmq.Status.Phase := rfl

/-- The `Ready` condition after `updateConditions` is the one stored by the first
`setCondition` call. -/
theorem updateConditions_findReady (now t1 t2 t3 : Time) (robustmq : RobustMQ) :
    findCondition (updateConditions now t1 t2 t3 robustmq).Status.Conditions ConditionTypeReady =
      match findCondition robustmq.Status.Conditions ConditionTypeReady with
      | some prior => some (storedCondition t1 prior (readyCondition now robustmq))
      | none => some (readyCondition now robustmq) := by
  rw [updateConditions_conditions]
  rw [findCondition_setConditionList_ne t3 _ _ ConditionTypeReady
    (fun h => conditionType_ready_ne_service h.symm)]
  rw [findCondition_setConditionList_ne t2 _ _ ConditionTypeReady
    (fun h => conditionType_ready_ne_configMap h.symm)]
  have h := findCondition_setConditionList_eq t1 robustmq.Status.Conditions
    (readyCondition now robustmq)
  rw [readyCondition_type] at h
  exact h

/-! ## C2 -/

/-- C2: when the conditions already hold a condition `prior` of the given type, `setCondition`
stores the new condition with `LastTransitionTime` equal to `prior.LastTransitionTime` if the
new `Status` equals `prior.Status` and equal to the current time otherwise; hence
`updateConditions` leaves the `LastTransitionTime` of an existing `Ready` condition unchanged
whenever the re-derived `Ready` status equals the prior one. -/
theorem setCondition_lastTransitionTime (now : Time) (robustmq : RobustMQ)
    (condition prior : Condition)
    (hprior : findCondition robustmq.Status.Conditions condition.Type_ = some prior) :
    (∃ stored,
      findCondition (setCondition now robustmq condition).Status.Conditions condition.Type_
        = some stored ∧
      (prior.Status = condition.Status →
        stored.LastTransitionTime = prior.LastTransitionTime) ∧
      (prior.Status ≠ condition.Status → stored.LastTransitionTime = now) ∧
      stored = { condition with LastTransitionTime := stored.LastTransitionTime }) ∧
    (∀ now0 t2 t3 : Time, condition = readyCondition now0 robustmq →
      prior.Status = condition.Status →
      ∃ ready,
        findCondition (updateConditions now0 now t2 t3 robustmq).Status.Conditions
          ConditionTypeReady = some ready ∧
        ready.LastTransitionTime = prior.LastTransitionTime ∧
        ready.Status = prior.Status) := by
  constructor
  · refine ⟨storedCondition now prior condition, ?_, ?_, ?_, rfl⟩
    · have h := findCondition_setConditionList_eq now robustmq.Status.Conditions condition
      rw [hprior] at h
      exact h
    · intro h; simp [storedCondition, h]
    · intro h; simp [storedCondition, h]
  · intro now0 t2 t3 hc hst
    subst hc
    rw [readyCondition_type] at hprior
    refine ⟨storedCondition now prior (readyCondition now0 robustmq), ?_, ?_, ?_⟩
    · rw [updateConditions_findReady, hprior]
    · simp [storedCondition, hst]
    · simp [storedCondition, hst]

/-- Witness for C2: a `Ready=False` condition stamped at instant 5 on the test resource in
phase `Failed`; re-deriving it at instant 9 keeps instant 5. -/
theorem setCondition_lastTransitionTime_witness :
    ∃ ready,
      findCondition (updateConditions 9 9 9 9 (testResourceWith PhaseFailed []
        [{ Type_ := ConditionTypeReady, Status := ConditionFalse, ObservedGeneration := 1,
           LastTransitionTime := 5, Reason := "ComponentsNotReady",
           Message := "RobustMQ is in Failed phase" }])).Status.Conditions
        ConditionTypeReady = some ready ∧
      ready.LastTransitionTime = 5 ∧ ready.Status = ConditionFalse :=
  (setCondition_lastTransitionTime 9 (testResourceWith PhaseFailed []
        [{ Type_ := ConditionTypeReady, Status := ConditionFalse, ObservedGeneration := 1,
           LastTransitionTime := 5, Reason := "ComponentsNotReady",
           Message := "RobustMQ is in Failed phase" }])
    (readyCondition 9 (testResourceWith PhaseFailed []
        [{ Type_ := ConditionTypeReady, Status := ConditionFalse, ObservedGeneration := 1,
           LastTransitionTime := 5, Reason := "ComponentsNotReady",
           Message := "RobustMQ is in Failed phase" }]))
    { Type_ := ConditionTypeReady, Status := ConditionFalse, ObservedGeneration := 1,
      LastTransitionTime := 5, Reason := "ComponentsNotReady",
      Message := "RobustMQ is in Failed phase" }
    (by decide)).2 9 9 9 rfl (by decide)

/-! ## C3 -/

/-- C3: after `updateConditions` the `Ready` condition has `Status` `True` if and only if
`Status.Phase` is `Running`, and `False` for every other phase value. -/
theorem updateConditions_ready_status (now t1 t2 t3 : Time) (robustmq : RobustMQ) :
    ∃ ready,
      findCondition (updateConditions now t1 t2 t3 robustmq).Status.Conditions
        ConditionTypeReady = some ready ∧
      (ready.Status = ConditionTrue ↔
        (updateConditions now t1 t2 t3 robustmq).Status.Phase = PhaseRunning) ∧
      ((updateConditions now t1 t2 t3 robustmq).Status.Phase ≠ PhaseRunning →
        ready.Status = ConditionFalse) ∧
      (updateConditions now t1 t2 t3 robustmq).Status.Phase = robustmq.Status.Phase := by
  rw [updateConditions_findReady, updateConditions_phase]
  have hst : (readyCondition now robustmq).Status
      = if robustmq.Status.Phase = PhaseRunning then ConditionTrue else ConditionFalse := by
    unfold readyCondition; split_ifs <;> rfl
  have htf : ConditionFalse ≠ ConditionTrue := by decide
  cases hfind : findCondition robustmq.Status.Conditions ConditionTypeReady with
  | none =>
    refine ⟨readyCondition now robustmq, rfl, ?_, ?_, rfl⟩
    · rw [hst]; split_ifs with h <;> simp [h, htf]
    · intro h; rw [hst, if_neg h]
  | some prior =>
    refine ⟨storedCondition t1 prior (readyCondition now robustmq), rfl, ?_, ?_, rfl⟩
    · show (readyCondition now robustmq).Status = ConditionTrue ↔ _
      rw [hst]; split_ifs with h <;> simp [h, htf]
    · intro h
      show (readyCondition now robustmq).Status = ConditionFalse
      rw [hst, if_neg h]

/-- Witness for C3 on the test resource in phase `Updating`. -/
theorem updateConditions_ready_status_witness :
    ∃ ready,
      findCondition (updateConditions 1 2 3 4 (testResourceWith PhaseUpdating [] [])
        ).Status.Conditions ConditionTypeReady = some ready ∧
      ready.Status = ConditionFalse := by
  obtain ⟨ready, h1, _, h3, _⟩ :=
    updateConditions_ready_status 1 2 3 4 (testResourceWith PhaseUpdating [] [])
  exact ⟨ready, h1, h3 (by decide)⟩

/-! ## C4 -/

/-- C4 as stated fails: on the test resource in phase `Failed` the `Ready` condition written
by `updateConditions` has `Reason` `ComponentsNotReady`, which neither equals nor contains
the phase name `Failed`. -/
theorem updateConditions_ready_reason_counterexample :
    (testResourceWith PhaseFailed [] []).Status.Phase ≠ PhaseRunning ∧
    ¬ (∃ ready,
        findCondition (updateConditions 1 1 1 1 (testResourceWith PhaseFailed [] [])
          ).Status.Conditions ConditionTypeReady = some ready ∧
        ready.Status = ConditionFalse ∧
        ready.Reason = (testResourceWith PhaseFailed [] []).Status.Phase) ∧
    ¬ (∃ ready,
        findCondition (updateConditions 1 1 1 1 (testResourceWith PhaseFailed [] [])
          ).Status.Conditions ConditionTypeReady = some ready ∧
        (testResourceWith PhaseFailed [] []).Status.Phase.data <:+: ready.Reason.data) := by
  refine ⟨by decide, ?_, ?_⟩
  · rintro ⟨ready, h1, _, h3⟩
    rw [updateConditions_findReady] at h1
    have h : ready = readyCondition 1 (testResourceWith PhaseFailed [] []) := by
      simpa [findCondition, testResourceWith, emptyStatus] using h1.symm
    subst h
    revert h3
    decide
  · rintro ⟨ready, h1, h3⟩
    rw [updateConditions_findReady] at h1
    have h : ready = readyCondition 1 (testResourceWith PhaseFailed [] []) := by
      simpa [findCondition, testResourceWith, emptyStatus] using h1.symm
    subst h
    revert h3
    decide

/-- C4 (amended): whenever `Status.Phase` is not `Running`, the `Ready` condition written by
`updateConditions` has `Status` `False`, the fixed `Reason` `ComponentsNotReady`, and the
`Message` `RobustMQ is in <phase> phase`, which is the text that names the current phase. -/
theorem updateConditions_ready_not_running (now t1 t2 t3 : Time) (robustmq : RobustMQ)
    (hphase : robustmq.Status.Phase ≠ PhaseRunning) :
    ∃ ready,
      findCondition (updateConditions now t1 t2 t3 robustmq).Status.Conditions
        ConditionTypeReady = some ready ∧
      ready.Status = ConditionFalse ∧
      ready.Reason = "ComponentsNotReady" ∧
      ready.Message = "RobustMQ is in " ++ robustmq.Status.Phase ++ " phase" := by
  rw [updateConditions_findReady]
  have hrc : readyCondition now robustmq =
      { Type_ := ConditionTypeReady
        Status := ConditionFalse
        ObservedGeneration := robustmq.Generation
        LastTransitionTime := now
        Reason := "ComponentsNotReady"
        Message := "RobustMQ is in " ++ robustmq.Status.Phase ++ " phase" } := by
    unfold readyCondition; rw [if_neg hphase]
  cases hfind : findCondition robustmq.Status.Conditions ConditionTypeReady with
  | none => exact ⟨readyCondition now robustmq, rfl, by rw [hrc], by rw [hrc], by rw [hrc]⟩
  | some prior =>
    refine ⟨storedCondition t1 prior (readyCondition now robustmq), rfl, ?_, ?_, ?_⟩
    · show (readyCondition now robustmq).Status = _; rw [hrc]
    · show (readyCondition now robustmq).Reason = _; rw [hrc]
    · show (readyCondition now robustmq).Message = _; rw [hrc]

/-- Witness for C4 (amended) on the test resource in phase `Failed`. -/
theorem updateConditions_ready_not_running_witness :
    ∃ ready,
      findCondition (updateConditions 1 2 3 4 (testResourceWith PhaseFailed [] [])
        ).Status.Conditions ConditionTypeReady = some ready ∧
      ready.Status = ConditionFalse ∧
      ready.Reason = "ComponentsNotReady" ∧
      ready.Message = "RobustMQ is in " ++ PhaseFailed ++ " phase" :=
  updateConditions_ready_not_running 1 2 3 4 (testResourceWith PhaseFailed [] [])
    (by decide)


/-! ## C5 -/

/-- C5: `setCondition` upserts by type. Pairwise distinct types stay pairwise distinct; a
condition of an existing type is replaced in place (same length, same order, every other
entry unchanged); a condition of a new type is appended at the end. Consequently, after
`updateConditions` on a list with pairwise distinct types there is exactly one condition of
each of the types `Ready`, `ConfigMapReady` and `ServiceReady`. -/
theorem setCondition_upsert (now : Time) (robustmq : RobustMQ) (condition : Condition) :
    ((robustmq.Status.Conditions.map (fun c => c.Type_)).Nodup →
      ((setCondition now robustmq condition).Status.Conditions.map (fun c => c.Type_)).Nodup) ∧
    (∀ prior, findCondition robustmq.Status.Conditions condition.Type_ = some prior →
      ∃ pre post,
        robustmq.Status.Conditions = pre ++ prior :: post ∧
        (∀ x ∈ pre, x.Type_ ≠ condition.Type_) ∧
        (setCondition now robustmq condition).Status.Conditions
          = pre ++ storedCondition now prior condition :: post ∧
        (setCondition now robustmq condition).Status.Conditions.length
          = robustmq.Status.Conditions.length) ∧
    (findCondition robustmq.Status.Conditions condition.Type_ = none →
      (setCondition now robustmq condition).Status.Conditions
        = robustmq.Status.Conditions ++ [condition]) ∧
    (∀ now0 t2 t3 : Time, (robustmq.Status.Conditions.map (fun c => c.Type_)).Nodup →
      ∀ t ∈ [ConditionTypeReady, ConditionTypeConfigMapReady, ConditionTypeServiceReady],
        (updateConditions now0 now t2 t3 robustmq).Status.Conditions.countP
          (fun c => c.Type_ == t) = 1) := by
  refine ⟨?_, ?_, ?_, ?_⟩
  · exact setConditionList_types_nodup now _ condition
  · intro prior hprior
    rcases setConditionList_cases now condition robustmq.Status.Conditions with
      ⟨hall, _⟩ | ⟨pre, prior0, post, hl, hpre, hprior0, hres⟩
    · rw [(findCondition_none_iff _ _).mpr hall] at hprior
      exact absurd hprior (by simp)
    · have hfind := findCondition_split pre post prior0 _ hpre hprior0
      rw [← hl, hprior] at hfind
      have heq : prior = prior0 := Option.some.inj hfind
      subst heq
      refine ⟨pre, post, hl, hpre, hres, ?_⟩
      show (setConditionList now robustmq.Status.Conditions condition).length = _
      rw [hres, hl]; simp
  · intro hnone
    rcases setConditionList_cases now condition robustmq.Status.Conditions with
      ⟨_, hres⟩ | ⟨pre, prior0, post, hl, hpre, hprior0, _⟩
    · exact hres
    · have hfind := findCondition_split pre post prior0 _ hpre hprior0
      rw [← hl, hnone] at hfind
      exact absurd hfind (by simp)
  · intro now0 t2 t3 hnodup t ht
    rw [updateConditions_conditions]
    have hn1 := setConditionList_types_nodup now robustmq.Status.Conditions
      (readyCondition now0 robustmq) hnodup
    have hn2 := setConditionList_types_nodup t2 _ (configMapCondition now0 robustmq) hn1
    have hn3 := setConditionList_types_nodup t3 _ (serviceCondition now0 robustmq) hn2
    have hm1 := setConditionList_type_mem now robustmq.Status.Conditions
      (readyCondition now0 robustmq)
    rw [readyCondition_type] at hm1
    have hm2 := setConditionList_type_mem t2
      (setConditionList now robustmq.Status.Conditions (readyCondition now0 robustmq))
      (configMapCondition now0 robustmq)
    have hm3 := setConditionList_type_mem t3
      (setConditionList t2
        (setConditionList now robustmq.Status.Conditions (readyCondition now0 robustmq))
        (configMapCondition now0 robustmq))
      (serviceCondition now0 robustmq)
    have hmem : t ∈ (setConditionList t3
        (setConditionList t2
          (setConditionList now robustmq.Status.Conditions (readyCondition now0 robustmq))
          (configMapCondition now0 robustmq))
        (serviceCondition now0 robustmq)).map (fun c => c.Type_) := by
      simp only [List.mem_cons, List.mem_singleton, List.not_mem_nil, or_false] at ht
      rcases ht with rfl | rfl | rfl
      · exact setConditionList_types_subset _ _ _ _ (setConditionList_types_subset _ _ _ _ hm1)
      · exact setConditionList_types_subset _ _ _ _ hm2
      · exact hm3
    have hcount := List.count_eq_one_of_mem hn3 hmem
    rw [List.count, List.countP_map] at hcount
    exact hcount

/-- Witness for C5: the test resource holding a `Ready` and a foreign `Custom` condition. -/
theorem setCondition_upsert_witness :
    (updateConditions 7 8 9 10 (testResourceWith PhaseRunning []
      [{ Type_ := "Custom", Status := ConditionTrue, ObservedGeneration := 1,
         LastTransitionTime := 2, Reason := "R", Message := "M" },
       { Type_ := ConditionTypeReady, Status := ConditionFalse, ObservedGeneration := 1,
         LastTransitionTime := 5, Reason := "ComponentsNotReady",
         Message := "RobustMQ is in Failed phase" }])).Status.Conditions.countP
      (fun c => c.Type_ == ConditionTypeReady) = 1 :=
  (setCondition_upsert 8 (testResourceWith PhaseRunning []
      [{ Type_ := "Custom", Status := ConditionTrue, ObservedGeneration := 1,
         LastTransitionTime := 2, Reason := "R", Message := "M" },
       { Type_ := ConditionTypeReady, Status := ConditionFalse, ObservedGeneration := 1,
         LastTransitionTime := 5, Reason := "ComponentsNotReady",
         Message := "RobustMQ is in Failed phase" }])
    (readyCondition 7 (testResourceWith PhaseRunning [] []))).2.2.2 7 9 10 (by decide)
    ConditionTypeReady (by decide)


/-! ## Helper lemmas: the procedure monad -/

theorem bind_def {α β : Type} (m : M α) (f : α → M β) : (m >>= f) = M.bind m f := rfl

theorem pure_def {α : Type} (a : α) : (pure a : M α) = M.pure a := rfl

theorem M.bind_pure_unit (m : M Unit) : M.bind m (fun _ => M.pure ()) = m := by
  funext w
  unfold M.bind M.pure
  rcases h : m w with ⟨o, w1⟩
  cases o <;> rfl

theorem M.bind_assoc {α β γ : Type} (m : M α) (f : α → M β) (g : β → M γ) :
    M.bind (M.bind m f) g = M.bind m (fun a => M.bind (f a) g) := by
  funext w
  unfold M.bind
  rcases h : m w with ⟨o, w1⟩
  cases o <;> rfl

theorem M.panic_bind {α β : Type} (f : α → M β) : M.bind (panicNow : M α) f = panicNow := rfl

/-! ## Helper lemmas: one pass applies exactly the compiled resources -/

/-- The service step of a pass is create-or-update of the compiled services, in order. -/
theorem reconcileServices_eq_forEach (env : Env) (robustmq : RobustMQ) :
    reconcileServices env robustmq
      = forEach (createOrUpdateService env robustmq) (compiledServices robustmq) := by
  unfold reconcileServices compiledServices reconcileAllInOneServices
    reconcileMicroservicesServices allInOneServices microservicesServices
  split_ifs <;>
    simp [forEach, bind_def, pure_def, M.bind_pure_unit]

/-- The workload step of a pass panics when building the workloads panics, and otherwise is
create-or-update of the compiled workloads, in order. -/
theorem reconcileWorkloads_eq_forEach (env : Env) (robustmq : RobustMQ) :
    reconcileWorkloads env robustmq
      = match compiledWorkloads env.MustParse robustmq with
        | none => panicNow
        | some workloads => forEach (createOrUpdateWorkload env robustmq) workloads := by
  unfold reconcileWorkloads compiledWorkloads reconcileAllInOne reconcileMicroservices
    reconcileMetaServiceDeployment reconcileMQTTBrokerDeployment
    reconcileJournalServiceDeployment
  cases h : buildVolumeClaimTemplates env.MustParse robustmq <;>
    split_ifs <;>
    simp [forEach, createOrUpdateWorkload, bind_def, M.bind_pure_unit, M.panic_bind]


/-! ## Helper lemmas: resource names -/

theorem name_suffix_injective (n a b : String) (h : n ++ a = n ++ b) : a = b := by
  have hd := congrArg String.data h
  simp only [String.data_append] at hd
  exact String.ext (List.append_cancel_left hd)

theorem name_suffix_ne_self (n a : String) (ha : a ≠ "") : n ++ a ≠ n := by
  intro h
  have hd := congrArg String.data h
  simp only [String.data_append] at hd
  have hnil : a.data = [] := by simpa using hd
  exact ha (String.ext hnil)

/-! ## C6 -/

/-- C6: the compiled replica count of each workload is the `Replicas` value of the selected
sub-spec when that sub-spec is present and the value is positive, and otherwise the default:
1 for the all-in-one workload, 3 for meta, 2 for broker, 3 for journal (in particular when
the sub-spec is nil or its `Replicas` is zero). -/
theorem compiled_replicas (robustmq : RobustMQ) (templates : List PersistentVolumeClaim) :
    (∀ allInOne, robustmq.Spec.AllInOne = some allInOne →
      (allInOneStatefulSet robustmq templates).Spec.Replicas
        = some (if 0 < allInOne.Replicas then allInOne.Replicas else 1)) ∧
    (robustmq.Spec.AllInOne = none →
      (allInOneStatefulSet robustmq templates).Spec.Replicas = some 1) ∧
    (∀ microservices, robustmq.Spec.Microservices = some microservices →
      (metaServiceStatefulSet robustmq templates).Spec.Replicas
        = some (if 0 < microservices.MetaService.Replicas
            then microservices.MetaService.Replicas else 3) ∧
      (mqttBrokerDeployment robustmq).Spec.Replicas
        = some (if 0 < microservices.BrokerService.Replicas
            then microservices.BrokerService.Replicas else 2) ∧
      (journalServiceStatefulSet robustmq templates).Spec.Replicas
        = some (if 0 < microservices.JournalService.Replicas
            then microservices.JournalService.Replicas else 3)) ∧
    (robustmq.Spec.Microservices = none →
      (metaServiceStatefulSet robustmq templates).Spec.Replicas = some 3 ∧
      (mqttBrokerDeployment robustmq).Spec.Replicas = some 2 ∧
      (journalServiceStatefulSet robustmq templates).Spec.Replicas = some 3) := by
  refine ⟨?_, ?_, ?_, ?_⟩
  · intro allInOne h
    simp [allInOneStatefulSet, allInOneReplicas, h]
  · intro h
    simp [allInOneStatefulSet, allInOneReplicas, h]
  · intro microservices h
    simp [metaServiceStatefulSet, metaServiceReplicas, mqttBrokerDeployment,
      mqttBrokerReplicas, journalServiceStatefulSet, journalServiceReplicas, h]
  · intro h
    simp [metaServiceStatefulSet, metaServiceReplicas, mqttBrokerDeployment,
      mqttBrokerReplicas, journalServiceStatefulSet, journalServiceReplicas, h]

/-- Witness for C6: the test resource asks for one all-in-one replica and has no
microservices sub-spec. -/
theorem compiled_replicas_witness :
    (allInOneStatefulSet testResource []).Spec.Replicas = some 1 ∧
    (metaServiceStatefulSet testResource []).Spec.Replicas = some 3 ∧
    (mqttBrokerDeployment testResource).Spec.Replicas = some 2 ∧
    (journalServiceStatefulSet testResource []).Spec.Replicas = some 3 :=
  ⟨(compiled_replicas testResource []).1 _ rfl,
   (compiled_replicas testResource []).2.2.2 rfl⟩


/-! ## Helper lemmas: container ports -/

theorem buildContainerPorts_includeAll (robustmq : RobustMQ) :
    buildContainerPorts robustmq true =
      [ { Name := "mqtt-tcp", ContainerPort := robustmq.Spec.Network.MQTT.TCPPort,
          Protocol := ProtocolTCP },
        { Name := "mqtt-tls", ContainerPort := robustmq.Spec.Network.MQTT.TLSPort,
          Protocol := ProtocolTCP },
        { Name := "mqtt-ws", ContainerPort := robustmq.Spec.Network.MQTT.WebSocketPort,
          Protocol := ProtocolTCP },
        { Name := "mqtt-wss", ContainerPort := robustmq.Spec.Network.MQTT.WebSocketTLSPort,
          Protocol := ProtocolTCP },
        { Name := "kafka", ContainerPort := robustmq.Spec.Network.Kafka.Port,
          Protocol := ProtocolTCP },
        { Name := "grpc", ContainerPort := robustmq.Spec.Network.GRPC.Port,
          Protocol := ProtocolTCP },
        { Name := "amqp", ContainerPort := robustmq.Spec.Network.AMQP.Port,
          Protocol := ProtocolTCP } ]
      ++ (if robustmq.Spec.Monitoring.Enabled then
            [ { Name := "prometheus",
                ContainerPort := robustmq.Spec.Monitoring.Prometheus.Port,
                Protocol := ProtocolTCP } ]
          else []) := by
  unfold buildContainerPorts
  cases robustmq.Spec.Monitoring.Enabled <;> simp

theorem buildContainerPorts_mqttOnly (robustmq : RobustMQ) :
    buildContainerPorts robustmq false =
      [ { Name := "mqtt-tcp", ContainerPort := robustmq.Spec.Network.MQTT.TCPPort,
          Protocol := ProtocolTCP },
        { Name := "mqtt-tls", ContainerPort := robustmq.Spec.Network.MQTT.TLSPort,
          Protocol := ProtocolTCP },
        { Name := "mqtt-ws", ContainerPort := robustmq.Spec.Network.MQTT.WebSocketPort,
          Protocol := ProtocolTCP },
        { Name := "mqtt-wss", ContainerPort := robustmq.Spec.Network.MQTT.WebSocketTLSPort,
          Protocol := ProtocolTCP } ] := by
  simp [buildContainerPorts]

theorem buildAllInOnePodSpec_container (robustmq : RobustMQ) :
    ∃ container, (buildAllInOnePodSpec robustmq).Containers = [container] ∧
      container.Ports = buildContainerPorts robustmq true ∧ container.Name = "robustmq" := by
  unfold buildAllInOnePodSpec
  cases robustmq.Spec.AllInOne with
  | none => exact ⟨_, rfl, rfl, rfl⟩
  | some allInOne => exact ⟨_, rfl, rfl, rfl⟩

/-! ## C7 -/

/-- C7: for every AllInOne Spec the compiler produces exactly one workload, named after the
instance, whose single container exposes, in this order, the four MQTT ports, then the
kafka, grpc and amqp ports of `Spec.Network`, and a prometheus port
(`Spec.Monitoring.Prometheus.Port`) if and only if `Monitoring.Enabled`: 8 container ports
with monitoring, 7 without. The workload is produced whenever the two storage quantities
parse, and the workload step of a pass is create-or-update of exactly the compiled
workloads. -/
theorem allInOne_workload (MustParse : String → Option Quantity) (robustmq : RobustMQ)
    (hmode : robustmq.Spec.DeploymentMode = AllInOneMode) :
    (compiledWorkloads MustParse robustmq
      = (buildVolumeClaimTemplates MustParse robustmq).map
          (fun templates => [Workload.statefulSet (allInOneStatefulSet robustmq templates)])) ∧
    (∀ dataSize logsSize, MustParse robustmq.Spec.Storage.Size = some dataSize →
      MustParse "5Gi" = some logsSize →
      ∃ templates, compiledWorkloads MustParse robustmq
        = some [Workload.statefulSet (allInOneStatefulSet robustmq templates)]) ∧
    (∀ templates,
      (Workload.statefulSet (allInOneStatefulSet robustmq templates)).name = robustmq.Name ∧
      ∃ container,
        (Workload.statefulSet (allInOneStatefulSet robustmq templates)).podSpec.Containers
          = [container] ∧
        container.Ports =
          [ { Name := "mqtt-tcp", ContainerPort := robustmq.Spec.Network.MQTT.TCPPort,
              Protocol := ProtocolTCP },
            { Name := "mqtt-tls", ContainerPort := robustmq.Spec.Network.MQTT.TLSPort,
              Protocol := ProtocolTCP },
            { Name := "mqtt-ws", ContainerPort := robustmq.Spec.Network.MQTT.WebSocketPort,
              Protocol := ProtocolTCP },
            { Name := "mqtt-wss", ContainerPort := robustmq.Spec.Network.MQTT.WebSocketTLSPort,
              Protocol := ProtocolTCP },
            { Name := "kafka", ContainerPort := robustmq.Spec.Network.Kafka.Port,
              Protocol := ProtocolTCP },
            { Name := "grpc", ContainerPort := robustmq.Spec.Network.GRPC.Port,
              Protocol := ProtocolTCP },
            { Name := "amqp", ContainerPort := robustmq.Spec.Network.AMQP.Port,
              Protocol := ProtocolTCP } ]
          ++ (if robustmq.Spec.Monitoring.Enabled then
                [ { Name := "prometheus",
                    ContainerPort := robustmq.Spec.Monitoring.Prometheus.Port,
                    Protocol := ProtocolTCP } ]
              else []) ∧
        (robustmq.Spec.Monitoring.Enabled = true → container.Ports.length = 8) ∧
        (robustmq.Spec.Monitoring.Enabled = false → container.Ports.length = 7) ∧
        ((∃ p ∈ container.Ports, p.Name = "prometheus")
          ↔ robustmq.Spec.Monitoring.Enabled = true)) ∧
    (∀ env : Env,
      reconcileWorkloads env robustmq
        = match compiledWorkloads env.MustParse robustmq with
          | none => panicNow
          | some workloads => forEach (createOrUpdateWorkload env robustmq) workloads) := by
  refine ⟨?_, ?_, ?_, fun env => reconcileWorkloads_eq_forEach env robustmq⟩
  · simp [compiledWorkloads, hmode]
  · intro dataSize logsSize h1 h2
    simp [compiledWorkloads, hmode, buildVolumeClaimTemplates, h1, h2]
  · intro templates
    refine ⟨rfl, ?_⟩
    obtain ⟨container, hc, hports, _⟩ := buildAllInOnePodSpec_container robustmq
    refine ⟨container, hc, ?_, ?_, ?_, ?_⟩
    · rw [hports, buildContainerPorts_includeAll]
    · intro h; rw [hports, buildContainerPorts_includeAll, h]; rfl
    · intro h; rw [hports, buildContainerPorts_includeAll, h]; rfl
    · rw [hports, buildContainerPorts_includeAll]
      cases robustmq.Spec.Monitoring.Enabled <;> simp

/-- Witness for C7: the test resource (monitoring enabled) compiles to one workload named
`test-resource` with 8 container ports. -/
theorem allInOne_workload_witness :
    compiledWorkloads parseNonEmpty testResource
      = (buildVolumeClaimTemplates parseNonEmpty testResource).map
          (fun templates => [Workload.statefulSet (allInOneStatefulSet testResource templates)])
    ∧ (compiledWorkloads parseNonEmpty testResource).isSome = true
    ∧ ((compiledWorkloads parseNonEmpty testResource).getD []).map
        (fun w => (w.name, w.podSpec.Containers.map (fun c => c.Ports.length)))
        = [("test-resource", [8])] :=
  ⟨(allInOne_workload parseNonEmpty testResource rfl).1, by decide, by decide⟩


/-! ## Helper lemmas: service names -/

theorem allInOneServices_names (robustmq : RobustMQ) :
    (allInOneServices robustmq).map (fun s => s.ObjectMeta.Name) =
      [ robustmq.Name ++ "-mqtt", robustmq.Name ++ "-kafka", robustmq.Name ++ "-grpc",
        robustmq.Name ++ "-amqp", robustmq.Name ++ "-meta-service" ]
      ++ (if robustmq.Spec.Monitoring.Enabled then [robustmq.Name ++ "-prometheus"] else []) := by
  unfold allInOneServices
  cases robustmq.Spec.Monitoring.Enabled <;> rfl

theorem microservicesServices_names (robustmq : RobustMQ) :
    (microservicesServices robustmq).map (fun s => s.ObjectMeta.Name) =
      [ robustmq.Name ++ "-meta-service", robustmq.Name ++ "-mqtt-broker",
        robustmq.Name ++ "-kafka", robustmq.Name ++ "-amqp",
        robustmq.Name ++ "-journal-service" ]
      ++ (if robustmq.Spec.Monitoring.Enabled then [robustmq.Name ++ "-prometheus"] else []) := by
  unfold microservicesServices
  cases robustmq.Spec.Monitoring.Enabled <;> rfl

/-- Names built from one instance name and pairwise distinct suffixes are pairwise
distinct. -/
theorem suffixed_names_nodup (n : String) (suffixes : List String) (h : suffixes.Nodup) :
    (suffixes.map (fun s => n ++ s)).Nodup :=
  List.Nodup.map (fun a b hab => name_suffix_injective n a b hab) h

/-! ## C8 -/

/-- C8: for every AllInOne Spec the compiled network-endpoints are exactly `<name>-mqtt`,
`<name>-kafka`, `<name>-grpc`, `<name>-amqp`, `<name>-meta-service`, in that order, followed
by `<name>-prometheus` if and only if `Monitoring.Enabled`: 6 endpoints with monitoring and 5
without, with pairwise distinct names; the config resource is named `<name>-config`. The
service step of a pass is create-or-update of exactly the compiled endpoints. -/
theorem allInOne_endpoints (robustmq : RobustMQ)
    (hmode : robustmq.Spec.DeploymentMode = AllInOneMode) :
    (compiledServices robustmq).map (fun s => s.ObjectMeta.Name) =
      [ robustmq.Name ++ "-mqtt", robustmq.Name ++ "-kafka", robustmq.Name ++ "-grpc",
        robustmq.Name ++ "-amqp", robustmq.Name ++ "-meta-service" ]
      ++ (if robustmq.Spec.Monitoring.Enabled then [robustmq.Name ++ "-prometheus"] else []) ∧
    (robustmq.Spec.Monitoring.Enabled = true → (compiledServices robustmq).length = 6) ∧
    (robustmq.Spec.Monitoring.Enabled = false → (compiledServices robustmq).length = 5) ∧
    (robustmq.Name ++ "-prometheus" ∈ (compiledServices robustmq).map (fun s => s.ObjectMeta.Name)
      ↔ robustmq.Spec.Monitoring.Enabled = true) ∧
    ((compiledServices robustmq).map (fun s => s.ObjectMeta.Name)).Nodup ∧
    (desiredConfigMap robustmq).ObjectMeta.Name = robustmq.Name ++ "-config" ∧
    (∀ env : Env,
      reconcileServices env robustmq
        = forEach (createOrUpdateService env robustmq) (compiledServices robustmq)) := by
  have hcs : compiledServices robustmq = allInOneServices robustmq := by
    simp [compiledServices, hmode]
  have hnames := allInOneServices_names robustmq
  refine ⟨?_, ?_, ?_, ?_, ?_, rfl, fun env => reconcileServices_eq_forEach env robustmq⟩ <;>
    rw [hcs]
  · exact hnames
  · intro h
    have hl := congrArg List.length hnames
    simpa [h] using hl
  · intro h
    have hl := congrArg List.length hnames
    simpa [h] using hl
  · rw [hnames]
    cases hmon : robustmq.Spec.Monitoring.Enabled
    · have hne : ∀ s : String, s ≠ "-prometheus" →
          robustmq.Name ++ "-prometheus" ≠ robustmq.Name ++ s :=
        fun s hs h => hs (name_suffix_injective _ _ _ h).symm
      simp [hne "-mqtt" (by decide), hne "-kafka" (by decide), hne "-grpc" (by decide),
        hne "-amqp" (by decide), hne "-meta-service" (by decide)]
    · simp
  · rw [hnames]
    cases hmon : robustmq.Spec.Monitoring.Enabled
    · exact suffixed_names_nodup robustmq.Name
        ["-mqtt", "-kafka", "-grpc", "-amqp", "-meta-service"] (by decide)
    · exact suffixed_names_nodup robustmq.Name
        ["-mqtt", "-kafka", "-grpc", "-amqp", "-meta-service", "-prometheus"] (by decide)

/-- Witness for C8: the endpoints compiled for the test resource (monitoring enabled). -/
theorem allInOne_endpoints_witness :
    (compiledServices testResource).map (fun s => s.ObjectMeta.Name) =
      [ "test-resource-mqtt", "test-resource-kafka", "test-resource-grpc",
        "test-resource-amqp", "test-resource-meta-service", "test-resource-prometheus" ] ∧
    (compiledServices testResource).length = 6 :=
  ⟨by
    have h := (allInOne_endpoints testResource rfl).1
    rw [h]; decide,
   (allInOne_endpoints testResource rfl).2.1 rfl⟩


/-! ## Helper lemmas: requests that leave one StatefulSet alone -/

theorem Untouched.refl (ns name : String) (w : World) : Untouched ns name w w :=
  ⟨rfl, [], by simp, by simp⟩

theorem Untouched.trans {ns name : String} {w0 w1 w2 : World}
    (h01 : Untouched ns name w0 w1) (h12 : Untouched ns name w1 w2) :
    Untouched ns name w0 w2 := by
  obtain ⟨hl1, i1, hc1, hi1⟩ := h01
  obtain ⟨hl2, i2, hc2, hi2⟩ := h12
  refine ⟨hl2.trans hl1, i1 ++ i2, by rw [hc2, hc1, List.append_assoc], ?_⟩
  intro c hc
  rcases List.mem_append.mp hc with h | h
  · exact hi1 c h
  · exact hi2 c h

theorem keeps_pure {α : Type} (ns name : String) (a : α) : Keeps ns name (M.pure a) :=
  fun w => Untouched.refl ns name w

theorem keeps_fail {α : Type} (ns name : String) (e : Err) : Keeps ns name (fail e : M α) :=
  fun w => Untouched.refl ns name w

theorem keeps_panicNow {α : Type} (ns name : String) : Keeps ns name (panicNow : M α) :=
  fun w => Untouched.refl ns name w

theorem keeps_bind {α β : Type} {ns name : String} {m : M α} {f : α → M β}
    (hm : Keeps ns name m) (hf : ∀ a, Keeps ns name (f a)) : Keeps ns name (M.bind m f) := by
  intro w
  have h1 := hm w
  unfold M.bind
  rcases hmw : m w with ⟨o, w1⟩
  rw [hmw] at h1
  cases o with
  | ok a => exact Untouched.trans h1 (hf a w1)
  | err e => exact h1
  | panic => exact h1

theorem keeps_attempt {α : Type} {ns name : String} {m : M α} (hm : Keeps ns name m) :
    Keeps ns name (attempt m) := by
  intro w
  have h1 := hm w
  unfold attempt
  rcases hmw : m w with ⟨o, w1⟩
  rw [hmw] at h1
  cases o <;> exact h1

theorem keeps_now (ns name : String) (env : Env) : Keeps ns name (now env) :=
  fun w => ⟨rfl, [], by simp [now], by simp⟩

theorem keeps_liftExcept {α : Type} (ns name : String) (r : Except Err α) :
    Keeps ns name (liftExcept r) := by
  cases r with
  | ok a => exact keeps_pure ns name a
  | error e => exact keeps_fail ns name e

theorem keeps_request {α β : Type} {ns name : String} (env : Env) (verb : Verb)
    (R : Resource α) (ns1 name1 : String) (action : Cluster → Outcome β × Cluster)
    (hstore : ∀ c, lookup statefulSets (action c).2 ns name = lookup statefulSets c ns name)
    (hcall : isStatefulSetWrite ns name
      { verb := verb, kind := R.kind, Namespace := ns1, Name := name1 } = false) :
    Keeps ns name (request env verb R ns1 name1 action) := by
  intro w
  unfold request
  cases env.faults w.calls.length with
  | some msg =>
    exact ⟨rfl, [_], rfl, by simpa using hcall⟩
  | none =>
    have hs := hstore w.cluster
    rcases ha : action w.cluster with ⟨o, c⟩
    rw [ha] at hs
    exact ⟨hs, [_], rfl, by simpa using hcall⟩

theorem keeps_apiGet {α : Type} (ns name : String) (env : Env) (R : Resource α)
    (ns1 name1 : String) : Keeps ns name (apiGet env R ns1 name1) := by
  unfold apiGet
  apply keeps_request
  · intro c
    cases lookup R c ns1 name1 <;> rfl
  · simp [isStatefulSetWrite]


theorem lookup_put_other {α : Type} (R : Resource α)
    (hput : ∀ c l, (R.put c l).StatefulSets = c.StatefulSets) (c : Cluster) (l : List α)
    (ns name : String) :
    lookup statefulSets (R.put c l) ns name = lookup statefulSets c ns name := by
  simp [lookup, statefulSets, hput]

theorem keeps_apiCreate_other {α : Type} (ns name : String) (env : Env) (R : Resource α)
    (hkind : R.kind ≠ "StatefulSet")
    (hput : ∀ c l, (R.put c l).StatefulSets = c.StatefulSets) (obj : α) :
    Keeps ns name (apiCreate env R obj) := by
  unfold apiCreate
  apply keeps_request
  · intro c
    cases lookup R c (R.ns obj) (R.name obj) with
    | none => exact lookup_put_other R hput c _ ns name
    | some o => rfl
  · simp [isStatefulSetWrite, hkind]

theorem keeps_apiUpdate_other {α : Type} (ns name : String) (env : Env) (R : Resource α)
    (hkind : R.kind ≠ "StatefulSet")
    (hput : ∀ c l, (R.put c l).StatefulSets = c.StatefulSets) (obj : α) :
    Keeps ns name (apiUpdate env R obj) := by
  unfold apiUpdate
  apply keeps_request
  · intro c
    cases lookup R c (R.ns obj) (R.name obj) with
    | none => rfl
    | some o => exact lookup_put_other R hput c _ ns name
  · simp [isStatefulSetWrite, hkind]

theorem keeps_apiStatusUpdate (ns name : String) (env : Env) (robustmq : RobustMQ) :
    Keeps ns name (apiStatusUpdate env robustmq) := by
  unfold apiStatusUpdate
  apply keeps_request
  · intro c
    cases lookup robustMQs c robustmq.Namespace robustmq.Name with
    | none => rfl
    | some o => rfl
  · simp [isStatefulSetWrite]

theorem find?_replaceObject_ne (obj : StatefulSet) (ns name : String)
    (hne : ¬ (obj.ObjectMeta.Namespace = ns ∧ obj.ObjectMeta.Name = name))
    (l : List StatefulSet) :
    (replaceObject statefulSets obj l).find?
        (fun o => statefulSets.ns o == ns && statefulSets.name o == name)
      = l.find? (fun o => statefulSets.ns o == ns && statefulSets.name o == name) := by
  induction l with
  | nil => rfl
  | cons o rest ih =>
    unfold replaceObject
    by_cases hkey : statefulSets.ns o = statefulSets.ns obj ∧
        statefulSets.name o = statefulSets.name obj
    · rw [if_pos hkey]
      have ho : ¬ (o.ObjectMeta.Namespace = ns ∧ o.ObjectMeta.Name = name) := by
        intro h
        apply hne
        simp only [statefulSets] at hkey
        exact ⟨hkey.1 ▸ h.1, hkey.2 ▸ h.2⟩
      have h1 : (statefulSets.ns obj == ns && statefulSets.name obj == name) = false := by
        simpa [statefulSets] using hne
      have h2 : (statefulSets.ns o == ns && statefulSets.name o == name) = false := by
        simpa [statefulSets] using ho
      simp [List.find?_cons, h1, h2]
    · rw [if_neg hkey]
      simp only [List.find?_cons]
      rw [ih]

theorem keeps_apiCreate_statefulSet (ns name : String) (env : Env) (obj : StatefulSet)
    (hne : ¬ (obj.ObjectMeta.Namespace = ns ∧ obj.ObjectMeta.Name = name)) :
    Keeps ns name (apiCreate env statefulSets obj) := by
  unfold apiCreate
  apply keeps_request
  · intro c
    cases lookup statefulSets c (statefulSets.ns obj) (statefulSets.name obj) with
    | some o => rfl
    | none =>
      have h1 : (statefulSets.ns obj == ns && statefulSets.name obj == name) = false := by
        simpa [statefulSets] using hne
      show ((statefulSets.list c ++ [obj]).find? _) = _
      rw [List.find?_append]
      simp [List.find?_cons, h1, lookup]
  · simpa [isStatefulSetWrite, statefulSets] using hne

theorem keeps_apiUpdate_statefulSet (ns name : String) (env : Env) (obj : StatefulSet)
    (hne : ¬ (obj.ObjectMeta.Namespace = ns ∧ obj.ObjectMeta.Name = name)) :
    Keeps ns name (apiUpdate env statefulSets obj) := by
  unfold apiUpdate
  apply keeps_request
  · intro c
    cases lookup statefulSets c (statefulSets.ns obj) (statefulSets.name obj) with
    | none => rfl
    | some o => exact find?_replaceObject_ne obj ns name hne c.StatefulSets
  · simpa [isStatefulSetWrite, statefulSets] using hne


theorem SetControllerReference_key (scheme : List String) (owner : RobustMQ)
    (m m1 : ObjectMeta) (h : SetControllerReference scheme owner m = Except.ok m1) :
    m1.Name = m.Name ∧ m1.Namespace = m.Namespace := by
  unfold SetControllerReference at h
  split_ifs at h <;> cases h <;> exact ⟨rfl, rfl⟩

theorem keeps_createOrUpdateService (ns name : String) (env : Env) (robustmq : RobustMQ)
    (service : Service) : Keeps ns name (createOrUpdateService env robustmq service) := by
  unfold createOrUpdateService
  simp only [bind_def]
  apply keeps_bind (keeps_liftExcept _ _ _)
  intro m
  apply keeps_bind (keeps_attempt (keeps_apiGet _ _ _ _ _ _))
  intro got
  rcases got with e | found
  · cases e with
    | notFound => exact keeps_apiCreate_other _ _ _ _ (by decide) (fun _ _ => rfl) _
    | other msg => exact keeps_fail _ _ _
  · exact keeps_apiUpdate_other _ _ _ _ (by decide) (fun _ _ => rfl) _

theorem keeps_createOrUpdateDeployment (ns name : String) (env : Env) (robustmq : RobustMQ)
    (deployment : Deployment) :
    Keeps ns name (createOrUpdateDeployment env robustmq deployment) := by
  unfold createOrUpdateDeployment
  simp only [bind_def]
  apply keeps_bind (keeps_liftExcept _ _ _)
  intro m
  apply keeps_bind (keeps_attempt (keeps_apiGet _ _ _ _ _ _))
  intro got
  rcases got with e | found
  · cases e with
    | notFound => exact keeps_apiCreate_other _ _ _ _ (by decide) (fun _ _ => rfl) _
    | other msg => exact keeps_fail _ _ _
  · exact keeps_apiUpdate_other _ _ _ _ (by decide) (fun _ _ => rfl) _

theorem keeps_reconcileConfigMap (ns name : String) (env : Env) (robustmq : RobustMQ) :
    Keeps ns name (reconcileConfigMap env robustmq) := by
  unfold reconcileConfigMap
  simp only [bind_def]
  apply keeps_bind (keeps_liftExcept _ _ _)
  intro m
  apply keeps_bind (keeps_attempt (keeps_apiGet _ _ _ _ _ _))
  intro got
  rcases got with e | found
  · cases e with
    | notFound => exact keeps_apiCreate_other _ _ _ _ (by decide) (fun _ _ => rfl) _
    | other msg => exact keeps_fail _ _ _
  · exact keeps_apiUpdate_other _ _ _ _ (by decide) (fun _ _ => rfl) _

/-- The update branch of `createOrUpdateStatefulSet` writes the object it has just read, so
its key is the key asked for. -/
theorem apiGet_key {α : Type} (env : Env) (R : Resource α) (ns name : String) (w : World)
    (found : α) (w1 : World) (h : apiGet env R ns name w = (Outcome.ok found, w1)) :
    R.ns found = ns ∧ R.name found = name := by
  unfold apiGet request at h
  cases hf : env.faults w.calls.length with
  | some msg => simp [hf] at h
  | none =>
    simp only [hf] at h
    cases hl : lookup R w.cluster ns name with
    | none => simp [hl] at h
    | some o =>
      simp only [hl] at h
      have ho : o = found := by
        have := congrArg Prod.fst h
        simpa using this
      subst ho
      unfold lookup at hl
      have hp := List.find?_some hl
      simpa using hp

theorem keeps_createOrUpdateStatefulSet (ns name : String) (env : Env) (robustmq : RobustMQ)
    (statefulSet : StatefulSet)
    (hne : ¬ (statefulSet.ObjectMeta.Namespace = ns ∧ statefulSet.ObjectMeta.Name = name)) :
    Keeps ns name (createOrUpdateStatefulSet env robustmq statefulSet) := by
  unfold createOrUpdateStatefulSet
  simp only [bind_def]
  intro w
  unfold M.bind
  cases hset : SetControllerReference env.Scheme robustmq statefulSet.ObjectMeta with
  | error e => exact Untouched.refl _ _ _
  | ok m =>
    obtain ⟨hname, hns⟩ := SetControllerReference_key _ _ _ _ hset
    simp only [liftExcept, M.pure]
    have hget := keeps_apiGet ns name env statefulSets m.Namespace m.Name w
    unfold attempt
    rcases hg : apiGet env statefulSets m.Namespace m.Name w with ⟨o, w1⟩
    rw [hg] at hget
    cases o with
    | panic => exact hget
    | err e =>
      cases e with
      | other msg => exact hget
      | notFound =>
        refine Untouched.trans hget (keeps_apiCreate_statefulSet ns name env _ ?_ w1)
        simpa [hname, hns] using hne
    | ok found =>
      obtain ⟨hfns, hfname⟩ := apiGet_key env statefulSets _ _ w found w1 hg
      refine Untouched.trans hget (keeps_apiUpdate_statefulSet ns name env _ ?_ w1)
      simp only [statefulSets] at hfns hfname
      simpa [hfns, hfname, hname, hns] using hne

theorem keeps_forEach {α : Type} (ns name : String) (f : α → M Unit) (l : List α)
    (h : ∀ x ∈ l, Keeps ns name (f x)) : Keeps ns name (forEach f l) := by
  induction l with
  | nil => exact keeps_pure _ _ _
  | cons x rest ih =>
    unfold forEach
    apply keeps_bind (h x (List.mem_cons_self _ _))
    intro _
    exact ih (fun y hy => h y (List.mem_cons_of_mem _ hy))


theorem keeps_updateStatefulSetStatus (ns name : String) (env : Env) (robustmq : RobustMQ)
    (stsName component : String) :
    Keeps ns name (updateStatefulSetStatus env robustmq stsName component) := by
  unfold updateStatefulSetStatus
  simp only [bind_def, pure_def]
  apply keeps_bind (keeps_attempt (keeps_apiGet _ _ _ _ _ _))
  intro got
  rcases got with e | found
  · cases e with
    | notFound => exact keeps_pure _ _ _
    | other msg => exact keeps_fail _ _ _
  · exact keeps_pure _ _ _

theorem keeps_updateDeploymentStatus (ns name : String) (env : Env) (robustmq : RobustMQ)
    (depName component : String) :
    Keeps ns name (updateDeploymentStatus env robustmq depName component) := by
  unfold updateDeploymentStatus
  simp only [bind_def, pure_def]
  apply keeps_bind (keeps_attempt (keeps_apiGet _ _ _ _ _ _))
  intro got
  rcases got with e | found
  · cases e with
    | notFound => exact keeps_pure _ _ _
    | other msg => exact keeps_fail _ _ _
  · exact keeps_pure _ _ _

theorem keeps_updateSingleServiceStatus (ns name : String) (env : Env) (robustmq : RobustMQ)
    (serviceName : String) :
    Keeps ns name (updateSingleServiceStatus env robustmq serviceName) := by
  unfold updateSingleServiceStatus
  simp only [bind_def, pure_def]
  apply keeps_bind (keeps_attempt (keeps_apiGet _ _ _ _ _ _))
  intro got
  rcases got with e | found
  · cases e with
    | notFound => exact keeps_pure _ _ _
    | other msg => exact keeps_fail _ _ _
  · exact keeps_pure _ _ _

theorem keeps_updateServiceStatusesLoop (ns name : String) (env : Env) (names : List String) :
    ∀ robustmq, Keeps ns name (updateServiceStatusesLoop env robustmq names) := by
  induction names with
  | nil => intro robustmq; exact keeps_pure _ _ _
  | cons n rest ih =>
    intro robustmq
    unfold updateServiceStatusesLoop
    simp only [bind_def]
    exact keeps_bind (keeps_updateSingleServiceStatus _ _ _ _ _) (fun r => ih r)

theorem keeps_updateServiceStatuses (ns name : String) (env : Env) (robustmq : RobustMQ) :
    Keeps ns name (updateServiceStatuses env robustmq) :=
  keeps_updateServiceStatusesLoop ns name env _ robustmq

theorem keeps_updateMicroservicesStatus (ns name : String) (env : Env) (robustmq : RobustMQ) :
    Keeps ns name (updateMicroservicesStatus env robustmq) := by
  unfold updateMicroservicesStatus
  simp only [bind_def]
  apply keeps_bind (keeps_updateStatefulSetStatus _ _ _ _ _ _)
  intro r1
  apply keeps_bind (keeps_updateDeploymentStatus _ _ _ _ _ _)
  intro r2
  exact keeps_updateStatefulSetStatus _ _ _ _ _ _

theorem keeps_updateStatus (ns name : String) (env : Env) (robustmq : RobustMQ) :
    Keeps ns name (updateStatus env robustmq) := by
  unfold updateStatus
  simp only [bind_def, pure_def]
  split_ifs <;> apply keeps_bind
  any_goals
    intro r1
    apply keeps_bind (keeps_updateServiceStatuses _ _ _ _)
    intro r2
    apply keeps_bind (keeps_now _ _ _)
    intro t0
    apply keeps_bind (keeps_now _ _ _)
    intro t1
    apply keeps_bind (keeps_now _ _ _)
    intro t2
    apply keeps_bind (keeps_now _ _ _)
    intro t3
    apply keeps_bind (keeps_apiStatusUpdate _ _ _ _)
    intro _
    exact keeps_pure _ _ _
  · exact keeps_updateStatefulSetStatus _ _ _ _ _ _
  · exact keeps_updateMicroservicesStatus _ _ _ _
  · exact keeps_pure _ _ _

theorem keeps_reconcileServices (ns name : String) (env : Env) (robustmq : RobustMQ) :
    Keeps ns name (reconcileServices env robustmq) := by
  rw [reconcileServices_eq_forEach]
  exact keeps_forEach _ _ _ _ (fun s _ => keeps_createOrUpdateService _ _ _ _ s)

/-- In Microservices mode the workload step writes `<name>-meta`, `<name>-mqtt-broker` and
`<name>-journal` only, never the StatefulSet named after the instance. -/
theorem keeps_reconcileWorkloads_microservices (env : Env) (robustmq : RobustMQ)
    (hmode : robustmq.Spec.DeploymentMode = MicroservicesMode) :
    Keeps robustmq.Namespace robustmq.Name (reconcileWorkloads env robustmq) := by
  have hne : MicroservicesMode ≠ AllInOneMode := by decide
  unfold reconcileWorkloads
  rw [hmode, if_neg hne, if_pos rfl]
  unfold reconcileMicroservices reconcileMetaServiceDeployment reconcileMQTTBrokerDeployment
    reconcileJournalServiceDeployment
  simp only [bind_def]
  cases buildVolumeClaimTemplates env.MustParse robustmq with
  | none => exact keeps_bind (keeps_panicNow _ _) (fun _ => keeps_bind
      (keeps_createOrUpdateDeployment _ _ _ _ _) (fun _ => keeps_panicNow _ _))
  | some templates =>
    apply keeps_bind
    · apply keeps_createOrUpdateStatefulSet
      intro h
      exact name_suffix_ne_self robustmq.Name "-meta" (by decide) h.2
    · intro _
      apply keeps_bind (keeps_createOrUpdateDeployment _ _ _ _ _)
      intro _
      apply keeps_createOrUpdateStatefulSet
      intro h
      exact name_suffix_ne_self robustmq.Name "-journal" (by decide) h.2

theorem apiGet_found {α : Type} (env : Env) (R : Resource α) (ns name : String) (w : World)
    (found : α) (w1 : World) (h : apiGet env R ns name w = (Outcome.ok found, w1)) :
    lookup R w.cluster ns name = some found := by
  unfold apiGet request at h
  cases hf : env.faults w.calls.length with
  | some msg => simp [hf] at h
  | none =>
    simp only [hf] at h
    cases hl : lookup R w.cluster ns name with
    | none => simp [hl] at h
    | some o =>
      simp only [hl] at h
      have := congrArg Prod.fst h
      simpa using this


theorem untouched_bind_at {α β : Type} {ns name : String} {m : M α} {f : α → M β} (w : World)
    (hm : Untouched ns name w (m w).2)
    (hf : ∀ a w1, m w = (Outcome.ok a, w1) → Untouched ns name w1 (f a w1).2) :
    Untouched ns name w (M.bind m f w).2 := by
  unfold M.bind
  rcases hmw : m w with ⟨o, w1⟩
  rw [hmw] at hm
  cases o with
  | ok a => exact Untouched.trans hm (hf a w1 hmw)
  | err e => exact hm
  | panic => exact hm

theorem attempt_ok {α : Type} (m : M α) (w w1 : World) (a : α)
    (h : attempt m w = (Outcome.ok (Except.ok a), w1)) : m w = (Outcome.ok a, w1) := by
  unfold attempt at h
  rcases hmw : m w with ⟨o, w2⟩
  rw [hmw] at h
  cases o with
  | ok b =>
    simp only [Prod.mk.injEq, Outcome.ok.injEq, Except.ok.injEq] at h
    rw [h.1, h.2]
  | err e => simp at h
  | panic => simp at h

theorem M.pure_bind {α β : Type} (a : α) (f : α → M β) : M.bind (M.pure a) f = f a := rfl

/-- A pass for an instance in Microservices mode neither creates nor updates the
StatefulSet named after the instance (the AllInOne workload). -/
theorem Reconcile_microservices_untouched (env : Env) (req : Request) (w : World)
    (robustmq : RobustMQ)
    (hstored : lookup robustMQs w.cluster req.Namespace req.Name = some robustmq)
    (hmode : robustmq.Spec.DeploymentMode = MicroservicesMode) :
    Untouched robustmq.Namespace robustmq.Name w (Reconcile env req w).2 := by
  have hbody : ∀ r : RobustMQ, r.Spec.DeploymentMode = MicroservicesMode →
      Keeps r.Namespace r.Name
        (M.bind (reconcileConfigMap env r) fun _ =>
          M.bind (reconcileServices env r) fun _ =>
            M.bind (reconcileWorkloads env r) fun _ =>
              M.bind (updateStatus env r) fun _ =>
                M.pure ({ RequeueAfter := Minute * 5 } : Result)) := by
    intro r hr
    apply keeps_bind (keeps_reconcileConfigMap _ _ _ _)
    intro _
    apply keeps_bind (keeps_reconcileServices _ _ _ _)
    intro _
    apply keeps_bind (keeps_reconcileWorkloads_microservices _ _ hr)
    intro _
    apply keeps_bind (keeps_updateStatus _ _ _ _)
    intro _
    exact keeps_pure _ _ _
  unfold Reconcile
  simp only [bind_def, pure_def, M.pure_bind]
  apply untouched_bind_at
  · exact keeps_attempt (keeps_apiGet _ _ _ _ _ _) w
  · intro got w1 hgot
    rcases got with e | found
    · cases e with
      | notFound => exact Untouched.refl _ _ _
      | other msg => exact Untouched.refl _ _ _
    · have hf := apiGet_found env robustMQs _ _ w found w1 (attempt_ok _ _ _ _ hgot)
      rw [hstored] at hf
      have hfr : robustmq = found := Option.some.inj hf
      subst hfr
      show Untouched robustmq.Namespace robustmq.Name w1
        ((if robustmq.Status.Phase = "" then _ else _ : M Result) w1).2
      split_ifs with hphase
      · apply keeps_bind (keeps_apiStatusUpdate _ _ _ _)
        intro _
        exact hbody
          { robustmq with Status := { robustmq.Status with Phase := PhaseInitializing } } hmode
      · exact hbody robustmq hmode w1


/-! ## Helper lemmas: create-or-update succeeds when no request fails -/

theorem SetControllerReference_fresh (scheme : List String) (owner : RobustMQ) (m : ObjectMeta)
    (hscheme : "RobustMQ" ∈ scheme) (howner : m.OwnerReferences = []) :
    SetControllerReference scheme owner m
      = Except.ok { m with OwnerReferences := [controllerReference owner] } := by
  simp [SetControllerReference, hscheme, howner]

theorem apiGet_calm {α : Type} (env : Env) (R : Resource α) (ns name : String) (w : World)
    (hfaults : ∀ n, env.faults n = none) :
    (∃ found, lookup R w.cluster ns name = some found ∧
      (apiGet env R ns name w).1 = Outcome.ok found ∧
      (apiGet env R ns name w).2.cluster = w.cluster) ∨
    (lookup R w.cluster ns name = none ∧
      (apiGet env R ns name w).1 = Outcome.err Err.notFound ∧
      (apiGet env R ns name w).2.cluster = w.cluster) := by
  unfold apiGet request
  simp only [hfaults]
  cases hl : lookup R w.cluster ns name with
  | none => right; exact ⟨rfl, rfl, rfl⟩
  | some found => left; exact ⟨found, rfl, rfl, rfl⟩

theorem apiCreate_calm {α : Type} (env : Env) (R : Resource α) (obj : α) (w : World)
    (hfaults : ∀ n, env.faults n = none)
    (hfree : lookup R w.cluster (R.ns obj) (R.name obj) = none) :
    (apiCreate env R obj w).1 = Outcome.ok () := by
  unfold apiCreate request
  simp only [hfaults, hfree]

theorem apiUpdate_calm {α : Type} (env : Env) (R : Resource α) (obj : α) (w : World)
    (hfaults : ∀ n, env.faults n = none) (stored : α)
    (hstored : lookup R w.cluster (R.ns obj) (R.name obj) = some stored) :
    (apiUpdate env R obj w).1 = Outcome.ok () := by
  unfold apiUpdate request
  simp only [hfaults, hstored]

theorem lookup_key {α : Type} (R : Resource α) (c : Cluster) (ns name : String) (found : α)
    (h : lookup R c ns name = some found) : R.ns found = ns ∧ R.name found = name := by
  unfold lookup at h
  have hp := List.find?_some h
  simpa using hp


theorem bind_attempt_ok {α β : Type} (m : M α) (f : Except Err α → M β) (w : World) (a : α)
    (h : (m w).1 = Outcome.ok a) : M.bind (attempt m) f w = f (Except.ok a) (m w).2 := by
  unfold M.bind attempt
  rcases hmw : m w with ⟨o, w1⟩
  rw [hmw] at h
  simp only at h
  subst h
  rfl

theorem bind_attempt_err {α β : Type} (m : M α) (f : Except Err α → M β) (w : World) (e : Err)
    (h : (m w).1 = Outcome.err e) : M.bind (attempt m) f w = f (Except.error e) (m w).2 := by
  unfold M.bind attempt
  rcases hmw : m w with ⟨o, w1⟩
  rw [hmw] at h
  simp only at h
  subst h
  rfl

theorem createOrUpdateService_ok (env : Env) (robustmq : RobustMQ) (service : Service)
    (w : World) (hfaults : ∀ n, env.faults n = none) (hscheme : "RobustMQ" ∈ env.Scheme)
    (howner : service.ObjectMeta.OwnerReferences = []) :
    (createOrUpdateService env robustmq service w).1 = Outcome.ok () := by
  unfold createOrUpdateService
  simp only [bind_def, SetControllerReference_fresh _ _ _ hscheme howner, liftExcept,
    M.pure_bind]
  rcases apiGet_calm env services service.ObjectMeta.Namespace service.ObjectMeta.Name w hfaults
    with ⟨found, hl, hout, hcl⟩ | ⟨hl, hout, hcl⟩
  · rw [bind_attempt_ok _ _ _ _ hout]
    obtain ⟨hns, hname⟩ := lookup_key services _ _ _ _ hl
    refine apiUpdate_calm env services _ _ hfaults found ?_
    rw [hcl]
    have hns1 : found.ObjectMeta.Namespace = service.ObjectMeta.Namespace := hns
    have hname1 : found.ObjectMeta.Name = service.ObjectMeta.Name := hname
    show lookup services w.cluster found.ObjectMeta.Namespace found.ObjectMeta.Name = some found
    rw [hns1, hname1]
    exact hl
  · rw [bind_attempt_err _ _ _ _ hout]
    refine apiCreate_calm env services _ _ hfaults ?_
    rw [hcl]
    exact hl

theorem createOrUpdateStatefulSet_ok (env : Env) (robustmq : RobustMQ) (statefulSet : StatefulSet)
    (w : World) (hfaults : ∀ n, env.faults n = none) (hscheme : "RobustMQ" ∈ env.Scheme)
    (howner : statefulSet.ObjectMeta.OwnerReferences = []) :
    (createOrUpdateStatefulSet env robustmq statefulSet w).1 = Outcome.ok () := by
  unfold createOrUpdateStatefulSet
  simp only [bind_def, SetControllerReference_fresh _ _ _ hscheme howner, liftExcept,
    M.pure_bind]
  rcases apiGet_calm env statefulSets statefulSet.ObjectMeta.Namespace statefulSet.ObjectMeta.Name w hfaults
    with ⟨found, hl, hout, hcl⟩ | ⟨hl, hout, hcl⟩
  · rw [bind_attempt_ok _ _ _ _ hout]
    obtain ⟨hns, hname⟩ := lookup_key statefulSets _ _ _ _ hl
    refine apiUpdate_calm env statefulSets _ _ hfaults found ?_
    rw [hcl]
    have hns1 : found.ObjectMeta.Namespace = statefulSet.ObjectMeta.Namespace := hns
    have hname1 : found.ObjectMeta.Name = statefulSet.ObjectMeta.Name := hname
    show lookup statefulSets w.cluster found.ObjectMeta.Namespace found.ObjectMeta.Name = some found
    rw [hns1, hname1]
    exact hl
  · rw [bind_attempt_err _ _ _ _ hout]
    refine apiCreate_calm env statefulSets _ _ hfaults ?_
    rw [hcl]
    exact hl

theorem createOrUpdateDeployment_ok (env : Env) (robustmq : RobustMQ) (deployment : Deployment)
    (w : World) (hfaults : ∀ n, env.faults n = none) (hscheme : "RobustMQ" ∈ env.Scheme)
    (howner : deployment.ObjectMeta.OwnerReferences = []) :
    (createOrUpdateDeployment env robustmq deployment w).1 = Outcome.ok () := by
  unfold createOrUpdateDeployment
  simp only [bind_def, SetControllerReference_fresh _ _ _ hscheme howner, liftExcept,
    M.pure_bind]
  rcases apiGet_calm env deployments deployment.ObjectMeta.Namespace deployment.ObjectMeta.Name w hfaults
    with ⟨found, hl, hout, hcl⟩ | ⟨hl, hout, hcl⟩
  · rw [bind_attempt_ok _ _ _ _ hout]
    obtain ⟨hns, hname⟩ := lookup_key deployments _ _ _ _ hl
    refine apiUpdate_calm env deployments _ _ hfaults found ?_
    rw [hcl]
    have hns1 : found.ObjectMeta.Namespace = deployment.ObjectMeta.Namespace := hns
    have hname1 : found.ObjectMeta.Name = deployment.ObjectMeta.Name := hname
    show lookup deployments w.cluster found.ObjectMeta.Namespace found.ObjectMeta.Name = some found
    rw [hns1, hname1]
    exact hl
  · rw [bind_attempt_err _ _ _ _ hout]
    refine apiCreate_calm env deployments _ _ hfaults ?_
    rw [hcl]
    exact hl

theorem forEach_ok {α : Type} (f : α → M Unit) (l : List α)
    (h : ∀ x ∈ l, ∀ w, (f x w).1 = Outcome.ok ()) : ∀ w, (forEach f l w).1 = Outcome.ok () := by
  induction l with
  | nil => intro w; rfl
  | cons x rest ih =>
    intro w
    unfold forEach M.bind
    have hx := h x (List.mem_cons_self _ _) w
    rcases hfx : f x w with ⟨o, w1⟩
    rw [hfx] at hx
    simp only at hx
    subst hx
    exact ih (fun y hy => h y (List.mem_cons_of_mem _ hy)) w1


/-! ## C9 -/

/-- C9: for every Microservices Spec the compiled workloads are exactly `<name>-meta`,
`<name>-mqtt-broker` and `<name>-journal`, in that order, and the compiled endpoints are
exactly `<name>-meta-service`, `<name>-mqtt-broker`, `<name>-kafka`, `<name>-amqp`,
`<name>-journal-service`, plus `<name>-prometheus` iff `Monitoring.Enabled`. No compiled
workload is named `<name>`, and a pass for such an instance neither creates nor updates
the StatefulSet `<name>` (the AllInOne workload), whatever the cluster holds and whichever
requests fail. -/
theorem microservices_desired_state (MustParse : String → Option Quantity)
    (robustmq : RobustMQ) (hmode : robustmq.Spec.DeploymentMode = MicroservicesMode) :
    (compiledWorkloads MustParse robustmq
      = (buildVolumeClaimTemplates MustParse robustmq).map (fun templates =>
          [ Workload.statefulSet (metaServiceStatefulSet robustmq templates),
            Workload.deployment (mqttBrokerDeployment robustmq),
            Workload.statefulSet (journalServiceStatefulSet robustmq templates) ])) ∧
    (∀ dataSize logsSize, MustParse robustmq.Spec.Storage.Size = some dataSize →
      MustParse "5Gi" = some logsSize →
      ∃ workloads, compiledWorkloads MustParse robustmq = some workloads) ∧
    (∀ workloads, compiledWorkloads MustParse robustmq = some workloads →
      workloads.map Workload.name
        = [ robustmq.Name ++ "-meta", robustmq.Name ++ "-mqtt-broker",
            robustmq.Name ++ "-journal" ] ∧
      robustmq.Name ∉ workloads.map Workload.name) ∧
    ((compiledServices robustmq).map (fun s => s.ObjectMeta.Name) =
      [ robustmq.Name ++ "-meta-service", robustmq.Name ++ "-mqtt-broker",
        robustmq.Name ++ "-kafka", robustmq.Name ++ "-amqp",
        robustmq.Name ++ "-journal-service" ]
      ++ (if robustmq.Spec.Monitoring.Enabled then [robustmq.Name ++ "-prometheus"] else [])) ∧
    (robustmq.Name ++ "-prometheus" ∈ (compiledServices robustmq).map (fun s => s.ObjectMeta.Name)
      ↔ robustmq.Spec.Monitoring.Enabled = true) ∧
    (∀ (env : Env) (req : Request) (w : World),
      lookup robustMQs w.cluster req.Namespace req.Name = some robustmq →
      Untouched robustmq.Namespace robustmq.Name w (Reconcile env req w).2) := by
  have hne : MicroservicesMode ≠ AllInOneMode := by decide
  have hcw : compiledWorkloads MustParse robustmq
      = (buildVolumeClaimTemplates MustParse robustmq).map (fun templates =>
          [ Workload.statefulSet (metaServiceStatefulSet robustmq templates),
            Workload.deployment (mqttBrokerDeployment robustmq),
            Workload.statefulSet (journalServiceStatefulSet robustmq templates) ]) := by
    simp [compiledWorkloads, hmode, hne]
  have hcs : compiledServices robustmq = microservicesServices robustmq := by
    simp [compiledServices, hmode, hne]
  refine ⟨hcw, ?_, ?_, ?_, ?_, ?_⟩
  · intro dataSize logsSize h1 h2
    rw [hcw]
    simp [buildVolumeClaimTemplates, h1, h2]
  · intro workloads hw
    rw [hcw] at hw
    cases hb : buildVolumeClaimTemplates MustParse robustmq with
    | none => rw [hb] at hw; cases hw
    | some templates =>
      rw [hb] at hw
      simp only [Option.map_some', Option.some.injEq] at hw
      subst hw
      refine ⟨rfl, ?_⟩
      intro hmem
      simp only [List.map_cons, List.map_nil, List.mem_cons, List.mem_singleton,
        List.not_mem_nil, or_false] at hmem
      rcases hmem with h | h | h
      · exact name_suffix_ne_self robustmq.Name "-meta" (by decide) h.symm
      · exact name_suffix_ne_self robustmq.Name "-mqtt-broker" (by decide) h.symm
      · exact name_suffix_ne_self robustmq.Name "-journal" (by decide) h.symm
  · rw [hcs]; exact microservicesServices_names robustmq
  · rw [hcs, microservicesServices_names]
    cases hmon : robustmq.Spec.Monitoring.Enabled
    · have hsuf : ∀ s : String, s ≠ "-prometheus" →
          robustmq.Name ++ "-prometheus" ≠ robustmq.Name ++ s :=
        fun s hs h => hs (name_suffix_injective _ _ _ h).symm
      simp [hsuf "-meta-service" (by decide), hsuf "-mqtt-broker" (by decide),
        hsuf "-kafka" (by decide), hsuf "-amqp" (by decide),
        hsuf "-journal-service" (by decide)]
    · simp
  · intro env req w hstored
    exact Reconcile_microservices_untouched env req w robustmq hstored hmode

/-- Witness for C9: the test resource switched to Microservices mode, in a cluster that still
holds the StatefulSet of its AllInOne deployment. -/
theorem microservices_desired_state_witness :
    (compiledWorkloads parseNonEmpty (withDeploymentMode testResource MicroservicesMode)).map
        (fun ws => ws.map Workload.name)
      = some ["test-resource-meta", "test-resource-mqtt-broker", "test-resource-journal"] ∧
    Untouched "default" "test-resource" switchedWorld
      (Reconcile calmEnv { Namespace := "default", Name := "test-resource" } switchedWorld).2 :=
  ⟨by decide,
   (microservices_desired_state parseNonEmpty
      (withDeploymentMode testResource MicroservicesMode) rfl).2.2.2.2.2
      calmEnv { Namespace := "default", Name := "test-resource" } switchedWorld (by decide)⟩


/-! ## Helper lemmas: compiled resources carry no owner reference before stamping -/

theorem allInOneServices_fresh (robustmq : RobustMQ) :
    ∀ s ∈ allInOneServices robustmq, s.ObjectMeta.OwnerReferences = [] := by
  unfold allInOneServices
  cases robustmq.Spec.Monitoring.Enabled <;>
    simp [mqttService, kafkaService, grpcService, amqpService, metaService, prometheusService,
      serviceLiteral, objectMeta]

theorem microservicesServices_fresh (robustmq : RobustMQ) :
    ∀ s ∈ microservicesServices robustmq, s.ObjectMeta.OwnerReferences = [] := by
  unfold microservicesServices
  cases robustmq.Spec.Monitoring.Enabled <;>
    simp [mqttService, kafkaService, amqpService, metaService, journalService,
      prometheusService, serviceLiteral, objectMeta]

theorem compiledServices_fresh (robustmq : RobustMQ) :
    ∀ s ∈ compiledServices robustmq, s.ObjectMeta.OwnerReferences = [] := by
  unfold compiledServices
  split_ifs
  · exact allInOneServices_fresh robustmq
  · exact microservicesServices_fresh robustmq
  · exact allInOneServices_fresh robustmq

theorem compiledWorkloads_fresh (MustParse : String → Option Quantity) (robustmq : RobustMQ)
    (workloads : List Workload) (h : compiledWorkloads MustParse robustmq = some workloads) :
    ∀ x ∈ workloads, (match x with
      | Workload.statefulSet s => s.ObjectMeta.OwnerReferences
      | Workload.deployment d => d.ObjectMeta.OwnerReferences) = [] := by
  intro x hx
  unfold compiledWorkloads at h
  cases hb : buildVolumeClaimTemplates MustParse robustmq with
  | none => rw [hb] at h; split_ifs at h <;> cases h
  | some templates =>
    rw [hb] at h
    split_ifs at h <;>
      simp only [Option.map_some', Option.some.injEq] at h <;>
      subst h <;>
      simp only [List.mem_cons, List.mem_singleton, List.not_mem_nil, or_false] at hx
    · subst hx; rfl
    · rcases hx with h | h | h <;> subst h <;> rfl
    · subst hx; rfl

theorem reconcileServices_ok (env : Env) (robustmq : RobustMQ) (w : World)
    (hfaults : ∀ n, env.faults n = none) (hscheme : "RobustMQ" ∈ env.Scheme) :
    (reconcileServices env robustmq w).1 = Outcome.ok () := by
  rw [reconcileServices_eq_forEach]
  exact forEach_ok _ _ (fun s hs w1 =>
    createOrUpdateService_ok env robustmq s w1 hfaults hscheme
      (compiledServices_fresh robustmq s hs)) w

theorem reconcileWorkloads_ok (env : Env) (robustmq : RobustMQ) (w : World)
    (hfaults : ∀ n, env.faults n = none) (hscheme : "RobustMQ" ∈ env.Scheme)
    (dataSize logsSize : Quantity)
    (hdata : env.MustParse robustmq.Spec.Storage.Size = some dataSize)
    (hlogs : env.MustParse "5Gi" = some logsSize) :
    (reconcileWorkloads env robustmq w).1 = Outcome.ok () := by
  rw [reconcileWorkloads_eq_forEach]
  have hsome : ∃ workloads, compiledWorkloads env.MustParse robustmq = some workloads := by
    unfold compiledWorkloads
    simp only [buildVolumeClaimTemplates, hdata, hlogs]
    split_ifs <;> exact ⟨_, rfl⟩
  obtain ⟨workloads, hw⟩ := hsome
  rw [hw]
  refine forEach_ok _ _ (fun x hx w1 => ?_) w
  have hfresh := compiledWorkloads_fresh env.MustParse robustmq workloads hw x hx
  cases x with
  | statefulSet s => exact createOrUpdateStatefulSet_ok env robustmq s w1 hfaults hscheme hfresh
  | deployment d => exact createOrUpdateDeployment_ok env robustmq d w1 hfaults hscheme hfresh


/-! ## C10 -/

/-- C10: for every instance whose `DeploymentMode` is neither `AllInOne` nor `Microservices`
(the empty string included) the compiled workloads and network-endpoints are identical, in
kind, name and body, to those compiled for the same instance with `DeploymentMode = AllInOne`,
and the steps that apply them are the same procedures; compilation yields the workloads
whenever the storage quantities parse, and with no failing request the service and workload
steps return no error. -/
theorem unrecognized_mode_falls_back (MustParse : String → Option Quantity)
    (robustmq : RobustMQ)
    (hnotAllInOne : robustmq.Spec.DeploymentMode ≠ AllInOneMode)
    (hnotMicroservices : robustmq.Spec.DeploymentMode ≠ MicroservicesMode) :
    compiledWorkloads MustParse robustmq
      = compiledWorkloads MustParse (withDeploymentMode robustmq AllInOneMode) ∧
    compiledServices robustmq = compiledServices (withDeploymentMode robustmq AllInOneMode) ∧
    (∀ dataSize logsSize, MustParse robustmq.Spec.Storage.Size = some dataSize →
      MustParse "5Gi" = some logsSize →
      ∃ templates, compiledWorkloads MustParse robustmq
        = some [Workload.statefulSet (allInOneStatefulSet robustmq templates)]) ∧
    (∀ env : Env,
      reconcileWorkloads env robustmq
        = reconcileWorkloads env (withDeploymentMode robustmq AllInOneMode) ∧
      reconcileServices env robustmq
        = reconcileServices env (withDeploymentMode robustmq AllInOneMode)) ∧
    (∀ (env : Env) (w : World) (dataSize logsSize : Quantity),
      (∀ n, env.faults n = none) → "RobustMQ" ∈ env.Scheme →
      env.MustParse robustmq.Spec.Storage.Size = some dataSize →
      env.MustParse "5Gi" = some logsSize →
      (reconcileServices env robustmq w).1 = Outcome.ok () ∧
      (reconcileWorkloads env robustmq w).1 = Outcome.ok ()) := by
  have hw : ∀ mp, compiledWorkloads mp robustmq
      = compiledWorkloads mp (withDeploymentMode robustmq AllInOneMode) := by
    intro mp
    unfold compiledWorkloads
    rw [if_neg hnotAllInOne, if_neg hnotMicroservices]
    rw [if_pos (show (withDeploymentMode robustmq AllInOneMode).Spec.DeploymentMode
      = AllInOneMode from rfl)]
    rfl
  have hs : compiledServices robustmq
      = compiledServices (withDeploymentMode robustmq AllInOneMode) := by
    unfold compiledServices
    rw [if_neg hnotAllInOne, if_neg hnotMicroservices]
    rw [if_pos (show (withDeploymentMode robustmq AllInOneMode).Spec.DeploymentMode
      = AllInOneMode from rfl)]
    rfl
  refine ⟨hw MustParse, hs, ?_, ?_, ?_⟩
  · intro dataSize logsSize h1 h2
    simp [compiledWorkloads, hnotAllInOne, hnotMicroservices, buildVolumeClaimTemplates, h1, h2]
  · intro env
    constructor
    · rw [reconcileWorkloads_eq_forEach, reconcileWorkloads_eq_forEach, hw env.MustParse]
      rfl
    · rw [reconcileServices_eq_forEach, reconcileServices_eq_forEach, hs]
      rfl
  · intro env w dataSize logsSize hfaults hscheme hdata hlogs
    exact ⟨reconcileServices_ok env robustmq w hfaults hscheme,
      reconcileWorkloads_ok env robustmq w hfaults hscheme dataSize logsSize hdata hlogs⟩

/-- Witness for C10: the test resource with an empty `DeploymentMode` compiles to the single
AllInOne workload and the six AllInOne endpoints. -/
theorem unrecognized_mode_falls_back_witness :
    (compiledWorkloads parseNonEmpty (withDeploymentMode testResource "")
      = compiledWorkloads parseNonEmpty testResource) ∧
    (compiledServices (withDeploymentMode testResource "") = compiledServices testResource) ∧
    (compiledWorkloads parseNonEmpty (withDeploymentMode testResource "")).map
        (fun ws => ws.map Workload.name) = some ["test-resource"] :=
  ⟨(unrecognized_mode_falls_back parseNonEmpty (withDeploymentMode testResource "")
      (by decide) (by decide)).1,
   (unrecognized_mode_falls_back parseNonEmpty (withDeploymentMode testResource "")
      (by decide) (by decide)).2.1,
   by decide⟩


/-! ## Helper lemmas: Go maps -/

theorem GoMap.get?_set_self {V : Type} (m : GoMap V) (k : String) (v : V) :
    (m.set k v).get? k = some v := by
  induction m with
  | nil => simp [GoMap.set, GoMap.get?]
  | cons kv rest ih =>
    obtain ⟨k0, v0⟩ := kv
    unfold GoMap.set
    by_cases h : k0 = k
    · simp [h, GoMap.get?]
    · rw [if_neg h]
      have hb : (k0 == k) = false := by simpa using h
      unfold GoMap.get? at ih ⊢
      simp only [List.find?_cons, hb]
      exact ih

theorem GoMap.get?_set_ne {V : Type} (m : GoMap V) (k k1 : String) (v : V) (hne : k1 ≠ k) :
    (m.set k v).get? k1 = m.get? k1 := by
  induction m with
  | nil =>
    have hb : (k == k1) = false := by simpa using fun h => hne h.symm
    simp [GoMap.set, GoMap.get?, hb]
  | cons kv rest ih =>
    obtain ⟨k0, v0⟩ := kv
    unfold GoMap.set
    by_cases h : k0 = k
    · subst h
      have hb : (k0 == k1) = false := by simpa using fun h => hne h.symm
      rw [if_pos rfl]
      simp [GoMap.get?, List.find?_cons, hb]
    · rw [if_neg h]
      unfold GoMap.get? at ih ⊢
      by_cases h1 : k0 = k1
      · simp [List.find?_cons, h1]
      · have hb : (k0 == k1) = false := by simpa using h1
        simp only [List.find?_cons, hb]
        exact ih

theorem GoMap.get?_eq_none_iff {V : Type} (m : GoMap V) (k : String) :
    m.get? k = none ↔ k ∉ m.map Prod.fst := by
  unfold GoMap.get?
  simp only [Option.map_eq_none', List.find?_eq_none, List.mem_map, not_exists, not_and]
  constructor
  · intro h kv hkv hk
    exact h kv hkv (by simpa using hk)
  · intro h kv hkv
    simpa using h kv hkv

/-- The loop `for key, value := range additional { config[key] = value }`. -/
theorem GoMap.get?_foldl_not_mem {V : Type} (additional : GoMap V) (config : GoMap V)
    (k : String) (hk : k ∉ additional.map Prod.fst) :
    (additional.foldl (fun c kv => c.set kv.1 kv.2) config).get? k = config.get? k := by
  induction additional generalizing config with
  | nil => rfl
  | cons kv rest ih =>
    simp only [List.map_cons, List.mem_cons, not_or] at hk
    simp only [List.foldl_cons]
    rw [ih _ hk.2, GoMap.get?_set_ne _ _ _ _ hk.1]

theorem GoMap.get?_foldl_mem {V : Type} (additional : GoMap V) (config : GoMap V)
    (k : String) (v : V) (hnodup : (additional.map Prod.fst).Nodup)
    (hk : additional.get? k = some v) :
    (additional.foldl (fun c kv => c.set kv.1 kv.2) config).get? k = some v := by
  induction additional generalizing config with
  | nil => simp [GoMap.get?] at hk
  | cons kv rest ih =>
    obtain ⟨k0, v0⟩ := kv
    simp only [List.map_cons, List.nodup_cons] at hnodup
    simp only [List.foldl_cons]
    by_cases h : k0 = k
    · subst h
      have hv : v0 = v := by
        simpa [GoMap.get?, List.find?_cons] using hk
      subst hv
      rw [GoMap.get?_foldl_not_mem _ _ _ hnodup.1, GoMap.get?_set_self]
    · have hb : (k0 == k) = false := by simpa using h
      have hk1 : GoMap.get? rest k = some v := by
        unfold GoMap.get? at hk ⊢
        simpa only [List.find?_cons, hb] using hk
      exact ih _ hnodup.2 hk1


theorem GoMap.get?_set_present {V : Type} (m : GoMap V) (k k1 : String) (v : V)
    (h : m.get? k1 ≠ none) : (m.set k v).get? k1 ≠ none := by
  by_cases hk : k1 = k
  · subst hk; rw [GoMap.get?_set_self]; simp
  · rw [GoMap.get?_set_ne _ _ _ _ hk]; exact h

theorem GoMap.get?_foldl_present {V : Type} (additional : GoMap V) (config : GoMap V)
    (k : String) (h : config.get? k ≠ none) :
    (additional.foldl (fun c kv => c.set kv.1 kv.2) config).get? k ≠ none := by
  induction additional generalizing config with
  | nil => exact h
  | cons kv rest ih =>
    simp only [List.foldl_cons]
    exact ih _ (GoMap.get?_set_present _ _ _ _ h)

/-! ## Helper lemmas: configuration data -/

theorem generateConfigData_eq (robustmq : RobustMQ) :
    generateConfigData robustmq =
      robustmq.Spec.Config.Additional.foldl (fun c kv => GoMap.set c kv.1 kv.2)
        ([ ("server.toml", generateServerConfig robustmq),
           ("server-tracing.toml", generateTracingConfig robustmq) ] : GoMap String) := by
  have hne : ¬ ("server.toml" = "server-tracing.toml") := by decide
  simp [generateConfigData, GoMap.set, hne]

theorem renderedEntries_get? (server tracing k : String) :
    GoMap.get? [("server.toml", server), ("server-tracing.toml", tracing)] k =
      if k = "server.toml" then some server
      else if k = "server-tracing.toml" then some tracing
      else none := by
  unfold GoMap.get?
  by_cases h1 : k = "server.toml"
  · subst h1; simp [List.find?_cons]
  · by_cases h2 : k = "server-tracing.toml"
    · subst h2
      have hb : ("server.toml" == "server-tracing.toml") = false := by decide
      simp [List.find?_cons, hb]
    · have hb1 : ("server.toml" == k) = false := by simpa using fun h => h1 h.symm
      have hb2 : ("server-tracing.toml" == k) = false := by simpa using fun h => h2 h.symm
      simp [List.find?_cons, hb1, hb2, h1, h2]

/-! ## C19 -/

/-- C19: for every Spec whose `Config.Additional` is a map (each key bound once) and every key
`k` of it, the data produced by `generateConfigData` maps `k` to exactly `Additional[k]`, and
the data has no keys other than `server.toml`, `server-tracing.toml` and the keys of
`Additional`. -/
theorem generateConfigData_passthrough (robustmq : RobustMQ)
    (hmap : (robustmq.Spec.Config.Additional.map Prod.fst).Nodup) :
    (∀ k v, robustmq.Spec.Config.Additional.get? k = some v →
      (generateConfigData robustmq).get? k = some v) ∧
    (∀ k, (generateConfigData robustmq).get? k ≠ none →
      k = "server.toml" ∨ k = "server-tracing.toml" ∨
        robustmq.Spec.Config.Additional.get? k ≠ none) := by
  rw [generateConfigData_eq]
  constructor
  · intro k v hk
    exact GoMap.get?_foldl_mem _ _ k v hmap hk
  · intro k hk
    by_contra hcon
    simp only [not_or, ne_eq, not_not] at hcon
    obtain ⟨h1, h2, h3⟩ := hcon
    rw [GoMap.get?_foldl_not_mem _ _ k ((GoMap.get?_eq_none_iff _ k).mp h3),
      renderedEntries_get?, if_neg h1, if_neg h2] at hk
    exact hk rfl

/-- Witness for C19: the test resource with the additional key `cluster_name`. -/
theorem generateConfigData_passthrough_witness :
    (generateConfigData namedResource).get? "cluster_name" = some "prod" :=
  (generateConfigData_passthrough namedResource (by decide)).1 "cluster_name" "prod"
    (by decide)

/-! ## C20 -/

/-- C20 as stated fails: when `Config.Additional` binds the key `server.toml`, the config
data holds that value under `server.toml`, not the rendered primary configuration. -/
theorem generateConfigData_override_counterexample :
    overridingResource.Spec.Config.Additional = [("server.toml", "custom")] ∧
    (desiredConfigMap overridingResource).Data.get? "server.toml" = some "custom" ∧
    (desiredConfigMap overridingResource).Data.get? "server.toml"
      ≠ some (generateServerConfig overridingResource) := by
  decide!

/-- C20 (amended): for every instance the config resource's data has the keys `server.toml`
and `server-tracing.toml`; the value of each is the rendered primary server configuration,
respectively the rendered tracing configuration, unless `Config.Additional` binds the same
key, in which case the value is the one given in `Additional`. -/
theorem generateConfigData_rendered_entries (robustmq : RobustMQ) :
    (desiredConfigMap robustmq).Data.get? "server.toml" ≠ none ∧
    (desiredConfigMap robustmq).Data.get? "server-tracing.toml" ≠ none ∧
    (robustmq.Spec.Config.Additional.get? "server.toml" = none →
      (desiredConfigMap robustmq).Data.get? "server.toml"
        = some (generateServerConfig robustmq)) ∧
    (robustmq.Spec.Config.Additional.get? "server-tracing.toml" = none →
      (desiredConfigMap robustmq).Data.get? "server-tracing.toml"
        = some (generateTracingConfig robustmq)) ∧
    ((robustmq.Spec.Config.Additional.map Prod.fst).Nodup →
      ∀ k v, robustmq.Spec.Config.Additional.get? k = some v →
        (desiredConfigMap robustmq).Data.get? k = some v) := by
  have hdata : (desiredConfigMap robustmq).Data = generateConfigData robustmq := rfl
  rw [hdata, generateConfigData_eq]
  refine ⟨?_, ?_, ?_, ?_, ?_⟩
  · apply GoMap.get?_foldl_present
    rw [renderedEntries_get?]; simp
  · apply GoMap.get?_foldl_present
    rw [renderedEntries_get?]; simp
  · intro h
    rw [GoMap.get?_foldl_not_mem _ _ _ ((GoMap.get?_eq_none_iff _ _).mp h),
      renderedEntries_get?]
    simp
  · intro h
    rw [GoMap.get?_foldl_not_mem _ _ _ ((GoMap.get?_eq_none_iff _ _).mp h),
      renderedEntries_get?]
    simp
  · intro hmap k v hk
    exact GoMap.get?_foldl_mem _ _ k v hmap hk

/-- Witness for C20 (amended): the test resource has no additional configuration, so both
entries are the rendered texts. -/
theorem generateConfigData_rendered_entries_witness :
    (desiredConfigMap testResource).Data.get? "server.toml"
      = some (generateServerConfig testResource) ∧
    (desiredConfigMap testResource).Data.get? "server-tracing.toml"
      = some (generateTracingConfig testResource) :=
  ⟨(generateConfigData_rendered_entries testResource).2.2.1 rfl,
   (generateConfigData_rendered_entries testResource).2.2.2.1 rfl⟩


/-! ## C16 -/

/-- C16 fails on the code: for the test resource with `Config.Additional["cluster_name"] =
"prod"` and an empty Status (first reconciliation), `generateServerConfig` writes the
instance name as `cluster_name` and `prod` nowhere, although `updateClusterInfo` resolves
the cluster name of the same instance to `prod`. -/
theorem generateServerConfig_first_pass_cluster_name :
    namedResource.Spec.Config.Additional.get? "cluster_name" = some "prod" ∧
    namedResource.Status.ClusterInfo.ClusterName = "" ∧
    ("# RobustMQ Configuration\ncluster_name = \"test-resource\"\n").data
      <+: (generateServerConfig namedResource).data ∧
    ¬ ("prod".data <:+: (generateServerConfig namedResource).data) ∧
    (updateClusterInfo namedResource).Status.ClusterInfo.ClusterName = "prod" := by
  decide!

/-! ## C17 -/

/-- C17 fails on the code: the test resource with an empty Status and the same resource whose
Status records the cluster name `other` have the same name, namespace and Spec, and compile
to the same workloads and endpoints, but their rendered primary configuration and therefore
the body of their config resource differ. -/
theorem generateServerConfig_reads_status :
    testResource.Name = observedResource.Name ∧
    testResource.Namespace = observedResource.Namespace ∧
    testResource.Spec = observedResource.Spec ∧
    generateServerConfig testResource ≠ generateServerConfig observedResource ∧
    desiredConfigMap testResource ≠ desiredConfigMap observedResource ∧
    compiledServices testResource = compiledServices observedResource ∧
    compiledWorkloads parseNonEmpty testResource
      = compiledWorkloads parseNonEmpty observedResource := by
  decide!

/-! ## C18 -/

/-- C18 fails on the code: for the test resource with the unrecognized (empty)
`DeploymentMode`, whose compiled workload is the AllInOne workload, the rendered primary
configuration contains no `roles` entry at all; with `DeploymentMode = AllInOne` it contains
the entry for the three roles. -/
theorem generateServerConfig_unrecognized_mode_no_roles :
    (compiledWorkloads parseNonEmpty (withDeploymentMode testResource "")
      = compiledWorkloads parseNonEmpty testResource) ∧
    ¬ ("roles".data <:+: (generateServerConfig (withDeploymentMode testResource "")).data) ∧
    ("roles = [\"meta\", \"broker\", \"journal\"]\n".data
      <:+: (generateServerConfig testResource).data) ∧
    ("roles = [\"meta\"]\n".data
      <:+: (generateServerConfig (withDeploymentMode testResource MicroservicesMode)).data) := by
  decide!


/-! ## C11 -/

/-- For the two recognized modes the service names read back by `updateServiceStatuses` are
the names of the compiled services, in the same order. -/
theorem statusServiceNames_recognized (robustmq : RobustMQ)
    (hmode : robustmq.Spec.DeploymentMode = AllInOneMode ∨
      robustmq.Spec.DeploymentMode = MicroservicesMode) :
    statusServiceNames robustmq = (compiledServices robustmq).map (fun s => s.ObjectMeta.Name) := by
  have hne : MicroservicesMode ≠ AllInOneMode := by decide
  rcases hmode with h | h
  · simp only [statusServiceNames, compiledServices, h, if_true]
    rw [allInOneServices_names]
  · simp only [statusServiceNames, compiledServices, h, if_neg hne, if_true]
    rw [microservicesServices_names]

/-- C11 fails on the code: for the test resource with the unrecognized (empty)
`DeploymentMode` the compiler produces the StatefulSet `test-resource` and six services, and
a pass creates them, but the status aggregation reads none of them: `updateStatus` issues
no read at all, and the Status written back has empty `DeploymentStatuses` and
`ServiceStatuses`. For the two recognized modes the service names read are the compiled
ones. -/
theorem updateStatus_unrecognized_mode_reads_nothing :
    ((compiledWorkloads parseNonEmpty unrecognizedResource).map
        (fun ws => ws.map Workload.name) = some ["test-resource"]) ∧
    ((compiledServices unrecognizedResource).map (fun s => s.ObjectMeta.Name)
      = [ "test-resource-mqtt", "test-resource-kafka", "test-resource-grpc",
          "test-resource-amqp", "test-resource-meta-service", "test-resource-prometheus" ]) ∧
    statusServiceNames unrecognizedResource = [] ∧
    ((updateStatus calmEnv unrecognizedResource (freshWorld unrecognizedResource)).2.calls
      = [ { verb := Verb.statusUpdate, kind := "RobustMQ", Namespace := "default",
            Name := "test-resource" } ]) ∧
    ((Reconcile calmEnv testRequest (freshWorld unrecognizedResource)).1
      = Outcome.ok { RequeueAfter := Minute * 5 }) ∧
    ((Reconcile calmEnv testRequest (freshWorld unrecognizedResource)).2.cluster.StatefulSets.map
        (fun s => s.ObjectMeta.Name) = ["test-resource"]) ∧
    ((Reconcile calmEnv testRequest (freshWorld unrecognizedResource)).2.cluster.Services.length
      = 6) ∧
    ((Reconcile calmEnv testRequest (freshWorld unrecognizedResource)).2.cluster.RobustMQs.map
        (fun r => (r.Status.DeploymentStatuses, r.Status.ServiceStatuses, r.Status.Phase))
      = [([], [], PhaseInitializing)]) ∧
    (∀ robustmq : RobustMQ,
      robustmq.Spec.DeploymentMode = AllInOneMode ∨
        robustmq.Spec.DeploymentMode = MicroservicesMode →
      statusServiceNames robustmq
        = (compiledServices robustmq).map (fun s => s.ObjectMeta.Name)) := by
  refine ⟨by decide!, by decide!, by decide!, by decide!, by decide!, by decide!, by decide!,
    by decide!, statusServiceNames_recognized⟩


/-! ## Helper lemmas: the effect of requests that do not fail -/

/-- The world after one recorded request that left the given cluster. -/
theorem apiGet_calm_eq {α : Type} (env : Env) (R : Resource α) (ns name : String) (w : World)
    (hfaults : ∀ n, env.faults n = none) :
    apiGet env R ns name w =
      ((match lookup R w.cluster ns name with
        | some o => Outcome.ok o
        | none => Outcome.err Err.notFound),
       { w with calls := w.calls ++
          [{ verb := Verb.get, kind := R.kind, Namespace := ns, Name := name }] }) := by
  unfold apiGet request
  simp only [hfaults]
  cases lookup R w.cluster ns name <;> rfl

theorem apiCreate_calm_eq {α : Type} (env : Env) (R : Resource α) (obj : α) (w : World)
    (hfaults : ∀ n, env.faults n = none)
    (hfree : lookup R w.cluster (R.ns obj) (R.name obj) = none) :
    apiCreate env R obj w =
      (Outcome.ok (),
       { w with
         calls := w.calls ++
           [{ verb := Verb.create, kind := R.kind, Namespace := R.ns obj, Name := R.name obj }]
         cluster := R.put w.cluster (R.list w.cluster ++ [obj]) }) := by
  unfold apiCreate request
  simp only [hfaults, hfree]

theorem apiUpdate_calm_eq {α : Type} (env : Env) (R : Resource α) (obj : α) (w : World)
    (hfaults : ∀ n, env.faults n = none) (stored : α)
    (hstored : lookup R w.cluster (R.ns obj) (R.name obj) = some stored) :
    apiUpdate env R obj w =
      (Outcome.ok (),
       { w with
         calls := w.calls ++
           [{ verb := Verb.update, kind := R.kind, Namespace := R.ns obj, Name := R.name obj }]
         cluster := R.put w.cluster (replaceObject R obj (R.list w.cluster)) }) := by
  unfold apiUpdate request
  simp only [hfaults, hstored]

/-- Reading back the key of an object that has just replaced the stored one. -/
theorem find?_replaceObject_self {α : Type} (R : Resource α) (obj stored : α) (l : List α)
    (h : l.find? (fun o => R.ns o == R.ns obj && R.name o == R.name obj) = some stored) :
    (replaceObject R obj l).find? (fun o => R.ns o == R.ns obj && R.name o == R.name obj)
      = some obj := by
  induction l with
  | nil => simp at h
  | cons o rest ih =>
    unfold replaceObject
    by_cases hkey : R.ns o = R.ns obj ∧ R.name o = R.name obj
    · rw [if_pos hkey]; simp [List.find?_cons]
    · rw [if_neg hkey]
      have hp : (R.ns o == R.ns obj && R.name o == R.name obj) = false := by
        simpa using hkey
      simp only [List.find?_cons, hp] at h ⊢
      exact ih h

theorem find?_append_new {α : Type} (R : Resource α) (obj : α) (l : List α)
    (h : l.find? (fun o => R.ns o == R.ns obj && R.name o == R.name obj) = none) :
    (l ++ [obj]).find? (fun o => R.ns o == R.ns obj && R.name o == R.name obj) = some obj := by
  rw [List.find?_append, h]
  simp [List.find?_cons]


/-- With no failing request and a registered scheme, create-or-update of a service whose key
is taken overwrites the stored object with the field-scoped merge. -/
theorem createOrUpdateService_existing (env : Env) (robustmq : RobustMQ) (service found : Service)
    (w : World) (hfaults : ∀ n, env.faults n = none) (hscheme : "RobustMQ" ∈ env.Scheme)
    (howner : service.ObjectMeta.OwnerReferences = [])
    (hfound : lookup services w.cluster service.ObjectMeta.Namespace service.ObjectMeta.Name
      = some found) :
    createOrUpdateService env robustmq service w =
      (Outcome.ok (),
       { w with
         calls := w.calls ++
           [ { verb := Verb.get, kind := "Service", Namespace := service.ObjectMeta.Namespace,
               Name := service.ObjectMeta.Name },
             { verb := Verb.update, kind := "Service", Namespace := service.ObjectMeta.Namespace,
               Name := service.ObjectMeta.Name } ]
         cluster := services.put w.cluster (replaceObject services
           { found with Spec := { found.Spec with Ports := service.Spec.Ports,
                                                  Type_ := service.Spec.Type_ } }
           w.cluster.Services) }) := by
  obtain ⟨hns, hname⟩ := lookup_key services _ _ _ _ hfound
  have hns1 : found.ObjectMeta.Namespace = service.ObjectMeta.Namespace := hns
  have hname1 : found.ObjectMeta.Name = service.ObjectMeta.Name := hname
  unfold createOrUpdateService
  simp only [bind_def, SetControllerReference_fresh _ _ _ hscheme howner, liftExcept,
    M.pure_bind]
  have hget := apiGet_calm_eq env services service.ObjectMeta.Namespace
    service.ObjectMeta.Name w hfaults
  rw [hfound] at hget
  rw [bind_attempt_ok _ _ _ found (by rw [hget]), hget]
  simp only
  rw [apiUpdate_calm_eq env services _ _ hfaults found
    (by show lookup services w.cluster found.ObjectMeta.Namespace found.ObjectMeta.Name = _
        rw [hns1, hname1]; exact hfound)]
  simp [services, hns1, hname1]


/-- With no failing request and a registered scheme, create-or-update of a service whose key
is free stores the desired object stamped with the controller reference. -/
theorem createOrUpdateService_absent (env : Env) (robustmq : RobustMQ) (service : Service)
    (w : World) (hfaults : ∀ n, env.faults n = none) (hscheme : "RobustMQ" ∈ env.Scheme)
    (howner : service.ObjectMeta.OwnerReferences = [])
    (hfree : lookup services w.cluster service.ObjectMeta.Namespace service.ObjectMeta.Name
      = none) :
    createOrUpdateService env robustmq service w =
      (Outcome.ok (),
       { w with
         calls := w.calls ++
           [ { verb := Verb.get, kind := "Service", Namespace := service.ObjectMeta.Namespace,
               Name := service.ObjectMeta.Name },
             { verb := Verb.create, kind := "Service", Namespace := service.ObjectMeta.Namespace,
               Name := service.ObjectMeta.Name } ]
         cluster := services.put w.cluster (w.cluster.Services ++
           [{ service with ObjectMeta := { service.ObjectMeta with
                OwnerReferences := [controllerReference robustmq] } }]) }) := by
  unfold createOrUpdateService
  simp only [bind_def, SetControllerReference_fresh _ _ _ hscheme howner, liftExcept,
    M.pure_bind]
  have hget := apiGet_calm_eq env services service.ObjectMeta.Namespace
    service.ObjectMeta.Name w hfaults
  rw [hfree] at hget
  rw [bind_attempt_err _ _ _ Err.notFound (by rw [hget]), hget]
  simp only
  rw [apiCreate_calm_eq env services _ _ hfaults (by exact hfree)]
  simp [services]

/-- With no failing request and a registered scheme, create-or-update of a StatefulSet whose key
is taken overwrites the stored object with the field-scoped merge. -/
theorem createOrUpdateStatefulSet_existing (env : Env) (robustmq : RobustMQ) (statefulSet found : StatefulSet)
    (w : World) (hfaults : ∀ n, env.faults n = none) (hscheme : "RobustMQ" ∈ env.Scheme)
    (howner : statefulSet.ObjectMeta.OwnerReferences = [])
    (hfound : lookup statefulSets w.cluster statefulSet.ObjectMeta.Namespace statefulSet.ObjectMeta.Name
      = some found) :
    createOrUpdateStatefulSet env robustmq statefulSet w =
      (Outcome.ok (),
       { w with
         calls := w.calls ++
           [ { verb := Verb.get, kind := "StatefulSet", Namespace := statefulSet.ObjectMeta.Namespace,
               Name := statefulSet.ObjectMeta.Name },
             { verb := Verb.update, kind := "StatefulSet", Namespace := statefulSet.ObjectMeta.Namespace,
               Name := statefulSet.ObjectMeta.Name } ]
         cluster := statefulSets.put w.cluster (replaceObject statefulSets
           { found with Spec := { found.Spec with Replicas := statefulSet.Spec.Replicas,
                                                  Template := statefulSet.Spec.Template } }
           w.cluster.StatefulSets) }) := by
  obtain ⟨hns, hname⟩ := lookup_key statefulSets _ _ _ _ hfound
  have hns1 : found.ObjectMeta.Namespace = statefulSet.ObjectMeta.Namespace := hns
  have hname1 : found.ObjectMeta.Name = statefulSet.ObjectMeta.Name := hname
  unfold createOrUpdateStatefulSet
  simp only [bind_def, SetControllerReference_fresh _ _ _ hscheme howner, liftExcept,
    M.pure_bind]
  have hget := apiGet_calm_eq env statefulSets statefulSet.ObjectMeta.Namespace
    statefulSet.ObjectMeta.Name w hfaults
  rw [hfound] at hget
  rw [bind_attempt_ok _ _ _ found (by rw [hget]), hget]
  simp only
  rw [apiUpdate_calm_eq env statefulSets _ _ hfaults found
    (by show lookup statefulSets w.cluster found.ObjectMeta.Namespace found.ObjectMeta.Name = _
        rw [hns1, hname1]; exact hfound)]
  simp [statefulSets, hns1, hname1]


/-- With no failing request and a registered scheme, create-or-update of a StatefulSet whose key
is free stores the desired object stamped with the controller reference. -/
theorem createOrUpdateStatefulSet_absent (env : Env) (robustmq : RobustMQ) (statefulSet : StatefulSet)
    (w : World) (hfaults : ∀ n, env.faults n = none) (hscheme : "RobustMQ" ∈ env.Scheme)
    (howner : statefulSet.ObjectMeta.OwnerReferences = [])
    (hfree : lookup statefulSets w.cluster statefulSet.ObjectMeta.Namespace statefulSet.ObjectMeta.Name
      = none) :
    createOrUpdateStatefulSet env robustmq statefulSet w =
      (Outcome.ok (),
       { w with
         calls := w.calls ++
           [ { verb := Verb.get, kind := "StatefulSet", Namespace := statefulSet.ObjectMeta.Namespace,
               Name := statefulSet.ObjectMeta.Name },
             { verb := Verb.create, kind := "StatefulSet", Namespace := statefulSet.ObjectMeta.Namespace,
               Name := statefulSet.ObjectMeta.Name } ]
         cluster := statefulSets.put w.cluster (w.cluster.StatefulSets ++
           [{ statefulSet with ObjectMeta := { statefulSet.ObjectMeta with
                OwnerReferences := [controllerReference robustmq] } }]) }) := by
  unfold createOrUpdateStatefulSet
  simp only [bind_def, SetControllerReference_fresh _ _ _ hscheme howner, liftExcept,
    M.pure_bind]
  have hget := apiGet_calm_eq env statefulSets statefulSet.ObjectMeta.Namespace
    statefulSet.ObjectMeta.Name w hfaults
  rw [hfree] at hget
  rw [bind_attempt_err _ _ _ Err.notFound (by rw [hget]), hget]
  simp only
  rw [apiCreate_calm_eq env statefulSets _ _ hfaults (by exact hfree)]
  simp [statefulSets]

/-- With no failing request and a registered scheme, create-or-update of a Deployment whose key
is taken overwrites the stored object with the field-scoped merge. -/
theorem createOrUpdateDeployment_existing (env : Env) (robustmq : RobustMQ) (deployment found : Deployment)
    (w : World) (hfaults : ∀ n, env.faults n = none) (hscheme : "RobustMQ" ∈ env.Scheme)
    (howner : deployment.ObjectMeta.OwnerReferences = [])
    (hfound : lookup deployments w.cluster deployment.ObjectMeta.Namespace deployment.ObjectMeta.Name
      = some found) :
    createOrUpdateDeployment env robustmq deployment w =
      (Outcome.ok (),
       { w with
         calls := w.calls ++
           [ { verb := Verb.get, kind := "Deployment", Namespace := deployment.ObjectMeta.Namespace,
               Name := deployment.ObjectMeta.Name },
             { verb := Verb.update, kind := "Deployment", Namespace := deployment.ObjectMeta.Namespace,
               Name := deployment.ObjectMeta.Name } ]
         cluster := deployments.put w.cluster (replaceObject deployments
           { found with Spec := { found.Spec with Replicas := deployment.Spec.Replicas,
                                                  Template := deployment.Spec.Template } }
           w.cluster.Deployments) }) := by
  obtain ⟨hns, hname⟩ := lookup_key deployments _ _ _ _ hfound
  have hns1 : found.ObjectMeta.Namespace = deployment.ObjectMeta.Namespace := hns
  have hname1 : found.ObjectMeta.Name = deployment.ObjectMeta.Name := hname
  unfold createOrUpdateDeployment
  simp only [bind_def, SetControllerReference_fresh _ _ _ hscheme howner, liftExcept,
    M.pure_bind]
  have hget := apiGet_calm_eq env deployments deployment.ObjectMeta.Namespace
    deployment.ObjectMeta.Name w hfaults
  rw [hfound] at hget
  rw [bind_attempt_ok _ _ _ found (by rw [hget]), hget]
  simp only
  rw [apiUpdate_calm_eq env deployments _ _ hfaults found
    (by show lookup deployments w.cluster found.ObjectMeta.Namespace found.ObjectMeta.Name = _
        rw [hns1, hname1]; exact hfound)]
  simp [deployments, hns1, hname1]


/-- With no failing request and a registered scheme, create-or-update of a Deployment whose key
is free stores the desired object stamped with the controller reference. -/
theorem createOrUpdateDeployment_absent (env : Env) (robustmq : RobustMQ) (deployment : Deployment)
    (w : World) (hfaults : ∀ n, env.faults n = none) (hscheme : "RobustMQ" ∈ env.Scheme)
    (howner : deployment.ObjectMeta.OwnerReferences = [])
    (hfree : lookup deployments w.cluster deployment.ObjectMeta.Namespace deployment.ObjectMeta.Name
      = none) :
    createOrUpdateDeployment env robustmq deployment w =
      (Outcome.ok (),
       { w with
         calls := w.calls ++
           [ { verb := Verb.get, kind := "Deployment", Namespace := deployment.ObjectMeta.Namespace,
               Name := deployment.ObjectMeta.Name },
             { verb := Verb.create, kind := "Deployment", Namespace := deployment.ObjectMeta.Namespace,
               Name := deployment.ObjectMeta.Name } ]
         cluster := deployments.put w.cluster (w.cluster.Deployments ++
           [{ deployment with ObjectMeta := { deployment.ObjectMeta with
                OwnerReferences := [controllerReference robustmq] } }]) }) := by
  unfold createOrUpdateDeployment
  simp only [bind_def, SetControllerReference_fresh _ _ _ hscheme howner, liftExcept,
    M.pure_bind]
  have hget := apiGet_calm_eq env deployments deployment.ObjectMeta.Namespace
    deployment.ObjectMeta.Name w hfaults
  rw [hfree] at hget
  rw [bind_attempt_err _ _ _ Err.notFound (by rw [hget]), hget]
  simp only
  rw [apiCreate_calm_eq env deployments _ _ hfaults (by exact hfree)]
  simp [deployments]


/-- With no failing request and a registered scheme, `reconcileConfigMap` on an existing
ConfigMap overwrites its data only. -/
theorem reconcileConfigMap_existing (env : Env) (robustmq : RobustMQ) (found : ConfigMap)
    (w : World) (hfaults : ∀ n, env.faults n = none) (hscheme : "RobustMQ" ∈ env.Scheme)
    (hfound : lookup configMaps w.cluster robustmq.Namespace (robustmq.Name ++ "-config")
      = some found) :
    reconcileConfigMap env robustmq w =
      (Outcome.ok (),
       { w with
         calls := w.calls ++
           [ { verb := Verb.get, kind := "ConfigMap", Namespace := robustmq.Namespace,
               Name := robustmq.Name ++ "-config" },
             { verb := Verb.update, kind := "ConfigMap", Namespace := robustmq.Namespace,
               Name := robustmq.Name ++ "-config" } ]
         cluster := configMaps.put w.cluster (replaceObject configMaps
           { found with Data := generateConfigData robustmq } w.cluster.ConfigMaps) }) := by
  obtain ⟨hns, hname⟩ := lookup_key configMaps _ _ _ _ hfound
  have hns1 : found.ObjectMeta.Namespace = robustmq.Namespace := hns
  have hname1 : found.ObjectMeta.Name = robustmq.Name ++ "-config" := hname
  unfold reconcileConfigMap
  simp only [bind_def, SetControllerReference_fresh env.Scheme robustmq
    (desiredConfigMap robustmq).ObjectMeta hscheme rfl, liftExcept, M.pure_bind]
  have hget := apiGet_calm_eq env configMaps robustmq.Namespace
    (robustmq.Name ++ "-config") w hfaults
  rw [hfound] at hget
  have hget1 : apiGet env configMaps (desiredConfigMap robustmq).ObjectMeta.Namespace
      (desiredConfigMap robustmq).ObjectMeta.Name w = _ := hget
  rw [bind_attempt_ok _ _ _ found (by rw [hget1]), hget1]
  simp only
  rw [apiUpdate_calm_eq env configMaps _ _ hfaults found
    (by show lookup configMaps w.cluster found.ObjectMeta.Namespace found.ObjectMeta.Name = _
        rw [hns1, hname1]; exact hfound)]
  simp [configMaps, hns1, hname1, desiredConfigMap]

/-- With no failing request and a registered scheme, `reconcileConfigMap` creates the
ConfigMap, stamped with the controller reference, when it does not exist. -/
theorem reconcileConfigMap_absent (env : Env) (robustmq : RobustMQ)
    (w : World) (hfaults : ∀ n, env.faults n = none) (hscheme : "RobustMQ" ∈ env.Scheme)
    (hfree : lookup configMaps w.cluster robustmq.Namespace (robustmq.Name ++ "-config")
      = none) :
    reconcileConfigMap env robustmq w =
      (Outcome.ok (),
       { w with
         calls := w.calls ++
           [ { verb := Verb.get, kind := "ConfigMap", Namespace := robustmq.Namespace,
               Name := robustmq.Name ++ "-config" },
             { verb := Verb.create, kind := "ConfigMap", Namespace := robustmq.Namespace,
               Name := robustmq.Name ++ "-config" } ]
         cluster := configMaps.put w.cluster (w.cluster.ConfigMaps ++
           [{ desiredConfigMap robustmq with ObjectMeta :=
                { (desiredConfigMap robustmq).ObjectMeta with
                  OwnerReferences := [controllerReference robustmq] } }]) }) := by
  unfold reconcileConfigMap
  simp only [bind_def, SetControllerReference_fresh env.Scheme robustmq
    (desiredConfigMap robustmq).ObjectMeta hscheme rfl, liftExcept, M.pure_bind]
  have hget := apiGet_calm_eq env configMaps robustmq.Namespace
    (robustmq.Name ++ "-config") w hfaults
  rw [hfree] at hget
  have hget1 : apiGet env configMaps (desiredConfigMap robustmq).ObjectMeta.Namespace
      (desiredConfigMap robustmq).ObjectMeta.Name w = _ := hget
  rw [bind_attempt_err _ _ _ Err.notFound (by rw [hget1]), hget1]
  simp only
  rw [apiCreate_calm_eq env configMaps _ _ hfaults (by exact hfree)]
  simp [configMaps, desiredConfigMap, objectMeta]


theorem lookup_put_replace {α : Type} (R : Resource α) (hlens : ∀ c l, R.list (R.put c l) = l)
    (c : Cluster) (obj stored : α)
    (h : lookup R c (R.ns obj) (R.name obj) = some stored) :
    lookup R (R.put c (replaceObject R obj (R.list c))) (R.ns obj) (R.name obj) = some obj := by
  unfold lookup at h ⊢
  rw [hlens]
  exact find?_replaceObject_self R obj stored _ h

theorem lookup_put_append {α : Type} (R : Resource α) (hlens : ∀ c l, R.list (R.put c l) = l)
    (c : Cluster) (obj : α)
    (h : lookup R c (R.ns obj) (R.name obj) = none) :
    lookup R (R.put c (R.list c ++ [obj])) (R.ns obj) (R.name obj) = some obj := by
  unfold lookup at h ⊢
  rw [hlens]
  exact find?_append_new R obj _ h

/-- The stored object after create-or-update of an existing resource, for each kind. -/
theorem update_is_field_scoped_merge_aux (env : Env) (robustmq : RobustMQ) (w : World)
    (hfaults : ∀ n, env.faults n = none) (hscheme : "RobustMQ" ∈ env.Scheme) :
    (∀ desired found : StatefulSet, desired.ObjectMeta.OwnerReferences = [] →
      lookup statefulSets w.cluster desired.ObjectMeta.Namespace desired.ObjectMeta.Name
        = some found →
      (createOrUpdateStatefulSet env robustmq desired w).1 = Outcome.ok () ∧
      lookup statefulSets (createOrUpdateStatefulSet env robustmq desired w).2.cluster
          desired.ObjectMeta.Namespace desired.ObjectMeta.Name
        = some { found with Spec := { found.Spec with
            Replicas := desired.Spec.Replicas, Template := desired.Spec.Template } }) ∧
    (∀ desired found : Deployment, desired.ObjectMeta.OwnerReferences = [] →
      lookup deployments w.cluster desired.ObjectMeta.Namespace desired.ObjectMeta.Name
        = some found →
      (createOrUpdateDeployment env robustmq desired w).1 = Outcome.ok () ∧
      lookup deployments (createOrUpdateDeployment env robustmq desired w).2.cluster
          desired.ObjectMeta.Namespace desired.ObjectMeta.Name
        = some { found with Spec := { found.Spec with
            Replicas := desired.Spec.Replicas, Template := desired.Spec.Template } }) ∧
    (∀ desired found : Service, desired.ObjectMeta.OwnerReferences = [] →
      lookup services w.cluster desired.ObjectMeta.Namespace desired.ObjectMeta.Name
        = some found →
      (createOrUpdateService env robustmq desired w).1 = Outcome.ok () ∧
      lookup services (createOrUpdateService env robustmq desired w).2.cluster
          desired.ObjectMeta.Namespace desired.ObjectMeta.Name
        = some { found with Spec := { found.Spec with
            Ports := desired.Spec.Ports, Type_ := desired.Spec.Type_ } }) ∧
    (∀ found : ConfigMap,
      lookup configMaps w.cluster robustmq.Namespace (robustmq.Name ++ "-config") = some found →
      (reconcileConfigMap env robustmq w).1 = Outcome.ok () ∧
      lookup configMaps (reconcileConfigMap env robustmq w).2.cluster
          robustmq.Namespace (robustmq.Name ++ "-config")
        = some { found with Data := generateConfigData robustmq }) := by
  refine ⟨?_, ?_, ?_, ?_⟩
  · intro desired found howner hfound
    obtain ⟨hns, hname⟩ := lookup_key statefulSets _ _ _ _ hfound
    rw [createOrUpdateStatefulSet_existing env robustmq desired found w hfaults hscheme howner
      hfound]
    refine ⟨rfl, ?_⟩
    have hns1 : found.ObjectMeta.Namespace = desired.ObjectMeta.Namespace := hns
    have hname1 : found.ObjectMeta.Name = desired.ObjectMeta.Name := hname
    have h := lookup_put_replace statefulSets (fun _ _ => rfl) w.cluster
      { found with Spec := { found.Spec with
          Replicas := desired.Spec.Replicas, Template := desired.Spec.Template } } found
      (by show lookup statefulSets w.cluster found.ObjectMeta.Namespace found.ObjectMeta.Name = _
          rw [hns1, hname1]; exact hfound)
    simpa [statefulSets, hns1, hname1] using h
  · intro desired found howner hfound
    obtain ⟨hns, hname⟩ := lookup_key deployments _ _ _ _ hfound
    rw [createOrUpdateDeployment_existing env robustmq desired found w hfaults hscheme howner
      hfound]
    refine ⟨rfl, ?_⟩
    have hns1 : found.ObjectMeta.Namespace = desired.ObjectMeta.Namespace := hns
    have hname1 : found.ObjectMeta.Name = desired.ObjectMeta.Name := hname
    have h := lookup_put_replace deployments (fun _ _ => rfl) w.cluster
      { found with Spec := { found.Spec with
          Replicas := desired.Spec.Replicas, Template := desired.Spec.Template } } found
      (by show lookup deployments w.cluster found.ObjectMeta.Namespace found.ObjectMeta.Name = _
          rw [hns1, hname1]; exact hfound)
    simpa [deployments, hns1, hname1] using h
  · intro desired found howner hfound
    obtain ⟨hns, hname⟩ := lookup_key services _ _ _ _ hfound
    rw [createOrUpdateService_existing env robustmq desired found w hfaults hscheme howner
      hfound]
    refine ⟨rfl, ?_⟩
    have hns1 : found.ObjectMeta.Namespace = desired.ObjectMeta.Namespace := hns
    have hname1 : found.ObjectMeta.Name = desired.ObjectMeta.Name := hname
    have h := lookup_put_replace services (fun _ _ => rfl) w.cluster
      { found with Spec := { found.Spec with
          Ports := desired.Spec.Ports, Type_ := desired.Spec.Type_ } } found
      (by show lookup services w.cluster found.ObjectMeta.Namespace found.ObjectMeta.Name = _
          rw [hns1, hname1]; exact hfound)
    simpa [services, hns1, hname1] using h
  · intro found hfound
    obtain ⟨hns, hname⟩ := lookup_key configMaps _ _ _ _ hfound
    rw [reconcileConfigMap_existing env robustmq found w hfaults hscheme hfound]
    refine ⟨rfl, ?_⟩
    have hns1 : found.ObjectMeta.Namespace = robustmq.Namespace := hns
    have hname1 : found.ObjectMeta.Name = robustmq.Name ++ "-config" := hname
    have h := lookup_put_replace configMaps (fun _ _ => rfl) w.cluster
      { found with Data := generateConfigData robustmq } found
      (by show lookup configMaps w.cluster found.ObjectMeta.Namespace found.ObjectMeta.Name = _
          rw [hns1, hname1]; exact hfound)
    simpa [configMaps, hns1, hname1] using h

/-! ## C14 -/

/-- C14: when a managed resource already exists (and no request fails), the update is a
field-scoped merge: the object written back is the live object as read with only the
replica count and pod template replaced for a workload, only the ports and type for a
network-endpoint, only the data for the config resource; metadata (labels, annotations,
owner references), selector, service name, volume claim templates and cluster address are
those of the live object. -/
theorem update_is_field_scoped_merge (env : Env) (robustmq : RobustMQ) (w : World)
    (hfaults : ∀ n, env.faults n = none) (hscheme : "RobustMQ" ∈ env.Scheme) :
    (∀ desired found : StatefulSet, desired.ObjectMeta.OwnerReferences = [] →
      lookup statefulSets w.cluster desired.ObjectMeta.Namespace desired.ObjectMeta.Name
        = some found →
      (createOrUpdateStatefulSet env robustmq desired w).1 = Outcome.ok () ∧
      lookup statefulSets (createOrUpdateStatefulSet env robustmq desired w).2.cluster
          desired.ObjectMeta.Namespace desired.ObjectMeta.Name
        = some { found with Spec := { found.Spec with
            Replicas := desired.Spec.Replicas, Template := desired.Spec.Template } }) ∧
    (∀ desired found : Deployment, desired.ObjectMeta.OwnerReferences = [] →
      lookup deployments w.cluster desired.ObjectMeta.Namespace desired.ObjectMeta.Name
        = some found →
      (createOrUpdateDeployment env robustmq desired w).1 = Outcome.ok () ∧
      lookup deployments (createOrUpdateDeployment env robustmq desired w).2.cluster
          desired.ObjectMeta.Namespace desired.ObjectMeta.Name
        = some { found with Spec := { found.Spec with
            Replicas := desired.Spec.Replicas, Template := desired.Spec.Template } }) ∧
    (∀ desired found : Service, desired.ObjectMeta.OwnerReferences = [] →
      lookup services w.cluster desired.ObjectMeta.Namespace desired.ObjectMeta.Name
        = some found →
      (createOrUpdateService env robustmq desired w).1 = Outcome.ok () ∧
      lookup services (createOrUpdateService env robustmq desired w).2.cluster
          desired.ObjectMeta.Namespace desired.ObjectMeta.Name
        = some { found with Spec := { found.Spec with
            Ports := desired.Spec.Ports, Type_ := desired.Spec.Type_ } }) ∧
    (∀ found : ConfigMap,
      lookup configMaps w.cluster robustmq.Namespace (robustmq.Name ++ "-config") = some found →
      (reconcileConfigMap env robustmq w).1 = Outcome.ok () ∧
      lookup configMaps (reconcileConfigMap env robustmq w).2.cluster
          robustmq.Namespace (robustmq.Name ++ "-config")
        = some { found with Data := generateConfigData robustmq }) := by
  have hstored := update_is_field_scoped_merge_aux env robustmq w hfaults hscheme
  refine ⟨?_, ?_, ?_, ?_⟩
  · intro desired found howner hfound
    exact hstored.1 desired found howner hfound
  · intro desired found howner hfound
    exact hstored.2.1 desired found howner hfound
  · intro desired found howner hfound
    exact hstored.2.2.1 desired found howner hfound
  · intro found hfound
    exact hstored.2.2.2 found hfound

/-- Witness for C14: the StatefulSet `test-resource` created by another actor keeps its
labels, annotations, selector and service name; only replicas and template change. -/
theorem update_is_field_scoped_merge_witness :
    lookup statefulSets
        (createOrUpdateStatefulSet calmEnv testResource (allInOneStatefulSet testResource [])
          adoptedWorld).2.cluster "default" "test-resource"
      = some { foreignStatefulSet with Spec := { foreignStatefulSet.Spec with
          Replicas := some 1
          Template := (allInOneStatefulSet testResource []).Spec.Template } } :=
  ((update_is_field_scoped_merge calmEnv testResource adoptedWorld (fun _ => rfl)
      (by decide)).1 (allInOneStatefulSet testResource []) foreignStatefulSet rfl
      (by decide)).2


/-! ## C15 -/

/-- C15 as stated fails: the StatefulSet `test-resource` exists without an owner reference;
create-or-update of the compiled workload succeeds, and the live object still has no owner
reference, so it does not carry the controller reference to the instance. -/
theorem createOrUpdate_existing_not_owned_counterexample :
    lookup statefulSets adoptedWorld.cluster "default" "test-resource"
      = some foreignStatefulSet ∧
    foreignStatefulSet.ObjectMeta.OwnerReferences = [] ∧
    (createOrUpdateStatefulSet calmEnv testResource (allInOneStatefulSet testResource [])
      adoptedWorld).1 = Outcome.ok () ∧
    ¬ (∃ live,
        lookup statefulSets
            (createOrUpdateStatefulSet calmEnv testResource
              (allInOneStatefulSet testResource []) adoptedWorld).2.cluster
            "default" "test-resource" = some live ∧
        controllerReference testResource ∈ live.ObjectMeta.OwnerReferences) := by
  refine ⟨by decide!, rfl, by decide!, ?_⟩
  rintro ⟨live, hlive, hmem⟩
  have hstored : lookup statefulSets
      (createOrUpdateStatefulSet calmEnv testResource
        (allInOneStatefulSet testResource []) adoptedWorld).2.cluster
      "default" "test-resource"
      = some { foreignStatefulSet with Spec := { foreignStatefulSet.Spec with
          Replicas := some 1
          Template := (allInOneStatefulSet testResource []).Spec.Template } } := by
    decide!
  rw [hstored] at hlive
  cases hlive
  simp [foreignStatefulSet] at hmem

/-- C15 (amended): after a successful create-or-update of a managed resource, the live object
carries the controller owner reference to the instance when the object was created by the
pass; when it already existed, its metadata, the owner references included, is left exactly
as it was (an object without an owner reference stays without one). -/
theorem createOrUpdate_owner_reference (env : Env) (robustmq : RobustMQ) (w : World)
    (hfaults : ∀ n, env.faults n = none) (hscheme : "RobustMQ" ∈ env.Scheme) :
    (∀ desired : StatefulSet, desired.ObjectMeta.OwnerReferences = [] →
      lookup statefulSets w.cluster desired.ObjectMeta.Namespace desired.ObjectMeta.Name = none →
      (createOrUpdateStatefulSet env robustmq desired w).1 = Outcome.ok () ∧
      ∃ live, lookup statefulSets (createOrUpdateStatefulSet env robustmq desired w).2.cluster
          desired.ObjectMeta.Namespace desired.ObjectMeta.Name = some live ∧
        live.ObjectMeta.OwnerReferences = [controllerReference robustmq]) ∧
    (∀ desired found : StatefulSet, desired.ObjectMeta.OwnerReferences = [] →
      lookup statefulSets w.cluster desired.ObjectMeta.Namespace desired.ObjectMeta.Name
        = some found →
      (createOrUpdateStatefulSet env robustmq desired w).1 = Outcome.ok () ∧
      ∃ live, lookup statefulSets (createOrUpdateStatefulSet env robustmq desired w).2.cluster
          desired.ObjectMeta.Namespace desired.ObjectMeta.Name = some live ∧
        live.ObjectMeta = found.ObjectMeta) ∧
    (∀ desired : Deployment, desired.ObjectMeta.OwnerReferences = [] →
      lookup deployments w.cluster desired.ObjectMeta.Namespace desired.ObjectMeta.Name = none →
      (createOrUpdateDeployment env robustmq desired w).1 = Outcome.ok () ∧
      ∃ live, lookup deployments (createOrUpdateDeployment env robustmq desired w).2.cluster
          desired.ObjectMeta.Namespace desired.ObjectMeta.Name = some live ∧
        live.ObjectMeta.OwnerReferences = [controllerReference robustmq]) ∧
    (∀ desired found : Deployment, desired.ObjectMeta.OwnerReferences = [] →
      lookup deployments w.cluster desired.ObjectMeta.Namespace desired.ObjectMeta.Name
        = some found →
      (createOrUpdateDeployment env robustmq desired w).1 = Outcome.ok () ∧
      ∃ live, lookup deployments (createOrUpdateDeployment env robustmq desired w).2.cluster
          desired.ObjectMeta.Namespace desired.ObjectMeta.Name = some live ∧
        live.ObjectMeta = found.ObjectMeta) ∧
    (∀ desired : Service, desired.ObjectMeta.OwnerReferences = [] →
      lookup services w.cluster desired.ObjectMeta.Namespace desired.ObjectMeta.Name = none →
      (createOrUpdateService env robustmq desired w).1 = Outcome.ok () ∧
      ∃ live, lookup services (createOrUpdateService env robustmq desired w).2.cluster
          desired.ObjectMeta.Namespace desired.ObjectMeta.Name = some live ∧
        live.ObjectMeta.OwnerReferences = [controllerReference robustmq]) ∧
    (∀ desired found : Service, desired.ObjectMeta.OwnerReferences = [] →
      lookup services w.cluster desired.ObjectMeta.Namespace desired.ObjectMeta.Name
        = some found →
      (createOrUpdateService env robustmq desired w).1 = Outcome.ok () ∧
      ∃ live, lookup services (createOrUpdateService env robustmq desired w).2.cluster
          desired.ObjectMeta.Namespace desired.ObjectMeta.Name = some live ∧
        live.ObjectMeta = found.ObjectMeta) ∧
    (lookup configMaps w.cluster robustmq.Namespace (robustmq.Name ++ "-config") = none →
      (reconcileConfigMap env robustmq w).1 = Outcome.ok () ∧
      ∃ live, lookup configMaps (reconcileConfigMap env robustmq w).2.cluster
          robustmq.Namespace (robustmq.Name ++ "-config") = some live ∧
        live.ObjectMeta.OwnerReferences = [controllerReference robustmq]) ∧
    (∀ found : ConfigMap,
      lookup configMaps w.cluster robustmq.Namespace (robustmq.Name ++ "-config") = some found →
      (reconcileConfigMap env robustmq w).1 = Outcome.ok () ∧
      ∃ live, lookup configMaps (reconcileConfigMap env robustmq w).2.cluster
          robustmq.Namespace (robustmq.Name ++ "-config") = some live ∧
        live.ObjectMeta = found.ObjectMeta) := by
  have hmerge := update_is_field_scoped_merge_aux env robustmq w hfaults hscheme
  refine ⟨?_, ?_, ?_, ?_, ?_, ?_, ?_, ?_⟩
  · intro desired howner hfree
    rw [createOrUpdateStatefulSet_absent env robustmq desired w hfaults hscheme howner hfree]
    refine ⟨rfl, _, lookup_put_append statefulSets (fun _ _ => rfl) w.cluster
      { desired with ObjectMeta := { desired.ObjectMeta with
          OwnerReferences := [controllerReference robustmq] } } hfree, rfl⟩
  · intro desired found howner hfound
    obtain ⟨hok, hlive⟩ := hmerge.1 desired found howner hfound
    exact ⟨hok, _, hlive, rfl⟩
  · intro desired howner hfree
    rw [createOrUpdateDeployment_absent env robustmq desired w hfaults hscheme howner hfree]
    refine ⟨rfl, _, lookup_put_append deployments (fun _ _ => rfl) w.cluster
      { desired with ObjectMeta := { desired.ObjectMeta with
          OwnerReferences := [controllerReference robustmq] } } hfree, rfl⟩
  · intro desired found howner hfound
    obtain ⟨hok, hlive⟩ := hmerge.2.1 desired found howner hfound
    exact ⟨hok, _, hlive, rfl⟩
  · intro desired howner hfree
    rw [createOrUpdateService_absent env robustmq desired w hfaults hscheme howner hfree]
    refine ⟨rfl, _, lookup_put_append services (fun _ _ => rfl) w.cluster
      { desired with ObjectMeta := { desired.ObjectMeta with
          OwnerReferences := [controllerReference robustmq] } } hfree, rfl⟩
  · intro desired found howner hfound
    obtain ⟨hok, hlive⟩ := hmerge.2.2.1 desired found howner hfound
    exact ⟨hok, _, hlive, rfl⟩
  · intro hfree
    rw [reconcileConfigMap_absent env robustmq w hfaults hscheme hfree]
    refine ⟨rfl, _, lookup_put_append configMaps (fun _ _ => rfl) w.cluster
      { desiredConfigMap robustmq with ObjectMeta :=
          { (desiredConfigMap robustmq).ObjectMeta with
            OwnerReferences := [controllerReference robustmq] } } hfree, rfl⟩
  · intro found hfound
    obtain ⟨hok, hlive⟩ := hmerge.2.2.2 found hfound
    exact ⟨hok, _, hlive, rfl⟩

/-- Witness for C15 (amended): on a cluster that holds only the test resource, the created
StatefulSet carries the controller reference to it. -/
theorem createOrUpdate_owner_reference_witness :
    ∃ live, lookup statefulSets
        (createOrUpdateStatefulSet calmEnv testResource (allInOneStatefulSet testResource [])
          (freshWorld testResource)).2.cluster "default" "test-resource" = some live ∧
      live.ObjectMeta.OwnerReferences = [controllerReference testResource] :=
  ((createOrUpdate_owner_reference calmEnv testResource (freshWorld testResource)
      (fun _ => rfl) (by decide)).1 (allInOneStatefulSet testResource []) rfl rfl).2


/-! ## C12 -/

/-- C12 fails on the code: for the test resource with `Config.Additional["cluster_name"] =
"prod"`, on a cluster that holds only the instance and with every request succeeding, the
first pass writes a config resource whose `server.toml` names the cluster `test-resource`;
the second pass, for the unchanged Spec, rewrites it to name the cluster `prod`. The
managed-resource set after two passes differs from the set after one pass in the config
resource's data (names, count, workloads and endpoints are the same); from the second pass
on it is stable. -/
theorem second_pass_changes_config_data :
    (Reconcile calmEnv testRequest (freshWorld namedResource)).1
      = Outcome.ok { RequeueAfter := Minute * 5 } ∧
    (Reconcile calmEnv testRequest afterOnePass).1
      = Outcome.ok { RequeueAfter := Minute * 5 } ∧
    (afterOnePass.cluster.RobustMQs.map (fun r => r.Spec) = [namedResource.Spec]) ∧
    (afterTwoPasses.cluster.RobustMQs.map (fun r => r.Spec) = [namedResource.Spec]) ∧
    ((lookup configMaps afterOnePass.cluster "default" "test-resource-config").map
        (fun c => c.Data.get? "server.toml")
      = some (some (generateServerConfig namedResource))) ∧
    ((lookup configMaps afterTwoPasses.cluster "default" "test-resource-config").map
        (fun c => c.Data.get? "server.toml")
      = some (some (generateServerConfig (updateClusterInfo namedResource)))) ∧
    generateServerConfig namedResource
      ≠ generateServerConfig (updateClusterInfo namedResource) ∧
    afterTwoPasses.cluster.ConfigMaps ≠ afterOnePass.cluster.ConfigMaps ∧
    afterTwoPasses.cluster.Services = afterOnePass.cluster.Services ∧
    afterTwoPasses.cluster.StatefulSets = afterOnePass.cluster.StatefulSets ∧
    afterThreePasses.cluster.ConfigMaps = afterTwoPasses.cluster.ConfigMaps := by
  refine ⟨by decide!, by decide!, by decide!, by decide!, by decide!, by decide!, by decide!,
    by decide!, by decide!, by decide!, by decide!⟩


/-! ## Helper lemmas: stored keys -/

theorem keysOf_replaceObject {α : Type} (R : Resource α) (obj : α) (l : List α) :
    keysOf R (replaceObject R obj l) = keysOf R l := by
  induction l with
  | nil => rfl
  | cons o rest ih =>
    unfold replaceObject
    by_cases hkey : R.ns o = R.ns obj ∧ R.name o = R.name obj
    · rw [if_pos hkey]
      simp [keysOf, hkey.1, hkey.2]
    · rw [if_neg hkey]
      simp only [keysOf, List.map_cons, List.cons.injEq, true_and]
      exact ih

theorem mem_keysOf {α : Type} (R : Resource α) (l : List α) (ns name : String) :
    (R.kind, ns, name) ∈ keysOf R l
      ↔ l.find? (fun o => R.ns o == ns && R.name o == name) ≠ none := by
  induction l with
  | nil => simp [keysOf]
  | cons o rest ih =>
    by_cases hkey : R.ns o = ns ∧ R.name o = name
    · simp [keysOf, List.find?_cons, hkey.1, hkey.2]
    · have hp : (R.ns o == ns && R.name o == name) = false := by simpa using hkey
      have hne : ¬ (ns = R.ns o ∧ name = R.name o) := fun h => hkey ⟨h.1.symm, h.2.symm⟩
      simp only [List.find?_cons, hp]
      rw [← ih]
      simp [keysOf, hne]

theorem mem_storedKeys_configMap (c : Cluster) (ns name : String) :
    ("ConfigMap", ns, name) ∈ storedKeys c ↔ lookup configMaps c ns name ≠ none := by
  have h := mem_keysOf configMaps c.ConfigMaps ns name
  unfold lookup
  rw [show configMaps.list c = c.ConfigMaps from rfl, ← h]
  simp [storedKeys, keysOf, robustMQs, configMaps, services, statefulSets, deployments]

theorem mem_storedKeys_service (c : Cluster) (ns name : String) :
    ("Service", ns, name) ∈ storedKeys c ↔ lookup services c ns name ≠ none := by
  have h := mem_keysOf services c.Services ns name
  unfold lookup
  rw [show services.list c = c.Services from rfl, ← h]
  simp [storedKeys, keysOf, robustMQs, configMaps, services, statefulSets, deployments]

theorem mem_storedKeys_statefulSet (c : Cluster) (ns name : String) :
    ("StatefulSet", ns, name) ∈ storedKeys c ↔ lookup statefulSets c ns name ≠ none := by
  have h := mem_keysOf statefulSets c.StatefulSets ns name
  unfold lookup
  rw [show statefulSets.list c = c.StatefulSets from rfl, ← h]
  simp [storedKeys, keysOf, robustMQs, configMaps, services, statefulSets, deployments]

theorem mem_storedKeys_deployment (c : Cluster) (ns name : String) :
    ("Deployment", ns, name) ∈ storedKeys c ↔ lookup deployments c ns name ≠ none := by
  have h := mem_keysOf deployments c.Deployments ns name
  unfold lookup
  rw [show deployments.list c = c.Deployments from rfl, ← h]
  simp [storedKeys, keysOf, robustMQs, configMaps, services, statefulSets, deployments]

theorem storedKeys_replace_configMap (c : Cluster) (obj : ConfigMap) :
    storedKeys (configMaps.put c (replaceObject configMaps obj c.ConfigMaps)) = storedKeys c := by
  have h := keysOf_replaceObject configMaps obj c.ConfigMaps
  simp only [storedKeys, configMaps] at h ⊢
  rw [h]

theorem storedKeys_replace_service (c : Cluster) (obj : Service) :
    storedKeys (services.put c (replaceObject services obj c.Services)) = storedKeys c := by
  have h := keysOf_replaceObject services obj c.Services
  simp only [storedKeys, services] at h ⊢
  rw [h]

theorem storedKeys_replace_statefulSet (c : Cluster) (obj : StatefulSet) :
    storedKeys (statefulSets.put c (replaceObject statefulSets obj c.StatefulSets))
      = storedKeys c := by
  have h := keysOf_replaceObject statefulSets obj c.StatefulSets
  simp only [storedKeys, statefulSets] at h ⊢
  rw [h]

theorem storedKeys_replace_deployment (c : Cluster) (obj : Deployment) :
    storedKeys (deployments.put c (replaceObject deployments obj c.Deployments))
      = storedKeys c := by
  have h := keysOf_replaceObject deployments obj c.Deployments
  simp only [storedKeys, deployments] at h ⊢
  rw [h]

theorem storedKeys_replace_robustMQ (c : Cluster) (obj : RobustMQ) :
    storedKeys (robustMQs.put c (replaceObject robustMQs obj c.RobustMQs)) = storedKeys c := by
  have h := keysOf_replaceObject robustMQs obj c.RobustMQs
  simp only [storedKeys, robustMQs] at h ⊢
  rw [h]

theorem storedKeys_append_configMap (c : Cluster) (obj : ConfigMap) :
    (storedKeys (configMaps.put c (c.ConfigMaps ++ [obj]))).Perm
      (storedKeys c ++ [("ConfigMap", obj.ObjectMeta.Namespace, obj.ObjectMeta.Name)]) := by
  simp only [storedKeys, configMaps, keysOf, List.map_append, List.map_cons, List.map_nil,
    List.append_assoc]
  refine List.Perm.append_left _ (List.Perm.append_left _ ?_)
  refine List.perm_append_comm.trans ?_
  simp only [List.append_assoc, List.Perm.refl]

theorem storedKeys_append_service (c : Cluster) (obj : Service) :
    (storedKeys (services.put c (c.Services ++ [obj]))).Perm
      (storedKeys c ++ [("Service", obj.ObjectMeta.Namespace, obj.ObjectMeta.Name)]) := by
  simp only [storedKeys, services, keysOf, List.map_append, List.map_cons, List.map_nil,
    List.append_assoc]
  refine List.Perm.append_left _ (List.Perm.append_left _ (List.Perm.append_left _ ?_))
  refine List.perm_append_comm.trans ?_
  simp only [List.append_assoc, List.Perm.refl]

theorem storedKeys_append_statefulSet (c : Cluster) (obj : StatefulSet) :
    (storedKeys (statefulSets.put c (c.StatefulSets ++ [obj]))).Perm
      (storedKeys c ++ [("StatefulSet", obj.ObjectMeta.Namespace, obj.ObjectMeta.Name)]) := by
  simp only [storedKeys, statefulSets, keysOf, List.map_append, List.map_cons, List.map_nil,
    List.append_assoc]
  refine List.Perm.append_left _ (List.Perm.append_left _ (List.Perm.append_left _
    (List.Perm.append_left _ ?_)))
  refine List.perm_append_comm.trans ?_
  simp only [List.append_assoc, List.Perm.refl]

theorem storedKeys_append_deployment (c : Cluster) (obj : Deployment) :
    (storedKeys (deployments.put c (c.Deployments ++ [obj]))).Perm
      (storedKeys c ++ [("Deployment", obj.ObjectMeta.Namespace, obj.ObjectMeta.Name)]) := by
  simp only [storedKeys, deployments, keysOf, List.map_append, List.map_cons, List.map_nil,
    List.append_assoc]
  exact List.Perm.refl _

/-! ## Helper lemmas: worlds between which nothing or only the created keys were added -/

theorem createdKeys_append (a b : List ApiCall) :
    createdKeys (a ++ b) = createdKeys a ++ createdKeys b := by
  simp [createdKeys]

theorem createdKeys_eq_nil (issued : List ApiCall) (h : ∀ c ∈ issued, isCreate c = false) :
    createdKeys issued = [] := by
  unfold createdKeys
  rw [List.filter_eq_nil_iff.mpr (fun c hc => by simp [h c hc])]
  rfl

theorem still_refl (w : World) : Still w w :=
  ⟨rfl, rfl, [], by simp, by simp⟩

theorem still_trans {w0 w1 w2 : World} (h01 : Still w0 w1) (h12 : Still w1 w2) :
    Still w0 w2 := by
  obtain ⟨hd1, hk1, i1, hc1, hi1⟩ := h01
  obtain ⟨hd2, hk2, i2, hc2, hi2⟩ := h12
  refine ⟨hd2.trans hd1, hk2.trans hk1, i1 ++ i2, by rw [hc2, hc1, List.append_assoc], ?_⟩
  intro c hc
  rcases List.mem_append.mp hc with h | h
  · exact hi1 c h
  · exact hi2 c h

theorem Still.grows {w0 w1 : World} (h : Still w0 w1) : Grows w0 w1 := by
  obtain ⟨hd, hk, issued, hc, hi⟩ := h
  refine ⟨hd, fun hn => by rw [hk]; exact hn, issued, hc, ?_⟩
  rw [createdKeys_eq_nil issued hi, hk, List.append_nil]

theorem grows_refl (w : World) : Grows w w := (still_refl w).grows

theorem grows_trans {w0 w1 w2 : World} (h01 : Grows w0 w1) (h12 : Grows w1 w2) :
    Grows w0 w2 := by
  obtain ⟨hd1, hn1, i1, hc1, hp1⟩ := h01
  obtain ⟨hd2, hn2, i2, hc2, hp2⟩ := h12
  refine ⟨hd2.trans hd1, fun hn => hn2 (hn1 hn), i1 ++ i2,
    by rw [hc2, hc1, List.append_assoc], ?_⟩
  rw [createdKeys_append, ← List.append_assoc]
  exact hp2.trans (List.Perm.append_right _ hp1)

theorem Grows.mem {w0 w1 : World} (h : Grows w0 w1) (k : String × String × String)
    (hk : k ∈ storedKeys w0.cluster) : k ∈ storedKeys w1.cluster := by
  obtain ⟨_, _, issued, _, hp⟩ := h
  exact hp.mem_iff.mpr (List.mem_append_left _ hk)

/-! ## Helper lemmas: procedures that create nothing -/

theorem quiet_pure {α : Type} (a : α) : Quiet (M.pure a) :=
  fun w => still_refl w

theorem quiet_fail {α : Type} (e : Err) : Quiet (fail e : M α) :=
  fun w => still_refl w

theorem quiet_panicNow {α : Type} : Quiet (panicNow : M α) :=
  fun w => still_refl w

theorem quiet_bind {α β : Type} {m : M α} {f : α → M β}
    (hm : Quiet m) (hf : ∀ a, Quiet (f a)) : Quiet (M.bind m f) := by
  intro w
  have h1 := hm w
  unfold M.bind
  rcases hmw : m w with ⟨o, w1⟩
  rw [hmw] at h1
  cases o with
  | ok a => exact still_trans h1 (hf a w1)
  | err e => exact h1
  | panic => exact h1

theorem quiet_attempt {α : Type} {m : M α} (hm : Quiet m) : Quiet (attempt m) := by
  intro w
  have h1 := hm w
  unfold attempt
  rcases hmw : m w with ⟨o, w1⟩
  rw [hmw] at h1
  cases o <;> exact h1

theorem quiet_now (env : Env) : Quiet (now env) :=
  fun w => ⟨rfl, rfl, [], by simp [now], by simp⟩

theorem quiet_request {α β : Type} (env : Env) (verb : Verb)
    (R : Resource α) (ns1 name1 : String) (action : Cluster → Outcome β × Cluster)
    (hstore : ∀ c, (action c).2.RobustMQs.map declared = c.RobustMQs.map declared ∧
      storedKeys (action c).2 = storedKeys c)
    (hverb : verb ≠ Verb.create) :
    Quiet (request env verb R ns1 name1 action) := by
  have hcall : ∀ c ∈ [({ verb := verb, kind := R.kind, Namespace := ns1, Name := name1 } :
      ApiCall)], isCreate c = false := by
    intro c hc
    rw [List.mem_singleton.mp hc]
    simpa [isCreate] using hverb
  intro w
  unfold request
  cases env.faults w.calls.length with
  | some msg => exact ⟨rfl, rfl, [_], rfl, hcall⟩
  | none =>
    have hs := hstore w.cluster
    rcases ha : action w.cluster with ⟨o, c⟩
    rw [ha] at hs
    exact ⟨hs.1, hs.2, [_], rfl, hcall⟩

theorem quiet_apiGet {α : Type} (env : Env) (R : Resource α) (ns1 name1 : String) :
    Quiet (apiGet env R ns1 name1) := by
  unfold apiGet
  apply quiet_request
  · intro c
    cases lookup R c ns1 name1 <;> exact ⟨rfl, rfl⟩
  · decide

/-- Overwriting the status of the stored instance leaves what is declared. -/
theorem map_declared_replaceObject (l : List RobustMQ) (stored : RobustMQ)
    (status : RobustMQStatus)
    (h : l.find? (fun o => o.Namespace == stored.Namespace && o.Name == stored.Name)
      = some stored) :
    (replaceObject robustMQs { stored with Status := status } l).map declared
      = l.map declared := by
  induction l with
  | nil => rfl
  | cons o rest ih =>
    unfold replaceObject
    by_cases hkey : o.Namespace = stored.Namespace ∧ o.Name = stored.Name
    · have hp : (o.Namespace == stored.Namespace && o.Name == stored.Name) = true := by
        simpa using hkey
      simp only [List.find?_cons, hp, Option.some.injEq] at h
      subst h
      have hk : robustMQs.ns o = robustMQs.ns { o with Status := status } ∧
          robustMQs.name o = robustMQs.name { o with Status := status } := ⟨rfl, rfl⟩
      rw [if_pos hk]
      simp [declared]
    · have hp : (o.Namespace == stored.Namespace && o.Name == stored.Name) = false := by
        simpa using hkey
      simp only [List.find?_cons, hp] at h
      have hk : ¬ (robustMQs.ns o = robustMQs.ns { stored with Status := status } ∧
          robustMQs.name o = robustMQs.name { stored with Status := status }) := hkey
      rw [if_neg hk]
      simp only [List.map_cons, List.cons.injEq, true_and]
      exact ih h

theorem quiet_apiStatusUpdate (env : Env) (robustmq : RobustMQ) :
    Quiet (apiStatusUpdate env robustmq) := by
  unfold apiStatusUpdate
  apply quiet_request
  · intro c
    cases hl : lookup robustMQs c robustmq.Namespace robustmq.Name with
    | none => exact ⟨rfl, rfl⟩
    | some stored =>
      obtain ⟨hns, hname⟩ := lookup_key robustMQs _ _ _ _ hl
      have hns1 : stored.Namespace = robustmq.Namespace := hns
      have hname1 : stored.Name = robustmq.Name := hname
      refine ⟨?_, storedKeys_replace_robustMQ c _⟩
      apply map_declared_replaceObject
      rw [hns1, hname1]
      exact hl
  · decide

theorem quiet_liftExcept {α : Type} (r : Except Err α) : Quiet (liftExcept r) := by
  cases r with
  | ok a => exact quiet_pure a
  | error e => exact quiet_fail e

theorem quiet_updateStatefulSetStatus (env : Env) (robustmq : RobustMQ)
    (stsName component : String) :
    Quiet (updateStatefulSetStatus env robustmq stsName component) := by
  unfold updateStatefulSetStatus
  simp only [bind_def, pure_def]
  apply quiet_bind (quiet_attempt (quiet_apiGet _ _ _ _))
  intro got
  rcases got with e | found
  · cases e with
    | notFound => exact quiet_pure _
    | other msg => exact quiet_fail _
  · exact quiet_pure _

theorem quiet_updateDeploymentStatus (env : Env) (robustmq : RobustMQ)
    (depName component : String) :
    Quiet (updateDeploymentStatus env robustmq depName component) := by
  unfold updateDeploymentStatus
  simp only [bind_def, pure_def]
  apply quiet_bind (quiet_attempt (quiet_apiGet _ _ _ _))
  intro got
  rcases got with e | found
  · cases e with
    | notFound => exact quiet_pure _
    | other msg => exact quiet_fail _
  · exact quiet_pure _

theorem quiet_updateSingleServiceStatus (env : Env) (robustmq : RobustMQ)
    (serviceName : String) :
    Quiet (updateSingleServiceStatus env robustmq serviceName) := by
  unfold updateSingleServiceStatus
  simp only [bind_def, pure_def]
  apply quiet_bind (quiet_attempt (quiet_apiGet _ _ _ _))
  intro got
  rcases got with e | found
  · cases e with
    | notFound => exact quiet_pure _
    | other msg => exact quiet_fail _
  · exact quiet_pure _

theorem quiet_updateServiceStatusesLoop (env : Env) (names : List String) :
    ∀ robustmq, Quiet (updateServiceStatusesLoop env robustmq names) := by
  induction names with
  | nil => intro robustmq; exact quiet_pure _
  | cons n rest ih =>
    intro robustmq
    unfold updateServiceStatusesLoop
    simp only [bind_def]
    exact quiet_bind (quiet_updateSingleServiceStatus _ _ _) (fun r => ih r)

theorem quiet_updateMicroservicesStatus (env : Env) (robustmq : RobustMQ) :
    Quiet (updateMicroservicesStatus env robustmq) := by
  unfold updateMicroservicesStatus
  simp only [bind_def]
  apply quiet_bind (quiet_updateStatefulSetStatus _ _ _ _)
  intro r1
  apply quiet_bind (quiet_updateDeploymentStatus _ _ _ _)
  intro r2
  exact quiet_updateStatefulSetStatus _ _ _ _

/-- Status aggregation reads the cluster and writes the status of the instance: it creates
nothing, whichever requests fail. -/
theorem quiet_updateStatus (env : Env) (robustmq : RobustMQ) :
    Quiet (updateStatus env robustmq) := by
  unfold updateStatus
  simp only [bind_def, pure_def]
  split_ifs <;> apply quiet_bind
  any_goals
    intro r1
    apply quiet_bind (quiet_updateServiceStatusesLoop _ _ _)
    intro r2
    apply quiet_bind (quiet_now _)
    intro t0
    apply quiet_bind (quiet_now _)
    intro t1
    apply quiet_bind (quiet_now _)
    intro t2
    apply quiet_bind (quiet_now _)
    intro t3
    apply quiet_bind (quiet_apiStatusUpdate _ _)
    intro _
    exact quiet_pure _
  · exact quiet_updateStatefulSetStatus _ _ _ _
  · exact quiet_updateMicroservicesStatus _ _
  · exact quiet_pure _

/-! ## Helper lemmas: create-or-update settles the key of its resource -/

theorem grows_after_create (w : World) (c1 : Cluster) (kind ns name : String)
    (hd : c1.RobustMQs.map declared = w.cluster.RobustMQs.map declared)
    (hp : (storedKeys c1).Perm (storedKeys w.cluster ++ [(kind, ns, name)]))
    (hfree : (kind, ns, name) ∉ storedKeys w.cluster) :
    Grows w
      { w with
        calls := w.calls ++
          [ { verb := Verb.get, kind := kind, Namespace := ns, Name := name },
            { verb := Verb.create, kind := kind, Namespace := ns, Name := name } ]
        cluster := c1 } := by
  refine ⟨hd, fun hn => ?_, _, rfl, ?_⟩
  · refine hp.nodup_iff.mpr (List.nodup_append.mpr ⟨hn, List.nodup_singleton _, ?_⟩)
    intro k hk1 hk2
    rw [List.mem_singleton.mp hk2] at hk1
    exact hfree hk1
  · simpa [createdKeys, isCreate, callKey] using hp

theorem settled_of_still (env : Env) (w w1 : World) (o : Outcome Unit)
    (k : String × String × String) (hstill : Still w w1) (hmem : k ∈ storedKeys w.cluster)
    (ho : o = Outcome.ok ()) :
    Grows w w1 ∧ ((∀ k1 ∈ [k], k1 ∈ storedKeys w.cluster) → Still w w1) ∧
      ("RobustMQ" ∈ env.Scheme → o = Outcome.ok () ∧ ∀ k1 ∈ [k], k1 ∈ storedKeys w1.cluster) := by
  refine ⟨hstill.grows, fun _ => hstill, fun _ => ⟨ho, ?_⟩⟩
  intro k1 hk
  rw [List.mem_singleton.mp hk]
  exact hstill.grows.mem _ hmem

theorem createOrUpdateService_unregistered (env : Env) (robustmq : RobustMQ)
    (service : Service) (w : World) (hscheme : "RobustMQ" ∉ env.Scheme) :
    (createOrUpdateService env robustmq service w).2 = w := by
  unfold createOrUpdateService
  simp [bind_def, SetControllerReference, hscheme, liftExcept, fail, M.bind]

theorem settles_createOrUpdateService (env : Env) (robustmq : RobustMQ) (service : Service)
    (hfaults : ∀ n, env.faults n = none)
    (howner : service.ObjectMeta.OwnerReferences = []) :
    Settles env [("Service", service.ObjectMeta.Namespace, service.ObjectMeta.Name)]
      (createOrUpdateService env robustmq service) := by
  intro w
  by_cases hscheme : "RobustMQ" ∈ env.Scheme
  · cases hl : lookup services w.cluster service.ObjectMeta.Namespace
        service.ObjectMeta.Name with
    | none =>
      have hfree : ("Service", service.ObjectMeta.Namespace, service.ObjectMeta.Name)
          ∉ storedKeys w.cluster := by
        rw [mem_storedKeys_service]; simp [hl]
      rw [createOrUpdateService_absent env robustmq service w hfaults hscheme howner hl]
      refine ⟨grows_after_create w _ _ _ _ rfl (storedKeys_append_service _ _) hfree,
        fun hk => absurd (hk _ (List.mem_singleton_self _)) hfree, fun _ => ⟨rfl, ?_⟩⟩
      intro k hk
      rw [List.mem_singleton.mp hk]
      exact (storedKeys_append_service _ _).mem_iff.mpr
        (List.mem_append_right _ (List.mem_singleton_self _))
    | some found =>
      have hmem : ("Service", service.ObjectMeta.Namespace, service.ObjectMeta.Name)
          ∈ storedKeys w.cluster := by
        rw [mem_storedKeys_service]; simp [hl]
      rw [createOrUpdateService_existing env robustmq service found w hfaults hscheme howner hl]
      exact settled_of_still env w _ _ _
        ⟨rfl, storedKeys_replace_service w.cluster _, _, rfl, by simp [isCreate]⟩ hmem rfl
  · have hun := createOrUpdateService_unregistered env robustmq service w hscheme
    rw [hun]
    exact ⟨grows_refl w, fun _ => still_refl w, fun h => absurd h hscheme⟩

theorem createOrUpdateStatefulSet_unregistered (env : Env) (robustmq : RobustMQ)
    (statefulSet : StatefulSet) (w : World) (hscheme : "RobustMQ" ∉ env.Scheme) :
    (createOrUpdateStatefulSet env robustmq statefulSet w).2 = w := by
  unfold createOrUpdateStatefulSet
  simp [bind_def, SetControllerReference, hscheme, liftExcept, fail, M.bind]

theorem settles_createOrUpdateStatefulSet (env : Env) (robustmq : RobustMQ) (statefulSet : StatefulSet)
    (hfaults : ∀ n, env.faults n = none)
    (howner : statefulSet.ObjectMeta.OwnerReferences = []) :
    Settles env [("StatefulSet", statefulSet.ObjectMeta.Namespace, statefulSet.ObjectMeta.Name)]
      (createOrUpdateStatefulSet env robustmq statefulSet) := by
  intro w
  by_cases hscheme : "RobustMQ" ∈ env.Scheme
  · cases hl : lookup statefulSets w.cluster statefulSet.ObjectMeta.Namespace
        statefulSet.ObjectMeta.Name with
    | none =>
      have hfree : ("StatefulSet", statefulSet.ObjectMeta.Namespace, statefulSet.ObjectMeta.Name)
          ∉ storedKeys w.cluster := by
        rw [mem_storedKeys_statefulSet]; simp [hl]
      rw [createOrUpdateStatefulSet_absent env robustmq statefulSet w hfaults hscheme howner hl]
      refine ⟨grows_after_create w _ _ _ _ rfl (storedKeys_append_statefulSet _ _) hfree,
        fun hk => absurd (hk _ (List.mem_singleton_self _)) hfree, fun _ => ⟨rfl, ?_⟩⟩
      intro k hk
      rw [List.mem_singleton.mp hk]
      exact (storedKeys_append_statefulSet _ _).mem_iff.mpr
        (List.mem_append_right _ (List.mem_singleton_self _))
    | some found =>
      have hmem : ("StatefulSet", statefulSet.ObjectMeta.Namespace, statefulSet.ObjectMeta.Name)
          ∈ storedKeys w.cluster := by
        rw [mem_storedKeys_statefulSet]; simp [hl]
      rw [createOrUpdateStatefulSet_existing env robustmq statefulSet found w hfaults hscheme howner hl]
      exact settled_of_still env w _ _ _
        ⟨rfl, storedKeys_replace_statefulSet w.cluster _, _, rfl, by simp [isCreate]⟩ hmem rfl
  · have hun := createOrUpdateStatefulSet_unregistered env robustmq statefulSet w hscheme
    rw [hun]
    exact ⟨grows_refl w, fun _ => still_refl w, fun h => absurd h hscheme⟩

theorem createOrUpdateDeployment_unregistered (env : Env) (robustmq : RobustMQ)
    (deployment : Deployment) (w : World) (hscheme : "RobustMQ" ∉ env.Scheme) :
    (createOrUpdateDeployment env robustmq deployment w).2 = w := by
  unfold createOrUpdateDeployment
  simp [bind_def, SetControllerReference, hscheme, liftExcept, fail, M.bind]

theorem settles_createOrUpdateDeployment (env : Env) (robustmq : RobustMQ) (deployment : Deployment)
    (hfaults : ∀ n, env.faults n = none)
    (howner : deployment.ObjectMeta.OwnerReferences = []) :
    Settles env [("Deployment", deployment.ObjectMeta.Namespace, deployment.ObjectMeta.Name)]
      (createOrUpdateDeployment env robustmq deployment) := by
  intro w
  by_cases hscheme : "RobustMQ" ∈ env.Scheme
  · cases hl : lookup deployments w.cluster deployment.ObjectMeta.Namespace
        deployment.ObjectMeta.Name with
    | none =>
      have hfree : ("Deployment", deployment.ObjectMeta.Namespace, deployment.ObjectMeta.Name)
          ∉ storedKeys w.cluster := by
        rw [mem_storedKeys_deployment]; simp [hl]
      rw [createOrUpdateDeployment_absent env robustmq deployment w hfaults hscheme howner hl]
      refine ⟨grows_after_create w _ _ _ _ rfl (storedKeys_append_deployment _ _) hfree,
        fun hk => absurd (hk _ (List.mem_singleton_self _)) hfree, fun _ => ⟨rfl, ?_⟩⟩
      intro k hk
      rw [List.mem_singleton.mp hk]
      exact (storedKeys_append_deployment _ _).mem_iff.mpr
        (List.mem_append_right _ (List.mem_singleton_self _))
    | some found =>
      have hmem : ("Deployment", deployment.ObjectMeta.Namespace, deployment.ObjectMeta.Name)
          ∈ storedKeys w.cluster := by
        rw [mem_storedKeys_deployment]; simp [hl]
      rw [createOrUpdateDeployment_existing env robustmq deployment found w hfaults hscheme howner hl]
      exact settled_of_still env w _ _ _
        ⟨rfl, storedKeys_replace_deployment w.cluster _, _, rfl, by simp [isCreate]⟩ hmem rfl
  · have hun := createOrUpdateDeployment_unregistered env robustmq deployment w hscheme
    rw [hun]
    exact ⟨grows_refl w, fun _ => still_refl w, fun h => absurd h hscheme⟩

theorem reconcileConfigMap_unregistered (env : Env) (robustmq : RobustMQ) (w : World)
    (hscheme : "RobustMQ" ∉ env.Scheme) :
    (reconcileConfigMap env robustmq w).2 = w := by
  unfold reconcileConfigMap
  simp [bind_def, SetControllerReference, hscheme, liftExcept, fail, M.bind]

theorem settles_reconcileConfigMap (env : Env) (robustmq : RobustMQ)
    (hfaults : ∀ n, env.faults n = none) :
    Settles env [("ConfigMap", robustmq.Namespace, robustmq.Name ++ "-config")]
      (reconcileConfigMap env robustmq) := by
  intro w
  by_cases hscheme : "RobustMQ" ∈ env.Scheme
  · cases hl : lookup configMaps w.cluster robustmq.Namespace (robustmq.Name ++ "-config") with
    | none =>
      have hfree : ("ConfigMap", robustmq.Namespace, robustmq.Name ++ "-config")
          ∉ storedKeys w.cluster := by
        rw [mem_storedKeys_configMap]; simp [hl]
      rw [reconcileConfigMap_absent env robustmq w hfaults hscheme hl]
      refine ⟨grows_after_create w _ _ _ _ rfl (storedKeys_append_configMap _ _) hfree,
        fun hk => absurd (hk _ (List.mem_singleton_self _)) hfree, fun _ => ⟨rfl, ?_⟩⟩
      intro k hk
      rw [List.mem_singleton.mp hk]
      exact (storedKeys_append_configMap _ _).mem_iff.mpr
        (List.mem_append_right _ (List.mem_singleton_self _))
    | some found =>
      have hmem : ("ConfigMap", robustmq.Namespace, robustmq.Name ++ "-config")
          ∈ storedKeys w.cluster := by
        rw [mem_storedKeys_configMap]; simp [hl]
      rw [reconcileConfigMap_existing env robustmq found w hfaults hscheme hl]
      exact settled_of_still env w _ _ _
        ⟨rfl, storedKeys_replace_configMap w.cluster _, _, rfl, by simp [isCreate]⟩ hmem rfl
  · have hun := reconcileConfigMap_unregistered env robustmq w hscheme
    rw [hun]
    exact ⟨grows_refl w, fun _ => still_refl w, fun h => absurd h hscheme⟩

/-! ## Helper lemmas: the steps of a pass converge on the managed keys -/

theorem Quiet.converges {α : Type} (env : Env) {m : M α} (h : Quiet m) :
    Converges env [] m :=
  fun w => ⟨(h w).grows, fun _ => h w, fun _ k hk => absurd hk (List.not_mem_nil k)⟩

theorem settles_then {α : Type} {env : Env} {ks1 ks2 : List (String × String × String)}
    {m1 : M Unit} {m2 : M α} (h1 : Settles env ks1 m1) (h2 : Converges env ks2 m2) :
    Converges env (ks1 ++ ks2) (M.bind m1 fun _ => m2) := by
  intro w
  obtain ⟨g1, s1, e1⟩ := h1 w
  unfold M.bind
  rcases hmw : m1 w with ⟨o, w1⟩
  rw [hmw] at g1 s1 e1
  cases o with
  | ok a =>
    obtain ⟨g2, s2, e2⟩ := h2 w1
    refine ⟨grows_trans g1 g2, fun hk => ?_, fun hs k hk => ?_⟩
    · have hs1 : Still w w1 := s1 (fun k hk1 => hk k (List.mem_append_left _ hk1))
      exact still_trans hs1 (s2 (fun k hk2 =>
        hs1.grows.mem k (hk k (List.mem_append_right _ hk2))))
    · rcases List.mem_append.mp hk with h | h
      · exact g2.mem k ((e1 hs).2 k h)
      · exact e2 hs k h
  | err e =>
    refine ⟨g1, fun hk => s1 (fun k hk1 => hk k (List.mem_append_left _ hk1)),
      fun hs => ?_⟩
    exact absurd (e1 hs).1 (by simp)
  | panic =>
    refine ⟨g1, fun hk => s1 (fun k hk1 => hk k (List.mem_append_left _ hk1)),
      fun hs => ?_⟩
    exact absurd (e1 hs).1 (by simp)

theorem settles_bind {env : Env} {ks1 ks2 : List (String × String × String)}
    {m1 m2 : M Unit} (h1 : Settles env ks1 m1) (h2 : Settles env ks2 m2) :
    Settles env (ks1 ++ ks2) (M.bind m1 fun _ => m2) := by
  intro w
  have hc := settles_then h1 (fun w1 => ⟨(h2 w1).1, (h2 w1).2.1, fun hs => ((h2 w1).2.2 hs).2⟩) w
  refine ⟨hc.1, hc.2.1, fun hs => ⟨?_, hc.2.2 hs⟩⟩
  have e1 := ((h1 w).2.2 hs).1
  unfold M.bind
  rcases hmw : m1 w with ⟨o, w1⟩
  rw [hmw] at e1
  simp only at e1
  subst e1
  exact ((h2 w1).2.2 hs).1

theorem settles_forEach {α : Type} (env : Env) (key : α → String × String × String)
    (f : α → M Unit) (l : List α) (h : ∀ x ∈ l, Settles env [key x] (f x)) :
    Settles env (l.map key) (forEach f l) := by
  induction l with
  | nil =>
    intro w
    exact ⟨grows_refl w, fun _ => still_refl w, fun _ => ⟨rfl, fun k hk => absurd hk (List.not_mem_nil k)⟩⟩
  | cons x rest ih =>
    unfold forEach
    exact settles_bind (h x (List.mem_cons_self _ _))
      (ih (fun y hy => h y (List.mem_cons_of_mem _ hy)))

theorem settles_reconcileServices (env : Env) (robustmq : RobustMQ)
    (hfaults : ∀ n, env.faults n = none) :
    Settles env (keysOf services (compiledServices robustmq))
      (reconcileServices env robustmq) := by
  rw [reconcileServices_eq_forEach]
  exact settles_forEach env
    (fun s : Service => ("Service", s.ObjectMeta.Namespace, s.ObjectMeta.Name)) _ _
    (fun s hs => settles_createOrUpdateService env robustmq s hfaults
      (compiledServices_fresh robustmq s hs))

theorem settles_workloads (env : Env) (robustmq : RobustMQ) (workloads : List Workload)
    (hfaults : ∀ n, env.faults n = none)
    (hw : compiledWorkloads env.MustParse robustmq = some workloads) :
    Settles env (workloads.map Workload.key)
      (forEach (createOrUpdateWorkload env robustmq) workloads) := by
  refine settles_forEach env Workload.key _ _ (fun x hx => ?_)
  have hfresh := compiledWorkloads_fresh env.MustParse robustmq workloads hw x hx
  cases x with
  | statefulSet s => exact settles_createOrUpdateStatefulSet env robustmq s hfaults hfresh
  | deployment d => exact settles_createOrUpdateDeployment env robustmq d hfaults hfresh

theorem reconcileSteps_unregistered (env : Env) (robustmq : RobustMQ) (w : World)
    (hscheme : "RobustMQ" ∉ env.Scheme) : (reconcileSteps env robustmq w).2 = w := by
  have h : reconcileConfigMap env robustmq w
      = (Outcome.err (Err.other "no kind is registered for the type v1alpha1.RobustMQ"), w) := by
    unfold reconcileConfigMap
    simp [bind_def, SetControllerReference, hscheme, liftExcept, fail, M.bind]
  unfold reconcileSteps
  show (M.bind (reconcileConfigMap env robustmq) _ w).2 = w
  unfold M.bind
  rw [h]

/-- With no failing request, the steps of a pass add to the store only what they create,
create nothing when the managed keys are stored, and leave the managed keys stored. -/
theorem reconcileSteps_converges (env : Env) (robustmq : RobustMQ)
    (hfaults : ∀ n, env.faults n = none) (w : World) :
    Grows w (reconcileSteps env robustmq w).2 ∧
    ((∀ k ∈ managedKeys env robustmq, k ∈ storedKeys w.cluster) →
      Still w (reconcileSteps env robustmq w).2) ∧
    (∀ k ∈ managedKeys env robustmq, k ∈ storedKeys (reconcileSteps env robustmq w).2.cluster) := by
  by_cases hscheme : "RobustMQ" ∈ env.Scheme
  · have tail3 : Quiet (M.bind (updateStatus env robustmq) fun _ =>
        M.pure ({ RequeueAfter := Minute * 5 } : Result)) :=
      quiet_bind (quiet_updateStatus env robustmq) (fun _ => quiet_pure _)
    have tail2 : Converges env
        (match compiledWorkloads env.MustParse robustmq with
          | some workloads => workloads.map Workload.key
          | none => [])
        (M.bind (reconcileWorkloads env robustmq) fun _ =>
          M.bind (updateStatus env robustmq) fun _ =>
            M.pure ({ RequeueAfter := Minute * 5 } : Result)) := by
      rw [reconcileWorkloads_eq_forEach]
      cases hw : compiledWorkloads env.MustParse robustmq with
      | none =>
        simp only [M.panic_bind]
        exact quiet_panicNow.converges env
      | some workloads =>
        have h := settles_then (settles_workloads env robustmq workloads hfaults hw)
          (tail3.converges env)
        rw [List.append_nil] at h
        exact h
    have whole : Converges env (managedKeys env robustmq) (reconcileSteps env robustmq) := by
      have h := settles_then (settles_reconcileConfigMap env robustmq hfaults)
        (settles_then (settles_reconcileServices env robustmq hfaults) tail2)
      unfold managedKeys
      rw [if_pos hscheme]
      exact h
    exact ⟨(whole w).1, (whole w).2.1, (whole w).2.2 hscheme⟩
  · rw [reconcileSteps_unregistered env robustmq w hscheme]
    have hk : managedKeys env robustmq = [] := by
      unfold managedKeys
      rw [if_neg hscheme]
    rw [hk]
    exact ⟨grows_refl w, fun _ => still_refl w, fun k hk1 => absurd hk1 (List.not_mem_nil k)⟩

/-! ## Helper lemmas: a pass with no failing request -/

theorem Reconcile_absent (env : Env) (req : Request) (w : World)
    (hfaults : ∀ n, env.faults n = none)
    (hl : lookup robustMQs w.cluster req.Namespace req.Name = none) :
    Reconcile env req w =
      (Outcome.ok { RequeueAfter := 0 },
       { w with calls := w.calls ++
          [{ verb := Verb.get, kind := "RobustMQ", Namespace := req.Namespace,
             Name := req.Name }] }) := by
  have hget := apiGet_calm_eq env robustMQs req.Namespace req.Name w hfaults
  rw [hl] at hget
  unfold Reconcile
  simp only [bind_def, pure_def, M.pure_bind]
  rw [bind_attempt_err _ _ _ Err.notFound (by rw [hget]), hget]
  rfl

theorem Reconcile_loaded (env : Env) (req : Request) (w : World) (robustmq : RobustMQ)
    (hfaults : ∀ n, env.faults n = none)
    (hl : lookup robustMQs w.cluster req.Namespace req.Name = some robustmq) :
    Reconcile env req w =
      (if robustmq.Status.Phase = "" then
        M.bind (apiStatusUpdate env
            { robustmq with Status := { robustmq.Status with Phase := PhaseInitializing } })
          (fun _ => reconcileSteps env
            { robustmq with Status := { robustmq.Status with Phase := PhaseInitializing } })
       else reconcileSteps env robustmq)
      { w with calls := w.calls ++
          [{ verb := Verb.get, kind := "RobustMQ", Namespace := req.Namespace,
             Name := req.Name }] } := by
  have hget := apiGet_calm_eq env robustMQs req.Namespace req.Name w hfaults
  rw [hl] at hget
  unfold Reconcile reconcileSteps
  simp only [bind_def, pure_def, M.pure_bind]
  rw [bind_attempt_ok _ _ _ robustmq (by rw [hget]), hget]
  rfl

/-- The compiled services depend only on what is declared. -/
theorem compiledServices_congr (a b : RobustMQ) (h : declared a = declared b) :
    compiledServices a = compiledServices b := by
  cases a; cases b
  simp only [declared, Prod.mk.injEq] at h
  obtain ⟨h1, h2, h3⟩ := h
  subst h1 h2 h3
  rfl

/-- The compiled workloads depend only on what is declared. -/
theorem compiledWorkloads_congr (MustParse : String → Option Quantity) (a b : RobustMQ)
    (h : declared a = declared b) :
    compiledWorkloads MustParse a = compiledWorkloads MustParse b := by
  cases a; cases b
  simp only [declared, Prod.mk.injEq] at h
  obtain ⟨h1, h2, h3⟩ := h
  subst h1 h2 h3
  rfl

theorem managedKeys_congr (env : Env) (a b : RobustMQ) (h : declared a = declared b) :
    managedKeys env a = managedKeys env b := by
  have hs := compiledServices_congr a b h
  have hw := compiledWorkloads_congr env.MustParse a b h
  simp only [declared, Prod.mk.injEq] at h
  unfold managedKeys
  rw [hs, hw, h.1, h.2.1]

/-- Instance lists that declare the same hold, under every key, instances that declare the
same. -/
theorem find?_declared (ns name : String) (l1 l2 : List RobustMQ)
    (h : l1.map declared = l2.map declared) :
    (l1.find? (fun o => o.Namespace == ns && o.Name == name)).map declared
      = (l2.find? (fun o => o.Namespace == ns && o.Name == name)).map declared := by
  induction l1 generalizing l2 with
  | nil =>
    cases l2 with
    | nil => rfl
    | cons b rest => simp at h
  | cons a rest1 ih =>
    cases l2 with
    | nil => simp at h
    | cons b rest2 =>
      simp only [List.map_cons, List.cons.injEq] at h
      obtain ⟨hab, hrest⟩ := h
      have hab1 := hab
      simp only [declared, Prod.mk.injEq] at hab1
      simp only [List.find?_cons, hab1.1, hab1.2.1]
      cases (b.Namespace == ns && b.Name == name) with
      | true => simp [hab]
      | false => exact ih rest2 hrest

theorem apiStatusUpdate_calm (env : Env) (robustmq stored : RobustMQ) (w : World)
    (hfaults : ∀ n, env.faults n = none)
    (hstored : lookup robustMQs w.cluster robustmq.Namespace robustmq.Name = some stored) :
    (apiStatusUpdate env robustmq w).1 = Outcome.ok () := by
  unfold apiStatusUpdate request
  simp only [hfaults, hstored]

/-- With no failing request, a pass adds to the store only what it creates, creates nothing
when the managed keys of the instance it loads are stored, and leaves them stored. -/
theorem Reconcile_converges (env : Env) (req : Request) (w : World)
    (hfaults : ∀ n, env.faults n = none) :
    Grows w (Reconcile env req w).2 ∧
    ((∀ r, lookup robustMQs w.cluster req.Namespace req.Name = some r →
        ∀ k ∈ managedKeys env r, k ∈ storedKeys w.cluster) →
      Still w (Reconcile env req w).2) ∧
    (∀ r, lookup robustMQs w.cluster req.Namespace req.Name = some r →
      ∀ k ∈ managedKeys env r, k ∈ storedKeys (Reconcile env req w).2.cluster) := by
  have hget : Still w
      { w with calls := w.calls ++
          [{ verb := Verb.get, kind := "RobustMQ", Namespace := req.Namespace,
             Name := req.Name }] } :=
    ⟨rfl, rfl, [_], rfl, by simp [isCreate]⟩
  cases hl : lookup robustMQs w.cluster req.Namespace req.Name with
  | none =>
    rw [Reconcile_absent env req w hfaults hl]
    exact ⟨hget.grows, fun _ => hget, fun r hr => by cases hr⟩
  | some robustmq =>
    rw [Reconcile_loaded env req w robustmq hfaults hl]
    have hsteps : ∀ (r : RobustMQ) (w0 w1 : World), declared r = declared robustmq →
        Still w w0 → Still w0 w1 →
        Grows w (reconcileSteps env r w1).2 ∧
        ((∀ r1, some robustmq = some r1 → ∀ k ∈ managedKeys env r1, k ∈ storedKeys w.cluster) →
          Still w (reconcileSteps env r w1).2) ∧
        (∀ r1, some robustmq = some r1 →
          ∀ k ∈ managedKeys env r1, k ∈ storedKeys (reconcileSteps env r w1).2.cluster) := by
      intro r w0 w1 hr h0 h1
      have hk := managedKeys_congr env r robustmq hr
      obtain ⟨g, s, e⟩ := reconcileSteps_converges env r hfaults w1
      rw [hk] at s e
      have h01 := still_trans h0 h1
      refine ⟨grows_trans h01.grows g, fun hpre => ?_, fun r1 hr1 => ?_⟩
      · exact still_trans h01 (s (fun k hk1 => h01.grows.mem k (hpre robustmq rfl k hk1)))
      · rw [← Option.some.inj hr1]
        exact e
    split_ifs with hphase
    · obtain ⟨hns, hname⟩ := lookup_key robustMQs _ _ _ _ hl
      have hok := apiStatusUpdate_calm env
        { robustmq with Status := { robustmq.Status with Phase := PhaseInitializing } }
        robustmq
        { w with calls := w.calls ++
            [{ verb := Verb.get, kind := "RobustMQ", Namespace := req.Namespace,
               Name := req.Name }] }
        hfaults
        (show lookup robustMQs w.cluster robustmq.Namespace robustmq.Name = some robustmq by
          rw [show robustmq.Namespace = req.Namespace from hns,
            show robustmq.Name = req.Name from hname]
          exact hl)
      have hq := quiet_apiStatusUpdate env
        { robustmq with Status := { robustmq.Status with Phase := PhaseInitializing } }
        { w with calls := w.calls ++
            [{ verb := Verb.get, kind := "RobustMQ", Namespace := req.Namespace,
               Name := req.Name }] }
      unfold M.bind
      rcases hsu : apiStatusUpdate env
        { robustmq with Status := { robustmq.Status with Phase := PhaseInitializing } }
        { w with calls := w.calls ++
            [{ verb := Verb.get, kind := "RobustMQ", Namespace := req.Namespace,
               Name := req.Name }] } with ⟨o, w1⟩
      rw [hsu] at hok hq
      simp only at hok
      subst hok
      exact hsteps _ _ w1 rfl hget hq
    · exact hsteps robustmq w _ rfl (still_refl w) hget

/-! ## C13 -/

/-- C13: with the cluster a map from (kind, namespace, name) to object (no key is stored
twice) and no failing request, take two consecutive passes for the same request, whatever
the scheme, the quantity parser and the stored objects. The first pass leaves the declared
part (namespace, name, Spec) of every instance as it was, so the second pass sees the same
Spec. Every `Create` of the first pass addresses a key that was not stored when the pass
began, no key is created twice over the two passes, and the second pass issues no `Create`
at all. After the first pass the stored keys are those stored before together with the
created ones; the second pass leaves the stored keys as they are; and after each pass no key
is stored twice. -/
theorem two_passes_create_at_most_once (env : Env) (req : Request) (w : World)
    (hfaults : ∀ n, env.faults n = none) (hmap : (storedKeys w.cluster).Nodup) :
    ∃ issued1 issued2,
      (Reconcile env req w).2.calls = w.calls ++ issued1 ∧
      (Reconcile env req (Reconcile env req w).2).2.calls
        = (Reconcile env req w).2.calls ++ issued2 ∧
      (Reconcile env req w).2.cluster.RobustMQs.map declared
        = w.cluster.RobustMQs.map declared ∧
      (∀ c ∈ issued1, isCreate c = true → callKey c ∉ storedKeys w.cluster) ∧
      (createdKeys (issued1 ++ issued2)).Nodup ∧
      (∀ c ∈ issued2, isCreate c = false) ∧
      (storedKeys (Reconcile env req w).2.cluster).Perm
        (storedKeys w.cluster ++ createdKeys issued1) ∧
      storedKeys (Reconcile env req (Reconcile env req w).2).2.cluster
        = storedKeys (Reconcile env req w).2.cluster ∧
      (storedKeys (Reconcile env req w).2.cluster).Nodup ∧
      (storedKeys (Reconcile env req (Reconcile env req w).2).2.cluster).Nodup := by
  obtain ⟨g1, _, e1⟩ := Reconcile_converges env req w hfaults
  obtain ⟨_, s2, _⟩ := Reconcile_converges env req (Reconcile env req w).2 hfaults
  have hpre : ∀ r, lookup robustMQs (Reconcile env req w).2.cluster req.Namespace req.Name
      = some r → ∀ k ∈ managedKeys env r, k ∈ storedKeys (Reconcile env req w).2.cluster := by
    intro r2 hr2
    have hfind := find?_declared req.Namespace req.Name _ _ g1.1
    have hr2f : (Reconcile env req w).2.cluster.RobustMQs.find?
        (fun o => o.Namespace == req.Namespace && o.Name == req.Name) = some r2 := hr2
    rw [hr2f] at hfind
    cases hr : w.cluster.RobustMQs.find?
        (fun o => o.Namespace == req.Namespace && o.Name == req.Name) with
    | none => rw [hr] at hfind; simp at hfind
    | some r =>
      rw [hr] at hfind
      simp only [Option.map_some', Option.some.injEq] at hfind
      rw [managedKeys_congr env r2 r hfind]
      exact e1 r hr
  obtain ⟨_, hk2, issued2, hc2, hi2⟩ := s2 hpre
  obtain ⟨hd1, hn1, issued1, hc1, hp1⟩ := g1
  have hnodup1 := hn1 hmap
  obtain ⟨_, hcreated, hdisjoint⟩ := List.nodup_append.mp (hp1.nodup_iff.mp hnodup1)
  refine ⟨issued1, issued2, hc1, hc2, hd1, ?_, ?_, hi2, hp1, hk2, hnodup1, ?_⟩
  · intro c hc hcreate hstored
    refine hdisjoint hstored ?_
    exact List.mem_map.mpr ⟨c, List.mem_filter.mpr ⟨hc, hcreate⟩, rfl⟩
  · rw [createdKeys_append, createdKeys_eq_nil issued2 hi2, List.append_nil]
    exact hcreated
  · rw [hk2]
    exact hnodup1

/-- Witness for C13: two passes over the cluster that holds only the test resource, with no
failing request. The first pass creates the ConfigMap, the six services and the
StatefulSet. -/
theorem two_passes_create_at_most_once_witness :
    (∀ n, calmEnv.faults n = none) ∧
    (storedKeys (freshWorld testResource).cluster).Nodup ∧
    createdKeys (Reconcile calmEnv testRequest (freshWorld testResource)).2.calls
      = [ ("ConfigMap", "default", "test-resource-config"),
          ("Service", "default", "test-resource-mqtt"),
          ("Service", "default", "test-resource-kafka"),
          ("Service", "default", "test-resource-grpc"),
          ("Service", "default", "test-resource-amqp"),
          ("Service", "default", "test-resource-meta-service"),
          ("Service", "default", "test-resource-prometheus"),
          ("StatefulSet", "default", "test-resource") ] ∧
    ∃ issued1 issued2,
      (Reconcile calmEnv testRequest (freshWorld testResource)).2.calls
        = (freshWorld testResource).calls ++ issued1 ∧
      (Reconcile calmEnv testRequest
          (Reconcile calmEnv testRequest (freshWorld testResource)).2).2.calls
        = (Reconcile calmEnv testRequest (freshWorld testResource)).2.calls ++ issued2 ∧
      (Reconcile calmEnv testRequest (freshWorld testResource)).2.cluster.RobustMQs.map declared
        = (freshWorld testResource).cluster.RobustMQs.map declared ∧
      (∀ c ∈ issued1, isCreate c = true →
        callKey c ∉ storedKeys (freshWorld testResource).cluster) ∧
      (createdKeys (issued1 ++ issued2)).Nodup ∧
      (∀ c ∈ issued2, isCreate c = false) ∧
      (storedKeys (Reconcile calmEnv testRequest (freshWorld testResource)).2.cluster).Perm
        (storedKeys (freshWorld testResource).cluster ++ createdKeys issued1) ∧
      storedKeys (Reconcile calmEnv testRequest
          (Reconcile calmEnv testRequest (freshWorld testResource)).2).2.cluster
        = storedKeys (Reconcile calmEnv testRequest (freshWorld testResource)).2.cluster ∧
      (storedKeys (Reconcile calmEnv testRequest (freshWorld testResource)).2.cluster).Nodup ∧
      (storedKeys (Reconcile calmEnv testRequest
          (Reconcile calmEnv testRequest (freshWorld testResource)).2).2.cluster).Nodup :=
  ⟨fun _ => rfl, by decide, by decide!,
    two_passes_create_at_most_once calmEnv testRequest (freshWorld testResource)
      (fun _ => rfl) (by decide)⟩

/-! ## Helper lemmas: the synthesized nodes -/

theorem componentNodes_eq (robustmq : RobustMQ) (component : String) (node : Int → NodeInfo) :
    componentNodes robustmq component node
      = (List.range (readyCount robustmq component)).map (fun i : Nat => node (i : Int)) := by
  have hcast : ∀ l : List Nat, (do let a ← l; pure (a : Int) : List Int)
      = l.map (fun a : Nat => (a : Int)) := by
    intro l
    induction l with
    | nil => rfl
    | cons a r ih =>
      show [(a : Int)] ++ (do let a ← r; pure (a : Int) : List Int) = _
      rw [ih]
      rfl
  unfold componentNodes readyCount
  cases robustmq.Status.DeploymentStatuses.get? component with
  | none => rfl
  | some status =>
    show List.map (fun i => node i) (do let a ← List.range status.ReadyReplicas.toNat; pure (a : Int)) = _
    rw [hcast, List.map_map]
    rfl

theorem componentNodes_length (robustmq : RobustMQ) (component : String)
    (node : Int → NodeInfo) :
    (componentNodes robustmq component node).length = readyCount robustmq component := by
  rw [componentNodes_eq]
  simp

theorem componentNodes_getElem? (robustmq : RobustMQ) (component : String)
    (node : Int → NodeInfo) (i : Nat) (hi : i < readyCount robustmq component) :
    (componentNodes robustmq component node)[i]? = some (node i) := by
  rw [componentNodes_eq]
  simp [List.getElem?_map, List.getElem?_range hi]

/-! ## C21 -/

/-- C21: after `updateClusterInfo` the node list holds one node per ready replica recorded
for the components of the current mode. In AllInOne mode there are `n` nodes, `n` the
non-negative `ReadyReplicas` recorded under `all-in-one`, and node `i` has ID
`<name>-<i>` and the roles meta, broker, journal. In Microservices mode the list is the
meta nodes, then the broker nodes, then the journal nodes; node `i` of each component has ID
`<name>-meta-<i>`, `<name>-broker-<i>`, `<name>-journal-<i>` and the single role of its
component; the length is the sum of the three non-negative `ReadyReplicas`. -/
theorem updateClusterInfo_nodes (robustmq : RobustMQ) :
    (robustmq.Spec.DeploymentMode = AllInOneMode →
      (updateClusterInfo robustmq).Status.ClusterInfo.Nodes.length
        = readyCount robustmq "all-in-one" ∧
      ∀ i : Nat, i < readyCount robustmq "all-in-one" →
        ((updateClusterInfo robustmq).Status.ClusterInfo.Nodes[i]?).map NodeInfo.identity
          = some (robustmq.Name ++ "-" ++ formatInt i, [MetaRole, BrokerRole, JournalRole])) ∧
    (robustmq.Spec.DeploymentMode = MicroservicesMode →
      (updateClusterInfo robustmq).Status.ClusterInfo.Nodes.length
        = readyCount robustmq "meta-service" + readyCount robustmq "mqtt-broker"
          + readyCount robustmq "journal-service" ∧
      (∀ i : Nat, i < readyCount robustmq "meta-service" →
        ((updateClusterInfo robustmq).Status.ClusterInfo.Nodes[i]?).map NodeInfo.identity
          = some (robustmq.Name ++ "-meta-" ++ formatInt i, [MetaRole])) ∧
      (∀ i : Nat, i < readyCount robustmq "mqtt-broker" →
        ((updateClusterInfo robustmq).Status.ClusterInfo.Nodes[
            readyCount robustmq "meta-service" + i]?).map NodeInfo.identity
          = some (robustmq.Name ++ "-broker-" ++ formatInt i, [BrokerRole])) ∧
      (∀ i : Nat, i < readyCount robustmq "journal-service" →
        ((updateClusterInfo robustmq).Status.ClusterInfo.Nodes[
            readyCount robustmq "meta-service" + readyCount robustmq "mqtt-broker" + i]?).map
            NodeInfo.identity
          = some (robustmq.Name ++ "-journal-" ++ formatInt i, [JournalRole]))) := by
  have hne : MicroservicesMode ≠ AllInOneMode := by decide
  refine ⟨fun hmode => ?_, fun hmode => ?_⟩
  · have hn : (updateClusterInfo robustmq).Status.ClusterInfo.Nodes
        = clusterNodes robustmq := rfl
    rw [hn]
    unfold clusterNodes
    rw [if_pos hmode]
    refine ⟨componentNodes_length _ _ _, fun i hi => ?_⟩
    rw [componentNodes_getElem? _ _ _ i hi]
    rfl
  · have hn : (updateClusterInfo robustmq).Status.ClusterInfo.Nodes
        = clusterNodes robustmq := rfl
    rw [hn]
    unfold clusterNodes
    rw [hmode, if_neg hne, if_pos rfl]
    refine ⟨by simp [componentNodes_length, Nat.add_assoc], fun i hi => ?_, fun i hi => ?_, fun i hi => ?_⟩
    · rw [List.append_assoc, List.getElem?_append_left (by rw [componentNodes_length]; exact hi),
        componentNodes_getElem? _ _ _ i hi]
      rfl
    · rw [List.append_assoc, List.getElem?_append_right (by rw [componentNodes_length]; omega),
        componentNodes_length, Nat.add_sub_cancel_left,
        List.getElem?_append_left (by rw [componentNodes_length]; exact hi),
        componentNodes_getElem? _ _ _ i hi]
      rfl
    · rw [List.getElem?_append_right (by simp [componentNodes_length]),
        List.length_append, componentNodes_length, componentNodes_length,
        Nat.add_sub_cancel_left, componentNodes_getElem? _ _ _ i hi]
      rfl

/-- Witness for C21: the test resource (AllInOne) with two ready replicas recorded has the
nodes `test-resource-0` and `test-resource-1`, each with the three roles. -/
theorem updateClusterInfo_nodes_witness :
    ((updateClusterInfo readyResource).Status.ClusterInfo.Nodes.map NodeInfo.identity
      = [ ("test-resource-0", ["meta", "broker", "journal"]),
          ("test-resource-1", ["meta", "broker", "journal"]) ]) ∧
    ((updateClusterInfo readyResource).Status.ClusterInfo.Nodes.length
      = readyCount readyResource "all-in-one") :=
  ⟨by decide!, ((updateClusterInfo_nodes readyResource).1 (by decide)).1⟩

/-! ## Helper lemmas: the leader -/

theorem ne_empty_of_suffix (a b c : String) (hb : 0 < b.length) : a ++ b ++ c ≠ "" := by
  intro h
  have hl := congrArg String.length h
  simp only [String.length_append] at hl
  have h0 : ("" : String).length = 0 := rfl
  omega

theorem metaLeaderLoop_head (leader : String) (node : NodeInfo) (rest : List NodeInfo)
    (hrole : MetaRole ∈ node.Roles) (hid : node.ID ≠ "") :
    metaLeaderLoop leader (node :: rest) = node.ID := by
  unfold metaLeaderLoop
  simp [hrole, hid]

theorem componentNodes_cons (robustmq : RobustMQ) (component : String)
    (node : Int → NodeInfo) (h : 0 < readyCount robustmq component) :
    ∃ rest, componentNodes robustmq component node = node 0 :: rest := by
  rw [componentNodes_eq]
  obtain ⟨n, hn⟩ : ∃ n, readyCount robustmq component = n + 1 := ⟨_, (Nat.succ_pred_eq_of_pos h).symm⟩
  rw [hn, List.range_succ_eq_map]
  exact ⟨_, rfl⟩

theorem componentNodes_nil (robustmq : RobustMQ) (component : String)
    (node : Int → NodeInfo) (h : readyCount robustmq component = 0) :
    componentNodes robustmq component node = [] := by
  rw [componentNodes_eq, h]
  rfl

theorem componentNodes_mem (robustmq : RobustMQ) (component : String)
    (node : Int → NodeInfo) (x : NodeInfo) (h : x ∈ componentNodes robustmq component node) :
    ∃ i : Nat, x = node i := by
  rw [componentNodes_eq] at h
  obtain ⟨i, _, hi⟩ := List.mem_map.mp h
  exact ⟨i, hi.symm⟩

/-- The computed node list is empty, or starts with a node that carries the meta role and
has a non-empty ID, or holds no node with the meta role. -/
theorem clusterNodes_cases (robustmq : RobustMQ) :
    clusterNodes robustmq = [] ∨
    (∃ node rest, clusterNodes robustmq = node :: rest ∧ MetaRole ∈ node.Roles ∧ node.ID ≠ "") ∨
    (∀ node ∈ clusterNodes robustmq, MetaRole ∉ node.Roles) := by
  unfold clusterNodes
  split_ifs with h1 h2
  · rcases Nat.eq_zero_or_pos (readyCount robustmq "all-in-one") with h0 | hpos
    · left; exact componentNodes_nil _ _ _ h0
    · right; left
      obtain ⟨rest, hr⟩ := componentNodes_cons robustmq "all-in-one" _ hpos
      exact ⟨_, rest, hr, (by decide : MetaRole ∈ [MetaRole, BrokerRole, JournalRole]),
        ne_empty_of_suffix _ "-" _ (by decide)⟩
  · rcases Nat.eq_zero_or_pos (readyCount robustmq "meta-service") with h0 | hpos
    · right; right
      rw [componentNodes_nil _ "meta-service" _ h0]
      intro node hnode
      simp only [List.nil_append, List.mem_append] at hnode
      rcases hnode with h | h
      · obtain ⟨i, hi⟩ := componentNodes_mem _ _ _ _ h
        rw [hi]
        exact (by decide : MetaRole ∉ [BrokerRole])
      · obtain ⟨i, hi⟩ := componentNodes_mem _ _ _ _ h
        rw [hi]
        exact (by decide : MetaRole ∉ [JournalRole])
    · right; left
      obtain ⟨rest, hr⟩ := componentNodes_cons robustmq "meta-service" _ hpos
      rw [hr]
      exact ⟨_, _, rfl, (by decide : MetaRole ∈ [MetaRole]),
        ne_empty_of_suffix _ "-meta-" _ (by decide)⟩
  · left; rfl

/-! ## C22 -/

/-- C22: after `updateClusterInfo`, whenever some node of the computed list carries the meta
role, `MetaLeader` is the ID of the first such node in list order, whatever `MetaLeader` was
before the call. -/
theorem updateClusterInfo_metaLeader (robustmq : RobustMQ)
    (h : ∃ node ∈ (updateClusterInfo robustmq).Status.ClusterInfo.Nodes,
      MetaRole ∈ node.Roles) :
    ((updateClusterInfo robustmq).Status.ClusterInfo.Nodes.find?
        (fun node => decide (MetaRole ∈ node.Roles))).map (fun node => node.ID)
      = some (updateClusterInfo robustmq).Status.ClusterInfo.MetaLeader := by
  have hn : (updateClusterInfo robustmq).Status.ClusterInfo.Nodes = clusterNodes robustmq := rfl
  have hl : (updateClusterInfo robustmq).Status.ClusterInfo.MetaLeader
      = metaLeaderLoop robustmq.Status.ClusterInfo.MetaLeader (clusterNodes robustmq) := rfl
  rw [hn] at h ⊢
  rw [hl]
  rcases clusterNodes_cases robustmq with h0 | ⟨node, rest, hr, hrole, hid⟩ | hnone
  · rw [h0] at h
    obtain ⟨node, hnode, _⟩ := h
    cases hnode
  · rw [hr, metaLeaderLoop_head _ node rest hrole hid]
    simp [List.find?_cons, hrole]
  · obtain ⟨node, hnode, hrole⟩ := h
    exact absurd hrole (hnone node hnode)

/-- Witness for C22: in Microservices mode with one ready meta replica and two ready brokers
the leader left from an earlier pass, `old-0`, is replaced by `test-resource-meta-0`. -/
theorem updateClusterInfo_metaLeader_witness :
    readyMicroservices.Status.ClusterInfo.MetaLeader = "old-0" ∧
    (updateClusterInfo readyMicroservices).Status.ClusterInfo.MetaLeader
      = "test-resource-meta-0" ∧
    (∃ node ∈ (updateClusterInfo readyMicroservices).Status.ClusterInfo.Nodes,
      MetaRole ∈ node.Roles) ∧
    ((updateClusterInfo readyMicroservices).Status.ClusterInfo.Nodes.find?
        (fun node => decide (MetaRole ∈ node.Roles))).map (fun node => node.ID)
      = some (updateClusterInfo readyMicroservices).Status.ClusterInfo.MetaLeader :=
  ⟨by decide!, by decide!, by decide!,
    updateClusterInfo_metaLeader readyMicroservices (by decide!)⟩

/-! ## C27 -/

/-- C27: for every Spec whose `Storage.Size` parses as a quantity (and with `5Gi` parsing),
the workloads compile, at least one of them is stateful, and the volume claim templates of
every compiled stateful workload are exactly two, in this order: `data`, requesting the
parsed `Storage.Size` with `Storage.AccessModes` and `Storage.StorageClass`, and `logs`,
requesting the parsed fixed text `5Gi`. -/
theorem volumeClaimTemplates_exact (MustParse : String → Option Quantity) (robustmq : RobustMQ)
    (dataSize logsSize : Quantity)
    (hdata : MustParse robustmq.Spec.Storage.Size = some dataSize)
    (hlogs : MustParse "5Gi" = some logsSize) :
    ∃ workloads, compiledWorkloads MustParse robustmq = some workloads ∧
      (∃ s, Workload.statefulSet s ∈ workloads) ∧
      ∀ s, Workload.statefulSet s ∈ workloads →
        s.Spec.VolumeClaimTemplates =
          [ { Name := "data"
              AccessModes := robustmq.Spec.Storage.AccessModes
              StorageRequest := dataSize
              StorageClassName := robustmq.Spec.Storage.StorageClass },
            { Name := "logs"
              AccessModes := [ReadWriteOnce]
              StorageRequest := logsSize
              StorageClassName := robustmq.Spec.Storage.StorageClass } ] := by
  have ht : buildVolumeClaimTemplates MustParse robustmq = some
      [ { Name := "data"
          AccessModes := robustmq.Spec.Storage.AccessModes
          StorageRequest := dataSize
          StorageClassName := robustmq.Spec.Storage.StorageClass },
        { Name := "logs"
          AccessModes := [ReadWriteOnce]
          StorageRequest := logsSize
          StorageClassName := robustmq.Spec.Storage.StorageClass } ] := by
    simp only [buildVolumeClaimTemplates, hdata, hlogs]
  unfold compiledWorkloads
  rw [ht]
  split_ifs
  · refine ⟨_, rfl, ⟨_, List.mem_singleton_self _⟩, fun s hs => ?_⟩
    simp only [List.mem_singleton, Workload.statefulSet.injEq] at hs
    rw [hs]; rfl
  · refine ⟨_, rfl, ⟨_, List.mem_cons_self _ _⟩, fun s hs => ?_⟩
    simp only [List.mem_cons, Workload.statefulSet.injEq, List.mem_singleton,
      List.not_mem_nil, or_false, false_or] at hs
    rcases hs with h | h | h
    · rw [h]; rfl
    · cases h
    · rw [h]; rfl
  · refine ⟨_, rfl, ⟨_, List.mem_singleton_self _⟩, fun s hs => ?_⟩
    simp only [List.mem_singleton, Workload.statefulSet.injEq] at hs
    rw [hs]; rfl

/-- Witness for C27: the test resource asks for `10Gi`. -/
theorem volumeClaimTemplates_exact_witness :
    parseNonEmpty testResource.Spec.Storage.Size = some { text := "10Gi" } ∧
    parseNonEmpty "5Gi" = some { text := "5Gi" } ∧
    ∃ workloads, compiledWorkloads parseNonEmpty testResource = some workloads ∧
      (∃ s, Workload.statefulSet s ∈ workloads) ∧
      ∀ s, Workload.statefulSet s ∈ workloads →
        s.Spec.VolumeClaimTemplates =
          [ { Name := "data"
              AccessModes := testResource.Spec.Storage.AccessModes
              StorageRequest := { text := "10Gi" }
              StorageClassName := testResource.Spec.Storage.StorageClass },
            { Name := "logs"
              AccessModes := [ReadWriteOnce]
              StorageRequest := { text := "5Gi" }
              StorageClassName := testResource.Spec.Storage.StorageClass } ] :=
  ⟨by decide, by decide,
    volumeClaimTemplates_exact parseNonEmpty testResource _ _ (by decide) (by decide)⟩

/-! ## C26 -/

/-- C26: for every Microservices Spec whose storage quantities parse, the compiled workloads
are a StatefulSet (meta), a Deployment (broker) and a StatefulSet (journal). The meta
container exposes exactly the port `grpc = Spec.Network.GRPC.Port`; the broker container
exposes exactly the four MQTT ports and mounts only the config volume; the journal container
exposes exactly the port `journal = 1771`. The two StatefulSets carry the volume claim
templates `data` and `logs`. When `Spec.Microservices` is set, the container resources, node
selector, affinity and tolerations of each workload are those of its own service section. -/
theorem microservices_workloads (MustParse : String → Option Quantity) (robustmq : RobustMQ)
    (templates : List PersistentVolumeClaim)
    (hmode : robustmq.Spec.DeploymentMode = MicroservicesMode)
    (ht : buildVolumeClaimTemplates MustParse robustmq = some templates) :
    compiledWorkloads MustParse robustmq
      = some [ Workload.statefulSet (metaServiceStatefulSet robustmq templates),
               Workload.deployment (mqttBrokerDeployment robustmq),
               Workload.statefulSet (journalServiceStatefulSet robustmq templates) ] ∧
    (metaServiceStatefulSet robustmq templates).Spec.Template.Spec.Containers.map
        (fun c => c.Ports)
      = [[{ Name := "grpc", ContainerPort := robustmq.Spec.Network.GRPC.Port,
            Protocol := ProtocolTCP }]] ∧
    (mqttBrokerDeployment robustmq).Spec.Template.Spec.Containers.map (fun c => c.Ports)
      = [[ { Name := "mqtt-tcp", ContainerPort := robustmq.Spec.Network.MQTT.TCPPort,
             Protocol := ProtocolTCP },
           { Name := "mqtt-tls", ContainerPort := robustmq.Spec.Network.MQTT.TLSPort,
             Protocol := ProtocolTCP },
           { Name := "mqtt-ws", ContainerPort := robustmq.Spec.Network.MQTT.WebSocketPort,
             Protocol := ProtocolTCP },
           { Name := "mqtt-wss", ContainerPort := robustmq.Spec.Network.MQTT.WebSocketTLSPort,
             Protocol := ProtocolTCP } ]] ∧
    (mqttBrokerDeployment robustmq).Spec.Template.Spec.Containers.map
        (fun c => c.VolumeMounts.map (fun m => m.Name))
      = [["config"]] ∧
    (journalServiceStatefulSet robustmq templates).Spec.Template.Spec.Containers.map
        (fun c => c.Ports)
      = [[{ Name := "journal", ContainerPort := 1771, Protocol := ProtocolTCP }]] ∧
    (metaServiceStatefulSet robustmq templates).Spec.VolumeClaimTemplates = templates ∧
    (journalServiceStatefulSet robustmq templates).Spec.VolumeClaimTemplates = templates ∧
    templates.map (fun t => t.Name) = ["data", "logs"] ∧
    (∀ microservices, robustmq.Spec.Microservices = some microservices →
      ((metaServiceStatefulSet robustmq templates).Spec.Template.Spec.Containers.map
          (fun c => c.Resources) = [microservices.MetaService.Resources] ∧
        (metaServiceStatefulSet robustmq templates).Spec.Template.Spec.NodeSelector
          = microservices.MetaService.NodeSelector ∧
        (metaServiceStatefulSet robustmq templates).Spec.Template.Spec.Affinity
          = microservices.MetaService.Affinity ∧
        (metaServiceStatefulSet robustmq templates).Spec.Template.Spec.Tolerations
          = microservices.MetaService.Tolerations) ∧
      ((mqttBrokerDeployment robustmq).Spec.Template.Spec.Containers.map
          (fun c => c.Resources) = [microservices.BrokerService.Resources] ∧
        (mqttBrokerDeployment robustmq).Spec.Template.Spec.NodeSelector
          = microservices.BrokerService.NodeSelector ∧
        (mqttBrokerDeployment robustmq).Spec.Template.Spec.Affinity
          = microservices.BrokerService.Affinity ∧
        (mqttBrokerDeployment robustmq).Spec.Template.Spec.Tolerations
          = microservices.BrokerService.Tolerations) ∧
      ((journalServiceStatefulSet robustmq templates).Spec.Template.Spec.Containers.map
          (fun c => c.Resources) = [microservices.JournalService.Resources] ∧
        (journalServiceStatefulSet robustmq templates).Spec.Template.Spec.NodeSelector
          = microservices.JournalService.NodeSelector ∧
        (journalServiceStatefulSet robustmq templates).Spec.Template.Spec.Affinity
          = microservices.JournalService.Affinity ∧
        (journalServiceStatefulSet robustmq templates).Spec.Template.Spec.Tolerations
          = microservices.JournalService.Tolerations)) := by
  have hne : MicroservicesMode ≠ AllInOneMode := by decide
  have hnames : templates.map (fun t => t.Name) = ["data", "logs"] := by
    unfold buildVolumeClaimTemplates at ht
    cases hd : MustParse robustmq.Spec.Storage.Size with
    | none => simp [hd] at ht
    | some dataSize =>
      cases hl : MustParse "5Gi" with
      | none => simp [hd, hl] at ht
      | some logsSize =>
        simp only [hd, hl, Option.some.injEq] at ht
        rw [← ht]
        rfl
  refine ⟨?_, ?_, ?_, ?_, ?_, rfl, rfl, hnames, ?_⟩
  · simp [compiledWorkloads, hmode, hne, ht]
  · simp only [metaServiceStatefulSet, buildMetaServicePodSpec]
    cases robustmq.Spec.Microservices <;> rfl
  · simp only [mqttBrokerDeployment, buildMQTTBrokerPodSpec, buildContainerPorts]
    cases robustmq.Spec.Microservices <;> rfl
  · simp only [mqttBrokerDeployment, buildMQTTBrokerPodSpec]
    cases robustmq.Spec.Microservices <;> rfl
  · simp only [journalServiceStatefulSet, buildJournalServicePodSpec]
    cases robustmq.Spec.Microservices <;> rfl
  · intro microservices hms
    simp [metaServiceStatefulSet, buildMetaServicePodSpec, mqttBrokerDeployment,
      buildMQTTBrokerPodSpec, journalServiceStatefulSet, buildJournalServicePodSpec, hms,
      withScheduling]

/-- Witness for C26: the test resource in Microservices mode with three differing service
sections. -/
theorem microservices_workloads_witness :
    microservicesResource.Spec.DeploymentMode = MicroservicesMode ∧
    buildVolumeClaimTemplates parseNonEmpty microservicesResource
      = some
        [ { Name := "data", AccessModes := ["ReadWriteOnce"], StorageRequest := { text := "10Gi" },
            StorageClassName := microservicesResource.Spec.Storage.StorageClass },
          { Name := "logs", AccessModes := ["ReadWriteOnce"], StorageRequest := { text := "5Gi" },
            StorageClassName := microservicesResource.Spec.Storage.StorageClass } ] ∧
    (compiledWorkloads parseNonEmpty microservicesResource).map (fun ws => ws.map Workload.name)
      = some ["test-resource-meta", "test-resource-mqtt-broker", "test-resource-journal"] ∧
    (mqttBrokerDeployment microservicesResource).Spec.Template.Spec.NodeSelector
      = [("pool", "broker")] ∧
    (mqttBrokerDeployment microservicesResource).Spec.Template.Spec.Containers.map
        (fun c => c.Resources)
      = [{ Limits := [], Requests := [("cpu", "2")] }] :=
  ⟨by decide, by decide!, by decide!,
    ((microservices_workloads parseNonEmpty microservicesResource _ (by decide)
      (by decide! : buildVolumeClaimTemplates parseNonEmpty microservicesResource
        = some
          [ { Name := "data", AccessModes := ["ReadWriteOnce"],
              StorageRequest := { text := "10Gi" },
              StorageClassName := microservicesResource.Spec.Storage.StorageClass },
            { Name := "logs", AccessModes := ["ReadWriteOnce"],
              StorageRequest := { text := "5Gi" },
              StorageClassName := microservicesResource.Spec.Storage.StorageClass } ])).2.2.2.2.2.2.2.2
      _ rfl).2.1.2.1,
    ((microservices_workloads parseNonEmpty microservicesResource _ (by decide)
      (by decide! : buildVolumeClaimTemplates parseNonEmpty microservicesResource
        = some
          [ { Name := "data", AccessModes := ["ReadWriteOnce"],
              StorageRequest := { text := "10Gi" },
              StorageClassName := microservicesResource.Spec.Storage.StorageClass },
            { Name := "logs", AccessModes := ["ReadWriteOnce"],
              StorageRequest := { text := "5Gi" },
              StorageClassName := microservicesResource.Spec.Storage.StorageClass } ])).2.2.2.2.2.2.2.2
      _ rfl).2.1.1⟩

/-! ## C28 -/

/-- C28: for every AllInOne instance whose storage quantities parse, the compiled workload is
the StatefulSet named after the instance; its replica count is `AllInOne.Replicas` when that
is positive; its governing service name is `<name>-meta-service`; among the compiled
services the one of that name is headless (cluster address `None`, type `ClusterIP`); and
the address of node `i` computed by `updateClusterInfo` is
`<name>-<i>.<governing service>.<namespace>.svc.cluster.local:<grpc port>`. -/
theorem allInOne_governing_service (MustParse : String → Option Quantity)
    (robustmq : RobustMQ) (templates : List PersistentVolumeClaim)
    (hmode : robustmq.Spec.DeploymentMode = AllInOneMode)
    (ht : buildVolumeClaimTemplates MustParse robustmq = some templates) :
    compiledWorkloads MustParse robustmq
      = some [Workload.statefulSet (allInOneStatefulSet robustmq templates)] ∧
    (∀ allInOne, robustmq.Spec.AllInOne = some allInOne → 0 < allInOne.Replicas →
      (allInOneStatefulSet robustmq templates).Spec.Replicas = some allInOne.Replicas) ∧
    (allInOneStatefulSet robustmq templates).Spec.ServiceName
      = robustmq.Name ++ "-meta-service" ∧
    (∃ s ∈ compiledServices robustmq,
      s.ObjectMeta.Name = (allInOneStatefulSet robustmq templates).Spec.ServiceName) ∧
    (∀ s ∈ compiledServices robustmq,
      s.ObjectMeta.Name = (allInOneStatefulSet robustmq templates).Spec.ServiceName →
      s.Spec.ClusterIP = "None" ∧ s.Spec.Type_ = ServiceTypeClusterIP) ∧
    (∀ i : Nat, i < readyCount robustmq "all-in-one" →
      ((updateClusterInfo robustmq).Status.ClusterInfo.Nodes[i]?).map (fun node => node.Address)
        = some (robustmq.Name ++ "-" ++ formatInt i ++ "."
            ++ (allInOneStatefulSet robustmq templates).Spec.ServiceName ++ "."
            ++ robustmq.Namespace ++ ".svc.cluster.local:"
            ++ formatInt robustmq.Spec.Network.GRPC.Port)) := by
  have hservices : compiledServices robustmq = allInOneServices robustmq := by
    simp [compiledServices, hmode]
  refine ⟨by simp [compiledWorkloads, hmode, ht], ?_, rfl, ?_, ?_, ?_⟩
  · intro allInOne ha hpos
    simp [allInOneStatefulSet, allInOneReplicas, ha, hpos]
  · rw [hservices]
    refine ⟨metaService robustmq (robustmq.Name ++ "-meta-service"), ?_, rfl⟩
    simp [allInOneServices]
  · rw [hservices]
    intro s hs hname
    have hname1 : s.ObjectMeta.Name = robustmq.Name ++ "-meta-service" := hname
    simp only [allInOneServices, List.mem_append, List.mem_cons, List.mem_singleton,
      List.not_mem_nil, or_false] at hs
    rcases hs with (h | h | h | h | h) | h
    · rw [h] at hname1
      exact absurd (name_suffix_injective _ _ _ hname1) (by decide)
    · rw [h] at hname1
      exact absurd (name_suffix_injective _ _ _ hname1) (by decide)
    · rw [h] at hname1
      exact absurd (name_suffix_injective _ _ _ hname1) (by decide)
    · rw [h] at hname1
      exact absurd (name_suffix_injective _ _ _ hname1) (by decide)
    · rw [h]
      exact ⟨rfl, rfl⟩
    · split_ifs at h
      · simp only [List.mem_singleton] at h
        rw [h] at hname1
        exact absurd (name_suffix_injective _ _ _ hname1) (by decide)
      · cases h
  · intro i hi
    have hn : (updateClusterInfo robustmq).Status.ClusterInfo.Nodes
        = clusterNodes robustmq := rfl
    rw [hn]
    unfold clusterNodes
    rw [if_pos hmode, componentNodes_getElem? _ _ _ i hi]
    have hlit : ("-meta-service." : String) = "-meta-service" ++ "." := by decide
    simp only [Option.map_some', allInOneStatefulSet, hlit, String.append_assoc]

/-- Witness for C28: the test resource (AllInOne, one replica asked for) with two ready
replicas recorded. -/
theorem allInOne_governing_service_witness :
    readyResource.Spec.DeploymentMode = AllInOneMode ∧
    (compiledWorkloads parseNonEmpty readyResource).map (fun ws => ws.map Workload.replicas)
      = some [some 1] ∧
    (updateClusterInfo readyResource).Status.ClusterInfo.Nodes.map (fun node => node.Address)
      = [ "test-resource-0.test-resource-meta-service.default.svc.cluster.local:1228",
          "test-resource-1.test-resource-meta-service.default.svc.cluster.local:1228" ] ∧
    (∃ s ∈ compiledServices readyResource,
      s.ObjectMeta.Name = "test-resource-meta-service") :=
  ⟨by decide, by decide!, by decide!,
    (allInOne_governing_service parseNonEmpty readyResource
      [ { Name := "data", AccessModes := ["ReadWriteOnce"], StorageRequest := { text := "10Gi" },
          StorageClassName := readyResource.Spec.Storage.StorageClass },
        { Name := "logs", AccessModes := ["ReadWriteOnce"], StorageRequest := { text := "5Gi" },
          StorageClassName := readyResource.Spec.Storage.StorageClass } ]
      (by decide) (by decide!)).2.2.2.1⟩

/-! ## C29 -/

theorem section_then (s sub x : String) (h : ∃ before after, s = before ++ sub ++ after) :
    ∃ before after, s ++ x = before ++ sub ++ after := by
  obtain ⟨b, a, h⟩ := h
  exact ⟨b, a ++ x, by rw [h, String.append_assoc]⟩

theorem section_end (s c sub : String) (h : s = c ++ sub) :
    ∃ before after, s = before ++ sub ++ after :=
  ⟨c, "", by rw [h, String.append_empty]⟩

theorem suffix_append (c t x s : String) (h : s = c ++ t) : s ++ x = c ++ (t ++ x) := by
  rw [h, String.append_assoc]

/-- The MQTT section the rendered configuration contains, for every Spec. -/
theorem generateServerConfig_mqtt_section (robustmq : RobustMQ) :
    ∃ before after, generateServerConfig robustmq
      = before ++ ("[mqtt.server]\ntcp_port = "
          ++ formatInt robustmq.Spec.Network.MQTT.TCPPort
          ++ "\ntls_port = " ++ formatInt robustmq.Spec.Network.MQTT.TLSPort
          ++ "\nwebsocket_port = " ++ formatInt robustmq.Spec.Network.MQTT.WebSocketPort
          ++ "\nwebsockets_port = " ++ formatInt robustmq.Spec.Network.MQTT.WebSocketTLSPort)
        ++ after := by
  unfold generateServerConfig
  dsimp only
  iterate 10 apply section_then
  apply section_end
  iterate 7 apply suffix_append
  rfl

/-- C29: for every Spec the MQTT endpoint is among the compiled services; it has the type
`Spec.Network.MQTT.ServiceType` and exactly the four ports `mqtt-tcp`, `mqtt-tls`, `mqtt-ws`,
`mqtt-wss`, whose port and target port are the Spec's TCP, TLS, WebSocket and WebSocketTLS
ports. Some container of a compiled workload exposes the same four numbers under the same
names and in the same order as its first four container ports, and the rendered
`[mqtt.server]` section lists the same four numbers in the same order. -/
theorem mqtt_ports_agree (MustParse : String → Option Quantity) (robustmq : RobustMQ) :
    (∃ serviceName, mqttService robustmq serviceName ∈ compiledServices robustmq) ∧
    (∀ serviceName,
      (mqttService robustmq serviceName).Spec.Type_ = robustmq.Spec.Network.MQTT.ServiceType ∧
      (mqttService robustmq serviceName).Spec.Ports
        = [ { Name := "mqtt-tcp", Port := robustmq.Spec.Network.MQTT.TCPPort,
              TargetPort := robustmq.Spec.Network.MQTT.TCPPort, Protocol := ProtocolTCP },
            { Name := "mqtt-tls", Port := robustmq.Spec.Network.MQTT.TLSPort,
              TargetPort := robustmq.Spec.Network.MQTT.TLSPort, Protocol := ProtocolTCP },
            { Name := "mqtt-ws", Port := robustmq.Spec.Network.MQTT.WebSocketPort,
              TargetPort := robustmq.Spec.Network.MQTT.WebSocketPort,
              Protocol := ProtocolTCP },
            { Name := "mqtt-wss", Port := robustmq.Spec.Network.MQTT.WebSocketTLSPort,
              TargetPort := robustmq.Spec.Network.MQTT.WebSocketTLSPort,
              Protocol := ProtocolTCP } ]) ∧
    (∀ workloads, compiledWorkloads MustParse robustmq = some workloads →
      ∃ workload ∈ workloads, ∃ container ∈ workload.podSpec.Containers,
        ∀ serviceName,
          (container.Ports.take 4).map (fun p => (p.Name, p.ContainerPort))
            = (mqttService robustmq serviceName).Spec.Ports.map
                (fun p => (p.Name, p.TargetPort))) ∧
    (∃ before after, generateServerConfig robustmq
      = before ++ ("[mqtt.server]\ntcp_port = "
          ++ formatInt robustmq.Spec.Network.MQTT.TCPPort
          ++ "\ntls_port = " ++ formatInt robustmq.Spec.Network.MQTT.TLSPort
          ++ "\nwebsocket_port = " ++ formatInt robustmq.Spec.Network.MQTT.WebSocketPort
          ++ "\nwebsockets_port = " ++ formatInt robustmq.Spec.Network.MQTT.WebSocketTLSPort)
        ++ after) := by
  have hallInOne : ∀ templates,
      ∃ container ∈ (Workload.statefulSet
          (allInOneStatefulSet robustmq templates)).podSpec.Containers,
        ∀ serviceName,
          (container.Ports.take 4).map (fun p => (p.Name, p.ContainerPort))
            = (mqttService robustmq serviceName).Spec.Ports.map
                (fun p => (p.Name, p.TargetPort)) := by
    intro templates
    obtain ⟨container, hc, hports, _⟩ := buildAllInOnePodSpec_container robustmq
    refine ⟨container, ?_, fun serviceName => ?_⟩
    · show container ∈ (buildAllInOnePodSpec robustmq).Containers
      rw [hc]; exact List.mem_singleton_self _
    · rw [hports, buildContainerPorts_includeAll]
      simp [mqttService, serviceLiteral, servicePort]
  have hbroker : ∃ container ∈ (Workload.deployment
        (mqttBrokerDeployment robustmq)).podSpec.Containers,
      ∀ serviceName,
        (container.Ports.take 4).map (fun p => (p.Name, p.ContainerPort))
          = (mqttService robustmq serviceName).Spec.Ports.map
              (fun p => (p.Name, p.TargetPort)) := by
    have hc : ∃ container, (buildMQTTBrokerPodSpec robustmq).Containers = [container] ∧
        container.Ports = buildContainerPorts robustmq false := by
      unfold buildMQTTBrokerPodSpec
      cases robustmq.Spec.Microservices with
      | none => exact ⟨_, rfl, rfl⟩
      | some microservices => exact ⟨_, rfl, rfl⟩
    obtain ⟨container, hc, hports⟩ := hc
    refine ⟨container, ?_, fun serviceName => ?_⟩
    · show container ∈ (buildMQTTBrokerPodSpec robustmq).Containers
      rw [hc]; exact List.mem_singleton_self _
    · rw [hports, buildContainerPorts_mqttOnly]
      simp [mqttService, serviceLiteral, servicePort]
  refine ⟨?_, fun serviceName => ⟨rfl, rfl⟩, ?_, generateServerConfig_mqtt_section robustmq⟩
  · unfold compiledServices
    split_ifs
    · exact ⟨robustmq.Name ++ "-mqtt", by simp [allInOneServices]⟩
    · exact ⟨robustmq.Name ++ "-mqtt-broker", by simp [microservicesServices]⟩
    · exact ⟨robustmq.Name ++ "-mqtt", by simp [allInOneServices]⟩
  · intro workloads hw
    unfold compiledWorkloads at hw
    cases ht : buildVolumeClaimTemplates MustParse robustmq with
    | none => rw [ht] at hw; split_ifs at hw <;> cases hw
    | some templates =>
      rw [ht] at hw
      split_ifs at hw <;>
        simp only [Option.map_some', Option.some.injEq] at hw <;>
        subst hw
      · exact ⟨_, List.mem_singleton_self _, hallInOne templates⟩
      · exact ⟨Workload.deployment (mqttBrokerDeployment robustmq), by simp, hbroker⟩
      · exact ⟨_, List.mem_singleton_self _, hallInOne templates⟩

/-- Witness for C29: the test resource, which compiles whenever the quantities parse. -/
theorem mqtt_ports_agree_witness :
    (compiledWorkloads parseNonEmpty testResource).isSome = true ∧
    (mqttService testResource "test-resource-mqtt").Spec.Ports.map
        (fun p => (p.Name, p.Port, p.TargetPort))
      = [ ("mqtt-tcp", 1883, 1883), ("mqtt-tls", 1885, 1885), ("mqtt-ws", 8083, 8083),
          ("mqtt-wss", 8084, 8084) ] ∧
    (∃ serviceName, mqttService testResource serviceName ∈ compiledServices testResource) :=
  ⟨by decide!, by decide!, (mqtt_ports_agree parseNonEmpty testResource).1⟩

/-! ## C23 -/

/-- C23 (divergence): status aggregation adds to the maps the prior Status held and never
clears them. For the instance switched from AllInOne to Microservices whose three
Microservices workloads are fully ready (8 of 8 replicas), with no failing request, the
status written back still holds the `all-in-one` record and the record of the `grpc`
endpoint, and the Phase is `Updating`, derived from 8 ready of 9 replicas; from the records
of the three current components alone it would be `Running`. -/
theorem updateStatus_keeps_stale_entries :
    staleResource.Spec.DeploymentMode = MicroservicesMode ∧
    (updateStatus calmEnv staleResource staleWorld).1.isOk = true ∧
    ((storedInstance (updateStatus calmEnv staleResource staleWorld).2).map
        (fun r => r.Status.DeploymentStatuses)
      = some
        [ ("all-in-one", { Replicas := 1, ReadyReplicas := 0, AvailableReplicas := 0 }),
          ("meta-service", { Replicas := 3, ReadyReplicas := 3, AvailableReplicas := 3 }),
          ("mqtt-broker", { Replicas := 2, ReadyReplicas := 2, AvailableReplicas := 2 }),
          ("journal-service", { Replicas := 3, ReadyReplicas := 3, AvailableReplicas := 3 }) ]) ∧
    ((storedInstance (updateStatus calmEnv staleResource staleWorld).2).map
        (fun r => r.Status.ServiceStatuses.map (fun kv => kv.1))
      = some
        [ "test-resource-grpc", "test-resource-meta-service", "test-resource-mqtt-broker",
          "test-resource-kafka", "test-resource-amqp", "test-resource-journal-service",
          "test-resource-prometheus" ]) ∧
    "test-resource-grpc" ∉ (compiledServices staleResource).map (fun s => s.ObjectMeta.Name) ∧
    ((storedInstance (updateStatus calmEnv staleResource staleWorld).2).map
        (fun r => r.Status.Phase) = some PhaseUpdating) ∧
    (updateOverallPhase
        { staleResource with Status := { staleResource.Status with
            DeploymentStatuses :=
              [ ("meta-service", { Replicas := 3, ReadyReplicas := 3, AvailableReplicas := 3 }),
                ("mqtt-broker", { Replicas := 2, ReadyReplicas := 2, AvailableReplicas := 2 }),
                ("journal-service",
                  { Replicas := 3, ReadyReplicas := 3, AvailableReplicas := 3 }) ] } }
      ).Status.Phase = PhaseRunning := by
  refine ⟨by decide, by decide!, by decide!, by decide!, by decide!, by decide!,
    by decide!⟩

/-! ## Helper lemmas: procedures that end at the first failing request -/

theorem failFast_of_silent {α : Type} (env : Env) (m : M α)
    (h : ∀ w, (m w).2.calls = w.calls) : FailFast env m := by
  intro w
  refine ⟨[], by rw [h w, List.append_nil], ?_⟩
  intro i msg hi
  cases hi

theorem failFast_pure {α : Type} (env : Env) (a : α) : FailFast env (M.pure a) :=
  failFast_of_silent env _ (fun _ => rfl)

theorem failFast_fail {α : Type} (env : Env) (e : Err) : FailFast env (fail e : M α) :=
  failFast_of_silent env _ (fun _ => rfl)

theorem failFast_panicNow {α : Type} (env : Env) : FailFast env (panicNow : M α) :=
  failFast_of_silent env _ (fun _ => rfl)

theorem failFast_now (env : Env) : FailFast env (now env) :=
  failFast_of_silent env _ (fun _ => rfl)

theorem failFast_liftExcept {α : Type} (env : Env) (r : Except Err α) :
    FailFast env (liftExcept r) := by
  cases r with
  | ok a => exact failFast_pure env a
  | error e => exact failFast_fail env e

theorem failFast_request {α β : Type} (env : Env) (verb : Verb) (R : Resource α)
    (ns name : String) (action : Cluster → Outcome β × Cluster) :
    FailFast env (request env verb R ns name action) := by
  intro w
  refine ⟨[{ verb := verb, kind := R.kind, Namespace := ns, Name := name }], ?_, ?_⟩
  · unfold request
    cases env.faults w.calls.length with
    | some msg => rfl
    | none => rfl
  · intro i msg hi hf
    have hi0 : i = 0 := by simpa using hi
    subst hi0
    rw [Nat.add_zero] at hf
    refine ⟨rfl, ?_⟩
    unfold request
    rw [hf]

theorem failFast_bind {α β : Type} {env : Env} {m : M α} {f : α → M β}
    (hm : FailFast env m) (hf : ∀ a, FailFast env (f a)) : FailFast env (M.bind m f) := by
  intro w
  obtain ⟨i1, hc1, h1⟩ := hm w
  unfold M.bind
  rcases hmw : m w with ⟨o, w1⟩
  rw [hmw] at hc1 h1
  simp only at hc1 h1
  cases o with
  | ok a =>
    obtain ⟨i2, hc2, h2⟩ := hf a w1
    refine ⟨i1 ++ i2, by rw [hc2, hc1, List.append_assoc], ?_⟩
    intro i msg hi hfault
    by_cases hlt : i < i1.length
    · exact absurd (h1 i msg hlt hfault).2 (by simp)
    · have hlen : w1.calls.length = w.calls.length + i1.length := by
        rw [hc1, List.length_append]
      have hi2 : i - i1.length < i2.length := by
        rw [List.length_append] at hi; omega
      have hfault2 : env.faults (w1.calls.length + (i - i1.length)) = some msg := by
        rw [hlen, show w.calls.length + i1.length + (i - i1.length) = w.calls.length + i by omega]
        exact hfault
      obtain ⟨hlast, hout⟩ := h2 _ msg hi2 hfault2
      refine ⟨?_, hout⟩
      rw [List.length_append]; omega
  | err e =>
    refine ⟨i1, hc1, ?_⟩
    intro i msg hi hfault
    obtain ⟨hlast, hout⟩ := h1 i msg hi hfault
    have he : e = Err.other msg := Outcome.err.inj hout
    rw [he]
    exact ⟨hlast, rfl⟩
  | panic =>
    refine ⟨i1, hc1, ?_⟩
    intro i msg hi hfault
    exact absurd (h1 i msg hi hfault).2 (by simp)

/-- The world after one recorded request. -/
theorem apiGet_fault {α : Type} (env : Env) (R : Resource α) (ns name : String) (w : World)
    (msg : String) (hfault : env.faults w.calls.length = some msg) :
    apiGet env R ns name w =
      (Outcome.err (Err.other msg),
       { w with calls := w.calls ++
          [{ verb := Verb.get, kind := R.kind, Namespace := ns, Name := name }] }) := by
  unfold apiGet request
  simp only [hfault]

theorem apiGet_at {α : Type} (env : Env) (R : Resource α) (ns name : String) (w : World)
    (hfault : env.faults w.calls.length = none) :
    apiGet env R ns name w =
      ((match lookup R w.cluster ns name with
        | some o => Outcome.ok o
        | none => Outcome.err Err.notFound),
       { w with calls := w.calls ++
          [{ verb := Verb.get, kind := R.kind, Namespace := ns, Name := name }] }) := by
  unfold apiGet request
  simp only [hfault]
  cases lookup R w.cluster ns name <;> rfl

/-- The pattern `err := r.Get(...)` followed by `if errors.IsNotFound(err) ... return err`:
it ends at the first failing request when both continuations do. -/
theorem failFast_get_then {α β : Type} (env : Env) (R : Resource α) (ns name : String)
    (f : Except Err α → M β)
    (hother : ∀ msg, f (Except.error (Err.other msg)) = fail (Err.other msg))
    (hnotFound : FailFast env (f (Except.error Err.notFound)))
    (hok : ∀ a, FailFast env (f (Except.ok a))) :
    FailFast env (M.bind (attempt (apiGet env R ns name)) f) := by
  intro w
  cases hfault : env.faults w.calls.length with
  | some msg =>
    have hget := apiGet_fault env R ns name w msg hfault
    rw [bind_attempt_err _ _ _ (Err.other msg) (by rw [hget]), hget, hother]
    refine ⟨[_], rfl, ?_⟩
    intro i msg1 hi hf1
    have hi0 : i = 0 := by simpa using hi
    subst hi0
    rw [Nat.add_zero, hfault] at hf1
    cases hf1
    exact ⟨rfl, rfl⟩
  | none =>
    have hget := apiGet_at env R ns name w hfault
    have hrest : ∀ (g : M β), FailFast env g →
        ∃ issued,
          (g { w with calls := w.calls ++
            [{ verb := Verb.get, kind := R.kind, Namespace := ns, Name := name }] }).2.calls
            = w.calls ++ issued ∧
          ∀ i msg, i < issued.length → env.faults (w.calls.length + i) = some msg →
            i + 1 = issued.length ∧
            (g { w with calls := w.calls ++
              [{ verb := Verb.get, kind := R.kind, Namespace := ns, Name := name }] }).1
              = Outcome.err (Err.other msg) := by
      intro g hg
      obtain ⟨i2, hc2, h2⟩ := hg { w with calls := w.calls ++
        [{ verb := Verb.get, kind := R.kind, Namespace := ns, Name := name }] }
      refine ⟨{ verb := Verb.get, kind := R.kind, Namespace := ns, Name := name } :: i2,
        by rw [hc2]; simp, ?_⟩
      intro i msg hi hf1
      cases i with
      | zero => rw [Nat.add_zero, hfault] at hf1; cases hf1
      | succ j =>
        have hj : j < i2.length := by simpa using hi
        have hf2 : env.faults ((w.calls ++
            [({ verb := Verb.get, kind := R.kind, Namespace := ns, Name := name } :
              ApiCall)]).length + j) = some msg := by
          rw [List.length_append, List.length_singleton,
            show w.calls.length + 1 + j = w.calls.length + (j + 1) by omega]
          exact hf1
        obtain ⟨hlast, hout⟩ := h2 j msg hj hf2
        exact ⟨by simp [hlast], hout⟩
    cases hl : lookup R w.cluster ns name with
    | none =>
      rw [hl] at hget
      rw [bind_attempt_err _ _ _ Err.notFound (by rw [hget]), hget]
      exact hrest _ hnotFound
    | some o =>
      rw [hl] at hget
      rw [bind_attempt_ok _ _ _ o (by rw [hget]), hget]
      exact hrest _ (hok o)

theorem failFast_apiCreate {α : Type} (env : Env) (R : Resource α) (obj : α) :
    FailFast env (apiCreate env R obj) := by
  unfold apiCreate
  exact failFast_request _ _ _ _ _ _

theorem failFast_apiUpdate {α : Type} (env : Env) (R : Resource α) (obj : α) :
    FailFast env (apiUpdate env R obj) := by
  unfold apiUpdate
  exact failFast_request _ _ _ _ _ _

theorem failFast_apiStatusUpdate (env : Env) (robustmq : RobustMQ) :
    FailFast env (apiStatusUpdate env robustmq) := by
  unfold apiStatusUpdate
  exact failFast_request _ _ _ _ _ _

theorem failFast_createOrUpdateService (env : Env) (robustmq : RobustMQ) (service : Service) :
    FailFast env (createOrUpdateService env robustmq service) := by
  unfold createOrUpdateService
  simp only [bind_def]
  apply failFast_bind (failFast_liftExcept _ _)
  intro m
  apply failFast_get_then
  · intro msg; rfl
  · exact failFast_apiCreate _ _ _
  · intro found; exact failFast_apiUpdate _ _ _

theorem failFast_createOrUpdateStatefulSet (env : Env) (robustmq : RobustMQ)
    (statefulSet : StatefulSet) :
    FailFast env (createOrUpdateStatefulSet env robustmq statefulSet) := by
  unfold createOrUpdateStatefulSet
  simp only [bind_def]
  apply failFast_bind (failFast_liftExcept _ _)
  intro m
  apply failFast_get_then
  · intro msg; rfl
  · exact failFast_apiCreate _ _ _
  · intro found; exact failFast_apiUpdate _ _ _

theorem failFast_createOrUpdateDeployment (env : Env) (robustmq : RobustMQ)
    (deployment : Deployment) :
    FailFast env (createOrUpdateDeployment env robustmq deployment) := by
  unfold createOrUpdateDeployment
  simp only [bind_def]
  apply failFast_bind (failFast_liftExcept _ _)
  intro m
  apply failFast_get_then
  · intro msg; rfl
  · exact failFast_apiCreate _ _ _
  · intro found; exact failFast_apiUpdate _ _ _

theorem failFast_reconcileConfigMap (env : Env) (robustmq : RobustMQ) :
    FailFast env (reconcileConfigMap env robustmq) := by
  unfold reconcileConfigMap
  simp only [bind_def]
  apply failFast_bind (failFast_liftExcept _ _)
  intro m
  apply failFast_get_then
  · intro msg; rfl
  · exact failFast_apiCreate _ _ _
  · intro found; exact failFast_apiUpdate _ _ _

theorem failFast_forEach {α : Type} (env : Env) (f : α → M Unit) (l : List α)
    (h : ∀ x ∈ l, FailFast env (f x)) : FailFast env (forEach f l) := by
  induction l with
  | nil => exact failFast_pure env ()
  | cons x rest ih =>
    unfold forEach
    exact failFast_bind (h x (List.mem_cons_self _ _))
      (fun _ => ih (fun y hy => h y (List.mem_cons_of_mem _ hy)))

theorem failFast_createOrUpdateWorkload (env : Env) (robustmq : RobustMQ) (x : Workload) :
    FailFast env (createOrUpdateWorkload env robustmq x) := by
  cases x with
  | statefulSet s => exact failFast_createOrUpdateStatefulSet env robustmq s
  | deployment d => exact failFast_createOrUpdateDeployment env robustmq d

theorem failFast_reconcileServices (env : Env) (robustmq : RobustMQ) :
    FailFast env (reconcileServices env robustmq) := by
  rw [reconcileServices_eq_forEach]
  exact failFast_forEach env _ _ (fun s _ => failFast_createOrUpdateService env robustmq s)

theorem failFast_reconcileWorkloads (env : Env) (robustmq : RobustMQ) :
    FailFast env (reconcileWorkloads env robustmq) := by
  rw [reconcileWorkloads_eq_forEach]
  cases compiledWorkloads env.MustParse robustmq with
  | none => exact failFast_panicNow env
  | some workloads =>
    exact failFast_forEach env _ _
      (fun x _ => failFast_createOrUpdateWorkload env robustmq x)

theorem failFast_updateStatefulSetStatus (env : Env) (robustmq : RobustMQ)
    (stsName component : String) :
    FailFast env (updateStatefulSetStatus env robustmq stsName component) := by
  unfold updateStatefulSetStatus
  simp only [bind_def, pure_def]
  apply failFast_get_then
  · intro msg; rfl
  · exact failFast_pure _ _
  · intro found; exact failFast_pure _ _

theorem failFast_updateDeploymentStatus (env : Env) (robustmq : RobustMQ)
    (depName component : String) :
    FailFast env (updateDeploymentStatus env robustmq depName component) := by
  unfold updateDeploymentStatus
  simp only [bind_def, pure_def]
  apply failFast_get_then
  · intro msg; rfl
  · exact failFast_pure _ _
  · intro found; exact failFast_pure _ _

theorem failFast_updateSingleServiceStatus (env : Env) (robustmq : RobustMQ)
    (serviceName : String) :
    FailFast env (updateSingleServiceStatus env robustmq serviceName) := by
  unfold updateSingleServiceStatus
  simp only [bind_def, pure_def]
  apply failFast_get_then
  · intro msg; rfl
  · exact failFast_pure _ _
  · intro found; exact failFast_pure _ _

theorem failFast_updateServiceStatusesLoop (env : Env) (names : List String) :
    ∀ robustmq, FailFast env (updateServiceStatusesLoop env robustmq names) := by
  induction names with
  | nil => intro robustmq; exact failFast_pure _ _
  | cons n rest ih =>
    intro robustmq
    unfold updateServiceStatusesLoop
    simp only [bind_def]
    exact failFast_bind (failFast_updateSingleServiceStatus _ _ _) (fun r => ih r)

theorem failFast_updateMicroservicesStatus (env : Env) (robustmq : RobustMQ) :
    FailFast env (updateMicroservicesStatus env robustmq) := by
  unfold updateMicroservicesStatus
  simp only [bind_def]
  apply failFast_bind (failFast_updateStatefulSetStatus _ _ _ _)
  intro r1
  apply failFast_bind (failFast_updateDeploymentStatus _ _ _ _)
  intro r2
  exact failFast_updateStatefulSetStatus _ _ _ _

/-- Status aggregation ends at the first failing request and returns its error. -/
theorem failFast_updateStatus (env : Env) (robustmq : RobustMQ) :
    FailFast env (updateStatus env robustmq) := by
  unfold updateStatus
  simp only [bind_def, pure_def]
  split_ifs <;> apply failFast_bind
  any_goals
    intro r1
    apply failFast_bind (failFast_updateServiceStatusesLoop _ _ _)
    intro r2
    apply failFast_bind (failFast_now _)
    intro t0
    apply failFast_bind (failFast_now _)
    intro t1
    apply failFast_bind (failFast_now _)
    intro t2
    apply failFast_bind (failFast_now _)
    intro t3
    apply failFast_bind (failFast_apiStatusUpdate _ _)
    intro _
    exact failFast_pure _ _
  · exact failFast_updateStatefulSetStatus _ _ _ _
  · exact failFast_updateMicroservicesStatus _ _
  · exact failFast_pure _ _

theorem failFast_reconcileSteps (env : Env) (robustmq : RobustMQ) :
    FailFast env (reconcileSteps env robustmq) := by
  unfold reconcileSteps
  apply failFast_bind (failFast_reconcileConfigMap _ _)
  intro _
  apply failFast_bind (failFast_reconcileServices _ _)
  intro _
  apply failFast_bind (failFast_reconcileWorkloads _ _)
  intro _
  apply failFast_bind (failFast_updateStatus _ _)
  intro _
  exact failFast_pure _ _

/-- A pass ends at the first failing request and returns its error. -/
theorem failFast_Reconcile (env : Env) (req : Request) : FailFast env (Reconcile env req) := by
  have hsteps : ∀ r, FailFast env
      (M.bind (reconcileConfigMap env r) fun _ =>
        M.bind (reconcileServices env r) fun _ =>
          M.bind (reconcileWorkloads env r) fun _ =>
            M.bind (updateStatus env r) fun _ =>
              M.pure ({ RequeueAfter := Minute * 5 } : Result)) :=
    fun r => failFast_reconcileSteps env r
  unfold Reconcile
  simp only [bind_def, pure_def, M.pure_bind]
  apply failFast_get_then
  · intro msg; rfl
  · exact failFast_pure _ _
  · intro robustmq
    show FailFast env (if robustmq.Status.Phase = "" then _ else _ : M Result)
    split_ifs with hphase
    · exact failFast_bind (failFast_apiStatusUpdate _ _) (fun _ => hsteps _)
    · exact hsteps robustmq

/-! ## Helper lemmas: procedures that leave the cluster as it is -/

theorem readOnly_pure {α : Type} (a : α) : ReadOnly (M.pure a) := fun _ => rfl

theorem readOnly_fail {α : Type} (e : Err) : ReadOnly (fail e : M α) := fun _ => rfl

theorem readOnly_now (env : Env) : ReadOnly (now env) := fun _ => rfl

theorem readOnly_liftExcept {α : Type} (r : Except Err α) : ReadOnly (liftExcept r) := by
  cases r with
  | ok a => exact readOnly_pure a
  | error e => exact readOnly_fail e

theorem readOnly_bind {α β : Type} {m : M α} {f : α → M β}
    (hm : ReadOnly m) (hf : ∀ a, ReadOnly (f a)) : ReadOnly (M.bind m f) := by
  intro w
  have h1 := hm w
  unfold M.bind
  rcases hmw : m w with ⟨o, w1⟩
  rw [hmw] at h1
  cases o with
  | ok a => exact (hf a w1).trans h1
  | err e => exact h1
  | panic => exact h1

theorem readOnly_attempt {α : Type} {m : M α} (hm : ReadOnly m) : ReadOnly (attempt m) := by
  intro w
  have h1 := hm w
  unfold attempt
  rcases hmw : m w with ⟨o, w1⟩
  rw [hmw] at h1
  cases o <;> exact h1

theorem readOnly_apiGet {α : Type} (env : Env) (R : Resource α) (ns name : String) :
    ReadOnly (apiGet env R ns name) := by
  intro w
  cases hf : env.faults w.calls.length with
  | some msg => rw [apiGet_fault env R ns name w msg hf]
  | none => rw [apiGet_at env R ns name w hf]

theorem readOnly_updateStatefulSetStatus (env : Env) (robustmq : RobustMQ)
    (stsName component : String) :
    ReadOnly (updateStatefulSetStatus env robustmq stsName component) := by
  unfold updateStatefulSetStatus
  simp only [bind_def, pure_def]
  apply readOnly_bind (readOnly_attempt (readOnly_apiGet _ _ _ _))
  intro got
  rcases got with e | found
  · cases e with
    | notFound => exact readOnly_pure _
    | other msg => exact readOnly_fail _
  · exact readOnly_pure _

theorem readOnly_updateDeploymentStatus (env : Env) (robustmq : RobustMQ)
    (depName component : String) :
    ReadOnly (updateDeploymentStatus env robustmq depName component) := by
  unfold updateDeploymentStatus
  simp only [bind_def, pure_def]
  apply readOnly_bind (readOnly_attempt (readOnly_apiGet _ _ _ _))
  intro got
  rcases got with e | found
  · cases e with
    | notFound => exact readOnly_pure _
    | other msg => exact readOnly_fail _
  · exact readOnly_pure _

theorem readOnly_updateSingleServiceStatus (env : Env) (robustmq : RobustMQ)
    (serviceName : String) :
    ReadOnly (updateSingleServiceStatus env robustmq serviceName) := by
  unfold updateSingleServiceStatus
  simp only [bind_def, pure_def]
  apply readOnly_bind (readOnly_attempt (readOnly_apiGet _ _ _ _))
  intro got
  rcases got with e | found
  · cases e with
    | notFound => exact readOnly_pure _
    | other msg => exact readOnly_fail _
  · exact readOnly_pure _

theorem readOnly_updateServiceStatusesLoop (env : Env) (names : List String) :
    ∀ robustmq, ReadOnly (updateServiceStatusesLoop env robustmq names) := by
  induction names with
  | nil => intro robustmq; exact readOnly_pure _
  | cons n rest ih =>
    intro robustmq
    unfold updateServiceStatusesLoop
    simp only [bind_def]
    exact readOnly_bind (readOnly_updateSingleServiceStatus _ _ _) (fun r => ih r)

theorem readOnly_updateMicroservicesStatus (env : Env) (robustmq : RobustMQ) :
    ReadOnly (updateMicroservicesStatus env robustmq) := by
  unfold updateMicroservicesStatus
  simp only [bind_def]
  apply readOnly_bind (readOnly_updateStatefulSetStatus _ _ _ _)
  intro r1
  apply readOnly_bind (readOnly_updateDeploymentStatus _ _ _ _)
  intro r2
  exact readOnly_updateStatefulSetStatus _ _ _ _

/-! ## Helper lemmas: procedures that write only when they return normally -/

theorem ReadOnly.writesOnSuccess {α : Type} {m : M α} (h : ReadOnly m) : WritesOnSuccess m :=
  fun w _ => h w

theorem writesOnSuccess_request {α β : Type} (env : Env) (verb : Verb) (R : Resource α)
    (ns name : String) (action : Cluster → Outcome β × Cluster)
    (h : ∀ c, (action c).1.isOk = false → (action c).2 = c) :
    WritesOnSuccess (request env verb R ns name action) := by
  intro w
  unfold request
  cases env.faults w.calls.length with
  | some msg => intro _; rfl
  | none =>
    have hc := h w.cluster
    rcases ha : action w.cluster with ⟨o, c⟩
    rw [ha] at hc
    intro ho
    exact hc ho

theorem writesOnSuccess_apiCreate {α : Type} (env : Env) (R : Resource α) (obj : α) :
    WritesOnSuccess (apiCreate env R obj) := by
  unfold apiCreate
  apply writesOnSuccess_request
  intro c
  cases lookup R c (R.ns obj) (R.name obj) with
  | none => intro h; cases h
  | some o => intro _; rfl

theorem writesOnSuccess_apiUpdate {α : Type} (env : Env) (R : Resource α) (obj : α) :
    WritesOnSuccess (apiUpdate env R obj) := by
  unfold apiUpdate
  apply writesOnSuccess_request
  intro c
  cases lookup R c (R.ns obj) (R.name obj) with
  | none => intro _; rfl
  | some o => intro h; cases h

theorem writesOnSuccess_apiStatusUpdate (env : Env) (robustmq : RobustMQ) :
    WritesOnSuccess (apiStatusUpdate env robustmq) := by
  unfold apiStatusUpdate
  apply writesOnSuccess_request
  intro c
  cases lookup robustMQs c robustmq.Namespace robustmq.Name with
  | none => intro _; rfl
  | some o => intro h; cases h

theorem writesOnSuccess_bind {α β : Type} {m : M α} {f : α → M β}
    (hm : ReadOnly m) (hf : ∀ a, WritesOnSuccess (f a)) : WritesOnSuccess (M.bind m f) := by
  intro w
  have h1 := hm w
  unfold M.bind
  rcases hmw : m w with ⟨o, w1⟩
  rw [hmw] at h1
  cases o with
  | ok a => intro ho; exact (hf a w1 ho).trans h1
  | err e => intro _; exact h1
  | panic => intro _; exact h1

theorem writesOnSuccess_then_pure {α β : Type} {m : M α} (b : β) (hm : WritesOnSuccess m) :
    WritesOnSuccess (M.bind m fun _ => M.pure b) := by
  intro w
  have h1 := hm w
  unfold M.bind
  rcases hmw : m w with ⟨o, w1⟩
  rw [hmw] at h1
  cases o with
  | ok a => intro ho; cases ho
  | err e => intro _; exact h1 rfl
  | panic => intro _; exact h1 rfl

theorem writesOnSuccess_createOrUpdateService (env : Env) (robustmq : RobustMQ)
    (service : Service) : WritesOnSuccess (createOrUpdateService env robustmq service) := by
  unfold createOrUpdateService
  simp only [bind_def]
  apply writesOnSuccess_bind (readOnly_liftExcept _)
  intro m
  apply writesOnSuccess_bind (readOnly_attempt (readOnly_apiGet _ _ _ _))
  intro got
  rcases got with e | found
  · cases e with
    | notFound => exact writesOnSuccess_apiCreate _ _ _
    | other msg => exact (readOnly_fail _).writesOnSuccess
  · exact writesOnSuccess_apiUpdate _ _ _

theorem writesOnSuccess_createOrUpdateStatefulSet (env : Env) (robustmq : RobustMQ)
    (statefulSet : StatefulSet) :
    WritesOnSuccess (createOrUpdateStatefulSet env robustmq statefulSet) := by
  unfold createOrUpdateStatefulSet
  simp only [bind_def]
  apply writesOnSuccess_bind (readOnly_liftExcept _)
  intro m
  apply writesOnSuccess_bind (readOnly_attempt (readOnly_apiGet _ _ _ _))
  intro got
  rcases got with e | found
  · cases e with
    | notFound => exact writesOnSuccess_apiCreate _ _ _
    | other msg => exact (readOnly_fail _).writesOnSuccess
  · exact writesOnSuccess_apiUpdate _ _ _

theorem writesOnSuccess_createOrUpdateDeployment (env : Env) (robustmq : RobustMQ)
    (deployment : Deployment) :
    WritesOnSuccess (createOrUpdateDeployment env robustmq deployment) := by
  unfold createOrUpdateDeployment
  simp only [bind_def]
  apply writesOnSuccess_bind (readOnly_liftExcept _)
  intro m
  apply writesOnSuccess_bind (readOnly_attempt (readOnly_apiGet _ _ _ _))
  intro got
  rcases got with e | found
  · cases e with
    | notFound => exact writesOnSuccess_apiCreate _ _ _
    | other msg => exact (readOnly_fail _).writesOnSuccess
  · exact writesOnSuccess_apiUpdate _ _ _

theorem writesOnSuccess_reconcileConfigMap (env : Env) (robustmq : RobustMQ) :
    WritesOnSuccess (reconcileConfigMap env robustmq) := by
  unfold reconcileConfigMap
  simp only [bind_def]
  apply writesOnSuccess_bind (readOnly_liftExcept _)
  intro m
  apply writesOnSuccess_bind (readOnly_attempt (readOnly_apiGet _ _ _ _))
  intro got
  rcases got with e | found
  · cases e with
    | notFound => exact writesOnSuccess_apiCreate _ _ _
    | other msg => exact (readOnly_fail _).writesOnSuccess
  · exact writesOnSuccess_apiUpdate _ _ _

/-- Status aggregation writes the status back only when it returns normally: a pass whose
aggregation returns an error leaves the cluster as it was. -/
theorem writesOnSuccess_updateStatus (env : Env) (robustmq : RobustMQ) :
    WritesOnSuccess (updateStatus env robustmq) := by
  unfold updateStatus
  simp only [bind_def, pure_def]
  split_ifs <;> apply writesOnSuccess_bind
  any_goals
    intro r1
    apply writesOnSuccess_bind (readOnly_updateServiceStatusesLoop _ _ _)
    intro r2
    apply writesOnSuccess_bind (readOnly_now _)
    intro t0
    apply writesOnSuccess_bind (readOnly_now _)
    intro t1
    apply writesOnSuccess_bind (readOnly_now _)
    intro t2
    apply writesOnSuccess_bind (readOnly_now _)
    intro t3
    exact writesOnSuccess_then_pure _ (writesOnSuccess_apiStatusUpdate _ _)
  · exact readOnly_updateStatefulSetStatus _ _ _ _
  · exact readOnly_updateMicroservicesStatus _ _
  · exact readOnly_pure _

/-! ## Helper lemmas: the status readers, case by case -/

/-- `updateStatefulSetStatus`: a failing read is returned, an absent StatefulSet is recorded
with zero replicas, a stored one with its replica counts. -/
theorem updateStatefulSetStatus_cases (env : Env) (robustmq : RobustMQ)
    (name component : String) (w : World) :
    (∀ msg, env.faults w.calls.length = some msg →
      updateStatefulSetStatus env robustmq name component w =
        (Outcome.err (Err.other msg),
         { w with calls := w.calls ++
            [{ verb := Verb.get, kind := "StatefulSet", Namespace := robustmq.Namespace,
               Name := name }] })) ∧
    (env.faults w.calls.length = none →
      lookup statefulSets w.cluster robustmq.Namespace name = none →
      updateStatefulSetStatus env robustmq name component w =
        (Outcome.ok (setDeploymentStatus robustmq component zeroDeploymentStatus),
         { w with calls := w.calls ++
            [{ verb := Verb.get, kind := "StatefulSet", Namespace := robustmq.Namespace,
               Name := name }] })) ∧
    (env.faults w.calls.length = none →
      ∀ s, lookup statefulSets w.cluster robustmq.Namespace name = some s →
      updateStatefulSetStatus env robustmq name component w =
        (Outcome.ok (setDeploymentStatus robustmq component
          { Replicas := s.Status.Replicas, ReadyReplicas := s.Status.ReadyReplicas,
            AvailableReplicas := s.Status.ReadyReplicas }),
         { w with calls := w.calls ++
            [{ verb := Verb.get, kind := "StatefulSet", Namespace := robustmq.Namespace,
               Name := name }] })) := by
  refine ⟨fun msg hf => ?_, fun hf hl => ?_, fun hf s hl => ?_⟩
  · have hget := apiGet_fault env statefulSets robustmq.Namespace name w msg hf
    unfold updateStatefulSetStatus
    simp only [bind_def, pure_def]
    rw [bind_attempt_err _ _ _ (Err.other msg) (by rw [hget]), hget]
    rfl
  · have hget := apiGet_at env statefulSets robustmq.Namespace name w hf
    rw [hl] at hget
    unfold updateStatefulSetStatus
    simp only [bind_def, pure_def]
    rw [bind_attempt_err _ _ _ Err.notFound (by rw [hget]), hget]
    rfl
  · have hget := apiGet_at env statefulSets robustmq.Namespace name w hf
    rw [hl] at hget
    unfold updateStatefulSetStatus
    simp only [bind_def, pure_def]
    rw [bind_attempt_ok _ _ _ s (by rw [hget]), hget]
    rfl

/-- `updateDeploymentStatus`: a failing read is returned, an absent Deployment is recorded
with zero replicas, a stored one with its replica counts. -/
theorem updateDeploymentStatus_cases (env : Env) (robustmq : RobustMQ)
    (name component : String) (w : World) :
    (∀ msg, env.faults w.calls.length = some msg →
      updateDeploymentStatus env robustmq name component w =
        (Outcome.err (Err.other msg),
         { w with calls := w.calls ++
            [{ verb := Verb.get, kind := "Deployment", Namespace := robustmq.Namespace,
               Name := name }] })) ∧
    (env.faults w.calls.length = none →
      lookup deployments w.cluster robustmq.Namespace name = none →
      updateDeploymentStatus env robustmq name component w =
        (Outcome.ok (setDeploymentStatus robustmq component zeroDeploymentStatus),
         { w with calls := w.calls ++
            [{ verb := Verb.get, kind := "Deployment", Namespace := robustmq.Namespace,
               Name := name }] })) ∧
    (env.faults w.calls.length = none →
      ∀ d, lookup deployments w.cluster robustmq.Namespace name = some d →
      updateDeploymentStatus env robustmq name component w =
        (Outcome.ok (setDeploymentStatus robustmq component
          { Replicas := d.Status.Replicas, ReadyReplicas := d.Status.ReadyReplicas,
            AvailableReplicas := d.Status.AvailableReplicas }),
         { w with calls := w.calls ++
            [{ verb := Verb.get, kind := "Deployment", Namespace := robustmq.Namespace,
               Name := name }] })) := by
  refine ⟨fun msg hf => ?_, fun hf hl => ?_, fun hf d hl => ?_⟩
  · have hget := apiGet_fault env deployments robustmq.Namespace name w msg hf
    unfold updateDeploymentStatus
    simp only [bind_def, pure_def]
    rw [bind_attempt_err _ _ _ (Err.other msg) (by rw [hget]), hget]
    rfl
  · have hget := apiGet_at env deployments robustmq.Namespace name w hf
    rw [hl] at hget
    unfold updateDeploymentStatus
    simp only [bind_def, pure_def]
    rw [bind_attempt_err _ _ _ Err.notFound (by rw [hget]), hget]
    rfl
  · have hget := apiGet_at env deployments robustmq.Namespace name w hf
    rw [hl] at hget
    unfold updateDeploymentStatus
    simp only [bind_def, pure_def]
    rw [bind_attempt_ok _ _ _ d (by rw [hget]), hget]
    rfl

/-- `updateSingleServiceStatus`: a failing read is returned, an absent service is recorded
with the empty status, a stored one with its addresses. -/
theorem updateSingleServiceStatus_cases (env : Env) (robustmq : RobustMQ)
    (serviceName : String) (w : World) :
    (∀ msg, env.faults w.calls.length = some msg →
      updateSingleServiceStatus env robustmq serviceName w =
        (Outcome.err (Err.other msg),
         { w with calls := w.calls ++
            [{ verb := Verb.get, kind := "Service", Namespace := robustmq.Namespace,
               Name := serviceName }] })) ∧
    (env.faults w.calls.length = none →
      lookup services w.cluster robustmq.Namespace serviceName = none →
      updateSingleServiceStatus env robustmq serviceName w =
        (Outcome.ok { robustmq with Status := { robustmq.Status with
            ServiceStatuses := robustmq.Status.ServiceStatuses.set serviceName
              { ClusterIP := "", ExternalIPs := [], LoadBalancerIngress := [] } } },
         { w with calls := w.calls ++
            [{ verb := Verb.get, kind := "Service", Namespace := robustmq.Namespace,
               Name := serviceName }] })) ∧
    (env.faults w.calls.length = none →
      ∀ s, lookup services w.cluster robustmq.Namespace serviceName = some s →
      updateSingleServiceStatus env robustmq serviceName w =
        (Outcome.ok { robustmq with Status := { robustmq.Status with
            ServiceStatuses := robustmq.Status.ServiceStatuses.set serviceName
              { ClusterIP := s.Spec.ClusterIP
                ExternalIPs := s.Spec.ExternalIPs
                LoadBalancerIngress :=
                  if s.Spec.Type_ = ServiceTypeLoadBalancer then s.Ingress else [] } } },
         { w with calls := w.calls ++
            [{ verb := Verb.get, kind := "Service", Namespace := robustmq.Namespace,
               Name := serviceName }] })) := by
  refine ⟨fun msg hf => ?_, fun hf hl => ?_, fun hf s hl => ?_⟩
  · have hget := apiGet_fault env services robustmq.Namespace serviceName w msg hf
    unfold updateSingleServiceStatus
    simp only [bind_def, pure_def]
    rw [bind_attempt_err _ _ _ (Err.other msg) (by rw [hget]), hget]
    rfl
  · have hget := apiGet_at env services robustmq.Namespace serviceName w hf
    rw [hl] at hget
    unfold updateSingleServiceStatus
    simp only [bind_def, pure_def]
    rw [bind_attempt_err _ _ _ Err.notFound (by rw [hget]), hget]
    rfl
  · have hget := apiGet_at env services robustmq.Namespace serviceName w hf
    rw [hl] at hget
    unfold updateSingleServiceStatus
    simp only [bind_def, pure_def]
    rw [bind_attempt_ok _ _ _ s (by rw [hget]), hget]
    rfl

/-! ## Helper lemmas: status aggregation with no failing request -/

theorem reads_pure (robustmq : RobustMQ) : Reads robustmq (M.pure robustmq) :=
  fun w => ⟨robustmq, [], by simp [M.pure], rfl, rfl, rfl⟩

theorem reads_bind {robustmq : RobustMQ} {m : M RobustMQ} {f : RobustMQ → M RobustMQ}
    (hm : Reads robustmq m)
    (hf : ∀ r, r.Name = robustmq.Name → r.Namespace = robustmq.Namespace →
      r.Spec = robustmq.Spec → Reads r (f r)) :
    Reads robustmq (M.bind m f) := by
  intro w
  obtain ⟨r1, i1, h1, hn1, hs1, hp1⟩ := hm w
  obtain ⟨r2, i2, h2, hn2, hs2, hp2⟩ := hf r1 hn1 hs1 hp1 { w with calls := w.calls ++ i1 }
  refine ⟨r2, i1 ++ i2, ?_, hn2.trans hn1, hs2.trans hs1, hp2.trans hp1⟩
  unfold M.bind
  rw [h1]
  simp only
  rw [h2, List.append_assoc]

theorem reads_updateStatefulSetStatus (env : Env) (robustmq : RobustMQ)
    (name component : String) (hfaults : ∀ n, env.faults n = none) :
    Reads robustmq (updateStatefulSetStatus env robustmq name component) := by
  intro w
  obtain ⟨_, habsent, hstored⟩ := updateStatefulSetStatus_cases env robustmq name component w
  cases hl : lookup statefulSets w.cluster robustmq.Namespace name with
  | none => exact ⟨_, _, habsent (hfaults _) hl, rfl, rfl, rfl⟩
  | some s => exact ⟨_, _, hstored (hfaults _) s hl, rfl, rfl, rfl⟩

theorem reads_updateDeploymentStatus (env : Env) (robustmq : RobustMQ)
    (name component : String) (hfaults : ∀ n, env.faults n = none) :
    Reads robustmq (updateDeploymentStatus env robustmq name component) := by
  intro w
  obtain ⟨_, habsent, hstored⟩ := updateDeploymentStatus_cases env robustmq name component w
  cases hl : lookup deployments w.cluster robustmq.Namespace name with
  | none => exact ⟨_, _, habsent (hfaults _) hl, rfl, rfl, rfl⟩
  | some d => exact ⟨_, _, hstored (hfaults _) d hl, rfl, rfl, rfl⟩

theorem reads_updateSingleServiceStatus (env : Env) (robustmq : RobustMQ)
    (serviceName : String) (hfaults : ∀ n, env.faults n = none) :
    Reads robustmq (updateSingleServiceStatus env robustmq serviceName) := by
  intro w
  obtain ⟨_, habsent, hstored⟩ := updateSingleServiceStatus_cases env robustmq serviceName w
  cases hl : lookup services w.cluster robustmq.Namespace serviceName with
  | none => exact ⟨_, _, habsent (hfaults _) hl, rfl, rfl, rfl⟩
  | some s => exact ⟨_, _, hstored (hfaults _) s hl, rfl, rfl, rfl⟩

theorem reads_updateServiceStatusesLoop (env : Env) (names : List String)
    (hfaults : ∀ n, env.faults n = none) :
    ∀ robustmq, Reads robustmq (updateServiceStatusesLoop env robustmq names) := by
  induction names with
  | nil => intro robustmq; exact reads_pure robustmq
  | cons n rest ih =>
    intro robustmq
    unfold updateServiceStatusesLoop
    simp only [bind_def]
    exact reads_bind (reads_updateSingleServiceStatus env robustmq n hfaults)
      (fun r _ _ _ => ih r)

theorem reads_updateMicroservicesStatus (env : Env) (robustmq : RobustMQ)
    (hfaults : ∀ n, env.faults n = none) :
    Reads robustmq (updateMicroservicesStatus env robustmq) := by
  unfold updateMicroservicesStatus
  simp only [bind_def]
  refine reads_bind (reads_updateStatefulSetStatus env robustmq _ _ hfaults) ?_
  intro r1 hn1 _ _
  refine reads_bind (reads_updateDeploymentStatus env r1 _ _ hfaults) ?_
  intro r2 hn2 _ _
  exact reads_updateStatefulSetStatus env r2 _ _ hfaults

theorem updateOverallPhase_key (robustmq : RobustMQ) :
    (updateOverallPhase robustmq).Name = robustmq.Name ∧
    (updateOverallPhase robustmq).Namespace = robustmq.Namespace := by
  unfold updateOverallPhase
  simp only
  split_ifs <;> exact ⟨rfl, rfl⟩

theorem written_status_key (t0 t1 t2 t3 : Time) (robustmq : RobustMQ) :
    (updateConditions t0 t1 t2 t3 (updateOverallPhase (updateClusterInfo robustmq))).Name
      = robustmq.Name ∧
    (updateConditions t0 t1 t2 t3 (updateOverallPhase (updateClusterInfo robustmq))).Namespace
      = robustmq.Namespace := by
  obtain ⟨hn, hs⟩ := updateOverallPhase_key (updateClusterInfo robustmq)
  exact ⟨Eq.trans (by rfl) hn, Eq.trans (by rfl) hs⟩

/-- The write-back that closes `updateStatus`, for an instance that is stored. -/
theorem updateStatus_tail_ok (env : Env) (robustmq stored : RobustMQ) (w : World)
    (hfaults : ∀ n, env.faults n = none)
    (hstored : lookup robustMQs w.cluster robustmq.Namespace robustmq.Name = some stored) :
    ((M.bind (now env) fun t0 =>
      M.bind (now env) fun t1 =>
        M.bind (now env) fun t2 =>
          M.bind (now env) fun t3 =>
            M.bind (apiStatusUpdate env
                (updateConditions t0 t1 t2 t3
                  (updateOverallPhase (updateClusterInfo robustmq)))) fun _ =>
              M.pure (updateConditions t0 t1 t2 t3
                (updateOverallPhase (updateClusterInfo robustmq)))) w).1.isOk = true := by
  simp only [M.bind, now]
  have hkey := written_status_key (env.clock w.ticks) (env.clock (w.ticks + 1))
    (env.clock (w.ticks + 1 + 1)) (env.clock (w.ticks + 1 + 1 + 1)) robustmq
  have hok := apiStatusUpdate_calm env
    (updateConditions (env.clock w.ticks) (env.clock (w.ticks + 1))
      (env.clock (w.ticks + 1 + 1)) (env.clock (w.ticks + 1 + 1 + 1))
      (updateOverallPhase (updateClusterInfo robustmq)))
    stored
    { cluster := w.cluster, calls := w.calls, ticks := w.ticks + 1 + 1 + 1 + 1 }
    hfaults (by rw [hkey.1, hkey.2]; exact hstored)
  rcases hsu : apiStatusUpdate env
    (updateConditions (env.clock w.ticks) (env.clock (w.ticks + 1))
      (env.clock (w.ticks + 1 + 1)) (env.clock (w.ticks + 1 + 1 + 1))
      (updateOverallPhase (updateClusterInfo robustmq)))
    { cluster := w.cluster, calls := w.calls, ticks := w.ticks + 1 + 1 + 1 + 1 } with ⟨o, w1⟩
  rw [hsu] at hok
  simp only at hok
  subst hok
  rfl

theorem isOk_of_reads_then {robustmq : RobustMQ} {reader : M RobustMQ}
    (hreads : Reads robustmq reader) (k : RobustMQ → M RobustMQ) (w : World)
    (stored : RobustMQ)
    (hstored : lookup robustMQs w.cluster robustmq.Namespace robustmq.Name = some stored)
    (hk : ∀ r w1, r.Name = robustmq.Name → r.Namespace = robustmq.Namespace →
      r.Spec = robustmq.Spec →
      lookup robustMQs w1.cluster r.Namespace r.Name = some stored → (k r w1).1.isOk = true) :
    (M.bind reader k w).1.isOk = true := by
  obtain ⟨r1, i1, h1, hn1, hs1, hp1⟩ := hreads w
  unfold M.bind
  rw [h1]
  simp only
  apply hk r1 _ hn1 hs1 hp1
  rw [hn1, hs1]
  exact hstored

/-- With no failing request, status aggregation for a stored instance returns normally,
whichever workloads and services are absent. -/
theorem updateStatus_ok (env : Env) (robustmq stored : RobustMQ) (w : World)
    (hfaults : ∀ n, env.faults n = none)
    (hstored : lookup robustMQs w.cluster robustmq.Namespace robustmq.Name = some stored) :
    (updateStatus env robustmq w).1.isOk = true := by
  have htail : ∀ r1 w1, r1.Name = robustmq.Name → r1.Namespace = robustmq.Namespace →
      r1.Spec = robustmq.Spec →
      lookup robustMQs w1.cluster r1.Namespace r1.Name = some stored →
      ((M.bind (updateServiceStatuses env r1) fun r2 =>
        M.bind (now env) fun t0 =>
          M.bind (now env) fun t1 =>
            M.bind (now env) fun t2 =>
              M.bind (now env) fun t3 =>
                M.bind (apiStatusUpdate env
                    (updateConditions t0 t1 t2 t3
                      (updateOverallPhase (updateClusterInfo r2)))) fun _ =>
                  M.pure (updateConditions t0 t1 t2 t3
                    (updateOverallPhase (updateClusterInfo r2)))) w1).1.isOk = true := by
    intro r1 w1 _ _ _ hst1
    refine isOk_of_reads_then (reads_updateServiceStatusesLoop env _ hfaults r1) _ w1 stored
      hst1 ?_
    intro r2 w2 _ _ _ hst2
    exact updateStatus_tail_ok env r2 stored w2 hfaults hst2
  unfold updateStatus
  simp only [bind_def, pure_def]
  split_ifs
  · exact isOk_of_reads_then (reads_updateStatefulSetStatus env robustmq _ _ hfaults) _ w
      stored hstored htail
  · exact isOk_of_reads_then (reads_updateMicroservicesStatus env robustmq hfaults) _ w
      stored hstored htail
  · exact isOk_of_reads_then (reads_pure robustmq) _ w stored hstored htail

/-! ## C24 -/

/-- C24: during status aggregation a read that reports not-found is no error: each reader
returns normally with the zero-value record stored under its key (zero replica counts for a
workload, the empty status for a service), and with no failing request the aggregation for a
stored instance returns normally whichever workloads and services are absent. A read that
fails otherwise is returned by the reader; the aggregation ends at the first failing request
with its error; and whenever the aggregation does not return normally the cluster is left as
it was (the Status is not written back). -/
theorem status_read_errors (env : Env) (robustmq : RobustMQ) (w : World) :
    (env.faults w.calls.length = none →
      (∀ name component, lookup statefulSets w.cluster robustmq.Namespace name = none →
        ∃ r, (updateStatefulSetStatus env robustmq name component w).1 = Outcome.ok r ∧
          r.Status.DeploymentStatuses.get? component
            = some { Replicas := 0, ReadyReplicas := 0, AvailableReplicas := 0 }) ∧
      (∀ name component, lookup deployments w.cluster robustmq.Namespace name = none →
        ∃ r, (updateDeploymentStatus env robustmq name component w).1 = Outcome.ok r ∧
          r.Status.DeploymentStatuses.get? component
            = some { Replicas := 0, ReadyReplicas := 0, AvailableReplicas := 0 }) ∧
      (∀ name, lookup services w.cluster robustmq.Namespace name = none →
        ∃ r, (updateSingleServiceStatus env robustmq name w).1 = Outcome.ok r ∧
          r.Status.ServiceStatuses.get? name
            = some { ClusterIP := "", ExternalIPs := [], LoadBalancerIngress := [] })) ∧
    (∀ msg, env.faults w.calls.length = some msg →
      (∀ name component,
        (updateStatefulSetStatus env robustmq name component w).1
          = Outcome.err (Err.other msg)) ∧
      (∀ name component,
        (updateDeploymentStatus env robustmq name component w).1
          = Outcome.err (Err.other msg)) ∧
      (∀ name,
        (updateSingleServiceStatus env robustmq name w).1 = Outcome.err (Err.other msg))) ∧
    ((∀ n, env.faults n = none) →
      lookup robustMQs w.cluster robustmq.Namespace robustmq.Name ≠ none →
      (updateStatus env robustmq w).1.isOk = true) ∧
    (∃ issued, (updateStatus env robustmq w).2.calls = w.calls ++ issued ∧
      ∀ i msg, i < issued.length → env.faults (w.calls.length + i) = some msg →
        i + 1 = issued.length ∧
        (updateStatus env robustmq w).1 = Outcome.err (Err.other msg)) ∧
    ((updateStatus env robustmq w).1.isOk = false →
      (updateStatus env robustmq w).2.cluster = w.cluster) := by
  refine ⟨fun hf => ⟨fun name component hl => ?_, fun name component hl => ?_,
      fun name hl => ?_⟩,
    fun msg hf => ⟨fun name component => ?_, fun name component => ?_, fun name => ?_⟩,
    fun hfaults hstored => ?_, failFast_updateStatus env robustmq w,
    writesOnSuccess_updateStatus env robustmq w⟩
  · rw [(updateStatefulSetStatus_cases env robustmq name component w).2.1 hf hl]
    exact ⟨_, rfl, GoMap.get?_set_self _ _ _⟩
  · rw [(updateDeploymentStatus_cases env robustmq name component w).2.1 hf hl]
    exact ⟨_, rfl, GoMap.get?_set_self _ _ _⟩
  · rw [(updateSingleServiceStatus_cases env robustmq name w).2.1 hf hl]
    exact ⟨_, rfl, GoMap.get?_set_self _ _ _⟩
  · rw [(updateStatefulSetStatus_cases env robustmq name component w).1 msg hf]
  · rw [(updateDeploymentStatus_cases env robustmq name component w).1 msg hf]
  · rw [(updateSingleServiceStatus_cases env robustmq name w).1 msg hf]
  · cases hl : lookup robustMQs w.cluster robustmq.Namespace robustmq.Name with
    | none => exact absurd hl hstored
    | some stored => exact updateStatus_ok env robustmq stored w hfaults hl

/-- Witness for C24: on the cluster that holds only the test resource, aggregation with no
failing request returns normally and writes zero replica counts and six empty service
records; when the second read fails, it returns that error after two requests and the
cluster is unchanged. -/
theorem status_read_errors_witness :
    (updateStatus calmEnv testResource (freshWorld testResource)).1.isOk = true ∧
    ((storedInstance (updateStatus calmEnv testResource (freshWorld testResource)).2).map
        (fun r => (r.Status.DeploymentStatuses, r.Status.ServiceStatuses.map (fun kv => kv.2)))
      = some
        ([("all-in-one", { Replicas := 0, ReadyReplicas := 0, AvailableReplicas := 0 })],
         List.replicate 6 { ClusterIP := "", ExternalIPs := [], LoadBalancerIngress := [] })) ∧
    (updateStatus (faultyEnv 1) testResource (freshWorld testResource)).1
      = Outcome.err (Err.other "connection refused") ∧
    (updateStatus (faultyEnv 1) testResource (freshWorld testResource)).2.calls.length = 2 ∧
    (updateStatus (faultyEnv 1) testResource (freshWorld testResource)).2.cluster
      = (freshWorld testResource).cluster :=
  ⟨(status_read_errors calmEnv testResource (freshWorld testResource)).2.2.1
      (fun _ => rfl) (by decide!),
    by decide!, by decide!, by decide!,
    (status_read_errors (faultyEnv 1) testResource (freshWorld testResource)).2.2.2.2
      (by decide!)⟩

/-! ## Helper lemmas: a pass as load, descriptors, status -/

theorem forEach_map {α β : Type} (f : α → M Unit) (g : β → α) (l : List β) :
    forEach f (l.map g) = forEach (fun x => f (g x)) l := by
  induction l with
  | nil => rfl
  | cons x rest ih =>
    simp only [List.map_cons, forEach]
    rw [ih]

theorem forEach_append {α : Type} (f : α → M Unit) (l1 l2 : List α) :
    forEach f (l1 ++ l2) = M.bind (forEach f l1) (fun _ => forEach f l2) := by
  induction l1 with
  | nil => rfl
  | cons x rest ih =>
    show M.bind (f x) (fun _ => forEach f (rest ++ l2))
      = M.bind (M.bind (f x) (fun _ => forEach f rest)) (fun _ => forEach f l2)
    rw [ih, M.bind_assoc]

/-- The steps of a pass are create-or-update of the descriptors, in order, followed by
status aggregation. -/
theorem reconcileSteps_eq_descriptors (env : Env) (robustmq : RobustMQ)
    (descriptors : List Descriptor)
    (hds : compiledDescriptors env.MustParse robustmq = some descriptors) :
    reconcileSteps env robustmq
      = M.bind (forEach (applyDescriptor env robustmq) descriptors) fun _ =>
          M.bind (updateStatus env robustmq) fun _ =>
            M.pure ({ RequeueAfter := Minute * 5 } : Result) := by
  unfold compiledDescriptors at hds
  cases hw : compiledWorkloads env.MustParse robustmq with
  | none => rw [hw] at hds; cases hds
  | some workloads =>
    rw [hw] at hds
    simp only [Option.map_some', Option.some.injEq] at hds
    subst hds
    unfold reconcileSteps
    rw [reconcileServices_eq_forEach, reconcileWorkloads_eq_forEach, hw]
    simp only [forEach, forEach_append, forEach_map, M.bind_assoc]
    rfl

/-- `Reconcile` is: load the instance, then the steps of the pass. -/
theorem Reconcile_eq_load (env : Env) (req : Request) :
    Reconcile env req
      = M.bind (loadInstance env req) fun loaded =>
          match loaded with
          | none => M.pure ({ RequeueAfter := 0 } : Result)
          | some robustmq => reconcileSteps env robustmq := by
  unfold Reconcile loadInstance
  simp only [bind_def, pure_def, M.pure_bind]
  rw [M.bind_assoc]
  refine congrArg (M.bind _) ?_
  funext got
  rcases got with e | robustmq
  · cases e <;> rfl
  · simp only
    split_ifs
    · rw [M.bind_assoc]
      rfl
    · rfl

/-- A failing step ends the loop: the steps before it have run, the steps after it have
not. -/
theorem forEach_abort {α : Type} (f : α → M Unit) (pre post : List α) (x : α)
    (e : Err) : ∀ (w wk : World), forEach f pre w = (Outcome.ok (), wk) →
      (f x wk).1 = Outcome.err e →
      forEach f (pre ++ x :: post) w = (Outcome.err e, (f x wk).2) := by
  induction pre with
  | nil =>
    intro w wk hpre hstep
    have hw : wk = w := by
      have := congrArg Prod.snd hpre
      exact this.symm
    subst hw
    show M.bind (f x) (fun _ => forEach f post) wk = _
    unfold M.bind
    rcases hfx : f x wk with ⟨o, w1⟩
    rw [hfx] at hstep
    simp only at hstep
    subst hstep
    rfl
  | cons y rest ih =>
    intro w wk hpre hstep
    have hpre1 : M.bind (f y) (fun _ => forEach f rest) w = (Outcome.ok (), wk) := hpre
    show M.bind (f y) (fun _ => forEach f (rest ++ x :: post)) w = _
    unfold M.bind at hpre1 ⊢
    rcases hfy : f y w with ⟨o, w1⟩
    rw [hfy] at hpre1
    cases o with
    | ok a => exact ih w1 wk hpre1 hstep
    | err e1 => simp at hpre1
    | panic => simp at hpre1

theorem writesOnSuccess_applyDescriptor (env : Env) (robustmq : RobustMQ) (d : Descriptor) :
    WritesOnSuccess (applyDescriptor env robustmq d) := by
  cases d with
  | config => exact writesOnSuccess_reconcileConfigMap env robustmq
  | endpoint s => exact writesOnSuccess_createOrUpdateService env robustmq s
  | workload x =>
    cases x with
    | statefulSet s => exact writesOnSuccess_createOrUpdateStatefulSet env robustmq s
    | deployment d => exact writesOnSuccess_createOrUpdateDeployment env robustmq d

/-! ## C25 -/

/-- C25: take a pass that has loaded the instance, and let the descriptors, in their fixed
order (config resource, endpoints, workloads), be `before`, then `d`, then `after`. If
create-or-update of every descriptor of `before` returns normally and create-or-update of
`d` returns the error `e`, then `Reconcile` returns `e`; the world it leaves is the world
the failing step leaves, so no request is issued for a descriptor of `after` and status
aggregation and write-back do not run; and the failing step leaves the cluster as the steps
for `before` left it, so what they wrote is kept. -/
theorem descriptor_failure_aborts_pass (env : Env) (req : Request) (w w0 wk : World)
    (robustmq : RobustMQ) (before after : List Descriptor) (d : Descriptor) (e : Err)
    (hload : loadInstance env req w = (Outcome.ok (some robustmq), w0))
    (hds : compiledDescriptors env.MustParse robustmq = some (before ++ d :: after))
    (hbefore : forEach (applyDescriptor env robustmq) before w0 = (Outcome.ok (), wk))
    (hstep : (applyDescriptor env robustmq d wk).1 = Outcome.err e) :
    Reconcile env req w = (Outcome.err e, (applyDescriptor env robustmq d wk).2) ∧
    (applyDescriptor env robustmq d wk).2.cluster = wk.cluster := by
  refine ⟨?_, ?_⟩
  · have hloop := forEach_abort (applyDescriptor env robustmq) before after d e w0 wk
      hbefore hstep
    rw [Reconcile_eq_load]
    unfold M.bind
    rw [hload]
    simp only
    rw [reconcileSteps_eq_descriptors env robustmq _ hds]
    unfold M.bind
    rw [hloop]
  · apply writesOnSuccess_applyDescriptor env robustmq d wk
    rw [hstep]
    rfl

/-- Witness for C25: a pass for the test resource in which the eighth request, the Create of
the `kafka` endpoint, fails. The config resource and the `mqtt` endpoint, created before,
are kept; nothing else is stored and the pass ends after eight requests. -/
theorem descriptor_failure_aborts_pass_witness :
    (Reconcile (faultyEnv 7) testRequest (freshWorld testResource)).1
      = Outcome.err (Err.other "connection refused") ∧
    storedKeys (Reconcile (faultyEnv 7) testRequest (freshWorld testResource)).2.cluster
      = [ ("RobustMQ", "default", "test-resource"),
          ("ConfigMap", "default", "test-resource-config"),
          ("Service", "default", "test-resource-mqtt") ] ∧
    (Reconcile (faultyEnv 7) testRequest (freshWorld testResource)).2.calls.length = 8 ∧
    Reconcile (faultyEnv 7) testRequest (freshWorld testResource)
      = (Outcome.err (Err.other "connection refused"),
         (applyDescriptor (faultyEnv 7) initializedResource
            (Descriptor.endpoint (kafkaService initializedResource "test-resource-kafka"))
            (forEach (applyDescriptor (faultyEnv 7) initializedResource)
              [ Descriptor.config,
                Descriptor.endpoint (mqttService initializedResource "test-resource-mqtt") ]
              (loadInstance (faultyEnv 7) testRequest (freshWorld testResource)).2).2).2) :=
  ⟨by decide!, by decide!, by decide!,
    (descriptor_failure_aborts_pass (faultyEnv 7) testRequest (freshWorld testResource)
      (loadInstance (faultyEnv 7) testRequest (freshWorld testResource)).2
      (forEach (applyDescriptor (faultyEnv 7) initializedResource)
        [ Descriptor.config,
          Descriptor.endpoint (mqttService initializedResource "test-resource-mqtt") ]
        (loadInstance (faultyEnv 7) testRequest (freshWorld testResource)).2).2
      initializedResource
      [ Descriptor.config,
        Descriptor.endpoint (mqttService initializedResource "test-resource-mqtt") ]
      (((compiledDescriptors parseNonEmpty initializedResource).getD []).drop 3)
      (Descriptor.endpoint (kafkaService initializedResource "test-resource-kafka"))
      (Err.other "connection refused")
      (by decide!) (by decide!) (by decide!) (by decide!)).1⟩

/-! ## Helper lemmas: a pass that returns normally -/

theorem bind_of_ok {α β : Type} (m : M α) (f : α → M β) (w : World) (a : α)
    (h : (m w).1 = Outcome.ok a) : M.bind m f w = f a (m w).2 := by
  unfold M.bind
  rcases hmw : m w with ⟨o, w1⟩
  rw [hmw] at h
  simp only at h
  subst h
  rfl

theorem stored_of_declared (c c1 : Cluster) (ns name : String) (r : RobustMQ)
    (h : c1.RobustMQs.map declared = c.RobustMQs.map declared)
    (hl : lookup robustMQs c ns name = some r) :
    ∃ r1, lookup robustMQs c1 ns name = some r1 := by
  have hfind := find?_declared ns name _ _ h
  have hl1 : c.RobustMQs.find? (fun o => o.Namespace == ns && o.Name == name) = some r := hl
  rw [hl1] at hfind
  cases hr : c1.RobustMQs.find? (fun o => o.Namespace == ns && o.Name == name) with
  | none => rw [hr] at hfind; simp at hfind
  | some r1 => exact ⟨r1, hr⟩

theorem isOk_iff {α : Type} (o : Outcome α) : o.isOk = true ↔ ∃ a, o = Outcome.ok a := by
  cases o with
  | ok a => exact ⟨fun _ => ⟨a, rfl⟩, fun _ => rfl⟩
  | err e =>
    refine ⟨fun h => ?_, fun h => ?_⟩
    · cases h
    · obtain ⟨a, ha⟩ := h
      cases ha
  | panic =>
    refine ⟨fun h => ?_, fun h => ?_⟩
    · cases h
    · obtain ⟨a, ha⟩ := h
      cases ha

/-- With no failing request, a registered scheme and workloads that compile, the steps of a
pass for a stored instance return normally and ask for a re-trigger after five minutes. -/
theorem reconcileSteps_ok (env : Env) (robustmq stored : RobustMQ) (w : World)
    (workloads : List Workload)
    (hfaults : ∀ n, env.faults n = none) (hscheme : "RobustMQ" ∈ env.Scheme)
    (hws : compiledWorkloads env.MustParse robustmq = some workloads)
    (hstored : lookup robustMQs w.cluster robustmq.Namespace robustmq.Name = some stored) :
    (reconcileSteps env robustmq w).1 = Outcome.ok { RequeueAfter := Minute * 5 } := by
  obtain ⟨g1, _, e1⟩ := settles_reconcileConfigMap env robustmq hfaults w
  obtain ⟨g2, _, e2⟩ := settles_reconcileServices env robustmq hfaults
    (reconcileConfigMap env robustmq w).2
  have hwl := reconcileWorkloads_eq_forEach env robustmq
  rw [hws] at hwl
  simp only at hwl
  obtain ⟨g3, _, e3⟩ := settles_workloads env robustmq workloads hfaults hws
    (reconcileServices env robustmq (reconcileConfigMap env robustmq w).2).2
  rw [← hwl] at g3 e3
  have hgrows := grows_trans (grows_trans g1 g2) g3
  obtain ⟨r3, hr3⟩ := stored_of_declared _ _ _ _ _ hgrows.1 hstored
  obtain ⟨r4, hr4⟩ := (isOk_iff _).mp (updateStatus_ok env robustmq r3 _ hfaults hr3)
  unfold reconcileSteps
  rw [bind_of_ok _ _ _ _ (e1 hscheme).1, bind_of_ok _ _ _ _ (e2 hscheme).1,
    bind_of_ok _ _ _ _ (e3 hscheme).1, bind_of_ok _ _ _ _ hr4]
  rfl

/-- A pass for an instance that is not found, when the read does not fail. -/
theorem Reconcile_not_found (env : Env) (req : Request) (w : World)
    (hfault : env.faults w.calls.length = none)
    (hl : lookup robustMQs w.cluster req.Namespace req.Name = none) :
    Reconcile env req w =
      (Outcome.ok { RequeueAfter := 0 },
       { w with calls := w.calls ++
          [{ verb := Verb.get, kind := "RobustMQ", Namespace := req.Namespace,
             Name := req.Name }] }) := by
  have hget := apiGet_at env robustMQs req.Namespace req.Name w hfault
  rw [hl] at hget
  unfold Reconcile
  simp only [bind_def, pure_def, M.pure_bind]
  rw [bind_attempt_err _ _ _ Err.notFound (by rw [hget]), hget]
  rfl

/-- With no failing request, a registered scheme and workloads that compile, a pass for a
stored instance returns normally and asks for a re-trigger after five minutes. -/
theorem Reconcile_ok (env : Env) (req : Request) (w : World) (robustmq : RobustMQ)
    (workloads : List Workload)
    (hfaults : ∀ n, env.faults n = none) (hscheme : "RobustMQ" ∈ env.Scheme)
    (hws : compiledWorkloads env.MustParse robustmq = some workloads)
    (hl : lookup robustMQs w.cluster req.Namespace req.Name = some robustmq) :
    (Reconcile env req w).1 = Outcome.ok { RequeueAfter := Minute * 5 } := by
  obtain ⟨hns, hname⟩ := lookup_key robustMQs _ _ _ _ hl
  have hkey : lookup robustMQs w.cluster robustmq.Namespace robustmq.Name = some robustmq := by
    rw [show robustmq.Namespace = req.Namespace from hns,
      show robustmq.Name = req.Name from hname]
    exact hl
  rw [Reconcile_loaded env req w robustmq hfaults hl]
  split_ifs with hphase
  · have hok := apiStatusUpdate_calm env
      { robustmq with Status := { robustmq.Status with Phase := PhaseInitializing } }
      robustmq
      { w with calls := w.calls ++
          [{ verb := Verb.get, kind := "RobustMQ", Namespace := req.Namespace,
             Name := req.Name }] }
      hfaults hkey
    have hq := quiet_apiStatusUpdate env
      { robustmq with Status := { robustmq.Status with Phase := PhaseInitializing } }
      { w with calls := w.calls ++
          [{ verb := Verb.get, kind := "RobustMQ", Namespace := req.Namespace,
             Name := req.Name }] }
    obtain ⟨r1, hr1⟩ := stored_of_declared w.cluster _ robustmq.Namespace robustmq.Name
      robustmq hq.1 hkey
    rw [bind_of_ok _ _ _ _ hok]
    exact reconcileSteps_ok env _ r1 _ workloads hfaults hscheme
      (by rw [← hws]; exact compiledWorkloads_congr env.MustParse _ _ rfl) hr1
  · exact reconcileSteps_ok env robustmq robustmq _ workloads hfaults hscheme hws hkey

/-! ## C30 -/

/-- C30: with the cluster a store whose calls may fail. When the instance exists and no
request fails (and the scheme knows the owner kind and the workloads compile), `Reconcile`
returns no error and asks for a re-trigger after `5 * time.Minute`, which is 300 000 000 000
nanoseconds. When the instance is not found (and the read does not fail), it returns no
error, asks for no re-trigger, issues the one read and leaves the cluster as it is. When a
request fails, that request is the last one of the pass and `Reconcile` returns its error,
which carries no re-trigger. -/
theorem reconcile_outcomes (env : Env) (req : Request) (w : World) :
    ((∀ n, env.faults n = none) → "RobustMQ" ∈ env.Scheme →
      ∀ robustmq, lookup robustMQs w.cluster req.Namespace req.Name = some robustmq →
      compiledWorkloads env.MustParse robustmq ≠ none →
      (Reconcile env req w).1 = Outcome.ok { RequeueAfter := Minute * 5 }) ∧
    Minute * 5 = 300000000000 ∧
    (env.faults w.calls.length = none →
      lookup robustMQs w.cluster req.Namespace req.Name = none →
      (Reconcile env req w).1 = Outcome.ok { RequeueAfter := 0 } ∧
      (Reconcile env req w).2.cluster = w.cluster ∧
      (Reconcile env req w).2.calls = w.calls ++
        [{ verb := Verb.get, kind := "RobustMQ", Namespace := req.Namespace,
           Name := req.Name }]) ∧
    (∃ issued, (Reconcile env req w).2.calls = w.calls ++ issued ∧
      ∀ i msg, i < issued.length → env.faults (w.calls.length + i) = some msg →
        i + 1 = issued.length ∧ (Reconcile env req w).1 = Outcome.err (Err.other msg)) := by
  refine ⟨fun hfaults hscheme robustmq hl hws => ?_, by decide, fun hfault hl => ?_,
    failFast_Reconcile env req w⟩
  · cases hw : compiledWorkloads env.MustParse robustmq with
    | none => exact absurd hw hws
    | some workloads => exact Reconcile_ok env req w robustmq workloads hfaults hscheme hw hl
  · rw [Reconcile_not_found env req w hfault hl]
    exact ⟨rfl, rfl, rfl⟩

/-- Witness for C30: the test resource on a cluster that holds only it, with no failing
request; the same with the eighth request failing; and the request on an empty cluster. -/
theorem reconcile_outcomes_witness :
    (Reconcile calmEnv testRequest (freshWorld testResource)).1
      = Outcome.ok { RequeueAfter := Minute * 5 } ∧
    (Reconcile (faultyEnv 7) testRequest (freshWorld testResource)).1
      = Outcome.err (Err.other "connection refused") ∧
    ((Reconcile calmEnv testRequest emptyWorld).1 = Outcome.ok { RequeueAfter := 0 } ∧
      (Reconcile calmEnv testRequest emptyWorld).2.cluster = emptyWorld.cluster ∧
      (Reconcile calmEnv testRequest emptyWorld).2.calls = emptyWorld.calls ++
        [{ verb := Verb.get, kind := "RobustMQ", Namespace := testRequest.Namespace,
           Name := testRequest.Name }]) :=
  ⟨(reconcile_outcomes calmEnv testRequest (freshWorld testResource)).1
      (fun _ => rfl) (by decide) testResource (by decide!) (by decide!),
    by decide!,
    (reconcile_outcomes calmEnv testRequest emptyWorld).2.2.1 rfl (by decide)⟩

/-! ## C31 -/

/-- C31: the phase machine has no memory and no terminal state. `updateOverallPhase` yields
the same Phase for two instances with equal `DeploymentStatuses`, whatever their prior
phases; and for every prior phase `p` (any text) and every phase `q` among Initializing,
Running, Failed, Updating there are replica counts with which every instance in phase `p` is
moved to `q`. -/
theorem updateOverallPhase_no_memory :
    (∀ a b : RobustMQ, a.Status.DeploymentStatuses = b.Status.DeploymentStatuses →
      (updateOverallPhase a).Status.Phase = (updateOverallPhase b).Status.Phase) ∧
    (∀ p q : String,
      q ∈ [PhaseInitializing, PhaseRunning, PhaseFailed, PhaseUpdating] →
      ∃ statuses : GoMap DeploymentStatus, ∀ robustmq : RobustMQ,
        robustmq.Status.Phase = p → robustmq.Status.DeploymentStatuses = statuses →
        (updateOverallPhase robustmq).Status.Phase = q) := by
  refine ⟨fun a b h => ?_, fun p q hq => ?_⟩
  · rw [updateOverallPhase_phase_eq, updateOverallPhase_phase_eq, h]
  · simp only [List.mem_cons, List.mem_singleton, List.not_mem_nil, or_false] at hq
    rcases hq with h | h | h | h
    · refine ⟨[], fun robustmq _ hs => ?_⟩
      rw [updateOverallPhase_phase_eq, hs, h]
      decide
    · refine ⟨[("all-in-one", { Replicas := 1, ReadyReplicas := 1, AvailableReplicas := 1 })],
        fun robustmq _ hs => ?_⟩
      rw [updateOverallPhase_phase_eq, hs, h]
      decide
    · refine ⟨[("all-in-one", { Replicas := 1, ReadyReplicas := 0, AvailableReplicas := 0 })],
        fun robustmq _ hs => ?_⟩
      rw [updateOverallPhase_phase_eq, hs, h]
      decide
    · refine ⟨[("all-in-one", { Replicas := 2, ReadyReplicas := 1, AvailableReplicas := 1 })],
        fun robustmq _ hs => ?_⟩
      rw [updateOverallPhase_phase_eq, hs, h]
      decide

/-! ## C32 -/

/-- In the AllInOne topology (which every mode other than Microservices compiles to) every
target port of every compiled service is exposed by the container of the workload. -/
theorem allInOne_no_dangling_port (MustParse : String → Option Quantity)
    (robustmq : RobustMQ) (workloads : List Workload)
    (hmode : robustmq.Spec.DeploymentMode ≠ MicroservicesMode)
    (hws : compiledWorkloads MustParse robustmq = some workloads) :
    ∀ s ∈ compiledServices robustmq, ∀ p ∈ s.Spec.Ports,
      p.TargetPort ∈ exposedPorts workloads := by
  have hservices : compiledServices robustmq = allInOneServices robustmq := by
    unfold compiledServices
    split_ifs <;> rfl
  have hexposed : exposedPorts workloads
      = (buildContainerPorts robustmq true).map (fun p => p.ContainerPort) := by
    obtain ⟨container, hc, hports, _⟩ := buildAllInOnePodSpec_container robustmq
    unfold compiledWorkloads at hws
    cases ht : buildVolumeClaimTemplates MustParse robustmq with
    | none => rw [ht] at hws; split_ifs at hws <;> cases hws
    | some templates =>
      rw [ht] at hws
      have hw : workloads = [Workload.statefulSet (allInOneStatefulSet robustmq templates)] := by
        split_ifs at hws <;>
          simp only [Option.map_some', Option.some.injEq] at hws <;>
          exact hws.symm
      rw [hw]
      have hpod : (Workload.statefulSet (allInOneStatefulSet robustmq templates)).podSpec
          = buildAllInOnePodSpec robustmq := rfl
      simp [exposedPorts, Workload.containerPorts, hpod, hc, hports]
  rw [hservices, hexposed, buildContainerPorts_includeAll]
  intro s hs p hp
  simp only [allInOneServices, List.mem_append, List.mem_cons, List.mem_singleton,
    List.not_mem_nil, or_false] at hs
  rcases hs with (h | h | h | h | h) | h
  · subst h
    simp only [mqttService, serviceLiteral, servicePort, List.mem_cons, List.mem_singleton,
      List.not_mem_nil, or_false] at hp
    rcases hp with h | h | h | h <;> subst h <;> simp
  · subst h
    simp only [kafkaService, serviceLiteral, servicePort, List.mem_singleton] at hp
    subst hp; simp
  · subst h
    simp only [grpcService, serviceLiteral, servicePort, List.mem_singleton] at hp
    subst hp; simp
  · subst h
    simp only [amqpService, serviceLiteral, servicePort, List.mem_singleton] at hp
    subst hp; simp
  · subst h
    simp only [metaService, serviceLiteral, servicePort, List.mem_singleton] at hp
    subst hp; simp
  · split_ifs at h with hmon
    · simp only [List.mem_singleton] at h
      subst h
      simp only [prometheusService, serviceLiteral, servicePort, List.mem_singleton] at hp
      subst hp
      simp [hmon]
    · cases h

/-- C32 (divergence): in Microservices mode the containers of the three compiled workloads
of the test resource expose the ports 1228 (meta), 1883, 1885, 8083, 8084 (broker) and 1771
(journal), while the compiled endpoints `test-resource-kafka`, `test-resource-amqp` and
`test-resource-prometheus` target the ports 9092, 5672 and 9091, which no container of the
topology exposes. In AllInOne mode the same Spec has no such endpoint. -/
theorem microservices_endpoints_dangling :
    microservicesResource.Spec.DeploymentMode = MicroservicesMode ∧
    (compiledWorkloads parseNonEmpty microservicesResource).map exposedPorts
      = some [1228, 1883, 1885, 8083, 8084, 1771] ∧
    targetedPorts (compiledServices microservicesResource)
      = [ ("test-resource-meta-service", 1228), ("test-resource-mqtt-broker", 1883),
          ("test-resource-mqtt-broker", 1885), ("test-resource-mqtt-broker", 8083),
          ("test-resource-mqtt-broker", 8084), ("test-resource-kafka", 9092),
          ("test-resource-amqp", 5672), ("test-resource-journal-service", 1771),
          ("test-resource-prometheus", 9091) ] ∧
    (compiledWorkloads parseNonEmpty microservicesResource).map
        (danglingPorts (compiledServices microservicesResource))
      = some [ ("test-resource-kafka", 9092), ("test-resource-amqp", 5672),
               ("test-resource-prometheus", 9091) ] ∧
    (compiledWorkloads parseNonEmpty testResource).map
        (danglingPorts (compiledServices testResource))
      = some [] := by
  refine ⟨by decide, by decide!, by decide!, by decide!, by decide!⟩

/-! ## C33 -/

/-- C33 (divergence): for the test resource whose only replica is no longer ready and whose
Status names `test-resource-0` as leader, `updateClusterInfo` computes no node at all and
leaves `MetaLeader = test-resource-0`: the leader is not empty and names a node that is not
in the freshly computed list. The same happens in Microservices mode when only brokers are
ready: the leader `old-0` of an earlier pass is kept although no node carries the meta
role. -/
theorem updateClusterInfo_stale_leader :
    (updateClusterInfo leaderlessResource).Status.ClusterInfo.Nodes = [] ∧
    (updateClusterInfo leaderlessResource).Status.ClusterInfo.MetaLeader = "test-resource-0" ∧
    (updateClusterInfo leaderlessResource).Status.ClusterInfo.MetaLeader ≠ "" ∧
    (∀ node ∈ (updateClusterInfo leaderlessResource).Status.ClusterInfo.Nodes,
      node.ID ≠ (updateClusterInfo leaderlessResource).Status.ClusterInfo.MetaLeader) ∧
    ((updateClusterInfo
        { readyMicroservices with Status := { readyMicroservices.Status with
            DeploymentStatuses :=
              [("mqtt-broker", { Replicas := 2, ReadyReplicas := 2, AvailableReplicas := 2 })]
          } }).Status.ClusterInfo.Nodes.map NodeInfo.identity
      = [ ("test-resource-broker-0", [BrokerRole]), ("test-resource-broker-1", [BrokerRole]) ]) ∧
    (updateClusterInfo
        { readyMicroservices with Status := { readyMicroservices.Status with
            DeploymentStatuses :=
              [("mqtt-broker", { Replicas := 2, ReadyReplicas := 2, AvailableReplicas := 2 })]
          } }).Status.ClusterInfo.MetaLeader = "old-0" := by
  refine ⟨by decide!, by decide!, by decide!, by decide!, by decide!, by decide!⟩

/-! ## C34 -/

/-- The `[log]` section the rendered configuration contains, for every Spec. -/
theorem generateServerConfig_log_section (robustmq : RobustMQ) :
    ∃ before after, generateServerConfig robustmq
      = before ++ "[log]\nlog_config = \"/robustmq/config/logger.toml\"\n" ++ after := by
  unfold generateServerConfig
  dsimp only
  iterate 20 apply section_then
  apply section_end
  rfl

/-- C34 (divergence): for every Spec with empty `Config.Additional` the rendered primary
configuration points to the log configuration file `/robustmq/config/logger.toml`, while the
generated config data has exactly the keys `server.toml` and `server-tracing.toml`:
`logger.toml` is not an entry of the config resource mounted at `/robustmq/config`. -/
theorem log_config_not_generated (robustmq : RobustMQ)
    (hadditional : robustmq.Spec.Config.Additional = []) :
    (∃ before after, generateServerConfig robustmq
      = before ++ "[log]\nlog_config = \"/robustmq/config/logger.toml\"\n" ++ after) ∧
    (generateConfigData robustmq).map (fun kv => kv.1) = ["server.toml", "server-tracing.toml"] ∧
    (generateConfigData robustmq).get? "logger.toml" = none ∧
    (generateConfigData robustmq).get? "server-tracing.toml"
      = some (generateTracingConfig robustmq) := by
  have hdata : generateConfigData robustmq
      = [ ("server.toml", generateServerConfig robustmq),
          ("server-tracing.toml", generateTracingConfig robustmq) ] := by
    unfold generateConfigData
    rw [hadditional]
    rfl
  refine ⟨generateServerConfig_log_section robustmq, ?_, ?_, ?_⟩
  · rw [hdata]; rfl
  · rw [hdata]; simp [GoMap.get?]
  · rw [hdata]; simp [GoMap.get?]

/-- Witness for C34: the test resource has no additional configuration. -/
theorem log_config_not_generated_witness :
    testResource.Spec.Config.Additional = [] ∧
    (generateConfigData testResource).map (fun kv => kv.1)
      = ["server.toml", "server-tracing.toml"] ∧
    (generateConfigData testResource).get? "logger.toml" = none :=
  ⟨rfl, (log_config_not_generated testResource rfl).2.1,
    (log_config_not_generated testResource rfl).2.2.1⟩

/-! ## C35 -/

/-- Every compiled service carries the selector `app=robustmq, instance=<name>`. -/
theorem compiledServices_selector (robustmq : RobustMQ) :
    ∀ s ∈ compiledServices robustmq,
      s.Spec.Selector = [("app", "robustmq"), ("instance", robustmq.Name)] := by
  intro s hs
  unfold compiledServices at hs
  have hall : ∀ s ∈ allInOneServices robustmq,
      s.Spec.Selector = [("app", "robustmq"), ("instance", robustmq.Name)] := by
    intro s hs
    simp only [allInOneServices, List.mem_append, List.mem_cons, List.mem_singleton,
      List.not_mem_nil, or_false] at hs
    rcases hs with (h | h | h | h | h) | h
    · subst h; rfl
    · subst h; rfl
    · subst h; rfl
    · subst h; rfl
    · subst h; rfl
    · split_ifs at h
      · simp only [List.mem_singleton] at h; subst h; rfl
      · cases h
  have hmicro : ∀ s ∈ microservicesServices robustmq,
      s.Spec.Selector = [("app", "robustmq"), ("instance", robustmq.Name)] := by
    intro s hs
    simp only [microservicesServices, List.mem_append, List.mem_cons, List.mem_singleton,
      List.not_mem_nil, or_false] at hs
    rcases hs with (h | h | h | h | h) | h
    · subst h; rfl
    · subst h; rfl
    · subst h; rfl
    · subst h; rfl
    · subst h; rfl
    · split_ifs at h
      · simp only [List.mem_singleton] at h; subst h; rfl
      · cases h
  split_ifs at hs
  · exact hall s hs
  · exact hmicro s hs
  · exact hall s hs

/-- The pod-template labels of every compiled workload hold `app=robustmq` first and
`instance=<name>` last, with one `component` label between them. -/
theorem compiledWorkloads_templateLabels (MustParse : String → Option Quantity)
    (robustmq : RobustMQ) (workloads : List Workload)
    (hcompiled : compiledWorkloads MustParse robustmq = some workloads) :
    ∀ x ∈ workloads, ∃ component,
      x.templateLabels
        = [("app", "robustmq"), ("component", component), ("instance", robustmq.Name)] := by
  intro x hx
  unfold compiledWorkloads at hcompiled
  cases ht : buildVolumeClaimTemplates MustParse robustmq with
  | none => rw [ht] at hcompiled; split_ifs at hcompiled <;> cases hcompiled
  | some templates =>
    rw [ht] at hcompiled
    split_ifs at hcompiled <;>
      simp only [Option.map_some', Option.some.injEq] at hcompiled <;>
      subst hcompiled <;>
      simp only [List.mem_cons, List.mem_singleton, List.not_mem_nil, or_false] at hx
    · subst hx; exact ⟨"all-in-one", rfl⟩
    · rcases hx with h | h | h
      · subst h; exact ⟨"meta", rfl⟩
      · subst h; exact ⟨"mqtt-broker", rfl⟩
      · subst h; exact ⟨"journal", rfl⟩
    · subst hx; exact ⟨"all-in-one", rfl⟩

/-- The selector `app=robustmq, instance=<name>` selects every label set of the shape
`app=robustmq, component=<c>, instance=<name>`. -/
theorem selects_instance_labels (name component : String) :
    selects [("app", "robustmq"), ("instance", name)]
      [("app", "robustmq"), ("component", component), ("instance", name)] = true := by
  have h1 : ("app" == "instance") = false := by decide
  have h2 : ("component" == "instance") = false := by decide
  simp [selects, GoMap.get?, List.find?, h1, h2]

/-- C35: the selector of every compiled service is exactly `app=robustmq, instance=<name>`,
and it selects the pod-template labels of every compiled workload of the instance (each of
its pairs is among those labels); in Microservices mode there are three such workloads, so
the `<name>-journal-service` endpoint, which is compiled there, selects the pods of the meta
StatefulSet, the broker Deployment and the journal StatefulSet alike. -/
theorem service_selector_matches_every_workload (MustParse : String → Option Quantity)
    (robustmq : RobustMQ) (workloads : List Workload)
    (hcompiled : compiledWorkloads MustParse robustmq = some workloads) :
    (∀ s ∈ compiledServices robustmq,
      s.Spec.Selector = [("app", "robustmq"), ("instance", robustmq.Name)] ∧
      ∀ x ∈ workloads,
        selects s.Spec.Selector x.templateLabels = true ∧
        ∀ kv ∈ s.Spec.Selector, kv ∈ x.templateLabels) ∧
    (robustmq.Spec.DeploymentMode = MicroservicesMode →
      workloads.map Workload.name
        = [robustmq.Name ++ "-meta", robustmq.Name ++ "-mqtt-broker",
           robustmq.Name ++ "-journal"] ∧
      journalService robustmq (robustmq.Name ++ "-journal-service")
        ∈ compiledServices robustmq) := by
  refine ⟨fun s hs => ?_, fun hmode => ?_⟩
  · have hsel := compiledServices_selector robustmq s hs
    refine ⟨hsel, fun x hx => ?_⟩
    obtain ⟨component, hlabels⟩ :=
      compiledWorkloads_templateLabels MustParse robustmq workloads hcompiled x hx
    rw [hsel, hlabels]
    refine ⟨selects_instance_labels _ _, fun kv hkv => ?_⟩
    simp only [List.mem_cons, List.mem_singleton, List.not_mem_nil, or_false] at hkv
    rcases hkv with h | h <;> subst h <;> simp
  · have hne : ¬ (robustmq.Spec.DeploymentMode = AllInOneMode) := by
      rw [hmode]; decide
    unfold compiledWorkloads at hcompiled
    rw [if_neg hne, if_pos hmode] at hcompiled
    cases ht : buildVolumeClaimTemplates MustParse robustmq with
    | none => rw [ht] at hcompiled; cases hcompiled
    | some templates =>
      rw [ht] at hcompiled
      simp only [Option.map_some', Option.some.injEq] at hcompiled
      subst hcompiled
      refine ⟨rfl, ?_⟩
      unfold compiledServices
      rw [if_neg hne, if_pos hmode]
      simp [microservicesServices]

theorem service_selector_matches_every_workload_witness :
    compiledWorkloads parseNonEmpty microservicesResource
      = some [Workload.statefulSet (metaServiceStatefulSet microservicesResource
                [ { Name := "data", AccessModes := microservicesResource.Spec.Storage.AccessModes,
                    StorageRequest := { text := microservicesResource.Spec.Storage.Size },
                    StorageClassName := microservicesResource.Spec.Storage.StorageClass },
                  { Name := "logs", AccessModes := [ReadWriteOnce],
                    StorageRequest := { text := "5Gi" },
                    StorageClassName := microservicesResource.Spec.Storage.StorageClass } ]),
              Workload.deployment (mqttBrokerDeployment microservicesResource),
              Workload.statefulSet (journalServiceStatefulSet microservicesResource
                [ { Name := "data", AccessModes := microservicesResource.Spec.Storage.AccessModes,
                    StorageRequest := { text := microservicesResource.Spec.Storage.Size },
                    StorageClassName := microservicesResource.Spec.Storage.StorageClass },
                  { Name := "logs", AccessModes := [ReadWriteOnce],
                    StorageRequest := { text := "5Gi" },
                    StorageClassName := microservicesResource.Spec.Storage.StorageClass } ])] ∧
    (∀ s ∈ compiledServices microservicesResource,
      s.Spec.Selector = [("app", "robustmq"), ("instance", "test-resource")]) ∧
    journalService microservicesResource ("test-resource" ++ "-journal-service")
      ∈ compiledServices microservicesResource :=
  have hcompiled := (by decide! : compiledWorkloads parseNonEmpty microservicesResource
      = some [Workload.statefulSet (metaServiceStatefulSet microservicesResource
                [ { Name := "data", AccessModes := microservicesResource.Spec.Storage.AccessModes,
                    StorageRequest := { text := microservicesResource.Spec.Storage.Size },
                    StorageClassName := microservicesResource.Spec.Storage.StorageClass },
                  { Name := "logs", AccessModes := [ReadWriteOnce],
                    StorageRequest := { text := "5Gi" },
                    StorageClassName := microservicesResource.Spec.Storage.StorageClass } ]),
              Workload.deployment (mqttBrokerDeployment microservicesResource),
              Workload.statefulSet (journalServiceStatefulSet microservicesResource
                [ { Name := "data", AccessModes := microservicesResource.Spec.Storage.AccessModes,
                    StorageRequest := { text := microservicesResource.Spec.Storage.Size },
                    StorageClassName := microservicesResource.Spec.Storage.StorageClass },
                  { Name := "logs", AccessModes := [ReadWriteOnce],
                    StorageRequest := { text := "5Gi" },
                    StorageClassName := microservicesResource.Spec.Storage.StorageClass } ])])
  have h := service_selector_matches_every_workload parseNonEmpty microservicesResource _ hcompiled
  ⟨hcompiled, fun s hs => (h.1 s hs).1, (h.2 (by decide)).2⟩

/-! ## C36 -/

/-- The claim templates, when they are built, are named `data` and `logs`. -/
theorem buildVolumeClaimTemplates_names (MustParse : String → Option Quantity)
    (robustmq : RobustMQ) (templates : List PersistentVolumeClaim)
    (h : buildVolumeClaimTemplates MustParse robustmq = some templates) :
    templates.map (fun claim => claim.Name) = ["data", "logs"] := by
  unfold buildVolumeClaimTemplates at h
  cases hd : MustParse robustmq.Spec.Storage.Size with
  | none => rw [hd] at h; cases h
  | some dataSize =>
    rw [hd] at h
    cases hl : MustParse "5Gi" with
    | none => rw [hl] at h; cases h
    | some logsSize =>
      rw [hl] at h
      simp only [Option.some.injEq] at h
      subst h
      rfl

/-- Mounts and volumes of the AllInOne pod. -/
theorem buildAllInOnePodSpec_mounts (robustmq : RobustMQ) :
    ((buildAllInOnePodSpec robustmq).Containers.flatMap
        fun c => c.VolumeMounts.map fun m => m.Name) = ["config", "data", "logs"] ∧
    (buildAllInOnePodSpec robustmq).Volumes.map (fun v => v.Name) = ["config"] := by
  unfold buildAllInOnePodSpec
  cases robustmq.Spec.AllInOne with
  | none => exact ⟨rfl, rfl⟩
  | some allInOne => exact ⟨rfl, rfl⟩

/-- Mounts and volumes of the meta pod. -/
theorem buildMetaServicePodSpec_mounts (robustmq : RobustMQ) :
    ((buildMetaServicePodSpec robustmq).Containers.flatMap
        fun c => c.VolumeMounts.map fun m => m.Name) = ["config", "data"] ∧
    (buildMetaServicePodSpec robustmq).Volumes.map (fun v => v.Name) = ["config"] := by
  unfold buildMetaServicePodSpec
  cases robustmq.Spec.Microservices with
  | none => exact ⟨rfl, rfl⟩
  | some microservices => exact ⟨rfl, rfl⟩

/-- Mounts and volumes of the broker pod. -/
theorem buildMQTTBrokerPodSpec_mounts (robustmq : RobustMQ) :
    ((buildMQTTBrokerPodSpec robustmq).Containers.flatMap
        fun c => c.VolumeMounts.map fun m => m.Name) = ["config"] ∧
    (buildMQTTBrokerPodSpec robustmq).Volumes.map (fun v => v.Name) = ["config"] := by
  unfold buildMQTTBrokerPodSpec
  cases robustmq.Spec.Microservices with
  | none => exact ⟨rfl, rfl⟩
  | some microservices => exact ⟨rfl, rfl⟩

/-- Mounts and volumes of the journal pod. -/
theorem buildJournalServicePodSpec_mounts (robustmq : RobustMQ) :
    ((buildJournalServicePodSpec robustmq).Containers.flatMap
        fun c => c.VolumeMounts.map fun m => m.Name) = ["config", "data"] ∧
    (buildJournalServicePodSpec robustmq).Volumes.map (fun v => v.Name) = ["config"] := by
  unfold buildJournalServicePodSpec
  cases robustmq.Spec.Microservices with
  | none => exact ⟨rfl, rfl⟩
  | some microservices => exact ⟨rfl, rfl⟩

/-- C36 (divergence): whenever the workloads compile, every mount of every workload names a
pod volume or a claim template, but the converse fails in Microservices mode: the meta and
the journal StatefulSet carry the claim templates `data` and `logs` while their containers
mount `config` and `data` only, so the `logs` claim of each of their replicas is mounted
nowhere. In every other mode the single StatefulSet mounts exactly `config`, `data` and
`logs`, and the broker Deployment mounts exactly its `config` volume. -/
theorem logs_claim_not_mounted (MustParse : String → Option Quantity)
    (robustmq : RobustMQ) (workloads : List Workload)
    (hcompiled : compiledWorkloads MustParse robustmq = some workloads) :
    (∀ x ∈ workloads, ∀ name ∈ x.mountedNames, name ∈ x.providedNames) ∧
    (robustmq.Spec.DeploymentMode = MicroservicesMode →
      workloads.map (fun x => (x.name, x.mountedNames, x.providedNames))
        = [ (robustmq.Name ++ "-meta", ["config", "data"], ["config", "data", "logs"]),
            (robustmq.Name ++ "-mqtt-broker", ["config"], ["config"]),
            (robustmq.Name ++ "-journal", ["config", "data"], ["config", "data", "logs"]) ] ∧
      ∃ x ∈ workloads, "logs" ∈ x.claimNames ∧ "logs" ∉ x.mountedNames) ∧
    (robustmq.Spec.DeploymentMode ≠ MicroservicesMode →
      workloads.map (fun x => (x.name, x.mountedNames, x.providedNames))
        = [ (robustmq.Name, ["config", "data", "logs"], ["config", "data", "logs"]) ]) := by
  unfold compiledWorkloads at hcompiled
  cases ht : buildVolumeClaimTemplates MustParse robustmq with
  | none => rw [ht] at hcompiled; split_ifs at hcompiled <;> cases hcompiled
  | some templates =>
    rw [ht] at hcompiled
    have hnames := buildVolumeClaimTemplates_names MustParse robustmq templates ht
    have hall : ((Workload.statefulSet (allInOneStatefulSet robustmq templates)).mountedNames
          = ["config", "data", "logs"]) ∧
        ((Workload.statefulSet (allInOneStatefulSet robustmq templates)).providedNames
          = ["config", "data", "logs"]) := by
      obtain ⟨hm, hv⟩ := buildAllInOnePodSpec_mounts robustmq
      refine ⟨hm, ?_⟩
      show (buildAllInOnePodSpec robustmq).Volumes.map (fun v => v.Name)
        ++ templates.map (fun claim => claim.Name) = _
      rw [hv, hnames]; rfl
    have hmeta : ((Workload.statefulSet (metaServiceStatefulSet robustmq templates)).mountedNames
          = ["config", "data"]) ∧
        ((Workload.statefulSet (metaServiceStatefulSet robustmq templates)).providedNames
          = ["config", "data", "logs"]) ∧
        ((Workload.statefulSet (metaServiceStatefulSet robustmq templates)).claimNames
          = ["data", "logs"]) := by
      obtain ⟨hm, hv⟩ := buildMetaServicePodSpec_mounts robustmq
      refine ⟨hm, ?_, hnames⟩
      show (buildMetaServicePodSpec robustmq).Volumes.map (fun v => v.Name)
        ++ templates.map (fun claim => claim.Name) = _
      rw [hv, hnames]; rfl
    have hbroker : ((Workload.deployment (mqttBrokerDeployment robustmq)).mountedNames
          = ["config"]) ∧
        ((Workload.deployment (mqttBrokerDeployment robustmq)).providedNames = ["config"]) := by
      obtain ⟨hm, hv⟩ := buildMQTTBrokerPodSpec_mounts robustmq
      refine ⟨hm, ?_⟩
      show (buildMQTTBrokerPodSpec robustmq).Volumes.map (fun v => v.Name) ++ [] = _
      rw [hv]; rfl
    have hjournal :
        ((Workload.statefulSet (journalServiceStatefulSet robustmq templates)).mountedNames
          = ["config", "data"]) ∧
        ((Workload.statefulSet (journalServiceStatefulSet robustmq templates)).providedNames
          = ["config", "data", "logs"]) := by
      obtain ⟨hm, hv⟩ := buildJournalServicePodSpec_mounts robustmq
      refine ⟨hm, ?_⟩
      show (buildJournalServicePodSpec robustmq).Volumes.map (fun v => v.Name)
        ++ templates.map (fun claim => claim.Name) = _
      rw [hv, hnames]; rfl
    have hmodes : ¬ (AllInOneMode = MicroservicesMode) := by decide
    by_cases hmicro : robustmq.Spec.DeploymentMode = MicroservicesMode
    · have hne : ¬ (robustmq.Spec.DeploymentMode = AllInOneMode) := by
        rw [hmicro]; decide
      rw [if_neg hne, if_pos hmicro] at hcompiled
      simp only [Option.map_some', Option.some.injEq] at hcompiled
      subst hcompiled
      refine ⟨?_, fun _ => ⟨?_, ?_⟩, fun h => absurd hmicro h⟩
      · intro x hx name hname
        simp only [List.mem_cons, List.mem_singleton, List.not_mem_nil, or_false] at hx
        rcases hx with h | h | h <;> subst h
        · rw [hmeta.1] at hname; rw [hmeta.2.1]
          simp only [List.mem_cons, List.mem_singleton, List.not_mem_nil, or_false] at hname ⊢
          rcases hname with h | h <;> simp [h]
        · rw [hbroker.1] at hname; rw [hbroker.2]; exact hname
        · rw [hjournal.1] at hname; rw [hjournal.2]
          simp only [List.mem_cons, List.mem_singleton, List.not_mem_nil, or_false] at hname ⊢
          rcases hname with h | h <;> simp [h]
      · simp only [List.map_cons, List.map_nil, hmeta.1, hmeta.2.1, hbroker.1, hbroker.2,
          hjournal.1, hjournal.2]
        rfl
      · refine ⟨_, List.mem_cons_self _ _, ?_, ?_⟩
        · rw [hmeta.2.2]; simp
        · rw [hmeta.1]; decide
    · have hw : workloads = [Workload.statefulSet (allInOneStatefulSet robustmq templates)] := by
        split_ifs at hcompiled <;>
          simp only [Option.map_some', Option.some.injEq] at hcompiled <;>
          exact hcompiled.symm
      subst hw
      refine ⟨?_, fun h => absurd h hmicro, fun _ => ?_⟩
      · intro x hx name hname
        simp only [List.mem_singleton] at hx
        subst hx
        rw [hall.1] at hname; rw [hall.2]; exact hname
      · simp only [List.map_cons, List.map_nil, hall.1, hall.2]
        rfl

theorem logs_claim_not_mounted_witness :
    ∃ workloads, compiledWorkloads parseNonEmpty microservicesResource = some workloads ∧
      workloads.map (fun x => (x.name, x.claimNames, x.mountedNames))
        = [ ("test-resource-meta", ["data", "logs"], ["config", "data"]),
            ("test-resource-mqtt-broker", [], ["config"]),
            ("test-resource-journal", ["data", "logs"], ["config", "data"]) ] ∧
      ∃ x ∈ workloads, "logs" ∈ x.claimNames ∧ "logs" ∉ x.mountedNames :=
  have hcompiled := (by decide! : compiledWorkloads parseNonEmpty microservicesResource
      = some [Workload.statefulSet (metaServiceStatefulSet microservicesResource
                [ { Name := "data", AccessModes := microservicesResource.Spec.Storage.AccessModes,
                    StorageRequest := { text := microservicesResource.Spec.Storage.Size },
                    StorageClassName := microservicesResource.Spec.Storage.StorageClass },
                  { Name := "logs", AccessModes := [ReadWriteOnce],
                    StorageRequest := { text := "5Gi" },
                    StorageClassName := microservicesResource.Spec.Storage.StorageClass } ]),
              Workload.deployment (mqttBrokerDeployment microservicesResource),
              Workload.statefulSet (journalServiceStatefulSet microservicesResource
                [ { Name := "data", AccessModes := microservicesResource.Spec.Storage.AccessModes,
                    StorageRequest := { text := microservicesResource.Spec.Storage.Size },
                    StorageClassName := microservicesResource.Spec.Storage.StorageClass },
                  { Name := "logs", AccessModes := [ReadWriteOnce],
                    StorageRequest := { text := "5Gi" },
                    StorageClassName := microservicesResource.Spec.Storage.StorageClass } ])])
  ⟨_, hcompiled, by decide!,
    ((logs_claim_not_mounted parseNonEmpty microservicesResource _ hcompiled).2.1
      (by decide)).2⟩

/-! ## C37 -/

theorem digitChar_value (d : Nat) (h : d < 10) : (Nat.digitChar d).toNat - 48 = d := by
  interval_cases d <;> rfl

theorem decodeDigits_toDigitsCore (fuel : Nat) :
    ∀ (n : Nat) (ds : List Char), n < fuel →
      decodeDigits 0 (Nat.toDigitsCore 10 fuel n ds) = decodeDigits n ds := by
  induction fuel with
  | zero => intro n ds h; exact absurd h (Nat.not_lt_zero n)
  | succ fuel ih =>
    intro n ds h
    have hd := digitChar_value (n % 10) (Nat.mod_lt n (by decide))
    unfold Nat.toDigitsCore
    dsimp only
    split_ifs with h0
    · have hn : n % 10 = n := by omega
      show decodeDigits (0 * 10 + ((Nat.digitChar (n % 10)).toNat - 48)) ds = _
      rw [hd, hn]
      simp
    · rw [ih (n / 10) _ (by omega)]
      show decodeDigits (n / 10 * 10 + ((Nat.digitChar (n % 10)).toNat - 48)) ds = _
      rw [hd]
      congr 1
      omega

theorem decodeDigits_toDigits (n : Nat) : decodeDigits 0 (Nat.toDigits 10 n) = n :=
  decodeDigits_toDigitsCore (n + 1) n [] (Nat.lt_succ_self n)

/-- Go `%d` is injective on non-negative integers. -/
theorem formatInt_injective (i j : Nat) (h : formatInt (i : Int) = formatInt (j : Int)) :
    i = j := by
  have hi : ∀ n : Nat, formatInt (n : Int) = String.mk (Nat.toDigits 10 n) := fun n => rfl
  rw [hi, hi] at h
  have hdata : Nat.toDigits 10 i = Nat.toDigits 10 j := congrArg String.data h
  rw [← decodeDigits_toDigits i, ← decodeDigits_toDigits j, hdata]

/-- IDs of one component are injective in the replica index. -/
theorem nodeID_injective (name mid : String) :
    Function.Injective (fun i : Nat => name ++ mid ++ formatInt (i : Int)) := by
  intro i j h
  simp only [String.append_assoc] at h
  exact formatInt_injective i j (name_suffix_injective _ _ _ (name_suffix_injective _ _ _ h))

/-- IDs of two components whose infixes differ at their second character never coincide. -/
theorem nodeID_disjoint (name a b x y : String) (c d : Char) (ra rb : List Char)
    (ha : a.data = '-' :: c :: ra) (hb : b.data = '-' :: d :: rb) (hcd : c ≠ d) :
    name ++ a ++ x ≠ name ++ b ++ y := by
  intro h
  simp only [String.append_assoc] at h
  have h2 := congrArg String.data (name_suffix_injective _ _ _ h)
  simp only [String.data_append, ha, hb, List.cons_append, List.cons.injEq, true_and] at h2
  exact hcd h2.1

theorem componentIDs_nodup (n : Nat) (name mid : String) :
    ((List.range n).map (fun i : Nat => name ++ mid ++ formatInt (i : Int))).Nodup :=
  List.Nodup.map (nodeID_injective name mid) (List.nodup_range n)

/-- The IDs of the computed nodes, component by component. -/
theorem clusterNodes_ids (robustmq : RobustMQ) :
    (clusterNodes robustmq).map (fun node => node.ID)
      = if robustmq.Spec.DeploymentMode = AllInOneMode then
          (List.range (readyCount robustmq "all-in-one")).map
            (fun i : Nat => robustmq.Name ++ "-" ++ formatInt (i : Int))
        else if robustmq.Spec.DeploymentMode = MicroservicesMode then
          (List.range (readyCount robustmq "meta-service")).map
              (fun i : Nat => robustmq.Name ++ "-meta-" ++ formatInt (i : Int))
            ++ (List.range (readyCount robustmq "mqtt-broker")).map
              (fun i : Nat => robustmq.Name ++ "-broker-" ++ formatInt (i : Int))
            ++ (List.range (readyCount robustmq "journal-service")).map
              (fun i : Nat => robustmq.Name ++ "-journal-" ++ formatInt (i : Int))
        else [] := by
  unfold clusterNodes
  split_ifs
  · rw [componentNodes_eq, List.map_map]; rfl
  · rw [componentNodes_eq, componentNodes_eq, componentNodes_eq, List.map_append,
      List.map_append, List.map_map, List.map_map, List.map_map]
    rfl
  · rfl

/-- C37: the IDs of the nodes that `updateClusterInfo` stores in `ClusterInfo.Nodes` are
pairwise distinct, for every instance (any name, any mode, any prior status): the ID list
holds one `<name>-<i>` per index in AllInOne mode and the `<name>-meta-<i>`,
`<name>-broker-<i>`, `<name>-journal-<i>` of the three components in Microservices mode,
decimal rendering is injective on the indices, and the three infixes differ at their second
character. -/
theorem updateClusterInfo_node_ids_distinct (robustmq : RobustMQ) :
    ((updateClusterInfo robustmq).Status.ClusterInfo.Nodes.map (fun node => node.ID)).Nodup ∧
    ∀ i j : Nat, ∀ a b : NodeInfo,
      (updateClusterInfo robustmq).Status.ClusterInfo.Nodes[i]? = some a →
      (updateClusterInfo robustmq).Status.ClusterInfo.Nodes[j]? = some b →
      a.ID = b.ID → i = j := by
  have hnodes : (updateClusterInfo robustmq).Status.ClusterInfo.Nodes = clusterNodes robustmq :=
    rfl
  have hnodup : ((clusterNodes robustmq).map (fun node => node.ID)).Nodup := by
    rw [clusterNodes_ids]
    split_ifs
    · exact componentIDs_nodup _ _ _
    · refine List.Nodup.append (List.Nodup.append (componentIDs_nodup _ _ _)
        (componentIDs_nodup _ _ _) ?_) (componentIDs_nodup _ _ _) ?_
      · intro id h1 h2
        obtain ⟨i, _, hi⟩ := List.mem_map.mp h1
        obtain ⟨j, _, hj⟩ := List.mem_map.mp h2
        exact nodeID_disjoint robustmq.Name "-meta-" "-broker-" _ _ 'm' 'b' _ _ rfl rfl
          (by decide) (hi.trans hj.symm)
      · intro id h1 h2
        obtain ⟨j, _, hj⟩ := List.mem_map.mp h2
        rcases List.mem_append.mp h1 with h | h
        · obtain ⟨i, _, hi⟩ := List.mem_map.mp h
          exact nodeID_disjoint robustmq.Name "-meta-" "-journal-" _ _ 'm' 'j' _ _ rfl rfl
            (by decide) (hi.trans hj.symm)
        · obtain ⟨i, _, hi⟩ := List.mem_map.mp h
          exact nodeID_disjoint robustmq.Name "-broker-" "-journal-" _ _ 'b' 'j' _ _ rfl rfl
            (by decide) (hi.trans hj.symm)
    · exact List.nodup_nil
  rw [hnodes]
  refine ⟨hnodup, fun i j a b ha hb hab => ?_⟩
  have hi : ((clusterNodes robustmq).map (fun node => node.ID))[i]? = some a.ID := by
    rw [List.getElem?_map, ha]; rfl
  have hj : ((clusterNodes robustmq).map (fun node => node.ID))[j]? = some a.ID := by
    rw [List.getElem?_map, hb, hab]; rfl
  obtain ⟨hilt, hieq⟩ := List.getElem?_eq_some.mp hi
  obtain ⟨hjlt, hjeq⟩ := List.getElem?_eq_some.mp hj
  exact (List.Nodup.getElem_inj_iff hnodup).mp (hieq.trans hjeq.symm)

/-! ## C38 -/

/-- When `resource.MustParse` panics on `Storage.Size`, no workload is built in any mode. -/
theorem compiledWorkloads_none (MustParse : String → Option Quantity) (robustmq : RobustMQ)
    (hsize : MustParse robustmq.Spec.Storage.Size = none) :
    buildVolumeClaimTemplates MustParse robustmq = none ∧
    compiledWorkloads MustParse robustmq = none := by
  have hbuild : buildVolumeClaimTemplates MustParse robustmq = none := by
    unfold buildVolumeClaimTemplates
    rw [hsize]
  refine ⟨hbuild, ?_⟩
  unfold compiledWorkloads
  rw [hbuild]
  split_ifs <;> rfl

/-- With no failing request and a registered scheme, the steps of a pass end in a panic when
the workloads do not compile: the config resource and the services are applied first, and the
panic is raised at the workload step. -/
theorem reconcileSteps_panic (env : Env) (robustmq : RobustMQ) (w : World)
    (hfaults : ∀ n, env.faults n = none) (hscheme : "RobustMQ" ∈ env.Scheme)
    (hws : compiledWorkloads env.MustParse robustmq = none) :
    (reconcileSteps env robustmq w).1 = Outcome.panic := by
  obtain ⟨_, _, e1⟩ := settles_reconcileConfigMap env robustmq hfaults w
  obtain ⟨_, _, e2⟩ := settles_reconcileServices env robustmq hfaults
    (reconcileConfigMap env robustmq w).2
  have hwl := reconcileWorkloads_eq_forEach env robustmq
  rw [hws] at hwl
  simp only at hwl
  unfold reconcileSteps
  rw [bind_of_ok _ _ _ _ (e1 hscheme).1, bind_of_ok _ _ _ _ (e2 hscheme).1, hwl,
    M.panic_bind]
  rfl

/-- C38 (divergence): compilation is not total. When `resource.MustParse` panics on the
instance's `Storage.Size` (as it does on the empty string and on every text that is not a
quantity), `buildVolumeClaimTemplates` returns no descriptor in any mode, the workload step
panics without sending a request, and a pass over the stored instance, with no failing
request and a registered scheme, ends in that panic instead of a result or an error. -/
theorem malformed_storage_size_panics (env : Env) (req : Request) (w : World)
    (robustmq : RobustMQ)
    (hsize : env.MustParse robustmq.Spec.Storage.Size = none)
    (hfaults : ∀ n, env.faults n = none) (hscheme : "RobustMQ" ∈ env.Scheme)
    (hl : lookup robustMQs w.cluster req.Namespace req.Name = some robustmq) :
    buildVolumeClaimTemplates env.MustParse robustmq = none ∧
    compiledWorkloads env.MustParse robustmq = none ∧
    (∀ w1, reconcileAllInOne env robustmq w1 = (Outcome.panic, w1)) ∧
    (∀ w1, reconcileMicroservices env robustmq w1 = (Outcome.panic, w1)) ∧
    (∀ w1, reconcileWorkloads env robustmq w1 = (Outcome.panic, w1)) ∧
    (Reconcile env req w).1 = Outcome.panic := by
  obtain ⟨hbuild, hws⟩ := compiledWorkloads_none env.MustParse robustmq hsize
  have hall : ∀ w1, reconcileAllInOne env robustmq w1 = (Outcome.panic, w1) := by
    intro w1
    unfold reconcileAllInOne
    rw [hbuild]
    rfl
  have hmicro : ∀ w1, reconcileMicroservices env robustmq w1 = (Outcome.panic, w1) := by
    intro w1
    unfold reconcileMicroservices reconcileMetaServiceDeployment
    rw [hbuild]
    rfl
  refine ⟨hbuild, hws, hall, hmicro, fun w1 => ?_, ?_⟩
  · rw [reconcileWorkloads_eq_forEach, hws]
    rfl
  · obtain ⟨hns, hname⟩ := lookup_key robustMQs _ _ _ _ hl
    have hkey : lookup robustMQs w.cluster robustmq.Namespace robustmq.Name
        = some robustmq := by
      rw [show robustmq.Namespace = req.Namespace from hns,
        show robustmq.Name = req.Name from hname]
      exact hl
    rw [Reconcile_loaded env req w robustmq hfaults hl]
    split_ifs with hphase
    · have hok := apiStatusUpdate_calm env
        { robustmq with Status := { robustmq.Status with Phase := PhaseInitializing } }
        robustmq
        { w with calls := w.calls ++
            [{ verb := Verb.get, kind := "RobustMQ", Namespace := req.Namespace,
               Name := req.Name }] }
        hfaults hkey
      rw [bind_of_ok _ _ _ _ hok]
      exact reconcileSteps_panic env _ _ hfaults hscheme
        (by rw [← hws]; exact compiledWorkloads_congr env.MustParse _ _ rfl)
    · exact reconcileSteps_panic env robustmq _ hfaults hscheme hws

theorem malformed_storage_size_panics_witness :
    unsizedResource.Spec.Storage.Size = "" ∧
    calmEnv.MustParse "" = none ∧
    buildVolumeClaimTemplates calmEnv.MustParse unsizedResource = none ∧
    (Reconcile calmEnv testRequest (freshWorld unsizedResource)).1 = Outcome.panic :=
  have h := malformed_storage_size_panics calmEnv testRequest (freshWorld unsizedResource)
    unsizedResource (by decide) (fun _ => rfl) (by decide) (by decide!)
  ⟨rfl, by decide, h.1, h.2.2.2.2.2⟩

end RobustMQOperator
